import Mathlib

/-!
# gray2vec: classification, neighbour consistency and sub-pixel placement

A shallow embedding of `Gray2Vec_Grid` (src/Gray2Vec_Grid.cpp).

* Pixel values, neighbourhood codes, directions and coordinates are C `int`s after
  integer promotion; they are embedded as `Int`.  No arithmetic in the embedded
  functions leaves the range of a 32-bit `int`.
* A `CImg<T>` raster is embedded as its two dimensions and a total pixel accessor.
  Every access made by the embedded passes is guarded to lie inside the raster.
* `cimg_forXY(img,x,y)` visits the raster row by row (`y` outer, `x` inner).
* `double` arithmetic of the vertex placement is embedded as exact arithmetic on `ℚ`.
-/

namespace Gray2Vec

/-! ## Rasters -/

/-- A `CImg` raster: `width`, `height` and the pixel accessor `img(x,y)`. -/
structure CImg where
  width : Nat
  height : Nat
  pix : Int → Int → Int

/-- The assignment `img(x,y) = v`. -/
def CImg.set (im : CImg) (x y v : Int) : CImg :=
  { im with pix := fun a b => if a = x ∧ b = y then v else im.pix a b }

/-- The cells visited by `cimg_forXY(img,x,y)`, in visiting order. -/
def forXY (im : CImg) : List (Int × Int) :=
  (List.range im.height).flatMap fun (y : Nat) =>
    (List.range im.width).map fun (x : Nat) => ((x : Int), (y : Int))

/-- The rasters held by a `Gray2Vec_Grid` object. -/
structure Gray2Vec_Grid where
  m_img : CImg
  m_img_s : CImg
  m_img_n : CImg
  m_img_f1 : CImg
  m_img_f2 : CImg
  m_img_f3 : CImg

/-! ## `check_cover` -/

/-- The function `Gray2Vec_Grid::check_cover(n, d)`. -/
def check_cover (n d : Int) : Bool :=
  if n = 0 then false
  else if n = 255 then true
  else if n % 2 ≠ 0 then
    -- check corners: same corner and two neighbour sides
    if d = n then true
    else if n > 10 ∧ n - 10 = d then true
    else
      let n2 := n - 1
      let n2 := if n2 ≥ 10 then n2 - 10 else n2
      if n2 > 0 ∧ d = n2 then true
      else
        let n2 := n + 1
        let n2 := if n2 > 10 then n2 - 10 else n2
        if n2 < 9 ∧ d = n2 then true
        else if n > 10 then
          -- additional corners for large coverage directions
          let n2 := n - 10 - 2
          let n2 := if n2 < 0 then n2 + 8 else n2
          if d = n2 then true
          else
            let n2 := n - 10 + 2
            let n2 := if n2 > 8 then n2 - 8 else n2
            if d = n2 then true else false
        else false
  else
    -- check sides: same side and two neighbour corners
    if d = n then true
    else
      let n2 := n - 1
      if d = n2 then true
      else
        let n2 := n + 1
        let n2 := if n2 > 8 then n2 - 8 else n2
        if d = n2 then true else false

/-! ## `Analyze` -/

/-- The body of the `Analyze` loop for one cell: the code written to `m_img_n(px,py)`
from the coverage `s = m_img_s(px,py)` and the fine samples
`tl = m_img(2px,2py)`, `tr = m_img(2px+1,2py)`, `bl = m_img(2px,2py+1)`,
`br = m_img(2px+1,2py+1)`. -/
def Analyze_cell (s tl tr bl br : Int) : Int :=
  if s ≠ 0 then
    if s = 255 then 255
    else
      -- small fractions: use highest value corner
      if s < 255 / 3 then
        if tl > tr then
          if tl > bl then
            if tl > br then 1 else 5
          else
            if bl > br then 7 else 5
        else
          if tr > bl then
            if tr > br then 3 else 5
          else
            if bl > br then 7 else 5
      -- big fractions: use highest value corner
      else if s > 2 * 255 / 3 then
        if tl > tr then
          if tl > bl then
            if tl > br then 11 else 15
          else
            if bl > br then 17 else 15
        else
          if tr > bl then
            if tr > br then 13 else 15
          else
            if bl > br then 17 else 15
      -- medium fractions: use highest value side
      else if s ≤ 2 * 255 / 3 then
        let s2 := tl + tr
        let s4 := br + tr
        let s6 := br + bl
        let s8 := tl + bl
        if s2 > s4 then
          if s2 > s6 then
            if s2 > s8 then 2 else 8
          else
            if s6 > s8 then 6 else 8
        else
          if s4 > s6 then
            if s4 > s8 then 4 else 8
          else
            if s6 > s8 then 6 else 8
      else 0
  else 0

/-- The code `Analyze` computes for the cell `(px,py)` of a grid. -/
def Analyze_at (g : Gray2Vec_Grid) (px py : Int) : Int :=
  Analyze_cell (g.m_img_s.pix px py)
    (g.m_img.pix (px * 2) (py * 2)) (g.m_img.pix (px * 2 + 1) (py * 2))
    (g.m_img.pix (px * 2) (py * 2 + 1)) (g.m_img.pix (px * 2 + 1) (py * 2 + 1))

/-- One iteration of the `Analyze` loop. -/
def Analyze_step (g : Gray2Vec_Grid) (c : Int × Int) : Gray2Vec_Grid :=
  { g with m_img_n := g.m_img_n.set c.1 c.2 (Analyze_at g c.1 c.2) }

/-- The method `Gray2Vec_Grid::Analyze`. -/
def Analyze (g : Gray2Vec_Grid) : Gray2Vec_Grid :=
  (forXY g.m_img_s).foldl Analyze_step g

/-! ## `Vectorize`: the synthetic sub-grid -/

/-- The four assignments `img_h(px*2,py*2) = a; img_h(px*2+1,py*2) = b;
img_h(px*2,py*2+1) = c; img_h(px*2+1,py*2+1) = d`, for `p = (a, b, c, d)`. -/
def put4 (img_h : CImg) (px py : Int) (p : Int × Int × Int × Int) : CImg :=
  (((img_h.set (px * 2) (py * 2) p.1).set (px * 2 + 1) (py * 2) p.2.1).set
    (px * 2) (py * 2 + 1) p.2.2.1).set (px * 2 + 1) (py * 2 + 1) p.2.2.2

/-- The values the sub-grid loop of `Vectorize` writes to the 2x2 block of a cell with
coverage `s` and code `n`, in the order top-left, top-right, bottom-left, bottom-right;
`none` when the `switch` has no case for `n` and the block is left as it is. -/
def Vectorize_block (s n : Int) : Option (Int × Int × Int × Int) :=
  if s = 0 then some (0, 0, 0, 0)
  else if s = 255 then some (255, 255, 255, 255)
  else if n = 1 then some (255, 0, 0, 0)
  else if n = 2 then some (255, 255, 0, 0)
  else if n = 3 then some (0, 255, 0, 0)
  else if n = 4 then some (0, 255, 0, 255)
  else if n = 5 then some (0, 0, 0, 255)
  else if n = 6 then some (0, 0, 255, 255)
  else if n = 7 then some (0, 0, 255, 0)
  else if n = 8 then some (255, 0, 255, 0)
  else if n = 11 then some (255, 255, 255, 0)
  else if n = 13 then some (255, 255, 0, 255)
  else if n = 15 then some (0, 255, 255, 255)
  else if n = 17 then some (255, 0, 255, 255)
  else none

/-- One iteration of the sub-grid loop of `Vectorize`. -/
def Vectorize_step (g : Gray2Vec_Grid) (img_h : CImg) (c : Int × Int) : CImg :=
  match Vectorize_block (g.m_img_s.pix c.1 c.2) (g.m_img_n.pix c.1 c.2) with
  | some p => put4 img_h c.1 c.2 p
  | none => img_h

/-- The sub-grid loop of `Gray2Vec_Grid::Vectorize`, run on the freshly allocated
`img_h`. -/
def Vectorize_subgrid (g : Gray2Vec_Grid) (img_h : CImg) : CImg :=
  (forXY g.m_img_s).foldl (Vectorize_step g) img_h

/-- The pixels `(img(px*2,py*2), img(px*2+1,py*2), img(px*2,py*2+1), img(px*2+1,py*2+1))`
of the 2x2 block of the cell `(px,py)`. -/
def block_of (im : CImg) (px py : Int) : Int × Int × Int × Int :=
  (im.pix (px * 2) (py * 2), im.pix (px * 2 + 1) (py * 2),
    im.pix (px * 2) (py * 2 + 1), im.pix (px * 2 + 1) (py * 2 + 1))

/-! ## `set_fraction` -/

/-- Storing an integer value into a `CImg<unsigned char>` pixel: a value outside 0..255 is
reduced modulo 256. -/
def to_uchar (v : Int) : Int := v % 256

/-- The value `std::sqrt(s*255.0*2)` converted to an integer (truncation).  The argument is
an integer, so the truncated square root is the integer square root. -/
def corner_init (s : Int) : Int := (Nat.sqrt (s * 255 * 2).toNat : Int)

/-- The value `255-std::sqrt(((255-s)*255.0)*2)` converted to an integer (truncation toward
zero): with `k` the integer square root of `m = (255-s)*255*2`, the real value is `255 - k`
when `m` is a square and lies strictly between `254 - k` and `255 - k` otherwise. -/
def large_init (s : Int) : Int :=
  let m := (255 - s) * 255 * 2
  let k : Int := (Nat.sqrt m.toNat : Int)
  if k * k = m then 255 - k else if k < 255 then 254 - k else 255 - k

/-- The method `Gray2Vec_Grid::set_fraction(px, py)`: the grid afterwards and the returned
class number. -/
def set_fraction (g : Gray2Vec_Grid) (px py : Int) : Gray2Vec_Grid × Int :=
  let g0 : Gray2Vec_Grid :=
    { g with
      m_img_f1 := g.m_img_f1.set px py 0
      m_img_f2 := g.m_img_f2.set px py 0
      m_img_f3 := g.m_img_f3.set px py (-1) }
  let n := g.m_img_n.pix px py
  if n = 1 ∨ n = 3 ∨ n = 5 ∨ n = 7 then
    let g1 := { g0 with m_img_f1 := g0.m_img_f1.set px py (to_uchar (corner_init (g.m_img_s.pix px py))) }
    ({ g1 with m_img_f2 := g1.m_img_f2.set px py (g1.m_img_f1.pix px py) }, 1)
  else if n = 2 ∨ n = 4 ∨ n = 6 ∨ n = 8 then
    let g1 := { g0 with m_img_f1 := g0.m_img_f1.set px py (g.m_img_s.pix px py) }
    ({ g1 with m_img_f2 := g1.m_img_f2.set px py (g.m_img_s.pix px py) }, 2)
  else if n = 11 ∨ n = 13 ∨ n = 15 ∨ n = 17 then
    let g1 := { g0 with m_img_f1 := g0.m_img_f1.set px py (to_uchar (large_init (g.m_img_s.pix px py))) }
    ({ g1 with m_img_f2 := g1.m_img_f2.set px py (g1.m_img_f1.pix px py) }, 3)
  else (g0, 0)

/-! ## The resolver passes -/

/-- The call `Gray2Vec_Grid::check_cover(m_img_n(x,y), d)`. -/
def cover (g : Gray2Vec_Grid) (x y d : Int) : Bool := check_cover (g.m_img_n.pix x y) d

/-- The guard `px > 0`, `py > 0`, `px < m_img_s.width()-1`, `py < m_img_s.height()-1` of
the resolver loops. -/
def interior (g : Gray2Vec_Grid) (px py : Int) : Bool :=
  decide (px > 0) && decide (py > 0) && decide (px < (g.m_img_s.width : Int) - 1) &&
    decide (py < (g.m_img_s.height : Int) - 1)

/-- The branch `case 1` of the first sweep of `NeighborsAdjust`. -/
def NeighborsAdjust_sweep1_1 (g : Gray2Vec_Grid) (px py : Int) : Int :=
  if g.m_img_s.pix px py > 255 / 6 then
    if cover g px (py - 1) 6 && cover g (px + 1) py 1 then 2
    else if cover g (px - 1) py 4 && cover g px (py + 1) 1 then 8
    else 1
  else 1

/-- The branch `case 3` of the first sweep of `NeighborsAdjust`. -/
def NeighborsAdjust_sweep1_3 (g : Gray2Vec_Grid) (px py : Int) : Int :=
  if g.m_img_s.pix px py > 255 / 6 then
    if cover g px (py - 1) 6 && cover g (px - 1) py 3 then 2
    else if cover g (px + 1) py 8 && cover g px (py + 1) 3 then 4
    else 3
  else 3

/-- The branch `case 5` of the first sweep of `NeighborsAdjust`. -/
def NeighborsAdjust_sweep1_5 (g : Gray2Vec_Grid) (px py : Int) : Int :=
  if g.m_img_s.pix px py > 255 / 6 then
    if cover g px (py + 1) 6 && cover g (px - 1) py 5 then 6
    else if cover g (px + 1) py 4 && cover g px (py - 1) 5 then 4
    else 5
  else 5

/-- The branch `case 7` of the first sweep of `NeighborsAdjust`. -/
def NeighborsAdjust_sweep1_7 (g : Gray2Vec_Grid) (px py : Int) : Int :=
  if g.m_img_s.pix px py > 255 / 6 then
    if cover g (px - 1) py 4 && cover g px (py - 1) 7 then 8
    else if cover g px (py + 1) 2 && cover g (px + 1) py 7 then 6
    else 7
  else 7

/-- The `switch (m_img_n(px,py))` of the first sweep of `NeighborsAdjust`: the code of the cell afterwards. -/
def NeighborsAdjust_sweep1 (g : Gray2Vec_Grid) (px py : Int) : Int :=
  if g.m_img_n.pix px py = 1 then NeighborsAdjust_sweep1_1 g px py
  else if g.m_img_n.pix px py = 3 then NeighborsAdjust_sweep1_3 g px py
  else if g.m_img_n.pix px py = 5 then NeighborsAdjust_sweep1_5 g px py
  else if g.m_img_n.pix px py = 7 then NeighborsAdjust_sweep1_7 g px py
  else g.m_img_n.pix px py

/-- The branch `case 1` of the second sweep of `NeighborsAdjust`. -/
def NeighborsAdjust_sweep2_1 (g : Gray2Vec_Grid) (px py : Int) : Int :=
  if (g.m_img_s.pix (px - 1) py == 255) && cover g px (py + 1) 1 then 8
  else if (g.m_img_s.pix px (py - 1) == 255) && cover g (px + 1) py 1 then 2
  else 1

/-- The branch `case 3` of the second sweep of `NeighborsAdjust`. -/
def NeighborsAdjust_sweep2_3 (g : Gray2Vec_Grid) (px py : Int) : Int :=
  if (g.m_img_s.pix px (py - 1) == 255) && cover g (px - 1) py 3 then 2
  else if (g.m_img_s.pix (px + 1) py == 255) && cover g px (py + 1) 3 then 4
  else 3

/-- The branch `case 5` of the second sweep of `NeighborsAdjust`. -/
def NeighborsAdjust_sweep2_5 (g : Gray2Vec_Grid) (px py : Int) : Int :=
  if (g.m_img_s.pix (px + 1) py == 255) && cover g px (py - 1) 5 then 4
  else if (g.m_img_s.pix px (py + 1) == 255) && cover g (px - 1) py 5 then 6
  else 5

/-- The branch `case 7` of the second sweep of `NeighborsAdjust`. -/
def NeighborsAdjust_sweep2_7 (g : Gray2Vec_Grid) (px py : Int) : Int :=
  if (g.m_img_s.pix px (py + 1) == 255) && cover g (px + 1) py 7 then 6
  else if (g.m_img_s.pix (px - 1) py == 255) && cover g px (py - 1) 7 then 8
  else 7

/-- The branch `case 11` of the second sweep of `NeighborsAdjust`. -/
def NeighborsAdjust_sweep2_11 (g : Gray2Vec_Grid) (px py : Int) : Int :=
  if !(cover g (px + 1) py 7) && !(cover g (px + 1) py 1) && !(cover g px (py - 1) 5) then 8
  else if !(cover g px (py + 1) 1) && !(cover g px (py + 1) 3) && !(cover g (px - 1) py 5) then 2
  else 11

/-- The branch `case 13` of the second sweep of `NeighborsAdjust`. -/
def NeighborsAdjust_sweep2_13 (g : Gray2Vec_Grid) (px py : Int) : Int :=
  if !(cover g px (py + 1) 1) && !(cover g px (py + 1) 3) && !(cover g (px + 1) py 7) then 2
  else if !(cover g (px - 1) py 3) && !(cover g (px - 1) py 5) && !(cover g px (py - 1) 7) then 4
  else 13

/-- The branch `case 15` of the second sweep of `NeighborsAdjust`. -/
def NeighborsAdjust_sweep2_15 (g : Gray2Vec_Grid) (px py : Int) : Int :=
  if !(cover g (px - 1) py 3) && !(cover g (px - 1) py 5) && !(cover g px (py + 1) 1) then 4
  else if !(cover g px (py - 1) 5) && !(cover g px (py - 1) 7) && !(cover g (px + 1) py 1) then 6
  else 15

/-- The branch `case 17` of the second sweep of `NeighborsAdjust`. -/
def NeighborsAdjust_sweep2_17 (g : Gray2Vec_Grid) (px py : Int) : Int :=
  if !(cover g px (py - 1) 5) && !(cover g px (py - 1) 7) && !(cover g (px - 1) py 3) then 6
  else if !(cover g (px + 1) py 7) && !(cover g (px + 1) py 1) && !(cover g px (py + 1) 3) then 8
  else 17

/-- The `switch (m_img_n(px,py))` of the second sweep of `NeighborsAdjust`: the code of the cell afterwards. -/
def NeighborsAdjust_sweep2 (g : Gray2Vec_Grid) (px py : Int) : Int :=
  if g.m_img_n.pix px py = 1 then NeighborsAdjust_sweep2_1 g px py
  else if g.m_img_n.pix px py = 3 then NeighborsAdjust_sweep2_3 g px py
  else if g.m_img_n.pix px py = 5 then NeighborsAdjust_sweep2_5 g px py
  else if g.m_img_n.pix px py = 7 then NeighborsAdjust_sweep2_7 g px py
  else if g.m_img_n.pix px py = 11 then NeighborsAdjust_sweep2_11 g px py
  else if g.m_img_n.pix px py = 13 then NeighborsAdjust_sweep2_13 g px py
  else if g.m_img_n.pix px py = 15 then NeighborsAdjust_sweep2_15 g px py
  else if g.m_img_n.pix px py = 17 then NeighborsAdjust_sweep2_17 g px py
  else g.m_img_n.pix px py

/-- The branch `case 1` of the first sweep of `ResolveConflicts`. -/
def ResolveConflicts_sweep1_1 (g : Gray2Vec_Grid) (px py : Int) : Int :=
  if !(cover g (px - 1) py 3) && cover g (px - 1) py 5 && cover g px (py + 1) 1 then 7
  else if !(cover g px (py - 1) 7) && cover g px (py - 1) 5 && cover g (px + 1) py 1 then 3
  else 1

/-- The branch `case 3` of the first sweep of `ResolveConflicts`. -/
def ResolveConflicts_sweep1_3 (g : Gray2Vec_Grid) (px py : Int) : Int :=
  if !(cover g px (py - 1) 5) && cover g px (py - 1) 7 && cover g (px - 1) py 3 then 1
  else if !(cover g (px + 1) py 1) && cover g (px + 1) py 7 && cover g px (py + 1) 3 then 5
  else 3

/-- The branch `case 5` of the first sweep of `ResolveConflicts`. -/
def ResolveConflicts_sweep1_5 (g : Gray2Vec_Grid) (px py : Int) : Int :=
  if !(cover g (px + 1) py 7) && cover g (px + 1) py 1 && cover g px (py - 1) 5 then 3
  else if !(cover g px (py + 1) 3) && cover g px (py + 1) 1 && cover g (px - 1) py 5 then 7
  else 5

/-- The branch `case 7` of the first sweep of `ResolveConflicts`. -/
def ResolveConflicts_sweep1_7 (g : Gray2Vec_Grid) (px py : Int) : Int :=
  if !(cover g px (py + 1) 1) && cover g px (py + 1) 3 && cover g (px + 1) py 7 then 5
  else if !(cover g (px - 1) py 5) && cover g (px - 1) py 3 && cover g px (py - 1) 7 then 1
  else 7

/-- The branch `case 15` of the first sweep of `ResolveConflicts`. -/
def ResolveConflicts_sweep1_15 (g : Gray2Vec_Grid) (px py : Int) : Int :=
  if cover g (px - 1) py 3 && !(cover g (px - 1) py 5) && !(cover g px (py + 1) 1) then 13
  else if cover g px (py - 1) 7 && !(cover g px (py - 1) 5) && !(cover g (px + 1) py 1) then 17
  else 15

/-- The branch `case 17` of the first sweep of `ResolveConflicts`. -/
def ResolveConflicts_sweep1_17 (g : Gray2Vec_Grid) (px py : Int) : Int :=
  if cover g px (py - 1) 5 && !(cover g px (py - 1) 7) && !(cover g (px - 1) py 3) then 15
  else if cover g (px + 1) py 1 && !(cover g (px + 1) py 7) && !(cover g px (py + 1) 3) then 11
  else 17

/-- The branch `case 11` of the first sweep of `ResolveConflicts`. -/
def ResolveConflicts_sweep1_11 (g : Gray2Vec_Grid) (px py : Int) : Int :=
  if cover g (px + 1) py 7 && !(cover g (px + 1) py 1) && !(cover g px (py - 1) 5) then 17
  else if cover g px (py + 1) 3 && !(cover g px (py + 1) 1) && !(cover g (px - 1) py 5) then 13
  else 11

/-- The branch `case 13` of the first sweep of `ResolveConflicts`. -/
def ResolveConflicts_sweep1_13 (g : Gray2Vec_Grid) (px py : Int) : Int :=
  if cover g px (py + 1) 1 && !(cover g px (py + 1) 3) && !(cover g (px + 1) py 7) then 11
  else if cover g (px - 1) py 5 && !(cover g (px - 1) py 3) && !(cover g px (py - 1) 7) then 15
  else 13

/-- The branch `case 2` of the first sweep of `ResolveConflicts`. -/
def ResolveConflicts_sweep1_2 (g : Gray2Vec_Grid) (px py : Int) : Int :=
  if cover g (px - 1) py 5 && !(cover g (px - 1) py 3) && (cover g px (py - 1) 5 ||
      !(cover g px (py - 1) 7)) && (cover g px (py + 1) 3 || !(cover g px (py + 1) 1)) then
    4
  else if cover g (px + 1) py 7 && !(cover g (px + 1) py 1) && (cover g (px - 1) py 7 ||
      !(cover g (px - 1) py 5)) && (cover g (px + 1) py 1 || !(cover g (px + 1) py 3)) then
    8
  else 2

/-- The branch `case 6` of the first sweep of `ResolveConflicts`. -/
def ResolveConflicts_sweep1_6 (g : Gray2Vec_Grid) (px py : Int) : Int :=
  if cover g (px - 1) py 3 && !(cover g (px - 1) py 5) && (cover g px (py - 1) 5 ||
      !(cover g px (py - 1) 7)) && (cover g px (py + 1) 3 || !(cover g px (py + 1) 1)) then
    4
  else if cover g (px + 1) py 1 && !(cover g (px + 1) py 7) && (cover g (px - 1) py 7 ||
      !(cover g (px - 1) py 5)) && (cover g (px + 1) py 1 || !(cover g (px + 1) py 3)) then
    8
  else 6

/-- The branch `case 4` of the first sweep of `ResolveConflicts`. -/
def ResolveConflicts_sweep1_4 (g : Gray2Vec_Grid) (px py : Int) : Int :=
  if cover g px (py - 1) 7 && !(cover g px (py - 1) 5) && (cover g (px - 1) py 5 ||
      !(cover g (px - 1) py 3)) && (cover g (px + 1) py 7 || !(cover g (px + 1) py 1)) then
    6
  else if cover g px (py + 1) 1 && !(cover g px (py + 1) 3) && (cover g (px - 1) py 3 ||
      !(cover g (px - 1) py 5)) && (cover g (px + 1) py 1 || !(cover g (px + 1) py 7)) then
    2
  else 4

/-- The branch `case 8` of the first sweep of `ResolveConflicts`. -/
def ResolveConflicts_sweep1_8 (g : Gray2Vec_Grid) (px py : Int) : Int :=
  if cover g px (py - 1) 5 && !(cover g px (py - 1) 7) && (cover g (px - 1) py 5 ||
      !(cover g (px - 1) py 3)) && (cover g (px + 1) py 7 || !(cover g (px + 1) py 1)) then
    6
  else if cover g px (py + 1) 3 && !(cover g px (py + 1) 1) && (cover g (px - 1) py 3 ||
      !(cover g (px - 1) py 5)) && (cover g (px + 1) py 1 || !(cover g (px + 1) py 7)) then
    2
  else 8

/-- The `switch (m_img_n(px,py))` of the first sweep of `ResolveConflicts`: the code of the cell afterwards. -/
def ResolveConflicts_sweep1 (g : Gray2Vec_Grid) (px py : Int) : Int :=
  if g.m_img_n.pix px py = 1 then ResolveConflicts_sweep1_1 g px py
  else if g.m_img_n.pix px py = 3 then ResolveConflicts_sweep1_3 g px py
  else if g.m_img_n.pix px py = 5 then ResolveConflicts_sweep1_5 g px py
  else if g.m_img_n.pix px py = 7 then ResolveConflicts_sweep1_7 g px py
  else if g.m_img_n.pix px py = 15 then ResolveConflicts_sweep1_15 g px py
  else if g.m_img_n.pix px py = 17 then ResolveConflicts_sweep1_17 g px py
  else if g.m_img_n.pix px py = 11 then ResolveConflicts_sweep1_11 g px py
  else if g.m_img_n.pix px py = 13 then ResolveConflicts_sweep1_13 g px py
  else if g.m_img_n.pix px py = 2 then ResolveConflicts_sweep1_2 g px py
  else if g.m_img_n.pix px py = 6 then ResolveConflicts_sweep1_6 g px py
  else if g.m_img_n.pix px py = 4 then ResolveConflicts_sweep1_4 g px py
  else if g.m_img_n.pix px py = 8 then ResolveConflicts_sweep1_8 g px py
  else g.m_img_n.pix px py

/-- The branch `case 1` of the second sweep of `ResolveConflicts`. -/
def ResolveConflicts_sweep2_1 (g : Gray2Vec_Grid) (px py : Int) : Int :=
  if !(cover g (px - 1) py 3) && cover g (px - 1) py 5 && !(cover g px (py + 1) 3) then 7
  else if !(cover g px (py - 1) 7) && cover g px (py - 1) 5 && !(cover g (px + 1) py 7) then 3
  else 1

/-- The branch `case 3` of the second sweep of `ResolveConflicts`. -/
def ResolveConflicts_sweep2_3 (g : Gray2Vec_Grid) (px py : Int) : Int :=
  if !(cover g px (py - 1) 5) && cover g px (py - 1) 7 && !(cover g (px - 1) py 5) then 1
  else if !(cover g (px + 1) py 1) && cover g (px + 1) py 7 && !(cover g px (py + 1) 1) then 5
  else 3

/-- The branch `case 5` of the second sweep of `ResolveConflicts`. -/
def ResolveConflicts_sweep2_5 (g : Gray2Vec_Grid) (px py : Int) : Int :=
  if !(cover g (px + 1) py 7) && cover g (px + 1) py 1 && !(cover g px (py - 1) 7) then 3
  else if !(cover g px (py + 1) 3) && cover g px (py + 1) 1 && !(cover g (px - 1) py 3) then 7
  else 5

/-- The branch `case 7` of the second sweep of `ResolveConflicts`. -/
def ResolveConflicts_sweep2_7 (g : Gray2Vec_Grid) (px py : Int) : Int :=
  if !(cover g px (py + 1) 1) && cover g px (py + 1) 3 && !(cover g (px + 1) py 1) then 5
  else if !(cover g (px - 1) py 5) && cover g (px - 1) py 3 && !(cover g px (py - 1) 5) then 1
  else 7

/-- The branch `case 15` of the second sweep of `ResolveConflicts`. -/
def ResolveConflicts_sweep2_15 (g : Gray2Vec_Grid) (px py : Int) : Int :=
  if cover g (px - 1) py 3 && !(cover g (px - 1) py 5) && cover g px (py + 1) 3 then 13
  else if cover g px (py - 1) 7 && !(cover g px (py - 1) 5) && cover g (px + 1) py 7 then 17
  else 15

/-- The branch `case 17` of the second sweep of `ResolveConflicts`. -/
def ResolveConflicts_sweep2_17 (g : Gray2Vec_Grid) (px py : Int) : Int :=
  if cover g px (py - 1) 5 && !(cover g px (py - 1) 7) && cover g (px - 1) py 5 then 15
  else if cover g (px + 1) py 1 && !(cover g (px + 1) py 7) && cover g px (py + 1) 1 then 11
  else 17

/-- The branch `case 11` of the second sweep of `ResolveConflicts`. -/
def ResolveConflicts_sweep2_11 (g : Gray2Vec_Grid) (px py : Int) : Int :=
  if cover g (px + 1) py 7 && !(cover g (px + 1) py 1) && cover g px (py - 1) 7 then 17
  else if cover g px (py + 1) 3 && !(cover g px (py + 1) 1) && cover g (px - 1) py 3 then 13
  else 11

/-- The branch `case 13` of the second sweep of `ResolveConflicts`. -/
def ResolveConflicts_sweep2_13 (g : Gray2Vec_Grid) (px py : Int) : Int :=
  if cover g px (py + 1) 1 && !(cover g px (py + 1) 3) && cover g (px + 1) py 1 then 11
  else if cover g (px - 1) py 5 && !(cover g (px - 1) py 3) && cover g px (py - 1) 5 then 15
  else 13

/-- The branch `case 2` of the second sweep of `ResolveConflicts`. -/
def ResolveConflicts_sweep2_2 (g : Gray2Vec_Grid) (px py : Int) : Int :=
  if (cover g (px - 1) py 5 && !(cover g (px - 1) py 3)) || (cover g (px + 1) py 7 &&
      !(cover g (px + 1) py 1)) then
    if !((cover g (px - 1) py 3 && !(cover g (px - 1) py 5)) || (cover g (px + 1) py 1 &&
        !(cover g (px + 1) py 7))) then
      6
    else 2
  else 2

/-- The branch `case 6` of the second sweep of `ResolveConflicts`. -/
def ResolveConflicts_sweep2_6 (g : Gray2Vec_Grid) (px py : Int) : Int :=
  if (cover g (px - 1) py 3 && !(cover g (px - 1) py 5)) || (cover g (px + 1) py 1 &&
      !(cover g (px + 1) py 7)) then
    if !((cover g (px - 1) py 5 && !(cover g (px - 1) py 3)) || (cover g (px + 1) py 7 &&
        !(cover g (px + 1) py 1))) then
      2
    else 6
  else 6

/-- The branch `case 4` of the second sweep of `ResolveConflicts`. -/
def ResolveConflicts_sweep2_4 (g : Gray2Vec_Grid) (px py : Int) : Int :=
  if (cover g px (py - 1) 7 && !(cover g px (py - 1) 5)) || (cover g px (py + 1) 1 &&
      !(cover g px (py + 1) 3)) then
    if !((cover g px (py - 1) 5 && !(cover g px (py - 1) 7)) || (cover g px (py + 1) 3 &&
        !(cover g px (py + 1) 1))) then
      8
    else 4
  else 4

/-- The branch `case 8` of the second sweep of `ResolveConflicts`. -/
def ResolveConflicts_sweep2_8 (g : Gray2Vec_Grid) (px py : Int) : Int :=
  if (cover g px (py - 1) 5 && !(cover g px (py - 1) 7)) || (cover g px (py + 1) 3 &&
      !(cover g px (py + 1) 1)) then
    if !((cover g px (py - 1) 7 && !(cover g px (py - 1) 5)) || (cover g px (py + 1) 1 &&
        !(cover g px (py + 1) 3))) then
      4
    else 8
  else 8

/-- The `switch (m_img_n(px,py))` of the second sweep of `ResolveConflicts`: the code of the cell afterwards. -/
def ResolveConflicts_sweep2 (g : Gray2Vec_Grid) (px py : Int) : Int :=
  if g.m_img_n.pix px py = 1 then ResolveConflicts_sweep2_1 g px py
  else if g.m_img_n.pix px py = 3 then ResolveConflicts_sweep2_3 g px py
  else if g.m_img_n.pix px py = 5 then ResolveConflicts_sweep2_5 g px py
  else if g.m_img_n.pix px py = 7 then ResolveConflicts_sweep2_7 g px py
  else if g.m_img_n.pix px py = 15 then ResolveConflicts_sweep2_15 g px py
  else if g.m_img_n.pix px py = 17 then ResolveConflicts_sweep2_17 g px py
  else if g.m_img_n.pix px py = 11 then ResolveConflicts_sweep2_11 g px py
  else if g.m_img_n.pix px py = 13 then ResolveConflicts_sweep2_13 g px py
  else if g.m_img_n.pix px py = 2 then ResolveConflicts_sweep2_2 g px py
  else if g.m_img_n.pix px py = 6 then ResolveConflicts_sweep2_6 g px py
  else if g.m_img_n.pix px py = 4 then ResolveConflicts_sweep2_4 g px py
  else if g.m_img_n.pix px py = 8 then ResolveConflicts_sweep2_8 g px py
  else g.m_img_n.pix px py

/-- The branch `case 1` of `NeighborsAdjust2`. -/
def NeighborsAdjust2_switch_1 (g : Gray2Vec_Grid) (px py : Int) : Int :=
  if g.m_img_f1.pix px py == 255 then
    if cover g (px + 1) py 1 || !(cover g (px + 1) py 7) then 2
    else if cover g px (py + 1) 1 || !(cover g px (py + 1) 3) then 8
    else 1
  else if g.m_img_f2.pix px py == 255 then
    if cover g px (py + 1) 1 || !(cover g px (py + 1) 3) then 8
    else if cover g (px + 1) py 1 || !(cover g (px + 1) py 7) then 2
    else 1
  else 1

/-- The branch `case 3` of `NeighborsAdjust2`. -/
def NeighborsAdjust2_switch_3 (g : Gray2Vec_Grid) (px py : Int) : Int :=
  if g.m_img_f1.pix px py == 255 then
    if cover g px (py + 1) 3 || !(cover g px (py + 1) 1) then 4
    else if cover g (px - 1) py 3 || !(cover g (px - 1) py 5) then 2
    else 3
  else if g.m_img_f2.pix px py == 255 then
    if cover g (px - 1) py 3 || !(cover g (px - 1) py 5) then 2
    else if cover g px (py + 1) 3 || !(cover g px (py + 1) 1) then 4
    else 3
  else 3

/-- The branch `case 5` of `NeighborsAdjust2`. -/
def NeighborsAdjust2_switch_5 (g : Gray2Vec_Grid) (px py : Int) : Int :=
  if g.m_img_f1.pix px py == 255 then
    if cover g (px - 1) py 5 || !(cover g (px - 1) py 3) then 6
    else if cover g px (py - 1) 5 || !(cover g px (py - 1) 7) then 4
    else 5
  else if g.m_img_f2.pix px py == 255 then
    if cover g px (py - 1) 5 || !(cover g px (py - 1) 7) then 4
    else if cover g (px - 1) py 5 || !(cover g (px - 1) py 3) then 6
    else 5
  else 5

/-- The branch `case 7` of `NeighborsAdjust2`. -/
def NeighborsAdjust2_switch_7 (g : Gray2Vec_Grid) (px py : Int) : Int :=
  if g.m_img_f1.pix px py == 255 then
    if cover g px (py - 1) 7 || !(cover g px (py - 1) 5) then 8
    else if cover g (px + 1) py 7 || !(cover g (px + 1) py 1) then 6
    else 7
  else if g.m_img_f2.pix px py == 255 then
    if cover g (px + 1) py 7 || !(cover g (px + 1) py 1) then 6
    else if cover g px (py - 1) 7 || !(cover g px (py - 1) 5) then 8
    else 7
  else 7

/-- The branch `case 2` of `NeighborsAdjust2`. -/
def NeighborsAdjust2_switch_2 (g : Gray2Vec_Grid) (px py : Int) : Int :=
  if g.m_img_f1.pix px py == 255 then
    if cover g px (py + 1) 3 || !(cover g px (py + 1) 1) then 13
    else if cover g px (py + 1) 1 || !(cover g px (py + 1) 3) then 11
    else 2
  else if g.m_img_f2.pix px py == 255 then
    if cover g px (py + 1) 1 || !(cover g px (py + 1) 3) then 11
    else if cover g px (py + 1) 3 || !(cover g px (py + 1) 1) then 13
    else 2
  else if g.m_img_f1.pix px py == 0 then
    if cover g px (py - 1) 7 || !(cover g px (py - 1) 5) then 1
    else if cover g px (py - 1) 5 || !(cover g px (py - 1) 7) then 3
    else 2
  else if g.m_img_f2.pix px py == 0 then
    if cover g px (py - 1) 5 || !(cover g px (py - 1) 7) then 3
    else if cover g px (py - 1) 7 || !(cover g px (py - 1) 5) then 1
    else 2
  else 2

/-- The branch `case 4` of `NeighborsAdjust2`. -/
def NeighborsAdjust2_switch_4 (g : Gray2Vec_Grid) (px py : Int) : Int :=
  if g.m_img_f1.pix px py == 255 then
    if cover g (px - 1) py 5 || !(cover g (px - 1) py 3) then 15
    else if cover g (px - 1) py 3 || !(cover g (px - 1) py 5) then 13
    else 4
  else if g.m_img_f2.pix px py == 255 then
    if cover g (px - 1) py 3 || !(cover g (px - 1) py 5) then 13
    else if cover g (px - 1) py 5 || !(cover g (px - 1) py 3) then 15
    else 4
  else if g.m_img_f1.pix px py == 0 then
    if cover g (px + 1) py 1 || !(cover g (px + 1) py 7) then 3
    else if cover g (px + 1) py 7 || !(cover g (px + 1) py 1) then 5
    else 4
  else if g.m_img_f2.pix px py == 0 then
    if cover g (px + 1) py 7 || !(cover g (px + 1) py 1) then 5
    else if cover g (px + 1) py 1 || !(cover g (px + 1) py 7) then 3
    else 4
  else 4

/-- The branch `case 6` of `NeighborsAdjust2`. -/
def NeighborsAdjust2_switch_6 (g : Gray2Vec_Grid) (px py : Int) : Int :=
  if g.m_img_f1.pix px py == 255 then
    if cover g px (py - 1) 5 || !(cover g px (py - 1) 7) then 17
    else if cover g px (py - 1) 7 || !(cover g px (py - 1) 5) then 15
    else 6
  else if g.m_img_f2.pix px py == 255 then
    if cover g px (py - 1) 7 || !(cover g px (py - 1) 5) then 15
    else if cover g px (py - 1) 5 || !(cover g px (py - 1) 7) then 17
    else 6
  else if g.m_img_f1.pix px py == 0 then
    if cover g px (py + 1) 3 || !(cover g px (py + 1) 1) then 5
    else if cover g px (py + 1) 1 || !(cover g px (py + 1) 3) then 7
    else 6
  else if g.m_img_f2.pix px py == 0 then
    if cover g px (py + 1) 1 || !(cover g px (py + 1) 3) then 7
    else if cover g px (py + 1) 3 || !(cover g px (py + 1) 1) then 5
    else 6
  else 6

/-- The branch `case 8` of `NeighborsAdjust2`. -/
def NeighborsAdjust2_switch_8 (g : Gray2Vec_Grid) (px py : Int) : Int :=
  if g.m_img_f1.pix px py == 255 then
    if cover g (px + 1) py 1 || !(cover g (px + 1) py 7) then 11
    else if cover g (px + 1) py 7 || !(cover g (px + 1) py 1) then 17
    else 8
  else if g.m_img_f2.pix px py == 255 then
    if cover g (px + 1) py 7 || !(cover g (px + 1) py 1) then 17
    else if cover g (px + 1) py 1 || !(cover g (px + 1) py 7) then 11
    else 8
  else if g.m_img_f1.pix px py == 0 then
    if cover g (px - 1) py 5 || !(cover g (px - 1) py 3) then 7
    else if cover g (px - 1) py 3 || !(cover g (px - 1) py 5) then 1
    else 8
  else if g.m_img_f2.pix px py == 0 then
    if cover g (px - 1) py 3 || !(cover g (px - 1) py 5) then 1
    else if cover g (px - 1) py 5 || !(cover g (px - 1) py 3) then 7
    else 8
  else 8

/-- The branch `case 11` of `NeighborsAdjust2`. -/
def NeighborsAdjust2_switch_11 (g : Gray2Vec_Grid) (px py : Int) : Int :=
  if g.m_img_f1.pix px py == 0 then
    if cover g (px + 1) py 1 || !(cover g (px + 1) py 7) then 8
    else if cover g px (py + 1) 1 || !(cover g px (py + 1) 3) then 2
    else 11
  else if g.m_img_f2.pix px py == 0 then
    if cover g px (py + 1) 1 || !(cover g px (py + 1) 3) then 2
    else if cover g (px + 1) py 1 || !(cover g (px + 1) py 7) then 8
    else 11
  else 11

/-- The branch `case 13` of `NeighborsAdjust2`. -/
def NeighborsAdjust2_switch_13 (g : Gray2Vec_Grid) (px py : Int) : Int :=
  if g.m_img_f1.pix px py == 0 then
    if cover g px (py + 1) 3 || !(cover g px (py + 1) 1) then 2
    else if cover g (px - 1) py 3 || !(cover g (px - 1) py 5) then 4
    else 13
  else if g.m_img_f2.pix px py == 0 then
    if cover g (px - 1) py 3 || !(cover g (px - 1) py 5) then 4
    else if cover g px (py + 1) 3 || !(cover g px (py + 1) 1) then 2
    else 13
  else 13

/-- The branch `case 15` of `NeighborsAdjust2`. -/
def NeighborsAdjust2_switch_15 (g : Gray2Vec_Grid) (px py : Int) : Int :=
  if g.m_img_f1.pix px py == 0 then
    if cover g (px - 1) py 5 || !(cover g (px - 1) py 3) then 4
    else if cover g px (py - 1) 5 || !(cover g px (py - 1) 7) then 6
    else 15
  else if g.m_img_f2.pix px py == 0 then
    if cover g px (py - 1) 5 || !(cover g px (py - 1) 7) then 6
    else if cover g (px - 1) py 5 || !(cover g (px - 1) py 3) then 4
    else 15
  else 15

/-- The branch `case 17` of `NeighborsAdjust2`. -/
def NeighborsAdjust2_switch_17 (g : Gray2Vec_Grid) (px py : Int) : Int :=
  if g.m_img_f1.pix px py == 0 then
    if cover g px (py - 1) 7 || !(cover g px (py - 1) 5) then 6
    else if cover g (px + 1) py 7 || !(cover g (px + 1) py 1) then 8
    else 17
  else if g.m_img_f2.pix px py == 0 then
    if cover g (px + 1) py 7 || !(cover g (px + 1) py 1) then 8
    else if cover g px (py - 1) 7 || !(cover g px (py - 1) 5) then 6
    else 17
  else 17

/-- The `switch (m_img_n(px,py))` of `NeighborsAdjust2`: the code of the cell afterwards. -/
def NeighborsAdjust2_switch (g : Gray2Vec_Grid) (px py : Int) : Int :=
  if g.m_img_n.pix px py = 1 then NeighborsAdjust2_switch_1 g px py
  else if g.m_img_n.pix px py = 3 then NeighborsAdjust2_switch_3 g px py
  else if g.m_img_n.pix px py = 5 then NeighborsAdjust2_switch_5 g px py
  else if g.m_img_n.pix px py = 7 then NeighborsAdjust2_switch_7 g px py
  else if g.m_img_n.pix px py = 2 then NeighborsAdjust2_switch_2 g px py
  else if g.m_img_n.pix px py = 4 then NeighborsAdjust2_switch_4 g px py
  else if g.m_img_n.pix px py = 6 then NeighborsAdjust2_switch_6 g px py
  else if g.m_img_n.pix px py = 8 then NeighborsAdjust2_switch_8 g px py
  else if g.m_img_n.pix px py = 11 then NeighborsAdjust2_switch_11 g px py
  else if g.m_img_n.pix px py = 13 then NeighborsAdjust2_switch_13 g px py
  else if g.m_img_n.pix px py = 15 then NeighborsAdjust2_switch_15 g px py
  else if g.m_img_n.pix px py = 17 then NeighborsAdjust2_switch_17 g px py
  else g.m_img_n.pix px py

/-- One iteration of a loop of `NeighborsAdjust` whose `switch` is `sw`. -/
def NeighborsAdjust_step (sw : Gray2Vec_Grid → Int → Int → Int) (g : Gray2Vec_Grid)
    (c : Int × Int) : Gray2Vec_Grid :=
  if interior g c.1 c.2 then
    { g with m_img_n := g.m_img_n.set c.1 c.2 (sw g c.1 c.2) }
  else g

/-- The method `Gray2Vec_Grid::NeighborsAdjust`: its two loops in sequence. -/
def NeighborsAdjust (g : Gray2Vec_Grid) : Gray2Vec_Grid :=
  let g1 := (forXY g.m_img_s).foldl (NeighborsAdjust_step NeighborsAdjust_sweep1) g
  (forXY g1.m_img_s).foldl (NeighborsAdjust_step NeighborsAdjust_sweep2) g1

/-- One iteration of a loop of `ResolveConflicts` whose `switch` is `sw`; the state is the
grid and the change counter (`cnt1` or `cnt2`). -/
def ResolveConflicts_step (sw : Gray2Vec_Grid → Int → Int → Int) (st : Gray2Vec_Grid × Nat)
    (c : Int × Int) : Gray2Vec_Grid × Nat :=
  if interior st.1 c.1 c.2 then
    let n := st.1.m_img_n.pix c.1 c.2
    let g1 : Gray2Vec_Grid := { st.1 with m_img_n := st.1.m_img_n.set c.1 c.2 (sw st.1 c.1 c.2) }
    if n ≠ g1.m_img_n.pix c.1 c.2 then
      (if g1.m_img_f1.width > 0 then (set_fraction g1 c.1 c.2).1 else g1, st.2 + 1)
    else (g1, st.2)
  else st

/-- The two loops of `Gray2Vec_Grid::ResolveConflicts` in sequence: the grid afterwards and
the two change counters `(cnt1, cnt2)` it reports. -/
def ResolveConflicts_run (g : Gray2Vec_Grid) : Gray2Vec_Grid × Nat × Nat :=
  let r1 := (forXY g.m_img_s).foldl (ResolveConflicts_step ResolveConflicts_sweep1) (g, 0)
  let r2 := (forXY r1.1.m_img_s).foldl (ResolveConflicts_step ResolveConflicts_sweep2) (r1.1, 0)
  (r2.1, r1.2, r2.2)

/-- The method `Gray2Vec_Grid::ResolveConflicts`. -/
def ResolveConflicts (g : Gray2Vec_Grid) : Gray2Vec_Grid := (ResolveConflicts_run g).1

/-- One iteration of the loop of `NeighborsAdjust2`; the state is the grid and the change
counter `cnt`. -/
def NeighborsAdjust2_step (st : Gray2Vec_Grid × Nat) (c : Int × Int) : Gray2Vec_Grid × Nat :=
  if interior st.1 c.1 c.2 then
    let n := st.1.m_img_n.pix c.1 c.2
    let g1 : Gray2Vec_Grid :=
      { st.1 with m_img_n := st.1.m_img_n.set c.1 c.2 (NeighborsAdjust2_switch st.1 c.1 c.2) }
    if n ≠ g1.m_img_n.pix c.1 c.2 then
      ((set_fraction g1 c.1 c.2).1, st.2 + 1)
    else (g1, st.2)
  else st

/-- The method `Gray2Vec_Grid::NeighborsAdjust2`. -/
def NeighborsAdjust2 (g : Gray2Vec_Grid) : Gray2Vec_Grid :=
  ((forXY g.m_img_s).foldl NeighborsAdjust2_step (g, 0)).1

/-- The twelve non-trivial neighbourhood codes. -/
def nontrivial : List Int := [1, 2, 3, 4, 5, 6, 7, 8, 11, 13, 15, 17]

/-! ## Sides of a code -/

/-- The function `Gray2Vec_Grid::move_dir(px, py, dir)`: the moved position. -/
def move_dir (p : Int × Int) (dir : Int) : Int × Int :=
  if dir = 1 then (p.1 - 1, p.2 - 1)
  else if dir = 2 then (p.1, p.2 - 1)
  else if dir = 3 then (p.1 + 1, p.2 - 1)
  else if dir = 4 then (p.1 + 1, p.2)
  else if dir = 5 then (p.1 + 1, p.2 + 1)
  else if dir = 6 then (p.1, p.2 + 1)
  else if dir = 7 then (p.1 - 1, p.2 + 1)
  else if dir = 8 then (p.1 - 1, p.2)
  else p

/-- The function `Gray2Vec_Grid::side1(dir)`. -/
def side1 (dir : Int) : Int :=
  if dir = 1 then 2 else if dir = 2 then 4 else if dir = 3 then 4 else if dir = 4 then 6
  else if dir = 5 then 6 else if dir = 6 then 8 else if dir = 7 then 8 else if dir = 8 then 2
  else if dir = 11 then 4 else if dir = 13 then 6 else if dir = 15 then 8
  else if dir = 17 then 2 else 0

/-- The function `Gray2Vec_Grid::side2(dir)`. -/
def side2 (dir : Int) : Int :=
  if dir = 1 then 8 else if dir = 2 then 8 else if dir = 3 then 2 else if dir = 4 then 2
  else if dir = 5 then 4 else if dir = 6 then 4 else if dir = 7 then 6 else if dir = 8 then 6
  else if dir = 11 then 6 else if dir = 13 then 8 else if dir = 15 then 2
  else if dir = 17 then 4 else 0

/-- The method `Gray2Vec_Grid::share_sides(px1, py1, px2, py2)`. -/
def share_sides (g : Gray2Vec_Grid) (px1 py1 px2 py2 : Int) : Int :=
  if px1 < 0 then 0 else if py1 < 0 then 0 else if px2 < 0 then 0 else if py2 < 0 then 0
  else if px1 ≥ g.m_img_n.width then 0 else if py1 ≥ g.m_img_n.height then 0
  else if px2 ≥ g.m_img_n.width then 0 else if py2 ≥ g.m_img_n.height then 0
  else
    let n1 := g.m_img_n.pix px1 py1
    let n2 := g.m_img_n.pix px2 py2
    let pn11 := move_dir (px1, py1) (side1 n1)
    let pn21 := move_dir (px2, py2) (side1 n2)
    let pn12 := move_dir (px1, py1) (side2 n1)
    let pn22 := move_dir (px2, py2) (side2 n2)
    if pn11.1 = px2 ∧ pn11.2 = py2 ∧ pn21.1 = px1 ∧ pn21.2 = py1 then 11
    else if pn11.1 = px2 ∧ pn11.2 = py2 ∧ pn22.1 = px1 ∧ pn22.2 = py1 then 12
    else if pn12.1 = px2 ∧ pn12.2 = py2 ∧ pn21.1 = px1 ∧ pn21.2 = py1 then 21
    else if pn12.1 = px2 ∧ pn12.2 = py2 ∧ pn22.1 = px1 ∧ pn22.2 = py1 then 22
    else 0

/-- The frame of a resolver pass from `g` to `g'`: the fine samples and the coverage grid
are the same; a cell outside the interior, or whose code is 0 or 255, keeps its code and
its fractions; and a cell whose code afterwards is 0 or 255 had that code before. -/
def Frame (g g' : Gray2Vec_Grid) : Prop :=
  g'.m_img = g.m_img ∧ g'.m_img_s = g.m_img_s ∧
  ∀ x y : Int,
    ((interior g x y = false ∨ g.m_img_n.pix x y = 0 ∨ g.m_img_n.pix x y = 255) →
      g'.m_img_n.pix x y = g.m_img_n.pix x y ∧ g'.m_img_f1.pix x y = g.m_img_f1.pix x y ∧
      g'.m_img_f2.pix x y = g.m_img_f2.pix x y ∧ g'.m_img_f3.pix x y = g.m_img_f3.pix x y) ∧
    ((g'.m_img_n.pix x y = 0 ∨ g'.m_img_n.pix x y = 255) →
      g'.m_img_n.pix x y = g.m_img_n.pix x y)

/-! ## Vertex placement in `EmitPolygonToLayer`

The body of the vertex loop, before the geotransform is applied.  `px = nPixelX/2` and
`py = nPixelY/2`; ring coordinates are never negative, where the C++ `/` and `%` agree
with `Int` division and remainder.  The `double` values are embedded as rationals. -/

/-- The `switch` commented "right side" of the vertical-middle case: the value `fA` taken
from the cell `(px,py)`, or the initial `-1.0`. -/
def right_side (g : Gray2Vec_Grid) (px py : Int) : ℚ :=
  let n := g.m_img_n.pix px py
  if n = 1 ∨ n = 2 ∨ n = 13 then (g.m_img_f2.pix px py : ℚ)
  else if n = 15 ∨ n = 6 ∨ n = 7 then ((255 - g.m_img_f1.pix px py : Int) : ℚ)
  else -1

/-- The `switch` commented "left side" of the vertical-middle case, guarded by `px > 0`:
the value `fB` taken from the cell `(px-1,py)`, or the initial `-1.0`. -/
def left_side (g : Gray2Vec_Grid) (px py : Int) : ℚ :=
  if px > 0 then
    let n := g.m_img_n.pix (px - 1) py
    if n = 11 ∨ n = 2 ∨ n = 3 then (g.m_img_f1.pix (px - 1) py : ℚ)
    else if n = 5 ∨ n = 6 ∨ n = 17 then ((255 - g.m_img_f2.pix (px - 1) py : Int) : ℚ)
    else -1
  else -1

/-- The `switch` commented "bottom side" of the horizontal-middle case: the value `fA`
taken from the cell `(px,py)`, or the initial `-1.0`. -/
def bottom_side (g : Gray2Vec_Grid) (px py : Int) : ℚ :=
  let n := g.m_img_n.pix px py
  if n = 17 ∨ n = 8 ∨ n = 1 then (g.m_img_f1.pix px py : ℚ)
  else if n = 3 ∨ n = 4 ∨ n = 15 then ((255 - g.m_img_f2.pix px py : Int) : ℚ)
  else -1

/-- The `switch` commented "top side" of the horizontal-middle case, guarded by `py > 0`:
the value `fB` taken from the cell `(px,py-1)`, or the initial `-1.0`. -/
def top_side (g : Gray2Vec_Grid) (px py : Int) : ℚ :=
  if py > 0 then
    let n := g.m_img_n.pix px (py - 1)
    if n = 7 ∨ n = 8 ∨ n = 11 then (g.m_img_f2.pix px (py - 1) : ℚ)
    else if n = 13 ∨ n = 4 ∨ n = 5 then ((255 - g.m_img_f1.pix px (py - 1) : Int) : ℚ)
    else -1
  else -1

/-- The step commented "average both sides": the fraction `f`, initially `0.5`. -/
def average_sides (fA fB : ℚ) : ℚ :=
  if fA ≥ 0 then
    if fB ≥ 0 then 1 / 2 * (fA + fB) / 255 else fA / 255
  else
    if fB ≥ 0 then fB / 255 else 1 / 2

/-- The case "middle in both directions" of the vertex loop for a vertex at `(fx, fy)` in
the cell `(px,py)`: the displaced vertex, or `none` where the loop executes `continue`.
The inner tests of the large-corner case compare the code with 1, 3, 5, 7 as the source
does. -/
def interior_vertex (g : Gray2Vec_Grid) (px py : Int) (fx fy : ℚ) : Option (ℚ × ℚ) :=
  let n := g.m_img_n.pix px py
  let f1 : ℚ := ((g.m_img_f1.pix px py * g.m_img_f3.pix px py : Int) : ℚ)
  let f2 : ℚ := ((g.m_img_f2.pix px py * g.m_img_f3.pix px py : Int) : ℚ)
  let f3 : ℚ := (g.m_img_f3.pix px py : ℚ)
  if n = 1 ∨ n = 3 ∨ n = 5 ∨ n = 7 then
    if g.m_img_f3.pix px py ≥ 0 then
      if n = 1 then some (fx + (2 * f1 / (255 * 255) - 1), fy + (2 * f2 / (255 * 255) - 1))
      else if n = 3 then some (fx + (-2 * f1 / (255 * 255) + 1), fy + (2 * f2 / (255 * 255) - 1))
      else if n = 5 then some (fx + (-2 * f1 / (255 * 255) + 1), fy + (-2 * f2 / (255 * 255) + 1))
      else if n = 7 then some (fx + (2 * f1 / (255 * 255) - 1), fy + (-2 * f2 / (255 * 255) + 1))
      else some (fx, fy)
    else none
  else if n = 2 ∨ n = 4 ∨ n = 6 ∨ n = 8 then
    if g.m_img_f3.pix px py ≥ 0 then
      if n = 2 then some (fx, fy + (2 * f3 / 255 - 1))
      else if n = 4 then some (fx + (-2 * f3 / 255 + 1), fy)
      else if n = 6 then some (fx, fy + (-2 * f3 / 255 + 1))
      else if n = 8 then some (fx + (2 * f3 / 255 - 1), fy)
      else some (fx, fy)
    else none
  else if n = 11 ∨ n = 13 ∨ n = 15 ∨ n = 17 then
    if g.m_img_f3.pix px py ≥ 0 then
      if n = 1 then some (fx + (2 * f1 / (255 * 255) - 1), fy + (2 * f2 / (255 * 255) - 1))
      else if n = 3 then some (fx + (-2 * f1 / (255 * 255) + 1), fy + (2 * f2 / (255 * 255) - 1))
      else if n = 5 then some (fx + (-2 * f1 / (255 * 255) + 1), fy + (-2 * f2 / (255 * 255) + 1))
      else if n = 7 then some (fx + (2 * f1 / (255 * 255) - 1), fy + (-2 * f2 / (255 * 255) + 1))
      else some (fx, fy)
    else none
  else some (fx, fy)

/-- The body of the vertex loop of `EmitPolygonToLayer` for the ring vertex
`(nPixelX, nPixelY)`: the placed coordinates `(fx, fy)` handed to the geotransform, or
`none` when the vertex is skipped. -/
def EmitVertex (g : Gray2Vec_Grid) (nPixelX nPixelY : Int) : Option (ℚ × ℚ) :=
  let fx : ℚ := (nPixelX : ℚ)
  let fy : ℚ := (nPixelY : ℚ)
  let px := nPixelX / 2
  let py := nPixelY / 2
  if nPixelX % 2 = 0 then
    if nPixelY % 2 ≠ 0 then
      -- vertical middle
      some (fx, fy + 2 * (average_sides (right_side g px py) (left_side g px py) - 1 / 2))
    else some (fx, fy)
  else
    if nPixelY % 2 = 0 then
      -- horizontal middle
      some (fx + 2 * (average_sides (bottom_side g px py) (top_side g px py) - 1 / 2), fy)
    else interior_vertex g px py fx fy

/-! ## The region of a cell -/

/-- The boundary of the sub-samples that the mask pattern of code `n` sets in the 2x2 block
of the cell `(px,py)`, walked in unit steps of fine coordinates (the ring of the cell taken
on its own). -/
def spec_region (n px py : Int) : List (Int × Int) :=
  let x0 := px * 2
  let x1 := px * 2 + 1
  let x2 := (px + 1) * 2
  let y0 := py * 2
  let y1 := py * 2 + 1
  let y2 := (py + 1) * 2
  if n = 1 then [(x0, y0), (x1, y0), (x1, y1), (x0, y1)]
  else if n = 3 then [(x1, y0), (x2, y0), (x2, y1), (x1, y1)]
  else if n = 5 then [(x1, y1), (x2, y1), (x2, y2), (x1, y2)]
  else if n = 7 then [(x0, y1), (x1, y1), (x1, y2), (x0, y2)]
  else if n = 2 then [(x0, y0), (x1, y0), (x2, y0), (x2, y1), (x1, y1), (x0, y1)]
  else if n = 4 then [(x1, y0), (x2, y0), (x2, y1), (x2, y2), (x1, y2), (x1, y1)]
  else if n = 6 then [(x0, y1), (x1, y1), (x2, y1), (x2, y2), (x1, y2), (x0, y2)]
  else if n = 8 then [(x0, y0), (x1, y0), (x1, y1), (x1, y2), (x0, y2), (x0, y1)]
  else if n = 11 then
    [(x0, y0), (x1, y0), (x2, y0), (x2, y1), (x1, y1), (x1, y2), (x0, y2), (x0, y1)]
  else if n = 13 then
    [(x0, y0), (x1, y0), (x2, y0), (x2, y1), (x2, y2), (x1, y2), (x1, y1), (x0, y1)]
  else if n = 15 then
    [(x1, y0), (x2, y0), (x2, y1), (x2, y2), (x1, y2), (x0, y2), (x0, y1), (x1, y1)]
  else if n = 17 then
    [(x0, y0), (x1, y0), (x1, y1), (x2, y1), (x2, y2), (x1, y2), (x0, y2), (x0, y1)]
  else []

/-- The region of the cell `(px,py)` after vertex placement: every vertex of the cell's
ring is placed by `EmitVertex`, skipped vertices being left out. -/
def placed_region (g : Gray2Vec_Grid) (px py : Int) : List (ℚ × ℚ) :=
  (spec_region (g.m_img_n.pix px py) px py).filterMap fun p => EmitVertex g p.1 p.2

/-- The sum of `x_i * y_(i+1) - x_(i+1) * y_i` along an open chain of points. -/
def shoelace_chain : List (ℚ × ℚ) → ℚ
  | a :: b :: t => (a.1 * b.2 - b.1 * a.2) + shoelace_chain (b :: t)
  | _ => 0

/-- The area enclosed by a closed polygon given by its vertices (shoelace formula). -/
def polygon_area (l : List (ℚ × ℚ)) : ℚ :=
  match l with
  | [] => 0
  | a :: t => |shoelace_chain (a :: t ++ [a])| / 2

/-- The class area formulas of the specification, for fractions `f1`, `f2`: a value on the
scale 0..255. -/
def spec_area (n : Int) (f1 f2 : ℚ) : ℚ :=
  if n = 1 ∨ n = 3 ∨ n = 5 ∨ n = 7 then 1 / 2 * f1 * f2 / 255
  else if n = 2 ∨ n = 4 ∨ n = 6 ∨ n = 8 then (f1 + f2) / 2
  else if n = 11 ∨ n = 13 ∨ n = 15 ∨ n = 17 then 255 - 1 / 2 * (255 - f1) * (255 - f2) / 255
  else 0

/-- The neighbourhood codes of the data model. -/
def codes : List Int := [0, 1, 2, 3, 4, 5, 6, 7, 8, 11, 13, 15, 17, 255]

/-- The covered-direction sets of `covers` as the specification lists them. -/
def spec_covers (n : Int) : List Int :=
  if n = 1 then [1, 2] else if n = 3 then [2, 3, 4] else if n = 5 then [4, 5, 6]
  else if n = 7 then [6, 7, 8] else if n = 2 then [1, 2, 3] else if n = 4 then [3, 4, 5]
  else if n = 6 then [5, 6, 7] else if n = 8 then [7, 8, 1] else if n = 11 then [1, 2, 3, 7]
  else if n = 13 then [1, 2, 3, 4, 5] else if n = 15 then [3, 4, 5, 6, 7]
  else if n = 17 then [1, 5, 6, 7, 8] else if n = 255 then [1, 2, 3, 4, 5, 6, 7, 8]
  else []

/-- The 2x2 grid `[0,128,128,255]` (row-major) of the specification's scenario, every
fine sample equal to the coverage of its coarse cell. -/
def scenarioGrid : Gray2Vec_Grid :=
  let s : CImg := ⟨2, 2, fun x y =>
    if x = 0 ∧ y = 0 then 0 else if x = 1 ∧ y = 1 then 255 else 128⟩
  { m_img := ⟨4, 4, fun x y => s.pix (x / 2) (y / 2)⟩
    m_img_s := s
    m_img_n := ⟨2, 2, fun _ _ => 0⟩
    m_img_f1 := ⟨0, 0, fun _ _ => 0⟩
    m_img_f2 := ⟨0, 0, fun _ _ => 0⟩
    m_img_f3 := ⟨0, 0, fun _ _ => 0⟩ }

/-- A 3x3 coverage grid whose centre cell has coverage 20 (top-left fine sample 80) and
code 1, every other cell being empty with code 0; the fraction grids are not allocated
yet. -/
def cornerGrid : Gray2Vec_Grid :=
  { m_img := ⟨6, 6, fun x y => if x = 2 ∧ y = 2 then 80 else 0⟩
    m_img_s := ⟨3, 3, fun x y => if x = 1 ∧ y = 1 then 20 else 0⟩
    m_img_n := ⟨3, 3, fun x y => if x = 1 ∧ y = 1 then 1 else 0⟩
    m_img_f1 := ⟨0, 0, fun _ _ => 0⟩
    m_img_f2 := ⟨0, 0, fun _ _ => 0⟩
    m_img_f3 := ⟨0, 0, fun _ _ => 0⟩ }

/-- A 3x3 grid whose centre cell has coverage 10, code 1 and fractions f1 = 100, f2 = 51
with no correction scalar, every other cell being empty. -/
def placedGrid : Gray2Vec_Grid :=
  { m_img := ⟨6, 6, fun x y => if x = 2 ∧ y = 2 then 40 else 0⟩
    m_img_s := ⟨3, 3, fun x y => if x = 1 ∧ y = 1 then 10 else 0⟩
    m_img_n := ⟨3, 3, fun x y => if x = 1 ∧ y = 1 then 1 else 0⟩
    m_img_f1 := ⟨3, 3, fun x y => if x = 1 ∧ y = 1 then 100 else 0⟩
    m_img_f2 := ⟨3, 3, fun x y => if x = 1 ∧ y = 1 then 51 else 0⟩
    m_img_f3 := ⟨3, 3, fun _ _ => -1⟩ }

/-! ## Single sweeps and the state of one cell -/

/-- The grid after the first loop of `NeighborsAdjust` ("Optimizing sides"). -/
def NeighborsAdjust_first (g : Gray2Vec_Grid) : Gray2Vec_Grid :=
  (forXY g.m_img_s).foldl (NeighborsAdjust_step NeighborsAdjust_sweep1) g

/-- The grid after the first loop of `ResolveConflicts` ("Resolving conflicts (1)"). -/
def ResolveConflicts_first (g : Gray2Vec_Grid) : Gray2Vec_Grid :=
  ((forXY g.m_img_s).foldl (ResolveConflicts_step ResolveConflicts_sweep1) (g, 0)).1

/-- The value `set_fraction` stores in `m_img_f1` and `m_img_f2` for a cell with code `n`
and coverage `s`. -/
def class_init (n s : Int) : Int :=
  if n = 1 ∨ n = 3 ∨ n = 5 ∨ n = 7 then to_uchar (corner_init s)
  else if n = 2 ∨ n = 4 ∨ n = 6 ∨ n = 8 then s
  else if n = 11 ∨ n = 13 ∨ n = 15 ∨ n = 17 then to_uchar (large_init s)
  else 0

/-- The values a grid holds for one cell: code, fractions, correction scalar, coverage. -/
structure Cell where
  n : Int
  f1 : Int
  f2 : Int
  f3 : Int
  s : Int

/-- The values the grid `g` holds for the cell `p`. -/
def cell_view (g : Gray2Vec_Grid) (p : Int × Int) : Cell :=
  { n := g.m_img_n.pix p.1 p.2
    f1 := g.m_img_f1.pix p.1 p.2
    f2 := g.m_img_f2.pix p.1 p.2
    f3 := g.m_img_f3.pix p.1 p.2
    s := g.m_img_s.pix p.1 p.2 }

/-- The effect of a resolver loop on one cell, from `old` to `new`: the coverage is kept,
the new code is related to the old state by `P`, and either the code and the fractions are
all kept, or the code differs and the fractions are those `set_fraction` stores for the new
code (when the loop calls it, `reinit`) or are kept (when it does not). -/
def Reassigned (reinit : Prop) (P : Cell → Int → Prop) (old new : Cell) : Prop :=
  new.s = old.s ∧ P old new.n ∧
  ((new.n = old.n ∧ new.f1 = old.f1 ∧ new.f2 = old.f2 ∧ new.f3 = old.f3) ∨
   (new.n ≠ old.n ∧
    ((reinit ∧ new.f1 = class_init new.n new.s ∧ new.f2 = class_init new.n new.s ∧
        new.f3 = -1) ∨
     (¬ reinit ∧ new.f1 = old.f1 ∧ new.f2 = old.f2 ∧ new.f3 = old.f3))))

/-! ## Small concrete grids -/

/-- The raster of width `w` and height `h` whose rows are listed in `rows` (0 elsewhere). -/
def rasterOf (w h : Nat) (rows : List (List Int)) : CImg :=
  ⟨w, h, fun x y => if 0 ≤ x ∧ 0 ≤ y then (rows.getD y.toNat []).getD x.toNat 0 else 0⟩

/-- A `w` x `h` grid given by its coverage values and codes, the fraction grids not being
allocated yet (as before `InitFractions`). -/
def gridN (w h : Nat) (s n : List (List Int)) : Gray2Vec_Grid :=
  { m_img := ⟨2 * w, 2 * h, fun _ _ => 0⟩
    m_img_s := rasterOf w h s
    m_img_n := rasterOf w h n
    m_img_f1 := ⟨0, 0, fun _ _ => 0⟩
    m_img_f2 := ⟨0, 0, fun _ _ => 0⟩
    m_img_f3 := ⟨0, 0, fun _ _ => 0⟩ }

/-- A `w` x `h` grid given by its coverage values, codes, fractions `f1`, `f2` and
correction scalars `f3`. -/
def gridF (w h : Nat) (s n f1 f2 f3 : List (List Int)) : Gray2Vec_Grid :=
  { m_img := ⟨2 * w, 2 * h, fun _ _ => 0⟩
    m_img_s := rasterOf w h s
    m_img_n := rasterOf w h n
    m_img_f1 := rasterOf w h f1
    m_img_f2 := rasterOf w h f2
    m_img_f3 := rasterOf w h f3 }

/-- A corner cell (code 1, coverage 40) whose left neighbour is a south side cell and whose
lower neighbour is full. -/
def conflictGrid : Gray2Vec_Grid :=
  gridN 3 3 [[0, 0, 0], [128, 40, 0], [0, 255, 0]] [[0, 0, 0], [6, 1, 0], [0, 255, 0]]

/-- A north side cell (code 2) whose upper neighbour is a south-west corner and whose left
neighbour is a south-east corner. -/
def sideConflictGrid : Gray2Vec_Grid :=
  gridN 3 3 [[0, 40, 0], [40, 128, 0], [0, 0, 0]] [[0, 7, 0], [5, 2, 0], [0, 0, 0]]

/-- The grid `conflictGrid` with fraction grids allocated; the centre cell holds
`f1 = 10`, `f2 = 20`, `f3 = 30` and the cell above it `f1 = 1`, `f2 = 2`, `f3 = 3`. -/
def conflictGridF : Gray2Vec_Grid :=
  gridF 3 3 [[0, 0, 0], [128, 40, 0], [0, 255, 0]] [[0, 0, 0], [6, 1, 0], [0, 255, 0]]
    [[0, 1, 0], [128, 10, 0], [0, 0, 0]] [[0, 2, 0], [128, 20, 0], [0, 0, 0]]
    [[-1, 3, -1], [-1, 30, -1], [-1, -1, -1]]

/-- The number of sub-samples at which the 2x2 patterns that `Vectorize` writes for the
codes `a` and `b` differ (for a cell that is neither empty nor full, here with coverage
128); `none` when one of the codes has no pattern. -/
def pattern_distance (a b : Int) : Option Nat :=
  match Vectorize_block 128 a, Vectorize_block 128 b with
  | some p, some q =>
    some ((if p.1 = q.1 then 0 else 1) + (if p.2.1 = q.2.1 then 0 else 1) +
      (if p.2.2.1 = q.2.2.1 then 0 else 1) + (if p.2.2.2 = q.2.2.2 then 0 else 1))
  | _, _ => none

/-- A side cell (code 2, coverage 128) with `f1 = 255` and `f2 = 100` among empty cells. -/
def saturatedGrid : Gray2Vec_Grid :=
  gridF 3 3 [[0, 0, 0], [0, 128, 0], [0, 0, 0]] [[0, 0, 0], [0, 2, 0], [0, 0, 0]]
    [[0, 0, 0], [0, 255, 0], [0, 0, 0]] [[0, 0, 0], [0, 100, 0], [0, 0, 0]]
    [[-1, -1, -1], [-1, 7, -1], [-1, -1, -1]]

/-- A corner cell (code 1, coverage 60) whose upper and right neighbours are full. -/
def flankGrid : Gray2Vec_Grid :=
  gridN 3 3 [[0, 255, 0], [0, 60, 255], [0, 0, 0]] [[0, 255, 0], [0, 1, 255], [0, 0, 0]]

/-- A corner cell (code 1, coverage 20) whose left neighbour is full and whose lower
neighbour is a west side cell; the fraction grids are allocated. -/
def thinCornerGrid : Gray2Vec_Grid :=
  gridF 3 3 [[0, 0, 0], [255, 20, 0], [255, 128, 0]] [[0, 0, 0], [255, 1, 0], [255, 8, 0]]
    [[0, 0, 0], [0, 100, 0], [0, 128, 0]] [[0, 0, 0], [0, 100, 0], [0, 128, 0]]
    [[-1, -1, -1], [-1, -1, -1], [-1, -1, -1]]

/-- Two neighbouring corner cells (codes 3 and 1, coverage 60) above two full cells. -/
def adjustGrid : Gray2Vec_Grid :=
  gridN 4 3 [[0, 0, 0, 0], [0, 60, 60, 0], [0, 255, 255, 0]]
    [[0, 0, 0, 0], [0, 3, 1, 0], [0, 255, 255, 0]]

/-- A north side cell (code 2) between an east side cell above, a south side cell to the
right and a north-west corner cell below. -/
def resolveGrid : Gray2Vec_Grid :=
  gridN 3 3 [[0, 128, 0], [0, 128, 128], [0, 40, 0]] [[0, 4, 0], [0, 2, 6], [0, 1, 0]]

/-- Two neighbouring corner cells (codes 1 and 7, coverage 100), each with `f1 = 255`, above a
north-east corner cell. -/
def saturatedPairGrid : Gray2Vec_Grid :=
  gridF 4 3 [[0, 0, 0, 0], [0, 100, 100, 0], [0, 50, 0, 0]]
    [[0, 0, 0, 0], [0, 1, 7, 0], [0, 3, 0, 0]]
    [[0, 0, 0, 0], [0, 255, 255, 0], [0, 159, 0, 0]]
    [[0, 0, 0, 0], [0, 78, 78, 0], [0, 159, 0, 0]]
    [[-1, -1, -1, -1], [-1, -1, -1, -1], [-1, -1, -1, -1]]

/-- No interior cell is changed by either `switch` of `NeighborsAdjust` evaluated in `g`. -/
def NeighborsAdjust_stable (g : Gray2Vec_Grid) : Prop :=
  ∀ c ∈ forXY g.m_img_s, interior g c.1 c.2 = true →
    NeighborsAdjust_sweep1 g c.1 c.2 = g.m_img_n.pix c.1 c.2 ∧
    NeighborsAdjust_sweep2 g c.1 c.2 = g.m_img_n.pix c.1 c.2

/-- No interior cell is changed by either `switch` of `ResolveConflicts` evaluated in `g`. -/
def ResolveConflicts_stable (g : Gray2Vec_Grid) : Prop :=
  ∀ c ∈ forXY g.m_img_s, interior g c.1 c.2 = true →
    ResolveConflicts_sweep1 g c.1 c.2 = g.m_img_n.pix c.1 c.2 ∧
    ResolveConflicts_sweep2 g c.1 c.2 = g.m_img_n.pix c.1 c.2

/-- No interior cell is changed by the `switch` of `NeighborsAdjust2` evaluated in `g`. -/
def NeighborsAdjust2_stable (g : Gray2Vec_Grid) : Prop :=
  ∀ c ∈ forXY g.m_img_s, interior g c.1 c.2 = true →
    NeighborsAdjust2_switch g c.1 c.2 = g.m_img_n.pix c.1 c.2

/-! ## `pixel_error`, `sides_connected` and `TuneFractions` -/

/-- The method `Gray2Vec_Grid::pixel_error(px, py, use_adjust)`.  The `double` arithmetic is
exact rational arithmetic here.  The result is `none` for a code without a `case`, for which
the C++ function reaches its end without a `return`. -/
def pixel_error (g : Gray2Vec_Grid) (px py : Int) (use_adjust : Bool) : Option ℚ :=
  let n := g.m_img_n.pix px py
  let f1 : ℚ := (g.m_img_f1.pix px py : ℚ)
  let f2 : ℚ := (g.m_img_f2.pix px py : ℚ)
  let f3 : ℚ := (g.m_img_f3.pix px py : ℚ)
  let s : ℚ := (g.m_img_s.pix px py : ℚ)
  if n = 1 ∨ n = 3 ∨ n = 5 ∨ n = 7 then
    if use_adjust then some (1 / 2 * f1 * f2 * f3 / (255 * 255) - s)
    else some (1 / 2 * f1 * f2 / 255 - s)
  else if n = 2 ∨ n = 4 ∨ n = 6 ∨ n = 8 then
    if use_adjust then some ((2 * f3 + f1 + f2) * (1 / 4) - s)
    else some ((f1 + f2) * (1 / 2) - s)
  else if n = 11 ∨ n = 13 ∨ n = 15 ∨ n = 17 then
    if use_adjust then some (1 / 2 * (255 - f1) * (255 - f2) * f3 / (255 * 255) - (255 - s))
    else some (1 / 2 * (255 - f1) * (255 - f2) / 255 - (255 - s))
  else none

/-- The method `Gray2Vec_Grid::sides_connected(px, py)`. -/
def sides_connected (g : Gray2Vec_Grid) (px py : Int) : Int :=
  if px < 0 then 0 else if py < 0 then 0
  else if px ≥ g.m_img_n.width then 0 else if py ≥ g.m_img_n.height then 0
  else
    let n := g.m_img_n.pix px py
    let s1 := side1 n
    let s2 := side2 n
    let pn1 := move_dir (px, py) s1
    let pn2 := move_dir (px, py) s2
    let s11 : Int :=
      if pn1.1 < 0 ∨ pn1.2 < 0 ∨ pn1.1 ≥ g.m_img_n.width ∨ pn1.2 ≥ g.m_img_n.height then -100
      else 0
    let s21 : Int :=
      if pn2.1 < 0 ∨ pn2.2 < 0 ∨ pn2.1 ≥ g.m_img_n.width ∨ pn2.2 ≥ g.m_img_n.height then -100
      else 0
    let res1 : Int :=
      if s11 = 0 then
        if |s1 - side1 (g.m_img_n.pix pn1.1 pn1.2)| = 4 then 1
        else if |s1 - side2 (g.m_img_n.pix pn1.1 pn1.2)| = 4 then 1
        else 0
      else 0
    let res2 : Int :=
      if s21 = 0 then
        if |s2 - side1 (g.m_img_n.pix pn2.1 pn2.2)| = 4 then 2
        else if |s2 - side2 (g.m_img_n.pix pn2.1 pn2.2)| = 4 then 2
        else 0
      else 0
    res1 + res2

/-- Storing an integer value into a `CImg<short>` pixel: a value outside -32768..32767 is
reduced modulo 65536 into that range. -/
def to_short (v : Int) : Int := (v + 32768) % 65536 - 32768

/-- The value `0.75*f + 0.25*std::sqrt(s*255*2)` converted to an integer (truncation): the
real value is `(3*f + sqrt m)/4` with `m = s*255*2` an integer, whose integer part is that of
`(3*f + k)/4` for `k` the integer square root of `m`. -/
def corner_blend (f s : Int) : Int := (3 * f + corner_init s) / 4

/-- The value `0.75*f + 0.25*(255-std::sqrt((255-s)*255.0*2))` converted to an integer
(truncation toward zero): with `k` the integer square root of `m = (255-s)*255*2` and
`a = 3*f + 255 - k`, the real value is `a/4` when `m` is a square and lies strictly between
`(a-1)/4` and `a/4` otherwise. -/
def large_blend (f s : Int) : Int :=
  let m := (255 - s) * 255 * 2
  let k : Int := (Nat.sqrt m.toNat : Int)
  let a := 3 * f + 255 - k
  if k * k = m then Int.tdiv a 4
  else if a ≥ 1 then (a - 1) / 4
  else Int.tdiv a 4

/-- The `case 1: case 3: case 5: case 7:` block of `TuneFractions` for a cell with coverage
`s` and fractions `f1`, `f2` (the block never reads `f3`), where `df` is the value of
`pixel_error(px, py, false)` and `sc` the value of `sides_connected(px, py)`: the values of
`f1`, `f2`, `f3` of the cell afterwards.  In the correction branch the `double` arithmetic is
exact rational arithmetic, and `255.0/0` is `+inf`, so that the minimum with it is the other
operand. -/
def TuneFractions_corner (max_error df : ℚ) (sc s f1 f2 : Int) : Int × Int × Int :=
  if max_error > 0 ∧ |df| > max_error * 255 then
    let f : ℚ := if f1 * f2 > 0 then ((s * 255 : Int) : ℚ) / (1 / 2 * f1 * f2) else 1
    let v : ℚ := if max f1 f2 = 0 then max f 0 else min (max f 0) (255 / ((max f1 f2 : Int) : ℚ))
    (f1, f2, to_short ⌊v * 255⌋)
  else if sc = 0 then
    (to_uchar (corner_init s), to_uchar (corner_init s), -1)
  else if sc = 1 then
    let f : Int := if f1 > 0 then Int.tdiv (s * 255 * 2) f1 else s * 255 * 2
    (f1, if f > 255 then 255 else to_uchar f, -1)
  else if sc = 2 then
    let f : Int := if f2 > 0 then Int.tdiv (s * 255 * 2) f2 else s * 255 * 2
    (if f > 255 then 255 else to_uchar f, f2, -1)
  else
    (to_uchar (corner_blend f1 s), to_uchar (corner_blend f2 s), -1)

/-- The `case 2: case 4: case 6: case 8:` block of `TuneFractions`, with the same
conventions as `TuneFractions_corner`.  All the values of this block are integers or
multiples of 1/4. -/
def TuneFractions_side (max_error df : ℚ) (sc s f1 f2 : Int) : Int × Int × Int :=
  if max_error > 0 ∧ |df| > max_error * 255 then
    let f : ℚ := 2 * ((s : ℚ) - 1 / 4 * f1 - 1 / 4 * f2)
    (f1, f2, to_short ⌊min (max f 0) 255⌋)
  else if sc = 0 then
    (s, s, -1)
  else if sc = 1 then
    let f : Int := 2 * s - f1
    (f1, if f < 0 then 0 else if f > 255 then 255 else f, -1)
  else if sc = 2 then
    let f : Int := 2 * s - f2
    (if f < 0 then 0 else if f > 255 then 255 else f, f2, -1)
  else
    (to_uchar ((3 * f1 + s) / 4), to_uchar ((3 * f2 + s) / 4), -1)

/-- The `case 11: case 13: case 15: case 17:` block of `TuneFractions`, with the same
conventions as `TuneFractions_corner`. -/
def TuneFractions_large (max_error df : ℚ) (sc s f1 f2 : Int) : Int × Int × Int :=
  if max_error > 0 ∧ |df| > max_error * 255 then
    let f : ℚ :=
      if (255 - f1) * (255 - f2) > 0 then
        (((255 - s) * 255 : Int) : ℚ) / (1 / 2 * (255 - f1) * (255 - f2))
      else 1
    let v : ℚ :=
      if max (255 - f1) (255 - f2) = 0 then max f 0
      else min (max f 0) (255 / ((max (255 - f1) (255 - f2) : Int) : ℚ))
    (f1, f2, to_short ⌊v * 255⌋)
  else if sc = 0 then
    (to_uchar (large_init s), to_uchar (large_init s), -1)
  else if sc = 1 then
    let f : Int :=
      if f1 < 255 then 255 - Int.tdiv ((255 - s) * 255 * 2) (255 - f1)
      else 255 - (255 - s) * 255 * 2
    (f1, if f < 0 then 0 else to_uchar f, -1)
  else if sc = 2 then
    let f : Int :=
      if f2 < 255 then 255 - Int.tdiv ((255 - s) * 255 * 2) (255 - f2)
      else 255 - (255 - s) * 255 * 2
    (if f < 0 then 0 else to_uchar f, f2, -1)
  else
    (to_uchar (large_blend f1 s), to_uchar (large_blend f2 s), -1)

/-- The grid with the fractions and the correction scalar of the cell `(px,py)` set to the
triple `v`. -/
def put_fractions (g : Gray2Vec_Grid) (px py : Int) (v : Int × Int × Int) : Gray2Vec_Grid :=
  { g with
    m_img_f1 := g.m_img_f1.set px py v.1
    m_img_f2 := g.m_img_f2.set px py v.2.1
    m_img_f3 := g.m_img_f3.set px py v.2.2 }

/-- One iteration of the loop of `TuneFractions(max_error)`: the `switch` on the code of the
cell; a cell with another code is left as it is (the `default:` branch only writes the debug
image). -/
def TuneFractions_step (max_error : ℚ) (g : Gray2Vec_Grid) (c : Int × Int) : Gray2Vec_Grid :=
  let n := g.m_img_n.pix c.1 c.2
  let df : ℚ := (pixel_error g c.1 c.2 false).getD 0
  let sc := sides_connected g c.1 c.2
  let s := g.m_img_s.pix c.1 c.2
  let f1 := g.m_img_f1.pix c.1 c.2
  let f2 := g.m_img_f2.pix c.1 c.2
  if n = 1 ∨ n = 3 ∨ n = 5 ∨ n = 7 then
    put_fractions g c.1 c.2 (TuneFractions_corner max_error df sc s f1 f2)
  else if n = 2 ∨ n = 4 ∨ n = 6 ∨ n = 8 then
    put_fractions g c.1 c.2 (TuneFractions_side max_error df sc s f1 f2)
  else if n = 11 ∨ n = 13 ∨ n = 15 ∨ n = 17 then
    put_fractions g c.1 c.2 (TuneFractions_large max_error df sc s f1 f2)
  else g

/-- The method `Gray2Vec_Grid::TuneFractions(max_error)` (its effect on the grid; the
counters and the debug image are local). -/
def TuneFractions (max_error : ℚ) (g : Gray2Vec_Grid) : Gray2Vec_Grid :=
  (forXY g.m_img_s).foldl (TuneFractions_step max_error) g

/-- A large-corner cell (code 11, coverage 200) with `f1 = f2 = 255`. -/
def fullCornerCell : Gray2Vec_Grid :=
  gridF 1 1 [[200]] [[11]] [[255]] [[255]] [[-1]]

/-- A row of a side cell (code 2, coverage 128, fractions 100 and 150), a small-corner cell
(code 1, coverage 40) and an empty cell, each with the correction scalar 77. -/
def tunedRow : Gray2Vec_Grid :=
  gridF 3 1 [[128, 40, 0]] [[2, 1, 0]] [[100, 90, 0]] [[150, 90, 0]] [[77, 77, 77]]

/-! ## `FractionsNeighborsAdj` and `InitFractions` -/

/-- The value `avg = (a + b)/2` of `FractionsNeighborsAdj` for the two fraction values `a`
and `b`, which are `unsigned char` values (non-negative, where the C++ `/` is `Int`
division). -/
def blend_avg (a b : Int) : Int := (a + b) / 2

/-- The value `(a + avg)/2` that `FractionsNeighborsAdj` stores over the fraction `a`. -/
def blend (a avg : Int) : Int := (a + avg) / 2

/-- The `switch (nn)` of `FractionsNeighborsAdj` for the cell `p = (px,py)` and the cell
`n = (nx,ny)`, with `nn = share_sides(px, py, nx, ny)`; the second assignment of a case
reads the grid the first one has written. -/
def FractionsNeighborsAdj_pair (g : Gray2Vec_Grid) (p n : Int × Int) : Gray2Vec_Grid :=
  let nn := share_sides g p.1 p.2 n.1 n.2
  if nn = 11 then
    let avg := blend_avg (g.m_img_f1.pix p.1 p.2) (g.m_img_f1.pix n.1 n.2)
    let g1 : Gray2Vec_Grid :=
      { g with m_img_f1 := g.m_img_f1.set p.1 p.2 (blend (g.m_img_f1.pix p.1 p.2) avg) }
    { g1 with m_img_f1 := g1.m_img_f1.set n.1 n.2 (blend (g1.m_img_f1.pix n.1 n.2) avg) }
  else if nn = 12 then
    let avg := blend_avg (g.m_img_f1.pix p.1 p.2) (g.m_img_f2.pix n.1 n.2)
    let g1 : Gray2Vec_Grid :=
      { g with m_img_f1 := g.m_img_f1.set p.1 p.2 (blend (g.m_img_f1.pix p.1 p.2) avg) }
    { g1 with m_img_f2 := g1.m_img_f2.set n.1 n.2 (blend (g1.m_img_f2.pix n.1 n.2) avg) }
  else if nn = 21 then
    let avg := blend_avg (g.m_img_f2.pix p.1 p.2) (g.m_img_f1.pix n.1 n.2)
    let g1 : Gray2Vec_Grid :=
      { g with m_img_f2 := g.m_img_f2.set p.1 p.2 (blend (g.m_img_f2.pix p.1 p.2) avg) }
    { g1 with m_img_f1 := g1.m_img_f1.set n.1 n.2 (blend (g1.m_img_f1.pix n.1 n.2) avg) }
  else if nn = 22 then
    let avg := blend_avg (g.m_img_f2.pix p.1 p.2) (g.m_img_f2.pix n.1 n.2)
    let g1 : Gray2Vec_Grid :=
      { g with m_img_f2 := g.m_img_f2.set p.1 p.2 (blend (g.m_img_f2.pix p.1 p.2) avg) }
    { g1 with m_img_f2 := g1.m_img_f2.set n.1 n.2 (blend (g1.m_img_f2.pix n.1 n.2) avg) }
  else g

/-- The cells `(px + x4[i], py + y4[i])` for `i = 0, 1, 2, 3`, with
`x4 = {-1,0,1,0}` and `y4 = {0,-1,0,1}`. -/
def neighbours4 (c : Int × Int) : List (Int × Int) :=
  [(c.1 + -1, c.2 + 0), (c.1 + 0, c.2 + -1), (c.1 + 1, c.2 + 0), (c.1 + 0, c.2 + 1)]

/-- One iteration of the `cimg_forXY` loop of `FractionsNeighborsAdj`: the `for` loop over
the four neighbours. -/
def FractionsNeighborsAdj_step (g : Gray2Vec_Grid) (c : Int × Int) : Gray2Vec_Grid :=
  (neighbours4 c).foldl (fun h n => FractionsNeighborsAdj_pair h c n) g

/-- The method `Gray2Vec_Grid::FractionsNeighborsAdj` (its effect on the grid; the error
statistics are local). -/
def FractionsNeighborsAdj (g : Gray2Vec_Grid) : Gray2Vec_Grid :=
  (forXY g.m_img_s).foldl FractionsNeighborsAdj_step g

/-- The method `Gray2Vec_Grid::InitFractions`: the three fraction rasters are allocated with
the dimensions `m_img.width()/2` x `m_img.height()/2`, their pixels being uninitialised (the
values `u1`, `u2`, `u3`), and `set_fraction` is called for every cell. -/
def InitFractions (u1 u2 u3 : Int → Int → Int) (g : Gray2Vec_Grid) : Gray2Vec_Grid :=
  let g0 : Gray2Vec_Grid :=
    { g with
      m_img_f1 := ⟨g.m_img.width / 2, g.m_img.height / 2, u1⟩
      m_img_f2 := ⟨g.m_img.width / 2, g.m_img.height / 2, u2⟩
      m_img_f3 := ⟨g.m_img.width / 2, g.m_img.height / 2, u3⟩ }
  (forXY g0.m_img_s).foldl (fun h c => (set_fraction h c.1 c.2).1) g0

/-! ## The divisions of `TuneFractions` -/

/-- Specification side: the value a cell with code `n` and fractions `f1`, `f2` exposes on
its edge in direction `dir` (2 = N, 4 = E, 6 = S, 8 = W).  It exposes one exactly when
`side1 n` or `side2 n` is `dir`; the value is `f1` for `side1` and `f2` for `side2`, or the
complement to 255 of it (for `side1` on the S and W edges, for `side2` on the N and E
edges). -/
def spec_exposed (n f1 f2 dir : Int) : Option ℚ :=
  if side1 n = dir then
    some (if dir = 2 ∨ dir = 4 then (f1 : ℚ) else ((255 - f1 : Int) : ℚ))
  else if side2 n = dir then
    some (if dir = 6 ∨ dir = 8 then (f2 : ℚ) else ((255 - f2 : Int) : ℚ))
  else none

/-- Specification side: the value the cell `(px,py)` of the grid exposes on its edge in
direction `dir`; a cell with a negative index does not exist and exposes nothing. -/
def spec_exposed_at (g : Gray2Vec_Grid) (px py dir : Int) : Option ℚ :=
  if px < 0 ∨ py < 0 then none
  else spec_exposed (g.m_img_n.pix px py) (g.m_img_f1.pix px py) (g.m_img_f2.pix px py) dir

/-- Specification side: the solution of the class area formula for the coverage `c` in the
fraction that is not held fixed, the other one being `f`: `2c - f` for a side code,
`510c/f` for a small-corner code and `255 - 510(255-c)/(255-f)` for a large-corner code
(no solution when the divisor is 0, or for another code). -/
def spec_solved (n c f : Int) : Option ℚ :=
  if n = 2 ∨ n = 4 ∨ n = 6 ∨ n = 8 then some (2 * (c : ℚ) - (f : ℚ))
  else if n = 1 ∨ n = 3 ∨ n = 5 ∨ n = 7 then
    if f = 0 then none else some (510 * (c : ℚ) / (f : ℚ))
  else if n = 11 ∨ n = 13 ∨ n = 15 ∨ n = 17 then
    if f = 255 then none else some (255 - 510 * (255 - (c : ℚ)) / (255 - (f : ℚ)))
  else none

/-! ## More concrete grids -/

/-- A small-corner cell (code 1, coverage 40) with `f1 = f2 = 100`. -/
def skewCornerCell : Gray2Vec_Grid :=
  gridF 1 1 [[40]] [[1]] [[100]] [[100]] [[-1]]

/-- A side cell (code 2, coverage 128) with `f1 = f2 = 128`. -/
def settledSideCell : Gray2Vec_Grid :=
  gridF 1 1 [[128]] [[2]] [[128]] [[128]] [[-1]]

/-- A large-corner cell (code 11, coverage 200) with `f1 = f2 = 100` and `f3 = 200`. -/
def largeCornerCell : Gray2Vec_Grid :=
  gridF 1 1 [[200]] [[11]] [[100]] [[100]] [[200]]

/-- A small-corner cell (code 1, coverage 40) with `f1 = f2 = 100` and `f3 = 200`. -/
def correctedCornerCell : Gray2Vec_Grid :=
  gridF 1 1 [[40]] [[1]] [[100]] [[100]] [[200]]

/-- A row of two north side cells (code 2, coverage 128) with fractions 100, 150 and
90, 70. -/
def sideRow : Gray2Vec_Grid :=
  gridF 2 1 [[128, 128]] [[2, 2]] [[100, 90]] [[150, 70]] [[-1, -1]]

/-- A 2x2 grid of one empty and three full cells, with trivial codes and zero fractions. -/
def trivialGrid : Gray2Vec_Grid :=
  gridF 2 2 [[0, 255], [255, 255]] [[0, 255], [255, 255]] [[0, 0], [0, 0]] [[0, 0], [0, 0]]
    [[-1, -1], [-1, -1]]

/-- Specification side: a value clamped into [0,255]. -/
def clamp255 (x : ℚ) : ℚ := max 0 (min 255 x)

/-- Specification side: `v` is the fraction that solves the class area formula of the code
`n` for the coverage `c` with the other fraction held at `f`, clamped into [0,255]: the
clamped solution itself for a side code, its integer part for a small-corner code and the
least integer not below it for a large-corner code; where the formula has no solution
(divisor 0) it is the value the guard substitutes. -/
def OneSideSolved (n c f v : Int) : Prop :=
  match spec_solved n c f with
  | some x =>
    if n = 2 ∨ n = 4 ∨ n = 6 ∨ n = 8 then (v : ℚ) = clamp255 x
    else if n = 1 ∨ n = 3 ∨ n = 5 ∨ n = 7 then v = ⌊clamp255 x⌋
    else v = ⌈clamp255 x⌉
  | none =>
    if n = 1 ∨ n = 3 ∨ n = 5 ∨ n = 7 then v = (if c = 0 then 0 else 255)
    else if n = 11 ∨ n = 13 ∨ n = 15 ∨ n = 17 then v = (if c = 255 then 255 else 0)
    else False

/-- Every cell of the grid has the code 0 or 255. -/
def trivial_codes (g : Gray2Vec_Grid) : Prop :=
  ∀ x y : Int, 0 ≤ x → x < g.m_img_s.width → 0 ≤ y → y < g.m_img_s.height →
    g.m_img_n.pix x y = 0 ∨ g.m_img_n.pix x y = 255

/-! ## Mask patterns and cell edges -/

/-- Whether the two sub-samples of the 2x2 block `p = (tl, tr, bl, br)` that lie along the
cell edge `d` differ, in the words of the specification: the north edge 2 has `tl` and `tr`,
the east edge 4 has `tr` and `br`, the south edge 6 has `bl` and `br`, the west edge 8 has
`tl` and `bl`. -/
def spec_edge_differs (p : Int × Int × Int × Int) (d : Int) : Bool :=
  if d = 2 then p.1 != p.2.1
  else if d = 4 then p.2.1 != p.2.2.2
  else if d = 6 then p.2.2.1 != p.2.2.2
  else if d = 8 then p.1 != p.2.2.1
  else false

/-- Whether the cell `p` lies inside the coarse grid of `g`. -/
def in_grid (g : Gray2Vec_Grid) (p : Int × Int) : Prop :=
  0 ≤ p.1 ∧ p.1 < g.m_img_n.width ∧ 0 ≤ p.2 ∧ p.2 < g.m_img_n.height

instance (g : Gray2Vec_Grid) (p : Int × Int) : Decidable (in_grid g p) := by
  unfold in_grid
  infer_instance

/-- The cells `(px,py)` whose code `m_img_n(px,py)` the body of the vertex loop of
`EmitPolygonToLayer` reads for the ring vertex `(nPixelX, nPixelY)`, in reading order, with
`px = nPixelX/2` and `py = nPixelY/2`: for a vertical-middle vertex the cell `(px,py)` and,
under the guard `px > 0`, the cell `(px-1,py)`; for a horizontal-middle vertex the cell
`(px,py)` and, under the guard `py > 0`, the cell `(px,py-1)`; for a vertex in the middle in
both directions the cell `(px,py)`; for a vertex at even/even coordinates none. -/
def EmitVertex_lookups (nPixelX nPixelY : Int) : List (Int × Int) :=
  let px := nPixelX / 2
  let py := nPixelY / 2
  if nPixelX % 2 = 0 then
    if nPixelY % 2 ≠ 0 then (px, py) :: (if px > 0 then [(px - 1, py)] else [])
    else []
  else
    if nPixelY % 2 = 0 then (px, py) :: (if py > 0 then [(px, py - 1)] else [])
    else [(px, py)]

/-! ## Concrete grids for the side and border checks -/

/-- A north side cell (code 2, coverage 128) whose east neighbour is empty (code 0). -/
def eastTrivialRow : Gray2Vec_Grid := gridN 2 1 [[128, 0]] [[2, 0]]

/-- A north side cell (code 2, coverage 128) whose east neighbour is a west side cell
(code 8), which has no side towards it. -/
def eastSideRow : Gray2Vec_Grid := gridN 2 1 [[128, 128]] [[2, 8]]

/-- A 3x3 grid whose centre cell is a small corner with code 5 and coverage 50; its west
neighbour has code 5 and its south neighbour is a south side cell (code 6), which covers
the direction 6 but not the direction 2 facing the centre cell. -/
def awayFlankGrid : Gray2Vec_Grid :=
  gridN 3 3 [[0, 0, 0], [50, 50, 0], [0, 50, 0]] [[0, 0, 0], [5, 5, 0], [0, 6, 0]]

/-- The grid `awayFlankGrid` with the corner codes 5 replaced by 7 and the east neighbour in
the place of the west one: the centre cell has code 7, its east neighbour has code 7 and its
south neighbour the code 6. -/
def facingFlankGrid : Gray2Vec_Grid :=
  gridN 3 3 [[0, 0, 0], [0, 50, 50], [0, 50, 0]] [[0, 0, 0], [0, 7, 7], [0, 6, 0]]

/-- A single full cell (code 255, coverage 255). -/
def fullCell : Gray2Vec_Grid := gridF 1 1 [[255]] [[255]] [[0]] [[0]] [[-1]]

/-- A south side cell (code 6, coverage 128) whose west neighbour is empty (code 0). -/
def westTrivialRow : Gray2Vec_Grid := gridN 2 1 [[0, 128]] [[0, 6]]

/-- The grid `fullCell` with other values in the memory that follows its single cell: the
rasters have width 1 and height 1 and agree with those of `fullCell` inside the grid, and the
accessor returns the code 1 and the fractions 100 at the position (1,0) beyond the row. -/
def fullCellBeyond : Gray2Vec_Grid :=
  gridF 1 1 [[255, 40]] [[255, 1]] [[0, 100]] [[0, 100]] [[-1, -1]]

/-- A 3x3 grid whose centre cell is a small corner with code 1, coverage 40, fractions
`f1 = f2 = 100` and the correction scalar 520 that `TuneFractions` computes for it with the
tolerance 1/100; every other cell is empty. -/
def tunedCornerGrid : Gray2Vec_Grid :=
  gridF 3 3 [[0, 0, 0], [0, 40, 0], [0, 0, 0]] [[0, 0, 0], [0, 1, 0], [0, 0, 0]]
    [[0, 0, 0], [0, 100, 0], [0, 0, 0]] [[0, 0, 0], [0, 100, 0], [0, 0, 0]]
    [[-1, -1, -1], [-1, 520, -1], [-1, -1, -1]]

/-! ## Coverage bands -/

/-- The coverage bands of the classes: a small-corner code goes with a coverage in 1..84, a
side code with a coverage in 1..254 and a large-corner code with a coverage in 171..254. -/
def coverage_band (n s : Int) : Prop :=
  (n ∈ ([1, 3, 5, 7] : List Int) → 1 ≤ s ∧ s ≤ 84) ∧
  (n ∈ ([2, 4, 6, 8] : List Int) → 1 ≤ s ∧ s ≤ 254) ∧
  (n ∈ ([11, 13, 15, 17] : List Int) → 171 ≤ s ∧ s ≤ 254)

/-! ## The two values on a shared edge -/

/-- The values `(fA, fB)` of the vertex loop of `EmitPolygonToLayer` at the mid-edge vertex
on the edge shared by the orthogonally adjacent cells `p` and `n`: for horizontally adjacent
cells the results of the "right side" and "left side" switches at the vertical-middle vertex
between them (`fA` from the cell on the right, `fB` from the cell on the left), for
vertically adjacent cells the results of the "bottom side" and "top side" switches at the
horizontal-middle vertex between them (`fA` from the lower cell, `fB` from the upper
cell); each is `-1.0` when the cell exposes nothing on the edge. -/
def shared_edge_values (g : Gray2Vec_Grid) (p n : Int × Int) : ℚ × ℚ :=
  if n.1 = p.1 + 1 ∧ n.2 = p.2 then (right_side g n.1 n.2, left_side g n.1 n.2)
  else if n.1 = p.1 - 1 ∧ n.2 = p.2 then (right_side g p.1 p.2, left_side g p.1 p.2)
  else if n.1 = p.1 ∧ n.2 = p.2 + 1 then (bottom_side g n.1 n.2, top_side g n.1 n.2)
  else if n.1 = p.1 ∧ n.2 = p.2 - 1 then (bottom_side g p.1 p.2, top_side g p.1 p.2)
  else (-1, -1)

/-- The distance `|fA - fB|` of the two values on the edge shared by `p` and `n`. -/
def shared_edge_gap (g : Gray2Vec_Grid) (p n : Int × Int) : ℚ :=
  |(shared_edge_values g p n).1 - (shared_edge_values g p n).2|

/-- A north side cell (code 2, `f1 = 100`) whose east neighbour is a south side cell
(code 6, `f1 = 101`): the first sides of the two cells face each other. -/
def opposedRow : Gray2Vec_Grid :=
  gridF 2 1 [[128, 128]] [[2, 6]] [[100, 101]] [[150, 150]] [[-1, -1]]

/-! ## `RPolygon`: strings of segments (src/gdal_polygonize_mod.cpp)

A string `std::vector<int>` of interleaved coordinates `x0, y0, x1, y1, ...` is embedded as
the list of its coordinate pairs, and the member `aanXY` as the list of its strings.  The
members `dfPolyValue` and `nLastLineUpdated` play no part in the strings.  Every string is
created by `AddSegment` with two points and only grows afterwards; the comparisons below
find nothing on an empty string, which the C++ code must not index. -/

/-- The body of the loop of `RPolygon::AddSegment` for the string `anString` and the segment
from `a = (x1,y1)` to `b = (x2,y2)`: if the string ends with `a` the two points are swapped;
if the string then ends with `b` the point `a` is appended and the method returns (`some`
of the new string).  The result carries the possibly swapped points along.  The block that
would extend the last segment is commented out in the source. -/
def AddSegment_body (anString : List (Int × Int)) (a b : Int × Int) :
    Option (List (Int × Int)) × (Int × Int) × (Int × Int) :=
  let ab : (Int × Int) × (Int × Int) := if anString.getLast? = some a then (b, a) else (a, b)
  if anString.getLast? = some ab.2 then (some (anString ++ [ab.1]), ab.1, ab.2)
  else (none, ab.1, ab.2)

/-- The loop of `RPolygon::AddSegment` over the strings, followed by "Create a new string"
at the end of `aanXY` when the loop finds no string to extend. -/
def AddSegment_loop : List (List (Int × Int)) → Int × Int → Int × Int →
    List (List (Int × Int))
  | [], a, b => [[a, b]]
  | anString :: rest, a, b =>
    match AddSegment_body anString a b with
    | (some s, _, _) => s :: rest
    | (none, a', b') => anString :: AddSegment_loop rest a' b'

/-- The method `RPolygon::AddSegment(x1, y1, x2, y2)`. -/
def AddSegment (aanXY : List (List (Int × Int))) (x1 y1 x2 y2 : Int) :
    List (List (Int × Int)) :=
  AddSegment_loop aanXY (x1, y1) (x2, y2)

/-- The method `RPolygon::Merge(iBaseString, iSrcString, iDirection)`: the points
`1 .. n-1` of the source string (direction 1) or its points `n-2 .. 0` (any other direction)
are appended to the base string, the last string is copied over the source string unless the
source string is the last one, and `aanXY` is shortened by one. -/
def Merge (aanXY : List (List (Int × Int))) (iBaseString iSrcString : Nat)
    (iDirection : Int) : List (List (Int × Int)) :=
  let anBase := aanXY.getD iBaseString []
  let anString := aanXY.getD iSrcString []
  let added := if iDirection = 1 then anString.tail else anString.dropLast.reverse
  let a1 := aanXY.set iBaseString (anBase ++ added)
  let a2 := if iSrcString + 1 < a1.length then a1.set iSrcString (a1.getD (a1.length - 1) [])
    else a1
  a2.dropLast

/-- The inner `for` loop of `RPolygon::Coalesce` from the index `iString` on, for the base
string `iBaseString`: the strings afterwards and the flag `bMergeHappened`.  The first
argument bounds the number of iterations; `none` means that the bound was too small. -/
def Coalesce_for (iBaseString : Nat) :
    Nat → Nat → List (List (Int × Int)) → Bool → Option (List (List (Int × Int)) × Bool)
  | 0, iString, aanXY, bMergeHappened =>
    if iString < aanXY.length then none else some (aanXY, bMergeHappened)
  | fuel + 1, iString, aanXY, bMergeHappened =>
    if iString < aanXY.length then
      match (aanXY.getD iBaseString []).getLast? with
      | none => Coalesce_for iBaseString fuel (iString + 1) aanXY bMergeHappened
      | some e =>
        if (aanXY.getD iString []).head? = some e then
          Coalesce_for iBaseString fuel (iString + 1) (Merge aanXY iBaseString iString 1) true
        else if (aanXY.getD iString []).getLast? = some e then
          Coalesce_for iBaseString fuel (iString + 1) (Merge aanXY iBaseString iString (-1))
            true
        else Coalesce_for iBaseString fuel (iString + 1) aanXY bMergeHappened
    else some (aanXY, bMergeHappened)

/-- The loop `while( bMergeHappened )` of `RPolygon::Coalesce` for the base string
`iBaseString`; the first argument bounds the number of passes. -/
def Coalesce_while (iBaseString : Nat) :
    Nat → List (List (Int × Int)) → Option (List (List (Int × Int)))
  | 0, _ => none
  | fuel + 1, aanXY =>
    match Coalesce_for iBaseString aanXY.length (iBaseString + 1) aanXY false with
    | none => none
    | some (a, true) => Coalesce_while iBaseString fuel a
    | some (a, false) => some a

/-- The outer loop of `RPolygon::Coalesce` from the base string `iBaseString` on; the first
argument bounds the number of iterations. -/
def Coalesce_from : Nat → Nat → List (List (Int × Int)) → Option (List (List (Int × Int)))
  | 0, iBaseString, aanXY => if iBaseString < aanXY.length then none else some aanXY
  | fuel + 1, iBaseString, aanXY =>
    if iBaseString < aanXY.length then
      match Coalesce_while iBaseString (aanXY.length + 1) aanXY with
      | none => none
      | some a => Coalesce_from fuel (iBaseString + 1) a
    else some aanXY

/-- The method `RPolygon::Coalesce`: `none` would mean that one of the loops did not end
within the number of strings. -/
def Coalesce (aanXY : List (List (Int × Int))) : Option (List (List (Int × Int))) :=
  Coalesce_from aanXY.length 0 aanXY

/-- The strings of a polygon built by `AddSegment` from the segments in `segs`, added in
the order of the list. -/
def build_strings (segs : List ((Int × Int) × (Int × Int))) : List (List (Int × Int)) :=
  segs.foldl (fun a s => AddSegment a s.1.1 s.1.2 s.2.1 s.2.2) []

/-- The segments a string traverses, each as an unordered pair of its end points. -/
def string_segments : List (Int × Int) → List (Sym2 (Int × Int))
  | a :: b :: t => s(a, b) :: string_segments (b :: t)
  | _ => []

/-- The multiset of the segments the strings of a polygon traverse. -/
def polygon_segments (aanXY : List (List (Int × Int))) : Multiset (Sym2 (Int × Int)) :=
  ((aanXY.map string_segments).flatten : List (Sym2 (Int × Int)))

/-- The number of segments of `segs` that have the point `p` as an end point, a segment
from `p` to `p` counting twice. -/
def endpoint_count (p : Int × Int) (segs : List ((Int × Int) × (Int × Int))) : Nat :=
  segs.countP (fun s => s.1 = p) + segs.countP (fun s => s.2 = p)

/-- The four boundary segments of the unit pixel (0,0) as `AddEdges` adds them for the rows
`iY = 0` (upper and left edge, then right edge) and `iY = 1` (lower edge). -/
def pixelSegments : List ((Int × Int) × (Int × Int)) :=
  [((0, 0), (0, 1)), ((0, 0), (1, 0)), ((1, 0), (1, 1)), ((0, 1), (1, 1))]

/-- Whether the string starts and ends with the same point (and has a point at all). -/
def closed_string (s : List (Int × Int)) : Prop := s ≠ [] ∧ s.head? = s.getLast?

/-- The number of ends (first point, last point) of a string that are the point `p`. -/
def string_ends (p : Int × Int) (s : List (Int × Int)) : Nat :=
  (if s.head? = some p then 1 else 0) + (if s.getLast? = some p then 1 else 0)

/-- The number of end points of the unordered segment `e` that are the point `p`. -/
def segment_ends (p : Int × Int) (e : Sym2 (Int × Int)) : Nat :=
  Sym2.lift ⟨fun a b => (if a = p then 1 else 0) + (if b = p then 1 else 0),
    fun _ _ => Nat.add_comm _ _⟩ e

/-- No end of the string `s` is the last point of the string `base`. -/
def no_join (base s : List (Int × Int)) : Prop :=
  ∀ e, base.getLast? = some e → s.head? ≠ some e ∧ s.getLast? ≠ some e

/-! ## Emission of a ring

The vertex loop of `EmitPolygonToLayer` runs over one string of the coalesced polygon,
places every vertex with `EmitVertex`, skips the vertices for which the body executes
`continue`, and hands the placed coordinates to the geotransform. -/

/-- The last statements of the body of the vertex loop of `EmitPolygonToLayer`: the point
`(dfX, dfY)` computed from the placed coordinates `(fx, fy)` with the six coefficients of
`m_GeoTransform`. -/
def EmitPoint (m_GeoTransform : Nat → ℚ) (p : ℚ × ℚ) : ℚ × ℚ :=
  (m_GeoTransform 0 + p.1 * m_GeoTransform 1 + p.2 * m_GeoTransform 2,
    m_GeoTransform 3 + p.1 * m_GeoTransform 4 + p.2 * m_GeoTransform 5)

/-- The vertex loop of `EmitPolygonToLayer` over the string `anString`: the points added
to the ring, in order. -/
def EmitRing (g : Gray2Vec_Grid) (m_GeoTransform : Nat → ℚ) (anString : List (Int × Int)) :
    List (ℚ × ℚ) :=
  (anString.filterMap (fun v => EmitVertex g v.1 v.2)).map (EmitPoint m_GeoTransform)

/-- The geotransform with the coefficients 0, 1, 0, 0, 0, 1, which maps placed coordinates
to themselves. -/
def identityTransform : Nat → ℚ := fun i => if i = 1 ∨ i = 5 then 1 else 0

/-- Two lattice points one unit segment apart. -/
def unit_step (a b : Int × Int) : Prop := |a.1 - b.1| + |a.2 - b.2| = 1

instance (a b : Int × Int) : Decidable (unit_step a b) := by
  unfold unit_step
  infer_instance

/-- No vertex of the string is followed, two places later, by the same vertex: the string
never runs back along the segment it has just traversed. -/
def no_backtrack (anString : List (Int × Int)) : Prop :=
  ∀ t ∈ anString.zip (anString.drop 2), t.1 ≠ t.2

instance (anString : List (Int × Int)) : Decidable (no_backtrack anString) := by
  unfold no_backtrack
  infer_instance

/-- The fractions of the cell `c` keep every vertex that depends on them off the
neighbouring lattice lines: if the code of the cell is one of the codes with sides, `f1`
and `f2` lie in 1..254, `f3` is not 0, `f3` of a side cell is not 255, and the products
`f1*f3` and `f2*f3` of a small corner are not `255*255`. -/
def fractions_inside (g : Gray2Vec_Grid) (c : Int × Int) : Prop :=
  g.m_img_n.pix c.1 c.2 ∈ nontrivial →
    1 ≤ g.m_img_f1.pix c.1 c.2 ∧ g.m_img_f1.pix c.1 c.2 ≤ 254
    ∧ 1 ≤ g.m_img_f2.pix c.1 c.2 ∧ g.m_img_f2.pix c.1 c.2 ≤ 254
    ∧ g.m_img_f3.pix c.1 c.2 ≠ 0
    ∧ (g.m_img_n.pix c.1 c.2 ∈ ([2, 4, 6, 8] : List Int) → g.m_img_f3.pix c.1 c.2 ≠ 255)
    ∧ (g.m_img_n.pix c.1 c.2 ∈ ([1, 3, 5, 7] : List Int) →
        g.m_img_f1.pix c.1 c.2 * g.m_img_f3.pix c.1 c.2 ≠ 65025
        ∧ g.m_img_f2.pix c.1 c.2 * g.m_img_f3.pix c.1 c.2 ≠ 65025)

instance (g : Gray2Vec_Grid) (c : Int × Int) : Decidable (fractions_inside g c) := by
  unfold fractions_inside
  infer_instance

/-- The four unit segments around the sub-sample with the corners `(2,2)` and `(3,3)`, the
top left quarter of the cell `(1,1)`. -/
def cornerPixelSegments : List ((Int × Int) × (Int × Int)) :=
  [((2, 2), (2, 3)), ((2, 2), (3, 2)), ((3, 2), (3, 3)), ((2, 3), (3, 3))]

/-- A 3x3 grid whose centre cell is a small corner with code 1, coverage 40 and the
fractions `f1 = 0`, `f2 = 100`, `f3 = 255`, all within 0..255; every other cell is empty. -/
def collapsedCornerGrid : Gray2Vec_Grid :=
  gridF 3 3 [[0, 0, 0], [0, 40, 0], [0, 0, 0]] [[0, 0, 0], [0, 1, 0], [0, 0, 0]]
    [[0, 0, 0], [0, 0, 0], [0, 0, 0]] [[0, 0, 0], [0, 100, 0], [0, 0, 0]]
    [[-1, -1, -1], [-1, 255, -1], [-1, -1, -1]]


/-! ## The ring of a single full cell -/

/-- The eight unit segments along the outline of the 2x2 block of sub-samples of the cell
`(0,0)`, the only polygon of a 1 x 1 grid whose cell is full. -/
def fullCellSegments : List ((Int × Int) × (Int × Int)) :=
  [((0, 0), (1, 0)), ((1, 0), (2, 0)), ((0, 0), (0, 1)), ((2, 0), (2, 1)),
   ((0, 1), (0, 2)), ((2, 1), (2, 2)), ((0, 2), (1, 2)), ((1, 2), (2, 2))]


/-! ## The values computed for the fractions before they are stored

`set_fraction` and `TuneFractions` assign `double` values to pixels of the
`CImg<unsigned char>` rasters `m_img_f1` and `m_img_f2`.  The functions of this section
give those values, converted to an integer (truncation toward zero) but not yet reduced to
an 8-bit value. -/

theorem mem_forXY (im : CImg) (x y : Int) :
    (x, y) ∈ forXY im ↔ (0 ≤ x ∧ x < im.width) ∧ (0 ≤ y ∧ y < im.height) := by
  unfold forXY
  simp only [List.mem_flatMap, List.mem_map, List.mem_range, Prod.mk.injEq]
  constructor
  · rintro ⟨b, hb, a, ha, rfl, rfl⟩
    exact ⟨⟨Int.natCast_nonneg a, by exact_mod_cast ha⟩, ⟨Int.natCast_nonneg b, by exact_mod_cast hb⟩⟩
  · rintro ⟨⟨hx0, hx⟩, ⟨hy0, hy⟩⟩
    exact ⟨y.toNat, by omega, x.toNat, by omega, by omega, by omega⟩

theorem Analyze_fold (l : List (Int × Int)) (g : Gray2Vec_Grid) :
    (l.foldl Analyze_step g).m_img = g.m_img ∧ (l.foldl Analyze_step g).m_img_s = g.m_img_s ∧
    ∀ x y, (l.foldl Analyze_step g).m_img_n.pix x y
      = if (x, y) ∈ l then Analyze_at g x y else g.m_img_n.pix x y := by
  induction l generalizing g with
  | nil => simp
  | cons c l ih =>
    obtain ⟨h1, h2, h3⟩ := ih (Analyze_step g c)
    refine ⟨by rw [List.foldl_cons, h1]; rfl, by rw [List.foldl_cons, h2]; rfl, ?_⟩
    intro x y
    rw [List.foldl_cons, h3]
    have hA : Analyze_at (Analyze_step g c) x y = Analyze_at g x y := rfl
    rw [hA]
    by_cases hm : (x, y) ∈ l
    · simp [hm]
    · by_cases hc : (x, y) = c
      · subst hc
        simp [hm, Analyze_step, CImg.set]
      · have hc2 : ¬ (x = c.1 ∧ y = c.2) := fun h => hc (Prod.ext h.1 h.2)
        simp [hm, hc, Analyze_step, CImg.set, hc2]

theorem Analyze_pix (g : Gray2Vec_Grid) (x y : Int)
    (hx : 0 ≤ x ∧ x < g.m_img_s.width) (hy : 0 ≤ y ∧ y < g.m_img_s.height) :
    (Analyze g).m_img_n.pix x y = Analyze_at g x y := by
  unfold Analyze
  rw [(Analyze_fold _ g).2.2, if_pos ((mem_forXY _ x y).2 ⟨hx, hy⟩)]

theorem Analyze_cell_zero (tl tr bl br : Int) : Analyze_cell 0 tl tr bl br = 0 := by
  simp [Analyze_cell]

theorem Analyze_cell_full (tl tr bl br : Int) : Analyze_cell 255 tl tr bl br = 255 := by
  simp [Analyze_cell]

theorem Analyze_cell_small (s tl tr bl br : Int) (h0 : s ≠ 0) (h : s < 85) :
    Analyze_cell s tl tr bl br =
      if tl > tr then
        if tl > bl then (if tl > br then 1 else 5) else (if bl > br then 7 else 5)
      else
        if tr > bl then (if tr > br then 3 else 5) else (if bl > br then 7 else 5) := by
  have h255 : s ≠ 255 := by omega
  have h1 : (255 : Int) / 3 = 85 := by norm_num
  simp only [Analyze_cell, h1, if_pos h0, if_neg h255, if_pos h]

theorem Analyze_cell_big (s tl tr bl br : Int) (h255 : s ≠ 255) (h : 170 < s) :
    Analyze_cell s tl tr bl br =
      if tl > tr then
        if tl > bl then (if tl > br then 11 else 15) else (if bl > br then 17 else 15)
      else
        if tr > bl then (if tr > br then 13 else 15) else (if bl > br then 17 else 15) := by
  have h0 : s ≠ 0 := by omega
  have h85 : ¬ s < 85 := by omega
  have h1 : (255 : Int) / 3 = 85 := by norm_num
  have h2 : (2 * 255 : Int) / 3 = 170 := by norm_num
  have h' : s > 170 := h
  simp only [Analyze_cell, h1, h2, if_pos h0, if_neg h255, if_neg h85, if_pos h']

theorem Analyze_cell_medium (s tl tr bl br : Int) (hl : 85 ≤ s) (hu : s ≤ 170) :
    Analyze_cell s tl tr bl br =
      if tl + tr > br + tr then
        if tl + tr > br + bl then (if tl + tr > tl + bl then 2 else 8)
        else (if br + bl > tl + bl then 6 else 8)
      else
        if br + tr > br + bl then (if br + tr > tl + bl then 4 else 8)
        else (if br + bl > tl + bl then 6 else 8) := by
  have h0 : s ≠ 0 := by omega
  have h255 : s ≠ 255 := by omega
  have h85 : ¬ s < 85 := by omega
  have h170 : ¬ s > 170 := by omega
  have h1 : (255 : Int) / 3 = 85 := by norm_num
  have h2 : (2 * 255 : Int) / 3 = 170 := by norm_num
  simp only [Analyze_cell, h1, h2, if_pos h0, if_neg h255, if_neg h85, if_neg h170, if_pos hu]

theorem Analyze_cell_mem (s tl tr bl br : Int) :
    Analyze_cell s tl tr bl br ∈ codes ∧
    (Analyze_cell s tl tr bl br = 0 ↔ s = 0) ∧ (Analyze_cell s tl tr bl br = 255 ↔ s = 255) := by
  by_cases h0 : s = 0
  · subst h0; rw [Analyze_cell_zero]; simp [codes]
  by_cases h255 : s = 255
  · subst h255; rw [Analyze_cell_full]; simp [codes]
  by_cases hA : s < 85
  · rw [Analyze_cell_small s tl tr bl br h0 hA]
    split_ifs <;> simp [codes, h0, h255]
  by_cases hB : 170 < s
  · rw [Analyze_cell_big s tl tr bl br h255 hB]
    split_ifs <;> simp [codes, h0, h255]
  · rw [Analyze_cell_medium s tl tr bl br (by omega) (by omega)]
    split_ifs <;> simp [codes, h0, h255]


/-- C1: for every cell of the coverage grid, `Analyze` writes exactly the value of the
per-cell classifier applied to the cell's coverage value and its four fine samples (so the
code depends on nothing else); that value is one of the codes
0, 1, 2, 3, 4, 5, 6, 7, 8, 11, 13, 15, 17, 255, it is 0 exactly when the coverage is 0 and
255 exactly when the coverage is 255. -/
theorem C1_classifier_total_pure (g : Gray2Vec_Grid) (x y : Int)
    (hx : 0 ≤ x ∧ x < g.m_img_s.width) (hy : 0 ≤ y ∧ y < g.m_img_s.height) :
    (Analyze g).m_img_n.pix x y
        = Analyze_cell (g.m_img_s.pix x y)
            (g.m_img.pix (x * 2) (y * 2)) (g.m_img.pix (x * 2 + 1) (y * 2))
            (g.m_img.pix (x * 2) (y * 2 + 1)) (g.m_img.pix (x * 2 + 1) (y * 2 + 1)) ∧
    (Analyze g).m_img_n.pix x y ∈ codes ∧
    ((Analyze g).m_img_n.pix x y = 0 ↔ g.m_img_s.pix x y = 0) ∧
    ((Analyze g).m_img_n.pix x y = 255 ↔ g.m_img_s.pix x y = 255) := by
  rw [Analyze_pix g x y hx hy]
  exact ⟨rfl, Analyze_cell_mem _ _ _ _ _⟩

/-- C1 witness: the cell (1,0) of the scenario grid. -/
theorem C1_classifier_total_pure_witness :
    (Analyze scenarioGrid).m_img_n.pix 1 0
        = Analyze_cell (scenarioGrid.m_img_s.pix 1 0)
            (scenarioGrid.m_img.pix (1 * 2) (0 * 2)) (scenarioGrid.m_img.pix (1 * 2 + 1) (0 * 2))
            (scenarioGrid.m_img.pix (1 * 2) (0 * 2 + 1))
            (scenarioGrid.m_img.pix (1 * 2 + 1) (0 * 2 + 1)) ∧
    (Analyze scenarioGrid).m_img_n.pix 1 0 ∈ codes ∧
    ((Analyze scenarioGrid).m_img_n.pix 1 0 = 0 ↔ scenarioGrid.m_img_s.pix 1 0 = 0) ∧
    ((Analyze scenarioGrid).m_img_n.pix 1 0 = 255 ↔ scenarioGrid.m_img_s.pix 1 0 = 255) :=
  C1_classifier_total_pure scenarioGrid 1 0 (by decide) (by decide)

/-- C2 (as stated, refuted): on the scenario grid `[0,128,128,255]` with uniform fine
samples the cells (1,0) and (0,1) have four equal side sums, and `Analyze` gives them the
W-side code 8, not the N-side code 2. -/
theorem C2_counterexample :
    (Analyze scenarioGrid).m_img_n.pix 1 0 = 8 ∧ (Analyze scenarioGrid).m_img_n.pix 0 1 = 8 ∧
    (Analyze scenarioGrid).m_img_n.pix 1 0 ≠ 2 ∧ (Analyze scenarioGrid).m_img_n.pix 0 1 ≠ 2 ∧
    Analyze_cell 128 128 128 128 128 ≠ 2 := by
  rw [Analyze_pix scenarioGrid 1 0 (by decide) (by decide),
    Analyze_pix scenarioGrid 0 1 (by decide) (by decide)]
  decide

/-- C2 (amended): in the middle band (85 <= v <= 170) ties between side sums resolve to
the LATER side of the order N, E, S, W: the classifier outputs the last side in that order
whose sum is not exceeded by any other side sum (N = TL+TR, E = TR+BR, S = BL+BR,
W = TL+BL).  In particular, when all four side sums are equal the output is the W-side
code 8. -/
theorem C2_middle_band_last_maximal_side (s tl tr bl br : Int) (hl : 85 ≤ s) (hu : s ≤ 170) :
    (Analyze_cell s tl tr bl br = 2 ↔
      tl + tr > br + tr ∧ tl + tr > br + bl ∧ tl + tr > tl + bl) ∧
    (Analyze_cell s tl tr bl br = 4 ↔
      br + tr ≥ tl + tr ∧ br + tr > br + bl ∧ br + tr > tl + bl) ∧
    (Analyze_cell s tl tr bl br = 6 ↔
      br + bl ≥ tl + tr ∧ br + bl ≥ br + tr ∧ br + bl > tl + bl) ∧
    (Analyze_cell s tl tr bl br = 8 ↔
      tl + bl ≥ tl + tr ∧ tl + bl ≥ br + tr ∧ tl + bl ≥ br + bl) ∧
    (tl + tr = br + tr ∧ br + tr = br + bl ∧ br + bl = tl + bl →
      Analyze_cell s tl tr bl br = 8) := by
  rw [Analyze_cell_medium s tl tr bl br hl hu]
  split_ifs <;> refine ⟨?_, ?_, ?_, ?_, ?_⟩ <;> first | (constructor <;> intro h <;> omega) | (intro h; omega)

/-- C2 witness: coverage 128 with four fine samples equal to 128. -/
theorem C2_middle_band_last_maximal_side_witness :
    (Analyze_cell 128 128 128 128 128 = 2 ↔
      (128 : Int) + 128 > 128 + 128 ∧ (128 : Int) + 128 > 128 + 128 ∧
        (128 : Int) + 128 > 128 + 128) ∧
    (Analyze_cell 128 128 128 128 128 = 4 ↔
      (128 : Int) + 128 ≥ 128 + 128 ∧ (128 : Int) + 128 > 128 + 128 ∧
        (128 : Int) + 128 > 128 + 128) ∧
    (Analyze_cell 128 128 128 128 128 = 6 ↔
      (128 : Int) + 128 ≥ 128 + 128 ∧ (128 : Int) + 128 ≥ 128 + 128 ∧
        (128 : Int) + 128 > 128 + 128) ∧
    (Analyze_cell 128 128 128 128 128 = 8 ↔
      (128 : Int) + 128 ≥ 128 + 128 ∧ (128 : Int) + 128 ≥ 128 + 128 ∧
        (128 : Int) + 128 ≥ 128 + 128) ∧
    ((128 : Int) + 128 = 128 + 128 ∧ (128 : Int) + 128 = 128 + 128 ∧
        (128 : Int) + 128 = 128 + 128 →
      Analyze_cell 128 128 128 128 128 = 8) :=
  C2_middle_band_last_maximal_side 128 128 128 128 128 (by decide) (by decide)

/-- C3: a strictly greatest candidate always wins.  For 1 <= v <= 84, if one fine
sub-sample is strictly greater than the other three, the code is that sub-sample's
small-corner code (TL->1, TR->3, BR->5, BL->7); for 85 <= v <= 170, if one side sum
(N = TL+TR, E = TR+BR, S = BL+BR, W = TL+BL) is strictly greater than the other three, the
code is that side's code (N->2, E->4, S->6, W->8). -/
theorem C3_strict_maximum_wins (s tl tr bl br : Int) (hl : 1 ≤ s) (hu : s ≤ 170) :
    (s ≤ 84 →
      (tl > tr ∧ tl > bl ∧ tl > br → Analyze_cell s tl tr bl br = 1) ∧
      (tr > tl ∧ tr > bl ∧ tr > br → Analyze_cell s tl tr bl br = 3) ∧
      (br > tl ∧ br > tr ∧ br > bl → Analyze_cell s tl tr bl br = 5) ∧
      (bl > tl ∧ bl > tr ∧ bl > br → Analyze_cell s tl tr bl br = 7)) ∧
    (85 ≤ s →
      (tl + tr > tr + br ∧ tl + tr > bl + br ∧ tl + tr > tl + bl →
        Analyze_cell s tl tr bl br = 2) ∧
      (tr + br > tl + tr ∧ tr + br > bl + br ∧ tr + br > tl + bl →
        Analyze_cell s tl tr bl br = 4) ∧
      (bl + br > tl + tr ∧ bl + br > tr + br ∧ bl + br > tl + bl →
        Analyze_cell s tl tr bl br = 6) ∧
      (tl + bl > tl + tr ∧ tl + bl > tr + br ∧ tl + bl > bl + br →
        Analyze_cell s tl tr bl br = 8)) := by
  constructor
  · intro h84
    rw [Analyze_cell_small s tl tr bl br (by omega) (by omega)]
    split_ifs <;> refine ⟨?_, ?_, ?_, ?_⟩ <;> intro h <;> omega
  · intro h85
    rw [Analyze_cell_medium s tl tr bl br h85 hu]
    split_ifs <;> refine ⟨?_, ?_, ?_, ?_⟩ <;> intro h <;> omega

/-- C3 witness: coverage 20 with TR = 80 strictly greatest gives code 3. -/
theorem C3_strict_maximum_wins_witness :
    Analyze_cell 20 0 80 0 0 = 3 :=
  ((C3_strict_maximum_wins 20 0 80 0 0 (by decide) (by decide)).1 (by decide)).2.1
    (by decide)

/-- C4 (as stated, refuted): with coverage 25 and the two diagonal samples TL and BR tied
for the greatest intensity (50, 0, 0, 50) the classifier outputs the small-corner code 5,
which is none of the side codes 2, 4, 6, 8. -/
theorem C4_counterexample :
    (0 : Int) < 25 ∧ (25 : Int) < 85 ∧ Analyze_cell 25 50 0 0 50 = 5 ∧
    Analyze_cell 25 50 0 0 50 ∉ ([2, 4, 6, 8] : List Int) := by
  decide

/-- C4 (amended): in the small band (0 < v < 85) the classifier always outputs a
small-corner code (1, 3, 5 or 7) and never a side code; when sub-samples tie exactly for
the greatest intensity, the code is the corner of the tied sample that comes last in the
cascade order TL, TR, BL, BR; in particular a TL/BR diagonal tie gives 5 and a TR/BL
diagonal tie gives 7. -/
theorem C4_small_band_tie_is_last_corner (s tl tr bl br : Int) (hl : 0 < s) (hu : s < 85) :
    Analyze_cell s tl tr bl br ∈ ([1, 3, 5, 7] : List Int) ∧
    Analyze_cell s tl tr bl br ∉ ([2, 4, 6, 8] : List Int) ∧
    (Analyze_cell s tl tr bl br = 1 ↔ tl > tr ∧ tl > bl ∧ tl > br) ∧
    (Analyze_cell s tl tr bl br = 3 ↔ tr ≥ tl ∧ tr > bl ∧ tr > br) ∧
    (Analyze_cell s tl tr bl br = 7 ↔ bl ≥ tl ∧ bl ≥ tr ∧ bl > br) ∧
    (Analyze_cell s tl tr bl br = 5 ↔ br ≥ tl ∧ br ≥ tr ∧ br ≥ bl) ∧
    (tl = br ∧ tl > tr ∧ tl > bl → Analyze_cell s tl tr bl br = 5) ∧
    (tr = bl ∧ tr > tl ∧ tr > br → Analyze_cell s tl tr bl br = 7) := by
  rw [Analyze_cell_small s tl tr bl br (by omega) hu]
  split_ifs <;> refine ⟨by simp, by simp, ?_, ?_, ?_, ?_, ?_, ?_⟩ <;>
    first | (constructor <;> intro h <;> omega) | (intro h; omega)

/-- C4 witness: coverage 25 with samples (50, 0, 0, 50). -/
theorem C4_small_band_tie_is_last_corner_witness :
    Analyze_cell 25 50 0 0 50 ∈ ([1, 3, 5, 7] : List Int) ∧
    Analyze_cell 25 50 0 0 50 ∉ ([2, 4, 6, 8] : List Int) ∧
    (Analyze_cell 25 50 0 0 50 = 1 ↔ (50 : Int) > 0 ∧ (50 : Int) > 0 ∧ (50 : Int) > 50) ∧
    (Analyze_cell 25 50 0 0 50 = 3 ↔ (0 : Int) ≥ 50 ∧ (0 : Int) > 0 ∧ (0 : Int) > 50) ∧
    (Analyze_cell 25 50 0 0 50 = 7 ↔ (0 : Int) ≥ 50 ∧ (0 : Int) ≥ 0 ∧ (0 : Int) > 50) ∧
    (Analyze_cell 25 50 0 0 50 = 5 ↔ (50 : Int) ≥ 50 ∧ (50 : Int) ≥ 0 ∧ (50 : Int) ≥ 0) ∧
    ((50 : Int) = 50 ∧ (50 : Int) > 0 ∧ (50 : Int) > 0 → Analyze_cell 25 50 0 0 50 = 5) ∧
    ((0 : Int) = 0 ∧ (0 : Int) > 50 ∧ (0 : Int) > 50 → Analyze_cell 25 50 0 0 50 = 7) :=
  C4_small_band_tie_is_last_corner 25 50 0 0 50 (by decide) (by decide)

/-- C5 (as stated, refuted): with coverage 175 and samples TL = TR = BL = 200, BR = 100
the bottom-right sample is strictly the lowest, yet the classifier outputs 17 (missing
top-right), not 11 (missing bottom-right). -/
theorem C5_counterexample :
    (170 : Int) < 175 ∧ (175 : Int) < 255 ∧
    (100 : Int) < 200 ∧ Analyze_cell 175 200 200 200 100 = 17 ∧
    Analyze_cell 175 200 200 200 100 ≠ 11 := by
  decide

/-- C5 (amended): in the large band (170 < v < 255), if one fine sub-sample is strictly
GREATER than the other three, the classifier outputs the large-corner code whose missing
sub-sample is the one diagonally opposite to it: TL greatest -> 11 (missing bottom-right),
TR greatest -> 13 (missing bottom-left), BR greatest -> 15 (missing top-left),
BL greatest -> 17 (missing top-right).  In every case the output is a large-corner
code. -/
theorem C5_large_band_opposite_of_greatest (s tl tr bl br : Int)
    (hl : 170 < s) (hu : s < 255) :
    Analyze_cell s tl tr bl br ∈ ([11, 13, 15, 17] : List Int) ∧
    (tl > tr ∧ tl > bl ∧ tl > br → Analyze_cell s tl tr bl br = 11) ∧
    (tr > tl ∧ tr > bl ∧ tr > br → Analyze_cell s tl tr bl br = 13) ∧
    (br > tl ∧ br > tr ∧ br > bl → Analyze_cell s tl tr bl br = 15) ∧
    (bl > tl ∧ bl > tr ∧ bl > br → Analyze_cell s tl tr bl br = 17) := by
  rw [Analyze_cell_big s tl tr bl br (by omega) hl]
  split_ifs <;> refine ⟨by simp, ?_, ?_, ?_, ?_⟩ <;> intro h <;> omega

/-- C5 witness: coverage 200 with TL = 255 strictly greatest gives code 11. -/
theorem C5_large_band_opposite_of_greatest_witness :
    Analyze_cell 200 255 200 200 145 = 11 :=
  (C5_large_band_opposite_of_greatest 200 255 200 200 145 (by decide) (by decide)).2.1
    (by decide)

theorem check_cover_zero (d : Int) : check_cover 0 d = false := by
  simp [check_cover]

theorem check_cover_full (d : Int) : check_cover 255 d = true := by
  simp [check_cover]

/-- C6: for every code n and every direction d in 1..8, `check_cover n d` is true exactly
when d belongs to the covered-direction set of n listed by the specification
(1->{1,2}, 3->{2,3,4}, 5->{4,5,6}, 7->{6,7,8}, 2->{1,2,3}, 4->{3,4,5}, 6->{5,6,7},
8->{7,8,1}, 11->{1,2,3,7}, 13->{1,2,3,4,5}, 15->{3,4,5,6,7}, 17->{1,5,6,7,8}); for code 0
it is false for every d and for code 255 it is true for every d. -/
theorem C6_check_cover_table (n d : Int) (hn : n ∈ codes) (hd1 : 1 ≤ d) (hd8 : d ≤ 8) :
    (check_cover n d = true ↔ d ∈ spec_covers n) ∧
    (∀ e : Int, check_cover 0 e = false) ∧ (∀ e : Int, check_cover 255 e = true) := by
  refine ⟨?_, check_cover_zero, check_cover_full⟩
  simp only [codes, List.mem_cons, List.mem_singleton, List.not_mem_nil, or_false] at hn
  rcases hn with rfl | rfl | rfl | rfl | rfl | rfl | rfl | rfl | rfl | rfl | rfl | rfl | rfl | rfl <;>
    interval_cases d <;> decide

/-- C6 witness: code 11 covers direction 7. -/
theorem C6_check_cover_table_witness :
    (check_cover 11 7 = true ↔ (7 : Int) ∈ spec_covers 11) ∧
    (∀ e : Int, check_cover 0 e = false) ∧ (∀ e : Int, check_cover 255 e = true) :=
  C6_check_cover_table 11 7 (by decide) (by decide) (by decide)


theorem put4_block (h : CImg) (px py : Int) (p : Int × Int × Int × Int) :
    block_of (put4 h px py p) px py = p := by
  obtain ⟨a, b, c, d⟩ := p
  simp [block_of, put4, CImg.set]

theorem put4_pix_ne (h : CImg) (px py : Int) (p : Int × Int × Int × Int) (a b : Int)
    (hne : a / 2 ≠ px ∨ b / 2 ≠ py) : (put4 h px py p).pix a b = h.pix a b := by
  simp only [put4, CImg.set]
  split_ifs with h1 h2 h3 h4
  · omega
  · omega
  · omega
  · omega
  · rfl

theorem put4_block_ne (h : CImg) (px py x y : Int) (p : Int × Int × Int × Int)
    (hne : ¬ (x = px ∧ y = py)) :
    block_of (put4 h px py p) x y = block_of h x y := by
  simp only [block_of]
  rw [put4_pix_ne h px py p (x * 2) (y * 2) (by omega),
    put4_pix_ne h px py p (x * 2 + 1) (y * 2) (by omega),
    put4_pix_ne h px py p (x * 2) (y * 2 + 1) (by omega),
    put4_pix_ne h px py p (x * 2 + 1) (y * 2 + 1) (by omega)]

theorem Vectorize_fold (g : Gray2Vec_Grid) (l : List (Int × Int)) (h : CImg) (x y : Int) :
    block_of (l.foldl (Vectorize_step g) h) x y
      = if (x, y) ∈ l then
          (Vectorize_block (g.m_img_s.pix x y) (g.m_img_n.pix x y)).getD (block_of h x y)
        else block_of h x y := by
  induction l generalizing h with
  | nil => simp
  | cons c l ih =>
    rw [List.foldl_cons, ih]
    have hstep : block_of (Vectorize_step g h c) x y
        = if (x, y) = c then
            (Vectorize_block (g.m_img_s.pix x y) (g.m_img_n.pix x y)).getD (block_of h x y)
          else block_of h x y := by
      by_cases hc : (x, y) = c
      · subst hc
        simp only [Vectorize_step, if_true]
        cases hb : Vectorize_block (g.m_img_s.pix x y) (g.m_img_n.pix x y) with
        | none => simp
        | some p => simp [put4_block]
      · rw [if_neg hc]
        have hc2 : ¬ (x = c.1 ∧ y = c.2) := fun e => hc (Prod.ext e.1 e.2)
        simp only [Vectorize_step]
        cases hb : Vectorize_block (g.m_img_s.pix c.1 c.2) (g.m_img_n.pix c.1 c.2) with
        | none => rfl
        | some p => exact put4_block_ne h c.1 c.2 x y p hc2
    rw [hstep]
    by_cases hm : (x, y) ∈ l
    · simp only [hm, List.mem_cons, or_true, if_true]
      cases hb : Vectorize_block (g.m_img_s.pix x y) (g.m_img_n.pix x y) with
      | none => simp only [Option.getD_none]; split_ifs <;> rfl
      | some p => simp
    · by_cases hc : (x, y) = c
      · subst hc
        simp [hm]
      · simp [hm, hc]

theorem Vectorize_subgrid_block (g : Gray2Vec_Grid) (h : CImg) (x y : Int)
    (hx : 0 ≤ x ∧ x < g.m_img_s.width) (hy : 0 ≤ y ∧ y < g.m_img_s.height) :
    block_of (Vectorize_subgrid g h) x y
      = (Vectorize_block (g.m_img_s.pix x y) (g.m_img_n.pix x y)).getD (block_of h x y) := by
  unfold Vectorize_subgrid
  rw [Vectorize_fold, if_pos ((mem_forXY _ x y).2 ⟨hx, hy⟩)]

/-- C7: `Vectorize` fills each coarse cell's 2x2 block of the synthetic mask (listed as
top-left, top-right, bottom-left, bottom-right) with the pattern of the cell: all four
unset when the coverage is 0, all four set when the coverage is 255, otherwise by code:
1 = TL only, 3 = TR only, 5 = BR only, 7 = BL only; 2 = TL+TR, 4 = TR+BR, 6 = BL+BR,
8 = TL+BL; 11 = all but BR, 13 = all but BL, 15 = all but TL, 17 = all but TR. -/
theorem C7_subgrid_patterns (g : Gray2Vec_Grid) (img_h : CImg) (x y : Int)
    (hx : 0 ≤ x ∧ x < g.m_img_s.width) (hy : 0 ≤ y ∧ y < g.m_img_s.height) :
    (g.m_img_s.pix x y = 0 → block_of (Vectorize_subgrid g img_h) x y = (0, 0, 0, 0)) ∧
    (g.m_img_s.pix x y = 255 →
      block_of (Vectorize_subgrid g img_h) x y = (255, 255, 255, 255)) ∧
    (g.m_img_s.pix x y ≠ 0 → g.m_img_s.pix x y ≠ 255 →
      (g.m_img_n.pix x y = 1 → block_of (Vectorize_subgrid g img_h) x y = (255, 0, 0, 0)) ∧
      (g.m_img_n.pix x y = 3 → block_of (Vectorize_subgrid g img_h) x y = (0, 255, 0, 0)) ∧
      (g.m_img_n.pix x y = 5 → block_of (Vectorize_subgrid g img_h) x y = (0, 0, 0, 255)) ∧
      (g.m_img_n.pix x y = 7 → block_of (Vectorize_subgrid g img_h) x y = (0, 0, 255, 0)) ∧
      (g.m_img_n.pix x y = 2 → block_of (Vectorize_subgrid g img_h) x y = (255, 255, 0, 0)) ∧
      (g.m_img_n.pix x y = 4 → block_of (Vectorize_subgrid g img_h) x y = (0, 255, 0, 255)) ∧
      (g.m_img_n.pix x y = 6 → block_of (Vectorize_subgrid g img_h) x y = (0, 0, 255, 255)) ∧
      (g.m_img_n.pix x y = 8 → block_of (Vectorize_subgrid g img_h) x y = (255, 0, 255, 0)) ∧
      (g.m_img_n.pix x y = 11 →
        block_of (Vectorize_subgrid g img_h) x y = (255, 255, 255, 0)) ∧
      (g.m_img_n.pix x y = 13 →
        block_of (Vectorize_subgrid g img_h) x y = (255, 255, 0, 255)) ∧
      (g.m_img_n.pix x y = 15 →
        block_of (Vectorize_subgrid g img_h) x y = (0, 255, 255, 255)) ∧
      (g.m_img_n.pix x y = 17 →
        block_of (Vectorize_subgrid g img_h) x y = (255, 0, 255, 255))) := by
  rw [Vectorize_subgrid_block g img_h x y hx hy]
  refine ⟨fun h0 => by simp [Vectorize_block, h0], fun h1 => by simp [Vectorize_block, h1],
    fun h0 h1 => ?_⟩
  refine ⟨?_, ?_, ?_, ?_, ?_, ?_, ?_, ?_, ?_, ?_, ?_, ?_⟩ <;> intro hn <;>
    simp [Vectorize_block, h0, h1, hn]

/-- C7 witness: the cell (1,0) of the analysed scenario grid has coverage 128 and code 8,
and its block is TL+BL. -/
theorem C7_subgrid_patterns_witness :
    block_of (Vectorize_subgrid (Analyze scenarioGrid) ⟨4, 4, fun _ _ => 0⟩) 1 0
      = (255, 0, 255, 0) :=
  (((C7_subgrid_patterns (Analyze scenarioGrid) ⟨4, 4, fun _ _ => 0⟩ 1 0
    (by decide) (by decide)).2.2 (by decide) (by decide)).2.2.2.2.2.2.2.1)
    (by rw [Analyze_pix scenarioGrid 1 0 (by decide) (by decide)]; decide)

/-- The ring `spec_region` of a non-trivial code encloses exactly the sub-samples that the
mask pattern of `Vectorize` sets: its area is the number of set sub-samples. -/
theorem spec_region_mask (n px py s : Int) (hn : n ∈ nontrivial) (hs0 : s ≠ 0)
    (hs : s ≠ 255) :
    (Vectorize_block s n).map
        (fun p => ((p.1 + p.2.1 + p.2.2.1 + p.2.2.2 : Int) : ℚ) / 255)
      = some (polygon_area ((spec_region n px py).map fun q => ((q.1 : ℚ), (q.2 : ℚ)))) := by
  simp only [nontrivial, List.mem_cons, List.mem_singleton, List.not_mem_nil, or_false] at hn
  rcases hn with rfl | rfl | rfl | rfl | rfl | rfl | rfl | rfl | rfl | rfl | rfl | rfl <;>
    simp only [Vectorize_block, if_neg hs0, if_neg hs, spec_region, Int.reduceEq, if_true,
      if_false, List.map_cons, List.map_nil, Option.map_some', Option.some.injEq,
      polygon_area, shoelace_chain, List.cons_append, List.nil_append] <;>
    push_cast <;> ring_nf <;> norm_num

theorem EmitVertex_even_even (g : Gray2Vec_Grid) (a b : Int) :
    EmitVertex g (a * 2) (b * 2) = some (((a * 2 : Int) : ℚ), ((b * 2 : Int) : ℚ)) := by
  have h1 : a * 2 % 2 = 0 := by omega
  have h2 : b * 2 % 2 = 0 := by omega
  simp [EmitVertex, h1, h2]

theorem EmitVertex_odd_even (g : Gray2Vec_Grid) (a b : Int) :
    EmitVertex g (a * 2 + 1) (b * 2)
      = some (((a * 2 + 1 : Int) : ℚ)
          + 2 * (average_sides (bottom_side g a b) (top_side g a b) - 1 / 2),
        ((b * 2 : Int) : ℚ)) := by
  have h1 : (a * 2 + 1) % 2 = 1 := by omega
  have h2 : b * 2 % 2 = 0 := by omega
  have h3 : (a * 2 + 1) / 2 = a := by omega
  have h4 : b * 2 / 2 = b := by omega
  simp only [EmitVertex, h1, h2, h3, h4]
  simp

theorem EmitVertex_even_odd (g : Gray2Vec_Grid) (a b : Int) :
    EmitVertex g (a * 2) (b * 2 + 1)
      = some (((a * 2 : Int) : ℚ),
        ((b * 2 + 1 : Int) : ℚ)
          + 2 * (average_sides (right_side g a b) (left_side g a b) - 1 / 2)) := by
  have h1 : a * 2 % 2 = 0 := by omega
  have h2 : (b * 2 + 1) % 2 = 1 := by omega
  have h3 : a * 2 / 2 = a := by omega
  have h4 : (b * 2 + 1) / 2 = b := by omega
  simp only [EmitVertex, h1, h2, h3, h4]
  simp

theorem EmitVertex_odd_odd (g : Gray2Vec_Grid) (a b : Int) :
    EmitVertex g (a * 2 + 1) (b * 2 + 1)
      = interior_vertex g a b ((a * 2 + 1 : Int) : ℚ) ((b * 2 + 1 : Int) : ℚ) := by
  have h1 : (a * 2 + 1) % 2 = 1 := by omega
  have h2 : (b * 2 + 1) % 2 = 1 := by omega
  have h3 : (a * 2 + 1) / 2 = a := by omega
  have h4 : (b * 2 + 1) / 2 = b := by omega
  simp only [EmitVertex, h1, h2, h3, h4]
  simp


theorem average_sides_left (a : ℚ) (h : 0 ≤ a) : average_sides a (-1) = a / 255 := by
  simp [average_sides, h]

theorem average_sides_right (a : ℚ) (h : 0 ≤ a) : average_sides (-1) a = a / 255 := by
  simp [average_sides, h]

theorem average_sides_none : average_sides (-1) (-1) = 1 / 2 := by
  norm_num [average_sides]

theorem placed_area_1 (g : Gray2Vec_Grid) (px py : Int) (hpx : 0 ≤ px) (hpy : 0 ≤ py)
    (hk : g.m_img_n.pix px py = 1)
    (hf1 : 0 ≤ g.m_img_f1.pix px py ∧ g.m_img_f1.pix px py ≤ 255)
    (hf2 : 0 ≤ g.m_img_f2.pix px py ∧ g.m_img_f2.pix px py ≤ 255)
    (hf3 : g.m_img_f3.pix px py < 0)
    (hN : top_side g px py = -1) (hW : left_side g px py = -1)
    (hE : right_side g (px + 1) py = -1) (hS : bottom_side g px (py + 1) = -1) :
    polygon_area (placed_region g px py) / 4
      = spec_area (g.m_img_n.pix px py) (g.m_img_f1.pix px py) (g.m_img_f2.pix px py) / 255 := by
  have q1 : (0 : ℚ) ≤ (g.m_img_f1.pix px py : ℚ) := by exact_mod_cast hf1.1
  have q2 : (0 : ℚ) ≤ (g.m_img_f2.pix px py : ℚ) := by exact_mod_cast hf2.1
  have r1 : (g.m_img_f1.pix px py : ℚ) ≤ 255 := by exact_mod_cast hf1.2
  have r2 : (g.m_img_f2.pix px py : ℚ) ≤ 255 := by exact_mod_cast hf2.2
  have e1 : px + 1 - 1 = px := by omega
  have e2 : py + 1 - 1 = py := by omega
  have g1 : px + 1 > 0 := by omega
  have g2 : py + 1 > 0 := by omega
  have n3 : ¬ g.m_img_f3.pix px py ≥ 0 := by omega
  have iv : ∀ fx fy, interior_vertex g px py fx fy = none := by
    intro fx fy; simp [interior_vertex, hk, n3]
  have ownR : right_side g px py = (g.m_img_f2.pix px py : ℚ) := by
    simp [right_side, hk]
  have ownB : bottom_side g px py = (g.m_img_f1.pix px py : ℚ) := by
    simp [bottom_side, hk]
  have ownL : left_side g (px + 1) py = -1 := by
    simp [left_side, hk, e1, g1]
  have ownT : top_side g px (py + 1) = -1 := by
    simp [top_side, hk, e2, g2]
  simp only [placed_region, hk, spec_region, Int.reduceEq, if_true, if_false,
    List.filterMap_cons, List.filterMap_nil,
    EmitVertex_even_even, EmitVertex_odd_even, EmitVertex_even_odd, EmitVertex_odd_odd,
    ownR, ownB, ownL, ownT, hN, hW, hE, hS, iv]
  have hs : spec_area (1 : Int) (g.m_img_f1.pix px py : ℚ) (g.m_img_f2.pix px py : ℚ)
      = 1 / 2 * (g.m_img_f1.pix px py : ℚ) * (g.m_img_f2.pix px py : ℚ) / 255 := by
    norm_num [spec_area]
  rw [hs]
  generalize (g.m_img_f1.pix px py : ℚ) = F1 at *
  generalize (g.m_img_f2.pix px py : ℚ) = F2 at *
  have c1 : (0 : ℚ) ≤ 255 - F1 := by linarith
  have c2 : (0 : ℚ) ≤ 255 - F2 := by linarith
  simp only [average_sides_left _ q1, average_sides_left _ q2, average_sides_right _ q1,
    average_sides_right _ q2, average_sides_left _ c1, average_sides_left _ c2,
    average_sides_right _ c1, average_sides_right _ c2, average_sides_none,
    polygon_area, shoelace_chain, List.cons_append, List.nil_append]
  push_cast
  rw [abs_of_nonneg]
  · ring
  · linarith [mul_nonneg q1 q2, mul_nonneg c1 c2, mul_nonneg q1 c2, mul_nonneg c1 q2]

theorem placed_area_2 (g : Gray2Vec_Grid) (px py : Int) (hpx : 0 ≤ px) (hpy : 0 ≤ py)
    (hk : g.m_img_n.pix px py = 2)
    (hf1 : 0 ≤ g.m_img_f1.pix px py ∧ g.m_img_f1.pix px py ≤ 255)
    (hf2 : 0 ≤ g.m_img_f2.pix px py ∧ g.m_img_f2.pix px py ≤ 255)
    (hf3 : g.m_img_f3.pix px py < 0)
    (hN : top_side g px py = -1) (hW : left_side g px py = -1)
    (hE : right_side g (px + 1) py = -1) (hS : bottom_side g px (py + 1) = -1) :
    polygon_area (placed_region g px py) / 4
      = spec_area (g.m_img_n.pix px py) (g.m_img_f1.pix px py) (g.m_img_f2.pix px py) / 255 := by
  have q1 : (0 : ℚ) ≤ (g.m_img_f1.pix px py : ℚ) := by exact_mod_cast hf1.1
  have q2 : (0 : ℚ) ≤ (g.m_img_f2.pix px py : ℚ) := by exact_mod_cast hf2.1
  have r1 : (g.m_img_f1.pix px py : ℚ) ≤ 255 := by exact_mod_cast hf1.2
  have r2 : (g.m_img_f2.pix px py : ℚ) ≤ 255 := by exact_mod_cast hf2.2
  have e1 : px + 1 - 1 = px := by omega
  have e2 : py + 1 - 1 = py := by omega
  have g1 : px + 1 > 0 := by omega
  have g2 : py + 1 > 0 := by omega
  have n3 : ¬ g.m_img_f3.pix px py ≥ 0 := by omega
  have iv : ∀ fx fy, interior_vertex g px py fx fy = none := by
    intro fx fy; simp [interior_vertex, hk, n3]
  have ownR : right_side g px py = (g.m_img_f2.pix px py : ℚ) := by
    simp [right_side, hk]
  have ownB : bottom_side g px py = -1 := by
    simp [bottom_side, hk]
  have ownL : left_side g (px + 1) py = (g.m_img_f1.pix px py : ℚ) := by
    simp [left_side, hk, e1, g1]
  have ownT : top_side g px (py + 1) = -1 := by
    simp [top_side, hk, e2, g2]
  simp only [placed_region, hk, spec_region, Int.reduceEq, if_true, if_false,
    List.filterMap_cons, List.filterMap_nil,
    EmitVertex_even_even, EmitVertex_odd_even, EmitVertex_even_odd, EmitVertex_odd_odd,
    ownR, ownB, ownL, ownT, hN, hW, hE, hS, iv]
  have hs : spec_area (2 : Int) (g.m_img_f1.pix px py : ℚ) (g.m_img_f2.pix px py : ℚ)
      = ((g.m_img_f1.pix px py : ℚ) + (g.m_img_f2.pix px py : ℚ)) / 2 := by
    norm_num [spec_area]
  rw [hs]
  generalize (g.m_img_f1.pix px py : ℚ) = F1 at *
  generalize (g.m_img_f2.pix px py : ℚ) = F2 at *
  have c1 : (0 : ℚ) ≤ 255 - F1 := by linarith
  have c2 : (0 : ℚ) ≤ 255 - F2 := by linarith
  simp only [average_sides_left _ q1, average_sides_left _ q2, average_sides_right _ q1,
    average_sides_right _ q2, average_sides_left _ c1, average_sides_left _ c2,
    average_sides_right _ c1, average_sides_right _ c2, average_sides_none,
    polygon_area, shoelace_chain, List.cons_append, List.nil_append]
  push_cast
  rw [abs_of_nonneg]
  · ring
  · linarith [mul_nonneg q1 q2, mul_nonneg c1 c2, mul_nonneg q1 c2, mul_nonneg c1 q2]

theorem placed_area_3 (g : Gray2Vec_Grid) (px py : Int) (hpx : 0 ≤ px) (hpy : 0 ≤ py)
    (hk : g.m_img_n.pix px py = 3)
    (hf1 : 0 ≤ g.m_img_f1.pix px py ∧ g.m_img_f1.pix px py ≤ 255)
    (hf2 : 0 ≤ g.m_img_f2.pix px py ∧ g.m_img_f2.pix px py ≤ 255)
    (hf3 : g.m_img_f3.pix px py < 0)
    (hN : top_side g px py = -1) (hW : left_side g px py = -1)
    (hE : right_side g (px + 1) py = -1) (hS : bottom_side g px (py + 1) = -1) :
    polygon_area (placed_region g px py) / 4
      = spec_area (g.m_img_n.pix px py) (g.m_img_f1.pix px py) (g.m_img_f2.pix px py) / 255 := by
  have q1 : (0 : ℚ) ≤ (g.m_img_f1.pix px py : ℚ) := by exact_mod_cast hf1.1
  have q2 : (0 : ℚ) ≤ (g.m_img_f2.pix px py : ℚ) := by exact_mod_cast hf2.1
  have r1 : (g.m_img_f1.pix px py : ℚ) ≤ 255 := by exact_mod_cast hf1.2
  have r2 : (g.m_img_f2.pix px py : ℚ) ≤ 255 := by exact_mod_cast hf2.2
  have e1 : px + 1 - 1 = px := by omega
  have e2 : py + 1 - 1 = py := by omega
  have g1 : px + 1 > 0 := by omega
  have g2 : py + 1 > 0 := by omega
  have n3 : ¬ g.m_img_f3.pix px py ≥ 0 := by omega
  have iv : ∀ fx fy, interior_vertex g px py fx fy = none := by
    intro fx fy; simp [interior_vertex, hk, n3]
  have ownR : right_side g px py = -1 := by
    simp [right_side, hk]
  have ownB : bottom_side g px py = (255 - (g.m_img_f2.pix px py : ℚ)) := by
    simp [bottom_side, hk]
  have ownL : left_side g (px + 1) py = (g.m_img_f1.pix px py : ℚ) := by
    simp [left_side, hk, e1, g1]
  have ownT : top_side g px (py + 1) = -1 := by
    simp [top_side, hk, e2, g2]
  simp only [placed_region, hk, spec_region, Int.reduceEq, if_true, if_false,
    List.filterMap_cons, List.filterMap_nil,
    EmitVertex_even_even, EmitVertex_odd_even, EmitVertex_even_odd, EmitVertex_odd_odd,
    ownR, ownB, ownL, ownT, hN, hW, hE, hS, iv]
  have hs : spec_area (3 : Int) (g.m_img_f1.pix px py : ℚ) (g.m_img_f2.pix px py : ℚ)
      = 1 / 2 * (g.m_img_f1.pix px py : ℚ) * (g.m_img_f2.pix px py : ℚ) / 255 := by
    norm_num [spec_area]
  rw [hs]
  generalize (g.m_img_f1.pix px py : ℚ) = F1 at *
  generalize (g.m_img_f2.pix px py : ℚ) = F2 at *
  have c1 : (0 : ℚ) ≤ 255 - F1 := by linarith
  have c2 : (0 : ℚ) ≤ 255 - F2 := by linarith
  simp only [average_sides_left _ q1, average_sides_left _ q2, average_sides_right _ q1,
    average_sides_right _ q2, average_sides_left _ c1, average_sides_left _ c2,
    average_sides_right _ c1, average_sides_right _ c2, average_sides_none,
    polygon_area, shoelace_chain, List.cons_append, List.nil_append]
  push_cast
  rw [abs_of_nonneg]
  · ring
  · linarith [mul_nonneg q1 q2, mul_nonneg c1 c2, mul_nonneg q1 c2, mul_nonneg c1 q2]

theorem placed_area_4 (g : Gray2Vec_Grid) (px py : Int) (hpx : 0 ≤ px) (hpy : 0 ≤ py)
    (hk : g.m_img_n.pix px py = 4)
    (hf1 : 0 ≤ g.m_img_f1.pix px py ∧ g.m_img_f1.pix px py ≤ 255)
    (hf2 : 0 ≤ g.m_img_f2.pix px py ∧ g.m_img_f2.pix px py ≤ 255)
    (hf3 : g.m_img_f3.pix px py < 0)
    (hN : top_side g px py = -1) (hW : left_side g px py = -1)
    (hE : right_side g (px + 1) py = -1) (hS : bottom_side g px (py + 1) = -1) :
    polygon_area (placed_region g px py) / 4
      = spec_area (g.m_img_n.pix px py) (g.m_img_f1.pix px py) (g.m_img_f2.pix px py) / 255 := by
  have q1 : (0 : ℚ) ≤ (g.m_img_f1.pix px py : ℚ) := by exact_mod_cast hf1.1
  have q2 : (0 : ℚ) ≤ (g.m_img_f2.pix px py : ℚ) := by exact_mod_cast hf2.1
  have r1 : (g.m_img_f1.pix px py : ℚ) ≤ 255 := by exact_mod_cast hf1.2
  have r2 : (g.m_img_f2.pix px py : ℚ) ≤ 255 := by exact_mod_cast hf2.2
  have e1 : px + 1 - 1 = px := by omega
  have e2 : py + 1 - 1 = py := by omega
  have g1 : px + 1 > 0 := by omega
  have g2 : py + 1 > 0 := by omega
  have n3 : ¬ g.m_img_f3.pix px py ≥ 0 := by omega
  have iv : ∀ fx fy, interior_vertex g px py fx fy = none := by
    intro fx fy; simp [interior_vertex, hk, n3]
  have ownR : right_side g px py = -1 := by
    simp [right_side, hk]
  have ownB : bottom_side g px py = (255 - (g.m_img_f2.pix px py : ℚ)) := by
    simp [bottom_side, hk]
  have ownL : left_side g (px + 1) py = -1 := by
    simp [left_side, hk, e1, g1]
  have ownT : top_side g px (py + 1) = (255 - (g.m_img_f1.pix px py : ℚ)) := by
    simp [top_side, hk, e2, g2]
  simp only [placed_region, hk, spec_region, Int.reduceEq, if_true, if_false,
    List.filterMap_cons, List.filterMap_nil,
    EmitVertex_even_even, EmitVertex_odd_even, EmitVertex_even_odd, EmitVertex_odd_odd,
    ownR, ownB, ownL, ownT, hN, hW, hE, hS, iv]
  have hs : spec_area (4 : Int) (g.m_img_f1.pix px py : ℚ) (g.m_img_f2.pix px py : ℚ)
      = ((g.m_img_f1.pix px py : ℚ) + (g.m_img_f2.pix px py : ℚ)) / 2 := by
    norm_num [spec_area]
  rw [hs]
  generalize (g.m_img_f1.pix px py : ℚ) = F1 at *
  generalize (g.m_img_f2.pix px py : ℚ) = F2 at *
  have c1 : (0 : ℚ) ≤ 255 - F1 := by linarith
  have c2 : (0 : ℚ) ≤ 255 - F2 := by linarith
  simp only [average_sides_left _ q1, average_sides_left _ q2, average_sides_right _ q1,
    average_sides_right _ q2, average_sides_left _ c1, average_sides_left _ c2,
    average_sides_right _ c1, average_sides_right _ c2, average_sides_none,
    polygon_area, shoelace_chain, List.cons_append, List.nil_append]
  push_cast
  rw [abs_of_nonneg]
  · ring
  · linarith [mul_nonneg q1 q2, mul_nonneg c1 c2, mul_nonneg q1 c2, mul_nonneg c1 q2]

theorem placed_area_5 (g : Gray2Vec_Grid) (px py : Int) (hpx : 0 ≤ px) (hpy : 0 ≤ py)
    (hk : g.m_img_n.pix px py = 5)
    (hf1 : 0 ≤ g.m_img_f1.pix px py ∧ g.m_img_f1.pix px py ≤ 255)
    (hf2 : 0 ≤ g.m_img_f2.pix px py ∧ g.m_img_f2.pix px py ≤ 255)
    (hf3 : g.m_img_f3.pix px py < 0)
    (hN : top_side g px py = -1) (hW : left_side g px py = -1)
    (hE : right_side g (px + 1) py = -1) (hS : bottom_side g px (py + 1) = -1) :
    polygon_area (placed_region g px py) / 4
      = spec_area (g.m_img_n.pix px py) (g.m_img_f1.pix px py) (g.m_img_f2.pix px py) / 255 := by
  have q1 : (0 : ℚ) ≤ (g.m_img_f1.pix px py : ℚ) := by exact_mod_cast hf1.1
  have q2 : (0 : ℚ) ≤ (g.m_img_f2.pix px py : ℚ) := by exact_mod_cast hf2.1
  have r1 : (g.m_img_f1.pix px py : ℚ) ≤ 255 := by exact_mod_cast hf1.2
  have r2 : (g.m_img_f2.pix px py : ℚ) ≤ 255 := by exact_mod_cast hf2.2
  have e1 : px + 1 - 1 = px := by omega
  have e2 : py + 1 - 1 = py := by omega
  have g1 : px + 1 > 0 := by omega
  have g2 : py + 1 > 0 := by omega
  have n3 : ¬ g.m_img_f3.pix px py ≥ 0 := by omega
  have iv : ∀ fx fy, interior_vertex g px py fx fy = none := by
    intro fx fy; simp [interior_vertex, hk, n3]
  have ownR : right_side g px py = -1 := by
    simp [right_side, hk]
  have ownB : bottom_side g px py = -1 := by
    simp [bottom_side, hk]
  have ownL : left_side g (px + 1) py = (255 - (g.m_img_f2.pix px py : ℚ)) := by
    simp [left_side, hk, e1, g1]
  have ownT : top_side g px (py + 1) = (255 - (g.m_img_f1.pix px py : ℚ)) := by
    simp [top_side, hk, e2, g2]
  simp only [placed_region, hk, spec_region, Int.reduceEq, if_true, if_false,
    List.filterMap_cons, List.filterMap_nil,
    EmitVertex_even_even, EmitVertex_odd_even, EmitVertex_even_odd, EmitVertex_odd_odd,
    ownR, ownB, ownL, ownT, hN, hW, hE, hS, iv]
  have hs : spec_area (5 : Int) (g.m_img_f1.pix px py : ℚ) (g.m_img_f2.pix px py : ℚ)
      = 1 / 2 * (g.m_img_f1.pix px py : ℚ) * (g.m_img_f2.pix px py : ℚ) / 255 := by
    norm_num [spec_area]
  rw [hs]
  generalize (g.m_img_f1.pix px py : ℚ) = F1 at *
  generalize (g.m_img_f2.pix px py : ℚ) = F2 at *
  have c1 : (0 : ℚ) ≤ 255 - F1 := by linarith
  have c2 : (0 : ℚ) ≤ 255 - F2 := by linarith
  simp only [average_sides_left _ q1, average_sides_left _ q2, average_sides_right _ q1,
    average_sides_right _ q2, average_sides_left _ c1, average_sides_left _ c2,
    average_sides_right _ c1, average_sides_right _ c2, average_sides_none,
    polygon_area, shoelace_chain, List.cons_append, List.nil_append]
  push_cast
  rw [abs_of_nonneg]
  · ring
  · linarith [mul_nonneg q1 q2, mul_nonneg c1 c2, mul_nonneg q1 c2, mul_nonneg c1 q2]

theorem placed_area_6 (g : Gray2Vec_Grid) (px py : Int) (hpx : 0 ≤ px) (hpy : 0 ≤ py)
    (hk : g.m_img_n.pix px py = 6)
    (hf1 : 0 ≤ g.m_img_f1.pix px py ∧ g.m_img_f1.pix px py ≤ 255)
    (hf2 : 0 ≤ g.m_img_f2.pix px py ∧ g.m_img_f2.pix px py ≤ 255)
    (hf3 : g.m_img_f3.pix px py < 0)
    (hN : top_side g px py = -1) (hW : left_side g px py = -1)
    (hE : right_side g (px + 1) py = -1) (hS : bottom_side g px (py + 1) = -1) :
    polygon_area (placed_region g px py) / 4
      = spec_area (g.m_img_n.pix px py) (g.m_img_f1.pix px py) (g.m_img_f2.pix px py) / 255 := by
  have q1 : (0 : ℚ) ≤ (g.m_img_f1.pix px py : ℚ) := by exact_mod_cast hf1.1
  have q2 : (0 : ℚ) ≤ (g.m_img_f2.pix px py : ℚ) := by exact_mod_cast hf2.1
  have r1 : (g.m_img_f1.pix px py : ℚ) ≤ 255 := by exact_mod_cast hf1.2
  have r2 : (g.m_img_f2.pix px py : ℚ) ≤ 255 := by exact_mod_cast hf2.2
  have e1 : px + 1 - 1 = px := by omega
  have e2 : py + 1 - 1 = py := by omega
  have g1 : px + 1 > 0 := by omega
  have g2 : py + 1 > 0 := by omega
  have n3 : ¬ g.m_img_f3.pix px py ≥ 0 := by omega
  have iv : ∀ fx fy, interior_vertex g px py fx fy = none := by
    intro fx fy; simp [interior_vertex, hk, n3]
  have ownR : right_side g px py = (255 - (g.m_img_f1.pix px py : ℚ)) := by
    simp [right_side, hk]
  have ownB : bottom_side g px py = -1 := by
    simp [bottom_side, hk]
  have ownL : left_side g (px + 1) py = (255 - (g.m_img_f2.pix px py : ℚ)) := by
    simp [left_side, hk, e1, g1]
  have ownT : top_side g px (py + 1) = -1 := by
    simp [top_side, hk, e2, g2]
  simp only [placed_region, hk, spec_region, Int.reduceEq, if_true, if_false,
    List.filterMap_cons, List.filterMap_nil,
    EmitVertex_even_even, EmitVertex_odd_even, EmitVertex_even_odd, EmitVertex_odd_odd,
    ownR, ownB, ownL, ownT, hN, hW, hE, hS, iv]
  have hs : spec_area (6 : Int) (g.m_img_f1.pix px py : ℚ) (g.m_img_f2.pix px py : ℚ)
      = ((g.m_img_f1.pix px py : ℚ) + (g.m_img_f2.pix px py : ℚ)) / 2 := by
    norm_num [spec_area]
  rw [hs]
  generalize (g.m_img_f1.pix px py : ℚ) = F1 at *
  generalize (g.m_img_f2.pix px py : ℚ) = F2 at *
  have c1 : (0 : ℚ) ≤ 255 - F1 := by linarith
  have c2 : (0 : ℚ) ≤ 255 - F2 := by linarith
  simp only [average_sides_left _ q1, average_sides_left _ q2, average_sides_right _ q1,
    average_sides_right _ q2, average_sides_left _ c1, average_sides_left _ c2,
    average_sides_right _ c1, average_sides_right _ c2, average_sides_none,
    polygon_area, shoelace_chain, List.cons_append, List.nil_append]
  push_cast
  rw [abs_of_nonneg]
  · ring
  · linarith [mul_nonneg q1 q2, mul_nonneg c1 c2, mul_nonneg q1 c2, mul_nonneg c1 q2]

theorem placed_area_7 (g : Gray2Vec_Grid) (px py : Int) (hpx : 0 ≤ px) (hpy : 0 ≤ py)
    (hk : g.m_img_n.pix px py = 7)
    (hf1 : 0 ≤ g.m_img_f1.pix px py ∧ g.m_img_f1.pix px py ≤ 255)
    (hf2 : 0 ≤ g.m_img_f2.pix px py ∧ g.m_img_f2.pix px py ≤ 255)
    (hf3 : g.m_img_f3.pix px py < 0)
    (hN : top_side g px py = -1) (hW : left_side g px py = -1)
    (hE : right_side g (px + 1) py = -1) (hS : bottom_side g px (py + 1) = -1) :
    polygon_area (placed_region g px py) / 4
      = spec_area (g.m_img_n.pix px py) (g.m_img_f1.pix px py) (g.m_img_f2.pix px py) / 255 := by
  have q1 : (0 : ℚ) ≤ (g.m_img_f1.pix px py : ℚ) := by exact_mod_cast hf1.1
  have q2 : (0 : ℚ) ≤ (g.m_img_f2.pix px py : ℚ) := by exact_mod_cast hf2.1
  have r1 : (g.m_img_f1.pix px py : ℚ) ≤ 255 := by exact_mod_cast hf1.2
  have r2 : (g.m_img_f2.pix px py : ℚ) ≤ 255 := by exact_mod_cast hf2.2
  have e1 : px + 1 - 1 = px := by omega
  have e2 : py + 1 - 1 = py := by omega
  have g1 : px + 1 > 0 := by omega
  have g2 : py + 1 > 0 := by omega
  have n3 : ¬ g.m_img_f3.pix px py ≥ 0 := by omega
  have iv : ∀ fx fy, interior_vertex g px py fx fy = none := by
    intro fx fy; simp [interior_vertex, hk, n3]
  have ownR : right_side g px py = (255 - (g.m_img_f1.pix px py : ℚ)) := by
    simp [right_side, hk]
  have ownB : bottom_side g px py = -1 := by
    simp [bottom_side, hk]
  have ownL : left_side g (px + 1) py = -1 := by
    simp [left_side, hk, e1, g1]
  have ownT : top_side g px (py + 1) = (g.m_img_f2.pix px py : ℚ) := by
    simp [top_side, hk, e2, g2]
  simp only [placed_region, hk, spec_region, Int.reduceEq, if_true, if_false,
    List.filterMap_cons, List.filterMap_nil,
    EmitVertex_even_even, EmitVertex_odd_even, EmitVertex_even_odd, EmitVertex_odd_odd,
    ownR, ownB, ownL, ownT, hN, hW, hE, hS, iv]
  have hs : spec_area (7 : Int) (g.m_img_f1.pix px py : ℚ) (g.m_img_f2.pix px py : ℚ)
      = 1 / 2 * (g.m_img_f1.pix px py : ℚ) * (g.m_img_f2.pix px py : ℚ) / 255 := by
    norm_num [spec_area]
  rw [hs]
  generalize (g.m_img_f1.pix px py : ℚ) = F1 at *
  generalize (g.m_img_f2.pix px py : ℚ) = F2 at *
  have c1 : (0 : ℚ) ≤ 255 - F1 := by linarith
  have c2 : (0 : ℚ) ≤ 255 - F2 := by linarith
  simp only [average_sides_left _ q1, average_sides_left _ q2, average_sides_right _ q1,
    average_sides_right _ q2, average_sides_left _ c1, average_sides_left _ c2,
    average_sides_right _ c1, average_sides_right _ c2, average_sides_none,
    polygon_area, shoelace_chain, List.cons_append, List.nil_append]
  push_cast
  rw [abs_of_nonneg]
  · ring
  · linarith [mul_nonneg q1 q2, mul_nonneg c1 c2, mul_nonneg q1 c2, mul_nonneg c1 q2]

theorem placed_area_8 (g : Gray2Vec_Grid) (px py : Int) (hpx : 0 ≤ px) (hpy : 0 ≤ py)
    (hk : g.m_img_n.pix px py = 8)
    (hf1 : 0 ≤ g.m_img_f1.pix px py ∧ g.m_img_f1.pix px py ≤ 255)
    (hf2 : 0 ≤ g.m_img_f2.pix px py ∧ g.m_img_f2.pix px py ≤ 255)
    (hf3 : g.m_img_f3.pix px py < 0)
    (hN : top_side g px py = -1) (hW : left_side g px py = -1)
    (hE : right_side g (px + 1) py = -1) (hS : bottom_side g px (py + 1) = -1) :
    polygon_area (placed_region g px py) / 4
      = spec_area (g.m_img_n.pix px py) (g.m_img_f1.pix px py) (g.m_img_f2.pix px py) / 255 := by
  have q1 : (0 : ℚ) ≤ (g.m_img_f1.pix px py : ℚ) := by exact_mod_cast hf1.1
  have q2 : (0 : ℚ) ≤ (g.m_img_f2.pix px py : ℚ) := by exact_mod_cast hf2.1
  have r1 : (g.m_img_f1.pix px py : ℚ) ≤ 255 := by exact_mod_cast hf1.2
  have r2 : (g.m_img_f2.pix px py : ℚ) ≤ 255 := by exact_mod_cast hf2.2
  have e1 : px + 1 - 1 = px := by omega
  have e2 : py + 1 - 1 = py := by omega
  have g1 : px + 1 > 0 := by omega
  have g2 : py + 1 > 0 := by omega
  have n3 : ¬ g.m_img_f3.pix px py ≥ 0 := by omega
  have iv : ∀ fx fy, interior_vertex g px py fx fy = none := by
    intro fx fy; simp [interior_vertex, hk, n3]
  have ownR : right_side g px py = -1 := by
    simp [right_side, hk]
  have ownB : bottom_side g px py = (g.m_img_f1.pix px py : ℚ) := by
    simp [bottom_side, hk]
  have ownL : left_side g (px + 1) py = -1 := by
    simp [left_side, hk, e1, g1]
  have ownT : top_side g px (py + 1) = (g.m_img_f2.pix px py : ℚ) := by
    simp [top_side, hk, e2, g2]
  simp only [placed_region, hk, spec_region, Int.reduceEq, if_true, if_false,
    List.filterMap_cons, List.filterMap_nil,
    EmitVertex_even_even, EmitVertex_odd_even, EmitVertex_even_odd, EmitVertex_odd_odd,
    ownR, ownB, ownL, ownT, hN, hW, hE, hS, iv]
  have hs : spec_area (8 : Int) (g.m_img_f1.pix px py : ℚ) (g.m_img_f2.pix px py : ℚ)
      = ((g.m_img_f1.pix px py : ℚ) + (g.m_img_f2.pix px py : ℚ)) / 2 := by
    norm_num [spec_area]
  rw [hs]
  generalize (g.m_img_f1.pix px py : ℚ) = F1 at *
  generalize (g.m_img_f2.pix px py : ℚ) = F2 at *
  have c1 : (0 : ℚ) ≤ 255 - F1 := by linarith
  have c2 : (0 : ℚ) ≤ 255 - F2 := by linarith
  simp only [average_sides_left _ q1, average_sides_left _ q2, average_sides_right _ q1,
    average_sides_right _ q2, average_sides_left _ c1, average_sides_left _ c2,
    average_sides_right _ c1, average_sides_right _ c2, average_sides_none,
    polygon_area, shoelace_chain, List.cons_append, List.nil_append]
  push_cast
  rw [abs_of_nonneg]
  · ring
  · linarith [mul_nonneg q1 q2, mul_nonneg c1 c2, mul_nonneg q1 c2, mul_nonneg c1 q2]

theorem placed_area_11 (g : Gray2Vec_Grid) (px py : Int) (hpx : 0 ≤ px) (hpy : 0 ≤ py)
    (hk : g.m_img_n.pix px py = 11)
    (hf1 : 0 ≤ g.m_img_f1.pix px py ∧ g.m_img_f1.pix px py ≤ 255)
    (hf2 : 0 ≤ g.m_img_f2.pix px py ∧ g.m_img_f2.pix px py ≤ 255)
    (hf3 : g.m_img_f3.pix px py < 0)
    (hN : top_side g px py = -1) (hW : left_side g px py = -1)
    (hE : right_side g (px + 1) py = -1) (hS : bottom_side g px (py + 1) = -1) :
    polygon_area (placed_region g px py) / 4
      = spec_area (g.m_img_n.pix px py) (g.m_img_f1.pix px py) (g.m_img_f2.pix px py) / 255 := by
  have q1 : (0 : ℚ) ≤ (g.m_img_f1.pix px py : ℚ) := by exact_mod_cast hf1.1
  have q2 : (0 : ℚ) ≤ (g.m_img_f2.pix px py : ℚ) := by exact_mod_cast hf2.1
  have r1 : (g.m_img_f1.pix px py : ℚ) ≤ 255 := by exact_mod_cast hf1.2
  have r2 : (g.m_img_f2.pix px py : ℚ) ≤ 255 := by exact_mod_cast hf2.2
  have e1 : px + 1 - 1 = px := by omega
  have e2 : py + 1 - 1 = py := by omega
  have g1 : px + 1 > 0 := by omega
  have g2 : py + 1 > 0 := by omega
  have n3 : ¬ g.m_img_f3.pix px py ≥ 0 := by omega
  have iv : ∀ fx fy, interior_vertex g px py fx fy = none := by
    intro fx fy; simp [interior_vertex, hk, n3]
  have ownR : right_side g px py = -1 := by
    simp [right_side, hk]
  have ownB : bottom_side g px py = -1 := by
    simp [bottom_side, hk]
  have ownL : left_side g (px + 1) py = (g.m_img_f1.pix px py : ℚ) := by
    simp [left_side, hk, e1, g1]
  have ownT : top_side g px (py + 1) = (g.m_img_f2.pix px py : ℚ) := by
    simp [top_side, hk, e2, g2]
  simp only [placed_region, hk, spec_region, Int.reduceEq, if_true, if_false,
    List.filterMap_cons, List.filterMap_nil,
    EmitVertex_even_even, EmitVertex_odd_even, EmitVertex_even_odd, EmitVertex_odd_odd,
    ownR, ownB, ownL, ownT, hN, hW, hE, hS, iv]
  have hs : spec_area (11 : Int) (g.m_img_f1.pix px py : ℚ) (g.m_img_f2.pix px py : ℚ)
      = 255 - 1 / 2 * (255 - (g.m_img_f1.pix px py : ℚ)) * (255 - (g.m_img_f2.pix px py : ℚ)) / 255 := by
    norm_num [spec_area]
  rw [hs]
  generalize (g.m_img_f1.pix px py : ℚ) = F1 at *
  generalize (g.m_img_f2.pix px py : ℚ) = F2 at *
  have c1 : (0 : ℚ) ≤ 255 - F1 := by linarith
  have c2 : (0 : ℚ) ≤ 255 - F2 := by linarith
  simp only [average_sides_left _ q1, average_sides_left _ q2, average_sides_right _ q1,
    average_sides_right _ q2, average_sides_left _ c1, average_sides_left _ c2,
    average_sides_right _ c1, average_sides_right _ c2, average_sides_none,
    polygon_area, shoelace_chain, List.cons_append, List.nil_append]
  push_cast
  rw [abs_of_nonneg]
  · ring
  · linarith [mul_nonneg q1 q2, mul_nonneg c1 c2, mul_nonneg q1 c2, mul_nonneg c1 q2]

theorem placed_area_13 (g : Gray2Vec_Grid) (px py : Int) (hpx : 0 ≤ px) (hpy : 0 ≤ py)
    (hk : g.m_img_n.pix px py = 13)
    (hf1 : 0 ≤ g.m_img_f1.pix px py ∧ g.m_img_f1.pix px py ≤ 255)
    (hf2 : 0 ≤ g.m_img_f2.pix px py ∧ g.m_img_f2.pix px py ≤ 255)
    (hf3 : g.m_img_f3.pix px py < 0)
    (hN : top_side g px py = -1) (hW : left_side g px py = -1)
    (hE : right_side g (px + 1) py = -1) (hS : bottom_side g px (py + 1) = -1) :
    polygon_area (placed_region g px py) / 4
      = spec_area (g.m_img_n.pix px py) (g.m_img_f1.pix px py) (g.m_img_f2.pix px py) / 255 := by
  have q1 : (0 : ℚ) ≤ (g.m_img_f1.pix px py : ℚ) := by exact_mod_cast hf1.1
  have q2 : (0 : ℚ) ≤ (g.m_img_f2.pix px py : ℚ) := by exact_mod_cast hf2.1
  have r1 : (g.m_img_f1.pix px py : ℚ) ≤ 255 := by exact_mod_cast hf1.2
  have r2 : (g.m_img_f2.pix px py : ℚ) ≤ 255 := by exact_mod_cast hf2.2
  have e1 : px + 1 - 1 = px := by omega
  have e2 : py + 1 - 1 = py := by omega
  have g1 : px + 1 > 0 := by omega
  have g2 : py + 1 > 0 := by omega
  have n3 : ¬ g.m_img_f3.pix px py ≥ 0 := by omega
  have iv : ∀ fx fy, interior_vertex g px py fx fy = none := by
    intro fx fy; simp [interior_vertex, hk, n3]
  have ownR : right_side g px py = (g.m_img_f2.pix px py : ℚ) := by
    simp [right_side, hk]
  have ownB : bottom_side g px py = -1 := by
    simp [bottom_side, hk]
  have ownL : left_side g (px + 1) py = -1 := by
    simp [left_side, hk, e1, g1]
  have ownT : top_side g px (py + 1) = (255 - (g.m_img_f1.pix px py : ℚ)) := by
    simp [top_side, hk, e2, g2]
  simp only [placed_region, hk, spec_region, Int.reduceEq, if_true, if_false,
    List.filterMap_cons, List.filterMap_nil,
    EmitVertex_even_even, EmitVertex_odd_even, EmitVertex_even_odd, EmitVertex_odd_odd,
    ownR, ownB, ownL, ownT, hN, hW, hE, hS, iv]
  have hs : spec_area (13 : Int) (g.m_img_f1.pix px py : ℚ) (g.m_img_f2.pix px py : ℚ)
      = 255 - 1 / 2 * (255 - (g.m_img_f1.pix px py : ℚ)) * (255 - (g.m_img_f2.pix px py : ℚ)) / 255 := by
    norm_num [spec_area]
  rw [hs]
  generalize (g.m_img_f1.pix px py : ℚ) = F1 at *
  generalize (g.m_img_f2.pix px py : ℚ) = F2 at *
  have c1 : (0 : ℚ) ≤ 255 - F1 := by linarith
  have c2 : (0 : ℚ) ≤ 255 - F2 := by linarith
  simp only [average_sides_left _ q1, average_sides_left _ q2, average_sides_right _ q1,
    average_sides_right _ q2, average_sides_left _ c1, average_sides_left _ c2,
    average_sides_right _ c1, average_sides_right _ c2, average_sides_none,
    polygon_area, shoelace_chain, List.cons_append, List.nil_append]
  push_cast
  rw [abs_of_nonneg]
  · ring
  · linarith [mul_nonneg q1 q2, mul_nonneg c1 c2, mul_nonneg q1 c2, mul_nonneg c1 q2]

theorem placed_area_15 (g : Gray2Vec_Grid) (px py : Int) (hpx : 0 ≤ px) (hpy : 0 ≤ py)
    (hk : g.m_img_n.pix px py = 15)
    (hf1 : 0 ≤ g.m_img_f1.pix px py ∧ g.m_img_f1.pix px py ≤ 255)
    (hf2 : 0 ≤ g.m_img_f2.pix px py ∧ g.m_img_f2.pix px py ≤ 255)
    (hf3 : g.m_img_f3.pix px py < 0)
    (hN : top_side g px py = -1) (hW : left_side g px py = -1)
    (hE : right_side g (px + 1) py = -1) (hS : bottom_side g px (py + 1) = -1) :
    polygon_area (placed_region g px py) / 4
      = spec_area (g.m_img_n.pix px py) (g.m_img_f1.pix px py) (g.m_img_f2.pix px py) / 255 := by
  have q1 : (0 : ℚ) ≤ (g.m_img_f1.pix px py : ℚ) := by exact_mod_cast hf1.1
  have q2 : (0 : ℚ) ≤ (g.m_img_f2.pix px py : ℚ) := by exact_mod_cast hf2.1
  have r1 : (g.m_img_f1.pix px py : ℚ) ≤ 255 := by exact_mod_cast hf1.2
  have r2 : (g.m_img_f2.pix px py : ℚ) ≤ 255 := by exact_mod_cast hf2.2
  have e1 : px + 1 - 1 = px := by omega
  have e2 : py + 1 - 1 = py := by omega
  have g1 : px + 1 > 0 := by omega
  have g2 : py + 1 > 0 := by omega
  have n3 : ¬ g.m_img_f3.pix px py ≥ 0 := by omega
  have iv : ∀ fx fy, interior_vertex g px py fx fy = none := by
    intro fx fy; simp [interior_vertex, hk, n3]
  have ownR : right_side g px py = (255 - (g.m_img_f1.pix px py : ℚ)) := by
    simp [right_side, hk]
  have ownB : bottom_side g px py = (255 - (g.m_img_f2.pix px py : ℚ)) := by
    simp [bottom_side, hk]
  have ownL : left_side g (px + 1) py = -1 := by
    simp [left_side, hk, e1, g1]
  have ownT : top_side g px (py + 1) = -1 := by
    simp [top_side, hk, e2, g2]
  simp only [placed_region, hk, spec_region, Int.reduceEq, if_true, if_false,
    List.filterMap_cons, List.filterMap_nil,
    EmitVertex_even_even, EmitVertex_odd_even, EmitVertex_even_odd, EmitVertex_odd_odd,
    ownR, ownB, ownL, ownT, hN, hW, hE, hS, iv]
  have hs : spec_area (15 : Int) (g.m_img_f1.pix px py : ℚ) (g.m_img_f2.pix px py : ℚ)
      = 255 - 1 / 2 * (255 - (g.m_img_f1.pix px py : ℚ)) * (255 - (g.m_img_f2.pix px py : ℚ)) / 255 := by
    norm_num [spec_area]
  rw [hs]
  generalize (g.m_img_f1.pix px py : ℚ) = F1 at *
  generalize (g.m_img_f2.pix px py : ℚ) = F2 at *
  have c1 : (0 : ℚ) ≤ 255 - F1 := by linarith
  have c2 : (0 : ℚ) ≤ 255 - F2 := by linarith
  simp only [average_sides_left _ q1, average_sides_left _ q2, average_sides_right _ q1,
    average_sides_right _ q2, average_sides_left _ c1, average_sides_left _ c2,
    average_sides_right _ c1, average_sides_right _ c2, average_sides_none,
    polygon_area, shoelace_chain, List.cons_append, List.nil_append]
  push_cast
  rw [abs_of_nonneg]
  · ring
  · linarith [mul_nonneg q1 q2, mul_nonneg c1 c2, mul_nonneg q1 c2, mul_nonneg c1 q2]

theorem placed_area_17 (g : Gray2Vec_Grid) (px py : Int) (hpx : 0 ≤ px) (hpy : 0 ≤ py)
    (hk : g.m_img_n.pix px py = 17)
    (hf1 : 0 ≤ g.m_img_f1.pix px py ∧ g.m_img_f1.pix px py ≤ 255)
    (hf2 : 0 ≤ g.m_img_f2.pix px py ∧ g.m_img_f2.pix px py ≤ 255)
    (hf3 : g.m_img_f3.pix px py < 0)
    (hN : top_side g px py = -1) (hW : left_side g px py = -1)
    (hE : right_side g (px + 1) py = -1) (hS : bottom_side g px (py + 1) = -1) :
    polygon_area (placed_region g px py) / 4
      = spec_area (g.m_img_n.pix px py) (g.m_img_f1.pix px py) (g.m_img_f2.pix px py) / 255 := by
  have q1 : (0 : ℚ) ≤ (g.m_img_f1.pix px py : ℚ) := by exact_mod_cast hf1.1
  have q2 : (0 : ℚ) ≤ (g.m_img_f2.pix px py : ℚ) := by exact_mod_cast hf2.1
  have r1 : (g.m_img_f1.pix px py : ℚ) ≤ 255 := by exact_mod_cast hf1.2
  have r2 : (g.m_img_f2.pix px py : ℚ) ≤ 255 := by exact_mod_cast hf2.2
  have e1 : px + 1 - 1 = px := by omega
  have e2 : py + 1 - 1 = py := by omega
  have g1 : px + 1 > 0 := by omega
  have g2 : py + 1 > 0 := by omega
  have n3 : ¬ g.m_img_f3.pix px py ≥ 0 := by omega
  have iv : ∀ fx fy, interior_vertex g px py fx fy = none := by
    intro fx fy; simp [interior_vertex, hk, n3]
  have ownR : right_side g px py = -1 := by
    simp [right_side, hk]
  have ownB : bottom_side g px py = (g.m_img_f1.pix px py : ℚ) := by
    simp [bottom_side, hk]
  have ownL : left_side g (px + 1) py = (255 - (g.m_img_f2.pix px py : ℚ)) := by
    simp [left_side, hk, e1, g1]
  have ownT : top_side g px (py + 1) = -1 := by
    simp [top_side, hk, e2, g2]
  simp only [placed_region, hk, spec_region, Int.reduceEq, if_true, if_false,
    List.filterMap_cons, List.filterMap_nil,
    EmitVertex_even_even, EmitVertex_odd_even, EmitVertex_even_odd, EmitVertex_odd_odd,
    ownR, ownB, ownL, ownT, hN, hW, hE, hS, iv]
  have hs : spec_area (17 : Int) (g.m_img_f1.pix px py : ℚ) (g.m_img_f2.pix px py : ℚ)
      = 255 - 1 / 2 * (255 - (g.m_img_f1.pix px py : ℚ)) * (255 - (g.m_img_f2.pix px py : ℚ)) / 255 := by
    norm_num [spec_area]
  rw [hs]
  generalize (g.m_img_f1.pix px py : ℚ) = F1 at *
  generalize (g.m_img_f2.pix px py : ℚ) = F2 at *
  have c1 : (0 : ℚ) ≤ 255 - F1 := by linarith
  have c2 : (0 : ℚ) ≤ 255 - F2 := by linarith
  simp only [average_sides_left _ q1, average_sides_left _ q2, average_sides_right _ q1,
    average_sides_right _ q2, average_sides_left _ c1, average_sides_left _ c2,
    average_sides_right _ c1, average_sides_right _ c2, average_sides_none,
    polygon_area, shoelace_chain, List.cons_append, List.nil_append]
  push_cast
  rw [abs_of_nonneg]
  · ring
  · linarith [mul_nonneg q1 q2, mul_nonneg c1 c2, mul_nonneg q1 c2, mul_nonneg c1 q2]

/-- C8: sub-pixel placement reproduces the class area formulas.  For a cell with a
non-trivial code and fractions f1, f2 in [0,255], with no correction scalar set (f3 < 0) and
with the four adjacent cells exposing no value on the shared edges, the region obtained by
placing the vertices of the cell's ring (its covered corners, its two placed mid-edge
vertices; the interior vertex is skipped) has area A/255 of the cell area 4, where A is
0.5*f1*f2/255 for small corners, (f1+f2)/2 for sides and 255 - 0.5*(255-f1)*(255-f2)/255
for large corners.  Arithmetic is exact (rational) arithmetic. -/
theorem C8_placement_reproduces_area (g : Gray2Vec_Grid) (px py : Int)
    (hpx : 0 ≤ px) (hpy : 0 ≤ py) (hn : g.m_img_n.pix px py ∈ nontrivial)
    (hf1 : 0 ≤ g.m_img_f1.pix px py ∧ g.m_img_f1.pix px py ≤ 255)
    (hf2 : 0 ≤ g.m_img_f2.pix px py ∧ g.m_img_f2.pix px py ≤ 255)
    (hf3 : g.m_img_f3.pix px py < 0)
    (hN : top_side g px py = -1) (hW : left_side g px py = -1)
    (hE : right_side g (px + 1) py = -1) (hS : bottom_side g px (py + 1) = -1) :
    polygon_area (placed_region g px py)
      = spec_area (g.m_img_n.pix px py) (g.m_img_f1.pix px py) (g.m_img_f2.pix px py) / 255 * 4 ∧
    (g.m_img_n.pix px py ∈ ([1, 3, 5, 7] : List Int) →
      spec_area (g.m_img_n.pix px py) (g.m_img_f1.pix px py) (g.m_img_f2.pix px py)
        = 1 / 2 * (g.m_img_f1.pix px py : ℚ) * (g.m_img_f2.pix px py : ℚ) / 255) ∧
    (g.m_img_n.pix px py ∈ ([2, 4, 6, 8] : List Int) →
      spec_area (g.m_img_n.pix px py) (g.m_img_f1.pix px py) (g.m_img_f2.pix px py)
        = ((g.m_img_f1.pix px py : ℚ) + (g.m_img_f2.pix px py : ℚ)) / 2) ∧
    (g.m_img_n.pix px py ∈ ([11, 13, 15, 17] : List Int) →
      spec_area (g.m_img_n.pix px py) (g.m_img_f1.pix px py) (g.m_img_f2.pix px py)
        = 255 - 1 / 2 * (255 - (g.m_img_f1.pix px py : ℚ))
            * (255 - (g.m_img_f2.pix px py : ℚ)) / 255) := by
  refine ⟨?_, ?_, ?_, ?_⟩
  · have key : polygon_area (placed_region g px py) / 4
        = spec_area (g.m_img_n.pix px py) (g.m_img_f1.pix px py) (g.m_img_f2.pix px py)
            / 255 := by
      simp only [nontrivial, List.mem_cons, List.mem_singleton, List.not_mem_nil,
        or_false] at hn
      rcases hn with hk | hk | hk | hk | hk | hk | hk | hk | hk | hk | hk | hk
      · exact placed_area_1 g px py hpx hpy hk hf1 hf2 hf3 hN hW hE hS
      · exact placed_area_2 g px py hpx hpy hk hf1 hf2 hf3 hN hW hE hS
      · exact placed_area_3 g px py hpx hpy hk hf1 hf2 hf3 hN hW hE hS
      · exact placed_area_4 g px py hpx hpy hk hf1 hf2 hf3 hN hW hE hS
      · exact placed_area_5 g px py hpx hpy hk hf1 hf2 hf3 hN hW hE hS
      · exact placed_area_6 g px py hpx hpy hk hf1 hf2 hf3 hN hW hE hS
      · exact placed_area_7 g px py hpx hpy hk hf1 hf2 hf3 hN hW hE hS
      · exact placed_area_8 g px py hpx hpy hk hf1 hf2 hf3 hN hW hE hS
      · exact placed_area_11 g px py hpx hpy hk hf1 hf2 hf3 hN hW hE hS
      · exact placed_area_13 g px py hpx hpy hk hf1 hf2 hf3 hN hW hE hS
      · exact placed_area_15 g px py hpx hpy hk hf1 hf2 hf3 hN hW hE hS
      · exact placed_area_17 g px py hpx hpy hk hf1 hf2 hf3 hN hW hE hS
    linarith
  · intro h
    simp only [List.mem_cons, List.mem_singleton, List.not_mem_nil, or_false] at h
    rcases h with h | h | h | h <;> rw [h] <;> norm_num [spec_area]
  · intro h
    simp only [List.mem_cons, List.mem_singleton, List.not_mem_nil, or_false] at h
    rcases h with h | h | h | h <;> rw [h] <;> norm_num [spec_area]
  · intro h
    simp only [List.mem_cons, List.mem_singleton, List.not_mem_nil, or_false] at h
    rcases h with h | h | h | h <;> rw [h] <;> norm_num [spec_area]

/-- C8 witness: the centre cell of `placedGrid` (code 1, f1 = 100, f2 = 51, f3 = -1, empty
neighbours). -/
theorem C8_placement_reproduces_area_witness :
    polygon_area (placed_region placedGrid 1 1)
      = spec_area (placedGrid.m_img_n.pix 1 1) (placedGrid.m_img_f1.pix 1 1)
          (placedGrid.m_img_f2.pix 1 1) / 255 * 4 :=
  (C8_placement_reproduces_area placedGrid 1 1 (by decide) (by decide) (by decide)
    (by decide) (by decide) (by decide) (by norm_num [top_side, placedGrid])
    (by norm_num [left_side, placedGrid]) (by norm_num [right_side, placedGrid])
    (by norm_num [bottom_side, placedGrid])).1

theorem frame_of_mem (n v k : Int) (l : List Int) (hl : ∀ a ∈ l, a ∈ nontrivial)
    (hk : n = k) (hkn : k ∈ nontrivial) (hm : v ∈ l) :
    v = n ∨ (n ∈ nontrivial ∧ v ∈ nontrivial) :=
  Or.inr ⟨hk ▸ hkn, hl v hm⟩

theorem NeighborsAdjust_sweep1_1_mem (g : Gray2Vec_Grid) (px py : Int) :
    NeighborsAdjust_sweep1_1 g px py ∈ ([2, 8, 1] : List Int) := by
  unfold NeighborsAdjust_sweep1_1
  split_ifs <;> simp

theorem NeighborsAdjust_sweep1_3_mem (g : Gray2Vec_Grid) (px py : Int) :
    NeighborsAdjust_sweep1_3 g px py ∈ ([2, 4, 3] : List Int) := by
  unfold NeighborsAdjust_sweep1_3
  split_ifs <;> simp

theorem NeighborsAdjust_sweep1_5_mem (g : Gray2Vec_Grid) (px py : Int) :
    NeighborsAdjust_sweep1_5 g px py ∈ ([6, 4, 5] : List Int) := by
  unfold NeighborsAdjust_sweep1_5
  split_ifs <;> simp

theorem NeighborsAdjust_sweep1_7_mem (g : Gray2Vec_Grid) (px py : Int) :
    NeighborsAdjust_sweep1_7 g px py ∈ ([8, 6, 7] : List Int) := by
  unfold NeighborsAdjust_sweep1_7
  split_ifs <;> simp

theorem NeighborsAdjust_sweep1_frame (g : Gray2Vec_Grid) (px py : Int) :
    NeighborsAdjust_sweep1 g px py = g.m_img_n.pix px py ∨
    (g.m_img_n.pix px py ∈ nontrivial ∧ NeighborsAdjust_sweep1 g px py ∈ nontrivial) := by
  unfold NeighborsAdjust_sweep1
  by_cases h1 : g.m_img_n.pix px py = 1
  · rw [if_pos h1]
    exact frame_of_mem _ _ 1 _ (by decide) h1 (by decide) (NeighborsAdjust_sweep1_1_mem g px py)
  rw [if_neg h1]
  by_cases h3 : g.m_img_n.pix px py = 3
  · rw [if_pos h3]
    exact frame_of_mem _ _ 3 _ (by decide) h3 (by decide) (NeighborsAdjust_sweep1_3_mem g px py)
  rw [if_neg h3]
  by_cases h5 : g.m_img_n.pix px py = 5
  · rw [if_pos h5]
    exact frame_of_mem _ _ 5 _ (by decide) h5 (by decide) (NeighborsAdjust_sweep1_5_mem g px py)
  rw [if_neg h5]
  by_cases h7 : g.m_img_n.pix px py = 7
  · rw [if_pos h7]
    exact frame_of_mem _ _ 7 _ (by decide) h7 (by decide) (NeighborsAdjust_sweep1_7_mem g px py)
  rw [if_neg h7]
  exact Or.inl rfl

theorem NeighborsAdjust_sweep2_1_mem (g : Gray2Vec_Grid) (px py : Int) :
    NeighborsAdjust_sweep2_1 g px py ∈ ([8, 2, 1] : List Int) := by
  unfold NeighborsAdjust_sweep2_1
  split_ifs <;> simp

theorem NeighborsAdjust_sweep2_3_mem (g : Gray2Vec_Grid) (px py : Int) :
    NeighborsAdjust_sweep2_3 g px py ∈ ([2, 4, 3] : List Int) := by
  unfold NeighborsAdjust_sweep2_3
  split_ifs <;> simp

theorem NeighborsAdjust_sweep2_5_mem (g : Gray2Vec_Grid) (px py : Int) :
    NeighborsAdjust_sweep2_5 g px py ∈ ([4, 6, 5] : List Int) := by
  unfold NeighborsAdjust_sweep2_5
  split_ifs <;> simp

theorem NeighborsAdjust_sweep2_7_mem (g : Gray2Vec_Grid) (px py : Int) :
    NeighborsAdjust_sweep2_7 g px py ∈ ([6, 8, 7] : List Int) := by
  unfold NeighborsAdjust_sweep2_7
  split_ifs <;> simp

theorem NeighborsAdjust_sweep2_11_mem (g : Gray2Vec_Grid) (px py : Int) :
    NeighborsAdjust_sweep2_11 g px py ∈ ([8, 2, 11] : List Int) := by
  unfold NeighborsAdjust_sweep2_11
  split_ifs <;> simp

theorem NeighborsAdjust_sweep2_13_mem (g : Gray2Vec_Grid) (px py : Int) :
    NeighborsAdjust_sweep2_13 g px py ∈ ([2, 4, 13] : List Int) := by
  unfold NeighborsAdjust_sweep2_13
  split_ifs <;> simp

theorem NeighborsAdjust_sweep2_15_mem (g : Gray2Vec_Grid) (px py : Int) :
    NeighborsAdjust_sweep2_15 g px py ∈ ([4, 6, 15] : List Int) := by
  unfold NeighborsAdjust_sweep2_15
  split_ifs <;> simp

theorem NeighborsAdjust_sweep2_17_mem (g : Gray2Vec_Grid) (px py : Int) :
    NeighborsAdjust_sweep2_17 g px py ∈ ([6, 8, 17] : List Int) := by
  unfold NeighborsAdjust_sweep2_17
  split_ifs <;> simp

theorem NeighborsAdjust_sweep2_frame (g : Gray2Vec_Grid) (px py : Int) :
    NeighborsAdjust_sweep2 g px py = g.m_img_n.pix px py ∨
    (g.m_img_n.pix px py ∈ nontrivial ∧ NeighborsAdjust_sweep2 g px py ∈ nontrivial) := by
  unfold NeighborsAdjust_sweep2
  by_cases h1 : g.m_img_n.pix px py = 1
  · rw [if_pos h1]
    exact frame_of_mem _ _ 1 _ (by decide) h1 (by decide) (NeighborsAdjust_sweep2_1_mem g px py)
  rw [if_neg h1]
  by_cases h3 : g.m_img_n.pix px py = 3
  · rw [if_pos h3]
    exact frame_of_mem _ _ 3 _ (by decide) h3 (by decide) (NeighborsAdjust_sweep2_3_mem g px py)
  rw [if_neg h3]
  by_cases h5 : g.m_img_n.pix px py = 5
  · rw [if_pos h5]
    exact frame_of_mem _ _ 5 _ (by decide) h5 (by decide) (NeighborsAdjust_sweep2_5_mem g px py)
  rw [if_neg h5]
  by_cases h7 : g.m_img_n.pix px py = 7
  · rw [if_pos h7]
    exact frame_of_mem _ _ 7 _ (by decide) h7 (by decide) (NeighborsAdjust_sweep2_7_mem g px py)
  rw [if_neg h7]
  by_cases h11 : g.m_img_n.pix px py = 11
  · rw [if_pos h11]
    exact frame_of_mem _ _ 11 _ (by decide) h11 (by decide) (NeighborsAdjust_sweep2_11_mem g px py)
  rw [if_neg h11]
  by_cases h13 : g.m_img_n.pix px py = 13
  · rw [if_pos h13]
    exact frame_of_mem _ _ 13 _ (by decide) h13 (by decide) (NeighborsAdjust_sweep2_13_mem g px py)
  rw [if_neg h13]
  by_cases h15 : g.m_img_n.pix px py = 15
  · rw [if_pos h15]
    exact frame_of_mem _ _ 15 _ (by decide) h15 (by decide) (NeighborsAdjust_sweep2_15_mem g px py)
  rw [if_neg h15]
  by_cases h17 : g.m_img_n.pix px py = 17
  · rw [if_pos h17]
    exact frame_of_mem _ _ 17 _ (by decide) h17 (by decide) (NeighborsAdjust_sweep2_17_mem g px py)
  rw [if_neg h17]
  exact Or.inl rfl

theorem ResolveConflicts_sweep1_1_mem (g : Gray2Vec_Grid) (px py : Int) :
    ResolveConflicts_sweep1_1 g px py ∈ ([7, 3, 1] : List Int) := by
  unfold ResolveConflicts_sweep1_1
  split_ifs <;> simp

theorem ResolveConflicts_sweep1_3_mem (g : Gray2Vec_Grid) (px py : Int) :
    ResolveConflicts_sweep1_3 g px py ∈ ([1, 5, 3] : List Int) := by
  unfold ResolveConflicts_sweep1_3
  split_ifs <;> simp

theorem ResolveConflicts_sweep1_5_mem (g : Gray2Vec_Grid) (px py : Int) :
    ResolveConflicts_sweep1_5 g px py ∈ ([3, 7, 5] : List Int) := by
  unfold ResolveConflicts_sweep1_5
  split_ifs <;> simp

theorem ResolveConflicts_sweep1_7_mem (g : Gray2Vec_Grid) (px py : Int) :
    ResolveConflicts_sweep1_7 g px py ∈ ([5, 1, 7] : List Int) := by
  unfold ResolveConflicts_sweep1_7
  split_ifs <;> simp

theorem ResolveConflicts_sweep1_15_mem (g : Gray2Vec_Grid) (px py : Int) :
    ResolveConflicts_sweep1_15 g px py ∈ ([13, 17, 15] : List Int) := by
  unfold ResolveConflicts_sweep1_15
  split_ifs <;> simp

theorem ResolveConflicts_sweep1_17_mem (g : Gray2Vec_Grid) (px py : Int) :
    ResolveConflicts_sweep1_17 g px py ∈ ([15, 11, 17] : List Int) := by
  unfold ResolveConflicts_sweep1_17
  split_ifs <;> simp

theorem ResolveConflicts_sweep1_11_mem (g : Gray2Vec_Grid) (px py : Int) :
    ResolveConflicts_sweep1_11 g px py ∈ ([17, 13, 11] : List Int) := by
  unfold ResolveConflicts_sweep1_11
  split_ifs <;> simp

theorem ResolveConflicts_sweep1_13_mem (g : Gray2Vec_Grid) (px py : Int) :
    ResolveConflicts_sweep1_13 g px py ∈ ([11, 15, 13] : List Int) := by
  unfold ResolveConflicts_sweep1_13
  split_ifs <;> simp

theorem ResolveConflicts_sweep1_2_mem (g : Gray2Vec_Grid) (px py : Int) :
    ResolveConflicts_sweep1_2 g px py ∈ ([4, 8, 2] : List Int) := by
  unfold ResolveConflicts_sweep1_2
  split_ifs <;> simp

theorem ResolveConflicts_sweep1_6_mem (g : Gray2Vec_Grid) (px py : Int) :
    ResolveConflicts_sweep1_6 g px py ∈ ([4, 8, 6] : List Int) := by
  unfold ResolveConflicts_sweep1_6
  split_ifs <;> simp

theorem ResolveConflicts_sweep1_4_mem (g : Gray2Vec_Grid) (px py : Int) :
    ResolveConflicts_sweep1_4 g px py ∈ ([6, 2, 4] : List Int) := by
  unfold ResolveConflicts_sweep1_4
  split_ifs <;> simp

theorem ResolveConflicts_sweep1_8_mem (g : Gray2Vec_Grid) (px py : Int) :
    ResolveConflicts_sweep1_8 g px py ∈ ([6, 2, 8] : List Int) := by
  unfold ResolveConflicts_sweep1_8
  split_ifs <;> simp

theorem ResolveConflicts_sweep1_frame (g : Gray2Vec_Grid) (px py : Int) :
    ResolveConflicts_sweep1 g px py = g.m_img_n.pix px py ∨
    (g.m_img_n.pix px py ∈ nontrivial ∧ ResolveConflicts_sweep1 g px py ∈ nontrivial) := by
  unfold ResolveConflicts_sweep1
  by_cases h1 : g.m_img_n.pix px py = 1
  · rw [if_pos h1]
    exact frame_of_mem _ _ 1 _ (by decide) h1 (by decide) (ResolveConflicts_sweep1_1_mem g px py)
  rw [if_neg h1]
  by_cases h3 : g.m_img_n.pix px py = 3
  · rw [if_pos h3]
    exact frame_of_mem _ _ 3 _ (by decide) h3 (by decide) (ResolveConflicts_sweep1_3_mem g px py)
  rw [if_neg h3]
  by_cases h5 : g.m_img_n.pix px py = 5
  · rw [if_pos h5]
    exact frame_of_mem _ _ 5 _ (by decide) h5 (by decide) (ResolveConflicts_sweep1_5_mem g px py)
  rw [if_neg h5]
  by_cases h7 : g.m_img_n.pix px py = 7
  · rw [if_pos h7]
    exact frame_of_mem _ _ 7 _ (by decide) h7 (by decide) (ResolveConflicts_sweep1_7_mem g px py)
  rw [if_neg h7]
  by_cases h15 : g.m_img_n.pix px py = 15
  · rw [if_pos h15]
    exact frame_of_mem _ _ 15 _ (by decide) h15 (by decide) (ResolveConflicts_sweep1_15_mem g px py)
  rw [if_neg h15]
  by_cases h17 : g.m_img_n.pix px py = 17
  · rw [if_pos h17]
    exact frame_of_mem _ _ 17 _ (by decide) h17 (by decide) (ResolveConflicts_sweep1_17_mem g px py)
  rw [if_neg h17]
  by_cases h11 : g.m_img_n.pix px py = 11
  · rw [if_pos h11]
    exact frame_of_mem _ _ 11 _ (by decide) h11 (by decide) (ResolveConflicts_sweep1_11_mem g px py)
  rw [if_neg h11]
  by_cases h13 : g.m_img_n.pix px py = 13
  · rw [if_pos h13]
    exact frame_of_mem _ _ 13 _ (by decide) h13 (by decide) (ResolveConflicts_sweep1_13_mem g px py)
  rw [if_neg h13]
  by_cases h2 : g.m_img_n.pix px py = 2
  · rw [if_pos h2]
    exact frame_of_mem _ _ 2 _ (by decide) h2 (by decide) (ResolveConflicts_sweep1_2_mem g px py)
  rw [if_neg h2]
  by_cases h6 : g.m_img_n.pix px py = 6
  · rw [if_pos h6]
    exact frame_of_mem _ _ 6 _ (by decide) h6 (by decide) (ResolveConflicts_sweep1_6_mem g px py)
  rw [if_neg h6]
  by_cases h4 : g.m_img_n.pix px py = 4
  · rw [if_pos h4]
    exact frame_of_mem _ _ 4 _ (by decide) h4 (by decide) (ResolveConflicts_sweep1_4_mem g px py)
  rw [if_neg h4]
  by_cases h8 : g.m_img_n.pix px py = 8
  · rw [if_pos h8]
    exact frame_of_mem _ _ 8 _ (by decide) h8 (by decide) (ResolveConflicts_sweep1_8_mem g px py)
  rw [if_neg h8]
  exact Or.inl rfl

theorem ResolveConflicts_sweep2_1_mem (g : Gray2Vec_Grid) (px py : Int) :
    ResolveConflicts_sweep2_1 g px py ∈ ([7, 3, 1] : List Int) := by
  unfold ResolveConflicts_sweep2_1
  split_ifs <;> simp

theorem ResolveConflicts_sweep2_3_mem (g : Gray2Vec_Grid) (px py : Int) :
    ResolveConflicts_sweep2_3 g px py ∈ ([1, 5, 3] : List Int) := by
  unfold ResolveConflicts_sweep2_3
  split_ifs <;> simp

theorem ResolveConflicts_sweep2_5_mem (g : Gray2Vec_Grid) (px py : Int) :
    ResolveConflicts_sweep2_5 g px py ∈ ([3, 7, 5] : List Int) := by
  unfold ResolveConflicts_sweep2_5
  split_ifs <;> simp

theorem ResolveConflicts_sweep2_7_mem (g : Gray2Vec_Grid) (px py : Int) :
    ResolveConflicts_sweep2_7 g px py ∈ ([5, 1, 7] : List Int) := by
  unfold ResolveConflicts_sweep2_7
  split_ifs <;> simp

theorem ResolveConflicts_sweep2_15_mem (g : Gray2Vec_Grid) (px py : Int) :
    ResolveConflicts_sweep2_15 g px py ∈ ([13, 17, 15] : List Int) := by
  unfold ResolveConflicts_sweep2_15
  split_ifs <;> simp

theorem ResolveConflicts_sweep2_17_mem (g : Gray2Vec_Grid) (px py : Int) :
    ResolveConflicts_sweep2_17 g px py ∈ ([15, 11, 17] : List Int) := by
  unfold ResolveConflicts_sweep2_17
  split_ifs <;> simp

theorem ResolveConflicts_sweep2_11_mem (g : Gray2Vec_Grid) (px py : Int) :
    ResolveConflicts_sweep2_11 g px py ∈ ([17, 13, 11] : List Int) := by
  unfold ResolveConflicts_sweep2_11
  split_ifs <;> simp

theorem ResolveConflicts_sweep2_13_mem (g : Gray2Vec_Grid) (px py : Int) :
    ResolveConflicts_sweep2_13 g px py ∈ ([11, 15, 13] : List Int) := by
  unfold ResolveConflicts_sweep2_13
  split_ifs <;> simp

theorem ResolveConflicts_sweep2_2_mem (g : Gray2Vec_Grid) (px py : Int) :
    ResolveConflicts_sweep2_2 g px py ∈ ([6, 2] : List Int) := by
  unfold ResolveConflicts_sweep2_2
  split_ifs <;> simp

theorem ResolveConflicts_sweep2_6_mem (g : Gray2Vec_Grid) (px py : Int) :
    ResolveConflicts_sweep2_6 g px py ∈ ([2, 6] : List Int) := by
  unfold ResolveConflicts_sweep2_6
  split_ifs <;> simp

theorem ResolveConflicts_sweep2_4_mem (g : Gray2Vec_Grid) (px py : Int) :
    ResolveConflicts_sweep2_4 g px py ∈ ([8, 4] : List Int) := by
  unfold ResolveConflicts_sweep2_4
  split_ifs <;> simp

theorem ResolveConflicts_sweep2_8_mem (g : Gray2Vec_Grid) (px py : Int) :
    ResolveConflicts_sweep2_8 g px py ∈ ([4, 8] : List Int) := by
  unfold ResolveConflicts_sweep2_8
  split_ifs <;> simp

theorem ResolveConflicts_sweep2_frame (g : Gray2Vec_Grid) (px py : Int) :
    ResolveConflicts_sweep2 g px py = g.m_img_n.pix px py ∨
    (g.m_img_n.pix px py ∈ nontrivial ∧ ResolveConflicts_sweep2 g px py ∈ nontrivial) := by
  unfold ResolveConflicts_sweep2
  by_cases h1 : g.m_img_n.pix px py = 1
  · rw [if_pos h1]
    exact frame_of_mem _ _ 1 _ (by decide) h1 (by decide) (ResolveConflicts_sweep2_1_mem g px py)
  rw [if_neg h1]
  by_cases h3 : g.m_img_n.pix px py = 3
  · rw [if_pos h3]
    exact frame_of_mem _ _ 3 _ (by decide) h3 (by decide) (ResolveConflicts_sweep2_3_mem g px py)
  rw [if_neg h3]
  by_cases h5 : g.m_img_n.pix px py = 5
  · rw [if_pos h5]
    exact frame_of_mem _ _ 5 _ (by decide) h5 (by decide) (ResolveConflicts_sweep2_5_mem g px py)
  rw [if_neg h5]
  by_cases h7 : g.m_img_n.pix px py = 7
  · rw [if_pos h7]
    exact frame_of_mem _ _ 7 _ (by decide) h7 (by decide) (ResolveConflicts_sweep2_7_mem g px py)
  rw [if_neg h7]
  by_cases h15 : g.m_img_n.pix px py = 15
  · rw [if_pos h15]
    exact frame_of_mem _ _ 15 _ (by decide) h15 (by decide) (ResolveConflicts_sweep2_15_mem g px py)
  rw [if_neg h15]
  by_cases h17 : g.m_img_n.pix px py = 17
  · rw [if_pos h17]
    exact frame_of_mem _ _ 17 _ (by decide) h17 (by decide) (ResolveConflicts_sweep2_17_mem g px py)
  rw [if_neg h17]
  by_cases h11 : g.m_img_n.pix px py = 11
  · rw [if_pos h11]
    exact frame_of_mem _ _ 11 _ (by decide) h11 (by decide) (ResolveConflicts_sweep2_11_mem g px py)
  rw [if_neg h11]
  by_cases h13 : g.m_img_n.pix px py = 13
  · rw [if_pos h13]
    exact frame_of_mem _ _ 13 _ (by decide) h13 (by decide) (ResolveConflicts_sweep2_13_mem g px py)
  rw [if_neg h13]
  by_cases h2 : g.m_img_n.pix px py = 2
  · rw [if_pos h2]
    exact frame_of_mem _ _ 2 _ (by decide) h2 (by decide) (ResolveConflicts_sweep2_2_mem g px py)
  rw [if_neg h2]
  by_cases h6 : g.m_img_n.pix px py = 6
  · rw [if_pos h6]
    exact frame_of_mem _ _ 6 _ (by decide) h6 (by decide) (ResolveConflicts_sweep2_6_mem g px py)
  rw [if_neg h6]
  by_cases h4 : g.m_img_n.pix px py = 4
  · rw [if_pos h4]
    exact frame_of_mem _ _ 4 _ (by decide) h4 (by decide) (ResolveConflicts_sweep2_4_mem g px py)
  rw [if_neg h4]
  by_cases h8 : g.m_img_n.pix px py = 8
  · rw [if_pos h8]
    exact frame_of_mem _ _ 8 _ (by decide) h8 (by decide) (ResolveConflicts_sweep2_8_mem g px py)
  rw [if_neg h8]
  exact Or.inl rfl

theorem NeighborsAdjust2_switch_1_mem (g : Gray2Vec_Grid) (px py : Int) :
    NeighborsAdjust2_switch_1 g px py ∈ ([2, 8, 1] : List Int) := by
  unfold NeighborsAdjust2_switch_1
  split_ifs <;> simp

theorem NeighborsAdjust2_switch_3_mem (g : Gray2Vec_Grid) (px py : Int) :
    NeighborsAdjust2_switch_3 g px py ∈ ([4, 2, 3] : List Int) := by
  unfold NeighborsAdjust2_switch_3
  split_ifs <;> simp

theorem NeighborsAdjust2_switch_5_mem (g : Gray2Vec_Grid) (px py : Int) :
    NeighborsAdjust2_switch_5 g px py ∈ ([6, 4, 5] : List Int) := by
  unfold NeighborsAdjust2_switch_5
  split_ifs <;> simp

theorem NeighborsAdjust2_switch_7_mem (g : Gray2Vec_Grid) (px py : Int) :
    NeighborsAdjust2_switch_7 g px py ∈ ([8, 6, 7] : List Int) := by
  unfold NeighborsAdjust2_switch_7
  split_ifs <;> simp

theorem NeighborsAdjust2_switch_2_mem (g : Gray2Vec_Grid) (px py : Int) :
    NeighborsAdjust2_switch_2 g px py ∈ ([13, 11, 1, 3, 2] : List Int) := by
  unfold NeighborsAdjust2_switch_2
  split_ifs <;> simp

theorem NeighborsAdjust2_switch_4_mem (g : Gray2Vec_Grid) (px py : Int) :
    NeighborsAdjust2_switch_4 g px py ∈ ([15, 13, 3, 5, 4] : List Int) := by
  unfold NeighborsAdjust2_switch_4
  split_ifs <;> simp

theorem NeighborsAdjust2_switch_6_mem (g : Gray2Vec_Grid) (px py : Int) :
    NeighborsAdjust2_switch_6 g px py ∈ ([17, 15, 5, 7, 6] : List Int) := by
  unfold NeighborsAdjust2_switch_6
  split_ifs <;> simp

theorem NeighborsAdjust2_switch_8_mem (g : Gray2Vec_Grid) (px py : Int) :
    NeighborsAdjust2_switch_8 g px py ∈ ([11, 17, 7, 1, 8] : List Int) := by
  unfold NeighborsAdjust2_switch_8
  split_ifs <;> simp

theorem NeighborsAdjust2_switch_11_mem (g : Gray2Vec_Grid) (px py : Int) :
    NeighborsAdjust2_switch_11 g px py ∈ ([8, 2, 11] : List Int) := by
  unfold NeighborsAdjust2_switch_11
  split_ifs <;> simp

theorem NeighborsAdjust2_switch_13_mem (g : Gray2Vec_Grid) (px py : Int) :
    NeighborsAdjust2_switch_13 g px py ∈ ([2, 4, 13] : List Int) := by
  unfold NeighborsAdjust2_switch_13
  split_ifs <;> simp

theorem NeighborsAdjust2_switch_15_mem (g : Gray2Vec_Grid) (px py : Int) :
    NeighborsAdjust2_switch_15 g px py ∈ ([4, 6, 15] : List Int) := by
  unfold NeighborsAdjust2_switch_15
  split_ifs <;> simp

theorem NeighborsAdjust2_switch_17_mem (g : Gray2Vec_Grid) (px py : Int) :
    NeighborsAdjust2_switch_17 g px py ∈ ([6, 8, 17] : List Int) := by
  unfold NeighborsAdjust2_switch_17
  split_ifs <;> simp

theorem NeighborsAdjust2_switch_frame (g : Gray2Vec_Grid) (px py : Int) :
    NeighborsAdjust2_switch g px py = g.m_img_n.pix px py ∨
    (g.m_img_n.pix px py ∈ nontrivial ∧ NeighborsAdjust2_switch g px py ∈ nontrivial) := by
  unfold NeighborsAdjust2_switch
  by_cases h1 : g.m_img_n.pix px py = 1
  · rw [if_pos h1]
    exact frame_of_mem _ _ 1 _ (by decide) h1 (by decide) (NeighborsAdjust2_switch_1_mem g px py)
  rw [if_neg h1]
  by_cases h3 : g.m_img_n.pix px py = 3
  · rw [if_pos h3]
    exact frame_of_mem _ _ 3 _ (by decide) h3 (by decide) (NeighborsAdjust2_switch_3_mem g px py)
  rw [if_neg h3]
  by_cases h5 : g.m_img_n.pix px py = 5
  · rw [if_pos h5]
    exact frame_of_mem _ _ 5 _ (by decide) h5 (by decide) (NeighborsAdjust2_switch_5_mem g px py)
  rw [if_neg h5]
  by_cases h7 : g.m_img_n.pix px py = 7
  · rw [if_pos h7]
    exact frame_of_mem _ _ 7 _ (by decide) h7 (by decide) (NeighborsAdjust2_switch_7_mem g px py)
  rw [if_neg h7]
  by_cases h2 : g.m_img_n.pix px py = 2
  · rw [if_pos h2]
    exact frame_of_mem _ _ 2 _ (by decide) h2 (by decide) (NeighborsAdjust2_switch_2_mem g px py)
  rw [if_neg h2]
  by_cases h4 : g.m_img_n.pix px py = 4
  · rw [if_pos h4]
    exact frame_of_mem _ _ 4 _ (by decide) h4 (by decide) (NeighborsAdjust2_switch_4_mem g px py)
  rw [if_neg h4]
  by_cases h6 : g.m_img_n.pix px py = 6
  · rw [if_pos h6]
    exact frame_of_mem _ _ 6 _ (by decide) h6 (by decide) (NeighborsAdjust2_switch_6_mem g px py)
  rw [if_neg h6]
  by_cases h8 : g.m_img_n.pix px py = 8
  · rw [if_pos h8]
    exact frame_of_mem _ _ 8 _ (by decide) h8 (by decide) (NeighborsAdjust2_switch_8_mem g px py)
  rw [if_neg h8]
  by_cases h11 : g.m_img_n.pix px py = 11
  · rw [if_pos h11]
    exact frame_of_mem _ _ 11 _ (by decide) h11 (by decide) (NeighborsAdjust2_switch_11_mem g px py)
  rw [if_neg h11]
  by_cases h13 : g.m_img_n.pix px py = 13
  · rw [if_pos h13]
    exact frame_of_mem _ _ 13 _ (by decide) h13 (by decide) (NeighborsAdjust2_switch_13_mem g px py)
  rw [if_neg h13]
  by_cases h15 : g.m_img_n.pix px py = 15
  · rw [if_pos h15]
    exact frame_of_mem _ _ 15 _ (by decide) h15 (by decide) (NeighborsAdjust2_switch_15_mem g px py)
  rw [if_neg h15]
  by_cases h17 : g.m_img_n.pix px py = 17
  · rw [if_pos h17]
    exact frame_of_mem _ _ 17 _ (by decide) h17 (by decide) (NeighborsAdjust2_switch_17_mem g px py)
  rw [if_neg h17]
  exact Or.inl rfl

theorem nontrivial_ne (v : Int) (h : v ∈ nontrivial) : v ≠ 0 ∧ v ≠ 255 := by
  simp only [nontrivial, List.mem_cons, List.mem_singleton, List.not_mem_nil, or_false] at h
  omega

theorem Frame.refl (g : Gray2Vec_Grid) : Frame g g :=
  ⟨rfl, rfl, fun _ _ => ⟨fun _ => ⟨rfl, rfl, rfl, rfl⟩, fun _ => rfl⟩⟩

theorem interior_congr (a b : Gray2Vec_Grid) (h : b.m_img_s = a.m_img_s) (x y : Int) :
    interior b x y = interior a x y := by
  simp only [interior, h]

theorem Frame.trans {a b c : Gray2Vec_Grid} (h1 : Frame a b) (h2 : Frame b c) : Frame a c := by
  obtain ⟨i1, s1, p1⟩ := h1
  obtain ⟨i2, s2, p2⟩ := h2
  refine ⟨i2.trans i1, s2.trans s1, fun x y => ⟨fun h => ?_, fun h => ?_⟩⟩
  · obtain ⟨n1, a1, b1, c1⟩ := (p1 x y).1 h
    have h' : interior b x y = false ∨ b.m_img_n.pix x y = 0 ∨ b.m_img_n.pix x y = 255 := by
      rw [interior_congr a b s1, n1]; exact h
    obtain ⟨n2, a2, b2, c2⟩ := (p2 x y).1 h'
    exact ⟨n2.trans n1, a2.trans a1, b2.trans b1, c2.trans c1⟩
  · have e2 := (p2 x y).2 h
    have e1 := (p1 x y).2 (by rw [← e2]; exact h)
    exact e2.trans e1

theorem foldl_rel {σ α : Type} (R : σ → σ → Prop) (hrefl : ∀ s, R s s)
    (htrans : ∀ a b c, R a b → R b c → R a c) (f : σ → α → σ) (hstep : ∀ s a, R s (f s a))
    (l : List α) (s : σ) : R s (l.foldl f s) := by
  induction l generalizing s with
  | nil => exact hrefl s
  | cons a l ih => exact htrans _ _ _ (hstep s a) (ih (f s a))

theorem set_code_frame (sw : Gray2Vec_Grid → Int → Int → Int)
    (hsw : ∀ g x y, sw g x y = g.m_img_n.pix x y ∨
      (g.m_img_n.pix x y ∈ nontrivial ∧ sw g x y ∈ nontrivial))
    (g : Gray2Vec_Grid) (px py : Int) (hint : interior g px py = true) :
    Frame g { g with m_img_n := g.m_img_n.set px py (sw g px py) } := by
  refine ⟨rfl, rfl, fun x y => ⟨fun h => ⟨?_, rfl, rfl, rfl⟩, fun h => ?_⟩⟩
  · simp only [CImg.set]
    split_ifs with hc
    · obtain ⟨rfl, rfl⟩ := hc
      rcases hsw g x y with e | ⟨e1, _⟩
      · exact e
      · have := nontrivial_ne _ e1
        rcases h with h | h | h
        · rw [hint] at h; exact absurd h (by decide)
        · exact absurd h this.1
        · exact absurd h this.2
    · rfl
  · simp only [CImg.set] at h ⊢
    split_ifs at h ⊢ with hc
    · obtain ⟨rfl, rfl⟩ := hc
      rcases hsw g x y with e | ⟨_, e2⟩
      · exact e
      · have := nontrivial_ne _ e2
        rcases h with h | h
        · exact absurd h this.1
        · exact absurd h this.2
    · rfl

theorem set_fraction_frame (g : Gray2Vec_Grid) (px py : Int) (hint : interior g px py = true)
    (hn : g.m_img_n.pix px py ≠ 0 ∧ g.m_img_n.pix px py ≠ 255) :
    Frame g (set_fraction g px py).1 := by
  have key : (set_fraction g px py).1.m_img = g.m_img ∧
      (set_fraction g px py).1.m_img_s = g.m_img_s ∧
      (set_fraction g px py).1.m_img_n = g.m_img_n ∧
      ∀ x y : Int, ¬ (x = px ∧ y = py) →
        (set_fraction g px py).1.m_img_f1.pix x y = g.m_img_f1.pix x y ∧
        (set_fraction g px py).1.m_img_f2.pix x y = g.m_img_f2.pix x y ∧
        (set_fraction g px py).1.m_img_f3.pix x y = g.m_img_f3.pix x y := by
    by_cases c1 : g.m_img_n.pix px py = 1 ∨ g.m_img_n.pix px py = 3 ∨
        g.m_img_n.pix px py = 5 ∨ g.m_img_n.pix px py = 7
    · simp only [set_fraction, if_pos c1]
      exact ⟨trivial, trivial, trivial, fun x y hxy => by simp [CImg.set, hxy]⟩
    by_cases c2 : g.m_img_n.pix px py = 2 ∨ g.m_img_n.pix px py = 4 ∨
        g.m_img_n.pix px py = 6 ∨ g.m_img_n.pix px py = 8
    · simp only [set_fraction, if_neg c1, if_pos c2]
      exact ⟨trivial, trivial, trivial, fun x y hxy => by simp [CImg.set, hxy]⟩
    by_cases c3 : g.m_img_n.pix px py = 11 ∨ g.m_img_n.pix px py = 13 ∨
        g.m_img_n.pix px py = 15 ∨ g.m_img_n.pix px py = 17
    · simp only [set_fraction, if_neg c1, if_neg c2, if_pos c3]
      exact ⟨trivial, trivial, trivial, fun x y hxy => by simp [CImg.set, hxy]⟩
    · simp only [set_fraction, if_neg c1, if_neg c2, if_neg c3]
      exact ⟨trivial, trivial, trivial, fun x y hxy => by simp [CImg.set, hxy]⟩
  obtain ⟨k1, k2, k3, k4⟩ := key
  refine ⟨k1, k2, fun x y => ⟨fun h => ?_, fun _ => by rw [k3]⟩⟩
  have hxy : ¬ (x = px ∧ y = py) := by
    rintro ⟨rfl, rfl⟩
    rcases h with h | h | h
    · rw [hint] at h; exact absurd h (by decide)
    · exact hn.1 h
    · exact hn.2 h
  exact ⟨by rw [k3], k4 x y hxy⟩

theorem NeighborsAdjust_step_frame (sw : Gray2Vec_Grid → Int → Int → Int)
    (hsw : ∀ g x y, sw g x y = g.m_img_n.pix x y ∨
      (g.m_img_n.pix x y ∈ nontrivial ∧ sw g x y ∈ nontrivial))
    (g : Gray2Vec_Grid) (c : Int × Int) : Frame g (NeighborsAdjust_step sw g c) := by
  unfold NeighborsAdjust_step
  split_ifs with hint
  · exact set_code_frame sw hsw g c.1 c.2 hint
  · exact Frame.refl g

theorem changed_frame (sw : Gray2Vec_Grid → Int → Int → Int)
    (hsw : ∀ g x y, sw g x y = g.m_img_n.pix x y ∨
      (g.m_img_n.pix x y ∈ nontrivial ∧ sw g x y ∈ nontrivial))
    (g : Gray2Vec_Grid) (px py : Int) (hint : interior g px py = true)
    (hch : g.m_img_n.pix px py ≠ sw g px py) :
    Frame g (set_fraction { g with m_img_n := g.m_img_n.set px py (sw g px py) } px py).1 := by
  refine Frame.trans (set_code_frame sw hsw g px py hint) (set_fraction_frame _ px py hint ?_)
  rcases hsw g px py with e | ⟨_, e2⟩
  · exact absurd e.symm hch
  · simpa [CImg.set] using nontrivial_ne _ e2

theorem ResolveConflicts_step_frame (sw : Gray2Vec_Grid → Int → Int → Int)
    (hsw : ∀ g x y, sw g x y = g.m_img_n.pix x y ∨
      (g.m_img_n.pix x y ∈ nontrivial ∧ sw g x y ∈ nontrivial))
    (st : Gray2Vec_Grid × Nat) (c : Int × Int) :
    Frame st.1 (ResolveConflicts_step sw st c).1 := by
  by_cases hint : interior st.1 c.1 c.2 = true
  · simp only [ResolveConflicts_step, hint, if_true]
    split_ifs with hch hw
    · exact changed_frame sw hsw st.1 c.1 c.2 hint (by simpa [CImg.set] using hch)
    · exact set_code_frame sw hsw st.1 c.1 c.2 hint
    · exact set_code_frame sw hsw st.1 c.1 c.2 hint
  · simp only [ResolveConflicts_step, hint]
    exact Frame.refl st.1

theorem NeighborsAdjust2_step_frame (st : Gray2Vec_Grid × Nat) (c : Int × Int) :
    Frame st.1 (NeighborsAdjust2_step st c).1 := by
  by_cases hint : interior st.1 c.1 c.2 = true
  · simp only [NeighborsAdjust2_step, hint, if_true]
    split_ifs with hch
    · exact changed_frame _ NeighborsAdjust2_switch_frame st.1 c.1 c.2 hint
        (by simpa [CImg.set] using hch)
    · exact set_code_frame _ NeighborsAdjust2_switch_frame st.1 c.1 c.2 hint
  · simp only [NeighborsAdjust2_step, hint]
    exact Frame.refl st.1

theorem NeighborsAdjust_frame (g : Gray2Vec_Grid) : Frame g (NeighborsAdjust g) := by
  unfold NeighborsAdjust
  exact Frame.trans
    (foldl_rel Frame Frame.refl (fun _ _ _ => Frame.trans) _
      (NeighborsAdjust_step_frame _ NeighborsAdjust_sweep1_frame) _ g)
    (foldl_rel Frame Frame.refl (fun _ _ _ => Frame.trans) _
      (NeighborsAdjust_step_frame _ NeighborsAdjust_sweep2_frame) _ _)

theorem ResolveConflicts_sweep_frame (sw : Gray2Vec_Grid → Int → Int → Int)
    (hsw : ∀ g x y, sw g x y = g.m_img_n.pix x y ∨
      (g.m_img_n.pix x y ∈ nontrivial ∧ sw g x y ∈ nontrivial))
    (l : List (Int × Int)) (st : Gray2Vec_Grid × Nat) :
    Frame st.1 (l.foldl (ResolveConflicts_step sw) st).1 :=
  foldl_rel (fun a b : Gray2Vec_Grid × Nat => Frame a.1 b.1) (fun s => Frame.refl s.1)
    (fun _ _ _ => Frame.trans) _ (ResolveConflicts_step_frame sw hsw) l st

theorem ResolveConflicts_frame (g : Gray2Vec_Grid) : Frame g (ResolveConflicts g) := by
  unfold ResolveConflicts ResolveConflicts_run
  exact Frame.trans
    (ResolveConflicts_sweep_frame _ ResolveConflicts_sweep1_frame _ (g, 0))
    (ResolveConflicts_sweep_frame _ ResolveConflicts_sweep2_frame _ _)

theorem NeighborsAdjust2_frame (g : Gray2Vec_Grid) : Frame g (NeighborsAdjust2 g) := by
  unfold NeighborsAdjust2
  exact foldl_rel (fun a b : Gray2Vec_Grid × Nat => Frame a.1 b.1) (fun s => Frame.refl s.1)
    (fun _ _ _ => Frame.trans) _ NeighborsAdjust2_step_frame _ (g, 0)

theorem Frame_at {g g' : Gray2Vec_Grid} (h : Frame g g') (x y : Int) :
    g'.m_img_s = g.m_img_s ∧
    ((x ≤ 0 ∨ y ≤ 0 ∨ (g.m_img_s.width : Int) - 1 ≤ x ∨ (g.m_img_s.height : Int) - 1 ≤ y) →
      g'.m_img_n.pix x y = g.m_img_n.pix x y ∧ g'.m_img_f1.pix x y = g.m_img_f1.pix x y ∧
      g'.m_img_f2.pix x y = g.m_img_f2.pix x y ∧ g'.m_img_f3.pix x y = g.m_img_f3.pix x y) ∧
    ((g.m_img_n.pix x y = 0 ∨ g.m_img_n.pix x y = 255) →
      g'.m_img_n.pix x y = g.m_img_n.pix x y ∧ g'.m_img_f1.pix x y = g.m_img_f1.pix x y ∧
      g'.m_img_f2.pix x y = g.m_img_f2.pix x y ∧ g'.m_img_f3.pix x y = g.m_img_f3.pix x y) ∧
    ((g'.m_img_n.pix x y = 0 ∨ g'.m_img_n.pix x y = 255) →
      g'.m_img_n.pix x y = g.m_img_n.pix x y) ∧
    ((g.m_img_n.pix x y = 0 ↔ g.m_img_s.pix x y = 0) →
      (g'.m_img_n.pix x y = 0 ↔ g'.m_img_s.pix x y = 0)) ∧
    ((g.m_img_n.pix x y = 255 ↔ g.m_img_s.pix x y = 255) →
      (g'.m_img_n.pix x y = 255 ↔ g'.m_img_s.pix x y = 255)) := by
  obtain ⟨_, hs, hp⟩ := h
  obtain ⟨hp1, hp2⟩ := hp x y
  refine ⟨hs, fun hb => hp1 (Or.inl ?_), fun ht => hp1 (Or.inr ht), hp2, fun hi => ?_,
    fun hi => ?_⟩
  · simp only [interior, Bool.and_eq_false_imp, Bool.and_eq_true, decide_eq_true_eq,
      decide_eq_false_iff_not]
    intro a b
    omega
  · rw [hs]
    constructor
    · intro e
      have e' := hp2 (Or.inl e)
      exact hi.1 (e' ▸ e)
    · intro e
      have e0 := hi.2 e
      rw [(hp1 (Or.inr (Or.inl e0))).1]; exact e0
  · rw [hs]
    constructor
    · intro e
      have e' := hp2 (Or.inr e)
      exact hi.1 (e' ▸ e)
    · intro e
      have e0 := hi.2 e
      rw [(hp1 (Or.inr (Or.inr e0))).1]; exact e0

/-- C9: each of the three resolver sub-passes (`NeighborsAdjust`, `ResolveConflicts`,
`NeighborsAdjust2`) leaves the coverage grid as it is; a cell of the one-cell border (or
outside the interior) keeps its code and its fractions f1, f2, f3; so does a cell whose
code is 0 or 255; a cell whose code afterwards is 0 or 255 had that code before (the codes
0 and 255 are never assigned); hence at every cell `code = 0 iff coverage = 0` and
`code = 255 iff coverage = 255` are preserved by every pass. -/
theorem C9_resolver_frame (g : Gray2Vec_Grid) (x y : Int) :
    ∀ g' ∈ [NeighborsAdjust g, ResolveConflicts g, NeighborsAdjust2 g],
      g'.m_img_s = g.m_img_s ∧
      ((x ≤ 0 ∨ y ≤ 0 ∨ (g.m_img_s.width : Int) - 1 ≤ x ∨ (g.m_img_s.height : Int) - 1 ≤ y) →
        g'.m_img_n.pix x y = g.m_img_n.pix x y ∧ g'.m_img_f1.pix x y = g.m_img_f1.pix x y ∧
        g'.m_img_f2.pix x y = g.m_img_f2.pix x y ∧ g'.m_img_f3.pix x y = g.m_img_f3.pix x y) ∧
      ((g.m_img_n.pix x y = 0 ∨ g.m_img_n.pix x y = 255) →
        g'.m_img_n.pix x y = g.m_img_n.pix x y ∧ g'.m_img_f1.pix x y = g.m_img_f1.pix x y ∧
        g'.m_img_f2.pix x y = g.m_img_f2.pix x y ∧ g'.m_img_f3.pix x y = g.m_img_f3.pix x y) ∧
      ((g'.m_img_n.pix x y = 0 ∨ g'.m_img_n.pix x y = 255) →
        g'.m_img_n.pix x y = g.m_img_n.pix x y) ∧
      ((g.m_img_n.pix x y = 0 ↔ g.m_img_s.pix x y = 0) →
        (g'.m_img_n.pix x y = 0 ↔ g'.m_img_s.pix x y = 0)) ∧
      ((g.m_img_n.pix x y = 255 ↔ g.m_img_s.pix x y = 255) →
        (g'.m_img_n.pix x y = 255 ↔ g'.m_img_s.pix x y = 255)) := by
  intro g' hg'
  simp only [List.mem_cons, List.mem_singleton, List.not_mem_nil, or_false] at hg'
  rcases hg' with rfl | rfl | rfl
  · exact Frame_at (NeighborsAdjust_frame g) x y
  · exact Frame_at (ResolveConflicts_frame g) x y
  · exact Frame_at (NeighborsAdjust2_frame g) x y

/-- C9 witness: `ResolveConflicts` on the 3x3 grid with one corner cell keeps the code 0
of the border cell (0,1). -/
theorem C9_resolver_frame_witness :
    (ResolveConflicts cornerGrid).m_img_s = cornerGrid.m_img_s ∧
    (ResolveConflicts cornerGrid).m_img_n.pix 0 1 = cornerGrid.m_img_n.pix 0 1 :=
  ⟨(C9_resolver_frame cornerGrid 0 1 (ResolveConflicts cornerGrid) (by simp)).1,
   ((C9_resolver_frame cornerGrid 0 1 (ResolveConflicts cornerGrid) (by simp)).2.1
      (Or.inl (le_refl 0))).1⟩

theorem CImg.set_self (im : CImg) (x y : Int) : im.set x y (im.pix x y) = im := by
  cases im with
  | mk w h p =>
    simp only [CImg.set, CImg.mk.injEq, true_and]
    funext a b
    split_ifs with hc
    · obtain ⟨rfl, rfl⟩ := hc; rfl
    · rfl

theorem ResolveConflicts_step_zero (sw : Gray2Vec_Grid → Int → Int → Int)
    (st : Gray2Vec_Grid × Nat) (c : Int × Int)
    (h : (ResolveConflicts_step sw st c).2 = 0) :
    ResolveConflicts_step sw st c = st ∧
    (interior st.1 c.1 c.2 = true → sw st.1 c.1 c.2 = st.1.m_img_n.pix c.1 c.2) := by
  by_cases hint : interior st.1 c.1 c.2 = true
  · have hpix : (st.1.m_img_n.set c.1 c.2 (sw st.1 c.1 c.2)).pix c.1 c.2 = sw st.1 c.1 c.2 := by
      simp [CImg.set]
    simp only [ResolveConflicts_step, hint, if_true, hpix] at h ⊢
    by_cases hch : st.1.m_img_n.pix c.1 c.2 = sw st.1 c.1 c.2
    · have hset : st.1.m_img_n.set c.1 c.2 (sw st.1 c.1 c.2) = st.1.m_img_n := by
        rw [← hch]; exact CImg.set_self _ _ _
      refine ⟨?_, fun _ => hch.symm⟩
      rw [if_neg (not_not.2 hch), hset]
    · exfalso
      rw [if_pos hch] at h
      exact Nat.succ_ne_zero _ h
  · refine ⟨?_, fun e => absurd e hint⟩
    simp only [ResolveConflicts_step, hint]
    rfl

theorem ResolveConflicts_fold_zero (sw : Gray2Vec_Grid → Int → Int → Int)
    (l : List (Int × Int)) (st : Gray2Vec_Grid × Nat)
    (h : (l.foldl (ResolveConflicts_step sw) st).2 = 0) :
    l.foldl (ResolveConflicts_step sw) st = st ∧
    ∀ c ∈ l, interior st.1 c.1 c.2 = true → sw st.1 c.1 c.2 = st.1.m_img_n.pix c.1 c.2 := by
  induction l generalizing st with
  | nil => exact ⟨rfl, fun c hc => absurd hc (List.not_mem_nil c)⟩
  | cons a l ih =>
    rw [List.foldl_cons] at h ⊢
    obtain ⟨e1, p1⟩ := ih _ h
    rw [e1] at h
    obtain ⟨e2, p2⟩ := ResolveConflicts_step_zero sw st a h
    refine ⟨e1.trans e2, fun c hc => ?_⟩
    rcases List.mem_cons.1 hc with rfl | hc
    · exact p2
    · have := p1 c hc
      rwa [e2] at this

theorem interior_mem_forXY (g : Gray2Vec_Grid) (x y : Int) (h : interior g x y = true) :
    (x, y) ∈ forXY g.m_img_s := by
  simp only [interior, Bool.and_eq_true, decide_eq_true_eq] at h
  exact (mem_forXY _ x y).2 ⟨⟨by omega, by omega⟩, ⟨by omega, by omega⟩⟩

/-- C10 (as stated, refuted): on the 3x3 grid whose centre cell (1,1) has the corner
code 1 and whose other cells are empty, a full run of `ResolveConflicts` reassigns nothing
(both counters are 0 and the centre keeps code 1); the centre is an interior cell with a
non-trivial code and `side1 1 = 2` (north), yet the northern neighbour (1,0) has code 0,
neither `side1` nor `side2` of it is the opposite direction 6, and `share_sides` of the
pair is 0. -/
theorem C10_counterexample :
    (ResolveConflicts_run cornerGrid).2 = (0, 0) ∧
    (ResolveConflicts cornerGrid).m_img_n.pix 1 1 = cornerGrid.m_img_n.pix 1 1 ∧
    interior cornerGrid 1 1 = true ∧ cornerGrid.m_img_n.pix 1 1 ∈ nontrivial ∧
    side1 (cornerGrid.m_img_n.pix 1 1) = 2 ∧ move_dir (1, 1) 2 = (1, 0) ∧
    side1 (cornerGrid.m_img_n.pix 1 0) ≠ 6 ∧ side2 (cornerGrid.m_img_n.pix 1 0) ≠ 6 ∧
    share_sides cornerGrid 1 1 1 0 = 0 := by
  decide

/-- C10 (amended): if a full run of `ResolveConflicts` reassigns no cell (both of its change
counters are 0), then it leaves the grid as it is and every interior cell is stable under
both sweeps: neither the first nor the second sweep's `switch`, evaluated on that grid at
the cell, selects a code other than the cell's own.  (Nothing follows about `side1` or
`side2` of the neighbouring cells.) -/
theorem C10_converged_is_fixed_point (g : Gray2Vec_Grid)
    (h : (ResolveConflicts_run g).2 = (0, 0)) :
    ResolveConflicts g = g ∧
    ∀ x y : Int, interior g x y = true →
      ResolveConflicts_sweep1 g x y = g.m_img_n.pix x y ∧
      ResolveConflicts_sweep2 g x y = g.m_img_n.pix x y := by
  simp only [ResolveConflicts_run, Prod.mk.injEq] at h
  obtain ⟨h1, h2⟩ := h
  obtain ⟨e1, p1⟩ := ResolveConflicts_fold_zero ResolveConflicts_sweep1 _ (g, 0) h1
  rw [e1] at h2
  obtain ⟨e2, p2⟩ := ResolveConflicts_fold_zero ResolveConflicts_sweep2 _ (g, 0) h2
  refine ⟨?_, fun x y hint => ⟨?_, ?_⟩⟩
  · simp only [ResolveConflicts, ResolveConflicts_run]
    rw [e1, e2]
  · exact p1 (x, y) (interior_mem_forXY g x y hint) hint
  · exact p2 (x, y) (interior_mem_forXY g x y hint) hint

/-- C10 witness: the 3x3 grid with one corner cell is converged; its centre cell is stable
under both sweeps. -/
theorem C10_converged_is_fixed_point_witness :
    (ResolveConflicts_run cornerGrid).2 = (0, 0) ∧
    ResolveConflicts cornerGrid = cornerGrid ∧
    ResolveConflicts_sweep1 cornerGrid 1 1 = cornerGrid.m_img_n.pix 1 1 ∧
    ResolveConflicts_sweep2 cornerGrid 1 1 = cornerGrid.m_img_n.pix 1 1 :=
  ⟨by decide, (C10_converged_is_fixed_point cornerGrid (by decide)).1,
    (C10_converged_is_fixed_point cornerGrid (by decide)).2 1 1 (by decide)⟩

/-! ## Single sweeps, cell states and the fraction passes: auxiliary lemmas -/

theorem forXY_nodup (im : CImg) : (forXY im).Nodup := by
  unfold forXY
  rw [List.nodup_flatMap]
  refine ⟨fun y _ => ?_, ?_⟩
  · refine (List.nodup_range _).map ?_
    intro a b h
    simpa using h
  · refine (List.nodup_range _).pairwise_of_forall_ne ?_
    intro a _ b _ hab
    simp only [Function.onFun, List.disjoint_left, List.mem_map, List.mem_range, not_exists,
      not_and]
    rintro p ⟨x, _, rfl⟩ x' _ h
    apply hab
    simpa using (Prod.mk.inj h).2.symm

theorem fold_local {σ α : Type} (view : σ → Int × Int → α) (T : α → α → Prop)
    (Inv : σ → Prop) (step : σ → Int × Int → σ)
    (hinv : ∀ s c, Inv s → Inv (step s c))
    (hloc : ∀ s c p, p ≠ c → view (step s c) p = view s p)
    (hT : ∀ s c, Inv s → T (view s c) (view (step s c) c))
    (l : List (Int × Int)) (hnd : l.Nodup) (s : σ) (hs : Inv s) :
    Inv (l.foldl step s) ∧
    ∀ p, (p ∈ l → T (view s p) (view (l.foldl step s) p)) ∧
      (p ∉ l → view (l.foldl step s) p = view s p) := by
  induction l generalizing s with
  | nil => exact ⟨hs, fun p => ⟨fun h => absurd h (List.not_mem_nil p), fun _ => rfl⟩⟩
  | cons c l ih =>
    obtain ⟨hc, hl⟩ := List.nodup_cons.1 hnd
    obtain ⟨i1, i2⟩ := ih hl (step s c) (hinv s c hs)
    rw [List.foldl_cons]
    refine ⟨i1, fun p => ⟨fun hp => ?_, fun hp => ?_⟩⟩
    · rcases List.mem_cons.1 hp with rfl | hp'
      · rw [(i2 p).2 hc]
        exact hT s p hs
      · have hne : p ≠ c := fun e => hc (e ▸ hp')
        have := (i2 p).1 hp'
        rwa [hloc s c p hne] at this
    · have hne : p ≠ c := fun e => hp (e ▸ List.mem_cons_self _ _)
      have hp' : p ∉ l := fun e => hp (List.mem_cons_of_mem _ e)
      rw [(i2 p).2 hp', hloc s c p hne]

theorem set_fraction_view (g : Gray2Vec_Grid) (px py : Int) :
    cell_view (set_fraction g px py).1 (px, py)
      = { n := g.m_img_n.pix px py
          f1 := class_init (g.m_img_n.pix px py) (g.m_img_s.pix px py)
          f2 := class_init (g.m_img_n.pix px py) (g.m_img_s.pix px py)
          f3 := -1
          s := g.m_img_s.pix px py } := by
  by_cases c1 : g.m_img_n.pix px py = 1 ∨ g.m_img_n.pix px py = 3 ∨
      g.m_img_n.pix px py = 5 ∨ g.m_img_n.pix px py = 7
  · simp [set_fraction, class_init, cell_view, if_pos c1, CImg.set]
  by_cases c2 : g.m_img_n.pix px py = 2 ∨ g.m_img_n.pix px py = 4 ∨
      g.m_img_n.pix px py = 6 ∨ g.m_img_n.pix px py = 8
  · simp [set_fraction, class_init, cell_view, if_neg c1, if_pos c2, CImg.set]
  by_cases c3 : g.m_img_n.pix px py = 11 ∨ g.m_img_n.pix px py = 13 ∨
      g.m_img_n.pix px py = 15 ∨ g.m_img_n.pix px py = 17
  · simp [set_fraction, class_init, cell_view, if_neg c1, if_neg c2, if_pos c3, CImg.set]
  · simp [set_fraction, class_init, cell_view, if_neg c1, if_neg c2, if_neg c3, CImg.set]

theorem set_fraction_view_ne (g : Gray2Vec_Grid) (px py : Int) (p : Int × Int)
    (hne : p ≠ (px, py)) : cell_view (set_fraction g px py).1 p = cell_view g p := by
  have hxy : ¬ (p.1 = px ∧ p.2 = py) := fun h => hne (Prod.ext h.1 h.2)
  by_cases c1 : g.m_img_n.pix px py = 1 ∨ g.m_img_n.pix px py = 3 ∨
      g.m_img_n.pix px py = 5 ∨ g.m_img_n.pix px py = 7
  · simp [set_fraction, cell_view, if_pos c1, CImg.set, hxy]
  by_cases c2 : g.m_img_n.pix px py = 2 ∨ g.m_img_n.pix px py = 4 ∨
      g.m_img_n.pix px py = 6 ∨ g.m_img_n.pix px py = 8
  · simp [set_fraction, cell_view, if_neg c1, if_pos c2, CImg.set, hxy]
  by_cases c3 : g.m_img_n.pix px py = 11 ∨ g.m_img_n.pix px py = 13 ∨
      g.m_img_n.pix px py = 15 ∨ g.m_img_n.pix px py = 17
  · simp [set_fraction, cell_view, if_neg c1, if_neg c2, if_pos c3, CImg.set, hxy]
  · simp [set_fraction, cell_view, if_neg c1, if_neg c2, if_neg c3, CImg.set, hxy]

theorem set_fraction_dims (g : Gray2Vec_Grid) (px py : Int) :
    (set_fraction g px py).1.m_img_f1.width = g.m_img_f1.width ∧
    (set_fraction g px py).1.m_img_s = g.m_img_s := by
  by_cases c1 : g.m_img_n.pix px py = 1 ∨ g.m_img_n.pix px py = 3 ∨
      g.m_img_n.pix px py = 5 ∨ g.m_img_n.pix px py = 7
  · simp [set_fraction, if_pos c1, CImg.set]
  by_cases c2 : g.m_img_n.pix px py = 2 ∨ g.m_img_n.pix px py = 4 ∨
      g.m_img_n.pix px py = 6 ∨ g.m_img_n.pix px py = 8
  · simp [set_fraction, if_neg c1, if_pos c2, CImg.set]
  by_cases c3 : g.m_img_n.pix px py = 11 ∨ g.m_img_n.pix px py = 13 ∨
      g.m_img_n.pix px py = 15 ∨ g.m_img_n.pix px py = 17
  · simp [set_fraction, if_neg c1, if_neg c2, if_pos c3, CImg.set]
  · simp [set_fraction, if_neg c1, if_neg c2, if_neg c3, CImg.set]

theorem set_code_view (g : Gray2Vec_Grid) (c : Int × Int) (v : Int) :
    cell_view { g with m_img_n := g.m_img_n.set c.1 c.2 v } c
      = { cell_view g c with n := v } := by
  simp [cell_view, CImg.set]

theorem set_code_view_ne (g : Gray2Vec_Grid) (c p : Int × Int) (v : Int) (hne : p ≠ c) :
    cell_view { g with m_img_n := g.m_img_n.set c.1 c.2 v } p = cell_view g p := by
  have hxy : ¬ (p.1 = c.1 ∧ p.2 = c.2) := fun h => hne (Prod.ext h.1 h.2)
  simp [cell_view, CImg.set, hxy]

theorem set_code_self (g : Gray2Vec_Grid) (c : Int × Int) :
    ({ g with m_img_n := g.m_img_n.set c.1 c.2 (g.m_img_n.pix c.1 c.2) } : Gray2Vec_Grid)
      = g := by
  rw [CImg.set_self]

theorem Reassigned_refl (r : Prop) (P : Cell → Int → Prop) (hrefl : ∀ o, P o o.n) (o : Cell) :
    Reassigned r P o o :=
  ⟨rfl, hrefl o, Or.inl ⟨rfl, rfl, rfl, rfl⟩⟩

theorem ResolveConflicts_step_local (sw : Gray2Vec_Grid → Int → Int → Int)
    (st : Gray2Vec_Grid × Nat) (c p : Int × Int) (hne : p ≠ c) :
    cell_view (ResolveConflicts_step sw st c).1 p = cell_view st.1 p := by
  have hne' : p ≠ (c.1, c.2) := by simpa using hne
  by_cases hint : interior st.1 c.1 c.2 = true
  · simp only [ResolveConflicts_step, hint, if_true]
    split_ifs
    · rw [set_fraction_view_ne _ _ _ _ hne', set_code_view_ne _ _ _ _ hne]
    · exact set_code_view_ne _ _ _ _ hne
    · exact set_code_view_ne _ _ _ _ hne
  · simp only [ResolveConflicts_step, hint]
    rfl

theorem ResolveConflicts_step_dims (sw : Gray2Vec_Grid → Int → Int → Int)
    (st : Gray2Vec_Grid × Nat) (c : Int × Int) :
    (ResolveConflicts_step sw st c).1.m_img_f1.width = st.1.m_img_f1.width ∧
    (ResolveConflicts_step sw st c).1.m_img_s = st.1.m_img_s := by
  by_cases hint : interior st.1 c.1 c.2 = true
  · simp only [ResolveConflicts_step, hint, if_true]
    split_ifs
    · exact set_fraction_dims _ _ _
    · exact ⟨rfl, rfl⟩
    · exact ⟨rfl, rfl⟩
  · simp only [ResolveConflicts_step, hint]
    exact ⟨rfl, rfl⟩

theorem ResolveConflicts_step_at (sw : Gray2Vec_Grid → Int → Int → Int)
    (P : Cell → Int → Prop) (hP : ∀ g x y, P (cell_view g (x, y)) (sw g x y))
    (hrefl : ∀ o, P o o.n) (st : Gray2Vec_Grid × Nat) (c : Int × Int) :
    Reassigned (st.1.m_img_f1.width > 0) P (cell_view st.1 c)
      (cell_view (ResolveConflicts_step sw st c).1 c) := by
  by_cases hint : interior st.1 c.1 c.2 = true
  · have hpix : (st.1.m_img_n.set c.1 c.2 (sw st.1 c.1 c.2)).pix c.1 c.2 = sw st.1 c.1 c.2 := by
      simp [CImg.set]
    have hPc : P (cell_view st.1 c) (sw st.1 c.1 c.2) := by
      have := hP st.1 c.1 c.2
      simpa using this
    simp only [ResolveConflicts_step, hint, if_true, hpix]
    by_cases hch : st.1.m_img_n.pix c.1 c.2 = sw st.1 c.1 c.2
    · rw [if_neg (not_not.2 hch), ← hch, set_code_self]
      exact Reassigned_refl _ P hrefl _
    · rw [if_pos hch]
      by_cases hw : st.1.m_img_f1.width > 0
      · simp only [if_pos hw]
        have hv := set_fraction_view
          { st.1 with m_img_n := st.1.m_img_n.set c.1 c.2 (sw st.1 c.1 c.2) } c.1 c.2
        simp only [Prod.mk.eta, hpix] at hv
        rw [hv]
        exact ⟨rfl, hPc, Or.inr ⟨fun e => hch e.symm, Or.inl ⟨hw, rfl, rfl, rfl⟩⟩⟩
      · simp only [if_neg hw]
        rw [set_code_view]
        exact ⟨rfl, hPc, Or.inr ⟨fun e => hch e.symm, Or.inr ⟨hw, rfl, rfl, rfl⟩⟩⟩
  · simp only [ResolveConflicts_step, hint]
    exact Reassigned_refl _ P hrefl _

theorem ResolveConflicts_sweep_view (sw : Gray2Vec_Grid → Int → Int → Int)
    (P : Cell → Int → Prop) (hP : ∀ g x y, P (cell_view g (x, y)) (sw g x y))
    (hrefl : ∀ o, P o o.n) (g : Gray2Vec_Grid) (k : Nat) (p : Int × Int) :
    ((forXY g.m_img_s).foldl (ResolveConflicts_step sw) (g, k)).1.m_img_f1.width
        = g.m_img_f1.width ∧
    ((forXY g.m_img_s).foldl (ResolveConflicts_step sw) (g, k)).1.m_img_s = g.m_img_s ∧
    Reassigned (g.m_img_f1.width > 0) P (cell_view g p)
      (cell_view ((forXY g.m_img_s).foldl (ResolveConflicts_step sw) (g, k)).1 p) := by
  have key := fold_local (fun (st : Gray2Vec_Grid × Nat) q => cell_view st.1 q)
    (Reassigned (g.m_img_f1.width > 0) P)
    (fun st => st.1.m_img_f1.width = g.m_img_f1.width ∧ st.1.m_img_s = g.m_img_s)
    (ResolveConflicts_step sw)
    (fun st c hi => ⟨(ResolveConflicts_step_dims sw st c).1.trans hi.1,
      (ResolveConflicts_step_dims sw st c).2.trans hi.2⟩)
    (fun st c q hne => ResolveConflicts_step_local sw st c q hne)
    (fun st c hi => by
      have := ResolveConflicts_step_at sw P hP hrefl st c
      rwa [hi.1] at this)
    (forXY g.m_img_s) (forXY_nodup _) (g, k) ⟨rfl, rfl⟩
  refine ⟨key.1.1, key.1.2, ?_⟩
  by_cases hp : p ∈ forXY g.m_img_s
  · exact (key.2 p).1 hp
  · have := (key.2 p).2 hp
    simp only at this
    rw [this]
    exact Reassigned_refl _ P hrefl _

theorem NeighborsAdjust_step_local (sw : Gray2Vec_Grid → Int → Int → Int)
    (g : Gray2Vec_Grid) (c p : Int × Int) (hne : p ≠ c) :
    cell_view (NeighborsAdjust_step sw g c) p = cell_view g p := by
  unfold NeighborsAdjust_step
  split_ifs
  · exact set_code_view_ne _ _ _ _ hne
  · rfl

theorem NeighborsAdjust_step_at (sw : Gray2Vec_Grid → Int → Int → Int)
    (P : Cell → Int → Prop) (hP : ∀ g x y, P (cell_view g (x, y)) (sw g x y))
    (hrefl : ∀ o, P o o.n) (g : Gray2Vec_Grid) (c : Int × Int) :
    Reassigned False P (cell_view g c) (cell_view (NeighborsAdjust_step sw g c) c) := by
  unfold NeighborsAdjust_step
  split_ifs with hint
  · have hPc : P (cell_view g c) (sw g c.1 c.2) := by
      have := hP g c.1 c.2
      simpa using this
    rw [set_code_view]
    by_cases hch : sw g c.1 c.2 = g.m_img_n.pix c.1 c.2
    · exact ⟨rfl, hPc, Or.inl ⟨hch, rfl, rfl, rfl⟩⟩
    · exact ⟨rfl, hPc, Or.inr ⟨hch, Or.inr ⟨not_false, rfl, rfl, rfl⟩⟩⟩
  · exact Reassigned_refl _ P hrefl _

theorem NeighborsAdjust_sweep_view (sw : Gray2Vec_Grid → Int → Int → Int)
    (P : Cell → Int → Prop) (hP : ∀ g x y, P (cell_view g (x, y)) (sw g x y))
    (hrefl : ∀ o, P o o.n) (g : Gray2Vec_Grid) (p : Int × Int) :
    ((forXY g.m_img_s).foldl (NeighborsAdjust_step sw) g).m_img_s = g.m_img_s ∧
    Reassigned False P (cell_view g p)
      (cell_view ((forXY g.m_img_s).foldl (NeighborsAdjust_step sw) g) p) := by
  have key := fold_local (fun (st : Gray2Vec_Grid) q => cell_view st q)
    (Reassigned False P) (fun st => st.m_img_s = g.m_img_s) (NeighborsAdjust_step sw)
    (fun st c hi => by
      unfold NeighborsAdjust_step
      split_ifs
      · exact hi
      · exact hi)
    (fun st c q hne => NeighborsAdjust_step_local sw st c q hne)
    (fun st c _ => NeighborsAdjust_step_at sw P hP hrefl st c)
    (forXY g.m_img_s) (forXY_nodup _) g rfl
  refine ⟨key.1, ?_⟩
  by_cases hp : p ∈ forXY g.m_img_s
  · exact (key.2 p).1 hp
  · have := (key.2 p).2 hp
    simp only at this
    rw [this]
    exact Reassigned_refl _ P hrefl _

theorem NeighborsAdjust2_step_local (st : Gray2Vec_Grid × Nat) (c p : Int × Int)
    (hne : p ≠ c) : cell_view (NeighborsAdjust2_step st c).1 p = cell_view st.1 p := by
  have hne' : p ≠ (c.1, c.2) := by simpa using hne
  by_cases hint : interior st.1 c.1 c.2 = true
  · simp only [NeighborsAdjust2_step, hint, if_true]
    split_ifs
    · rw [set_fraction_view_ne _ _ _ _ hne', set_code_view_ne _ _ _ _ hne]
    · exact set_code_view_ne _ _ _ _ hne
  · simp only [NeighborsAdjust2_step, hint]
    rfl

theorem NeighborsAdjust2_step_dims (st : Gray2Vec_Grid × Nat) (c : Int × Int) :
    (NeighborsAdjust2_step st c).1.m_img_s = st.1.m_img_s := by
  by_cases hint : interior st.1 c.1 c.2 = true
  · simp only [NeighborsAdjust2_step, hint, if_true]
    split_ifs
    · exact (set_fraction_dims _ _ _).2
    · rfl
  · simp only [NeighborsAdjust2_step, hint]
    rfl

theorem NeighborsAdjust2_step_at (P : Cell → Int → Prop)
    (hP : ∀ g x y, P (cell_view g (x, y)) (NeighborsAdjust2_switch g x y))
    (hrefl : ∀ o, P o o.n) (st : Gray2Vec_Grid × Nat) (c : Int × Int) :
    Reassigned True P (cell_view st.1 c) (cell_view (NeighborsAdjust2_step st c).1 c) := by
  by_cases hint : interior st.1 c.1 c.2 = true
  · have hpix : (st.1.m_img_n.set c.1 c.2 (NeighborsAdjust2_switch st.1 c.1 c.2)).pix c.1 c.2
        = NeighborsAdjust2_switch st.1 c.1 c.2 := by
      simp [CImg.set]
    have hPc : P (cell_view st.1 c) (NeighborsAdjust2_switch st.1 c.1 c.2) := by
      have := hP st.1 c.1 c.2
      simpa using this
    simp only [NeighborsAdjust2_step, hint, if_true, hpix]
    by_cases hch : st.1.m_img_n.pix c.1 c.2 = NeighborsAdjust2_switch st.1 c.1 c.2
    · rw [if_neg (not_not.2 hch), ← hch, set_code_self]
      exact Reassigned_refl _ P hrefl _
    · rw [if_pos hch]
      have hv := set_fraction_view
        { st.1 with m_img_n := st.1.m_img_n.set c.1 c.2 (NeighborsAdjust2_switch st.1 c.1 c.2) }
        c.1 c.2
      simp only [Prod.mk.eta, hpix] at hv
      rw [hv]
      exact ⟨rfl, hPc, Or.inr ⟨fun e => hch e.symm, Or.inl ⟨trivial, rfl, rfl, rfl⟩⟩⟩
  · simp only [NeighborsAdjust2_step, hint]
    exact Reassigned_refl _ P hrefl _

theorem NeighborsAdjust2_view (P : Cell → Int → Prop)
    (hP : ∀ g x y, P (cell_view g (x, y)) (NeighborsAdjust2_switch g x y))
    (hrefl : ∀ o, P o o.n) (g : Gray2Vec_Grid) (p : Int × Int) :
    (NeighborsAdjust2 g).m_img_s = g.m_img_s ∧
    Reassigned True P (cell_view g p) (cell_view (NeighborsAdjust2 g) p) := by
  unfold NeighborsAdjust2
  have key := fold_local (fun (st : Gray2Vec_Grid × Nat) q => cell_view st.1 q)
    (Reassigned True P) (fun st => st.1.m_img_s = g.m_img_s) NeighborsAdjust2_step
    (fun st c hi => (NeighborsAdjust2_step_dims st c).trans hi)
    (fun st c q hne => NeighborsAdjust2_step_local st c q hne)
    (fun st c _ => NeighborsAdjust2_step_at P hP hrefl st c)
    (forXY g.m_img_s) (forXY_nodup _) (g, 0) rfl
  refine ⟨key.1, ?_⟩
  by_cases hp : p ∈ forXY g.m_img_s
  · exact (key.2 p).1 hp
  · have := (key.2 p).2 hp
    simp only at this
    rw [this]
    exact Reassigned_refl _ P hrefl _

theorem NeighborsAdjust_sweep1_cases (Q : Int → Int → Prop) (hrefl : ∀ n, Q n n)
    (h1 : ∀ v ∈ ([2, 8, 1] : List Int), Q 1 v) (h3 : ∀ v ∈ ([2, 4, 3] : List Int), Q 3 v)
    (h5 : ∀ v ∈ ([6, 4, 5] : List Int), Q 5 v) (h7 : ∀ v ∈ ([8, 6, 7] : List Int), Q 7 v)
    (g : Gray2Vec_Grid) (px py : Int) :
    Q (g.m_img_n.pix px py) (NeighborsAdjust_sweep1 g px py) := by
  unfold NeighborsAdjust_sweep1
  by_cases k1 : g.m_img_n.pix px py = 1
  · rw [if_pos k1, k1]
    exact h1 _ (NeighborsAdjust_sweep1_1_mem g px py)
  rw [if_neg k1]
  by_cases k3 : g.m_img_n.pix px py = 3
  · rw [if_pos k3, k3]
    exact h3 _ (NeighborsAdjust_sweep1_3_mem g px py)
  rw [if_neg k3]
  by_cases k5 : g.m_img_n.pix px py = 5
  · rw [if_pos k5, k5]
    exact h5 _ (NeighborsAdjust_sweep1_5_mem g px py)
  rw [if_neg k5]
  by_cases k7 : g.m_img_n.pix px py = 7
  · rw [if_pos k7, k7]
    exact h7 _ (NeighborsAdjust_sweep1_7_mem g px py)
  rw [if_neg k7]
  exact hrefl _

theorem NeighborsAdjust_sweep2_cases (Q : Int → Int → Prop) (hrefl : ∀ n, Q n n)
    (h1 : ∀ v ∈ ([8, 2, 1] : List Int), Q 1 v) (h3 : ∀ v ∈ ([2, 4, 3] : List Int), Q 3 v)
    (h5 : ∀ v ∈ ([4, 6, 5] : List Int), Q 5 v) (h7 : ∀ v ∈ ([6, 8, 7] : List Int), Q 7 v)
    (h11 : ∀ v ∈ ([8, 2, 11] : List Int), Q 11 v) (h13 : ∀ v ∈ ([2, 4, 13] : List Int), Q 13 v)
    (h15 : ∀ v ∈ ([4, 6, 15] : List Int), Q 15 v) (h17 : ∀ v ∈ ([6, 8, 17] : List Int), Q 17 v)
    (g : Gray2Vec_Grid) (px py : Int) :
    Q (g.m_img_n.pix px py) (NeighborsAdjust_sweep2 g px py) := by
  unfold NeighborsAdjust_sweep2
  by_cases k1 : g.m_img_n.pix px py = 1
  · rw [if_pos k1, k1]
    exact h1 _ (NeighborsAdjust_sweep2_1_mem g px py)
  rw [if_neg k1]
  by_cases k3 : g.m_img_n.pix px py = 3
  · rw [if_pos k3, k3]
    exact h3 _ (NeighborsAdjust_sweep2_3_mem g px py)
  rw [if_neg k3]
  by_cases k5 : g.m_img_n.pix px py = 5
  · rw [if_pos k5, k5]
    exact h5 _ (NeighborsAdjust_sweep2_5_mem g px py)
  rw [if_neg k5]
  by_cases k7 : g.m_img_n.pix px py = 7
  · rw [if_pos k7, k7]
    exact h7 _ (NeighborsAdjust_sweep2_7_mem g px py)
  rw [if_neg k7]
  by_cases k11 : g.m_img_n.pix px py = 11
  · rw [if_pos k11, k11]
    exact h11 _ (NeighborsAdjust_sweep2_11_mem g px py)
  rw [if_neg k11]
  by_cases k13 : g.m_img_n.pix px py = 13
  · rw [if_pos k13, k13]
    exact h13 _ (NeighborsAdjust_sweep2_13_mem g px py)
  rw [if_neg k13]
  by_cases k15 : g.m_img_n.pix px py = 15
  · rw [if_pos k15, k15]
    exact h15 _ (NeighborsAdjust_sweep2_15_mem g px py)
  rw [if_neg k15]
  by_cases k17 : g.m_img_n.pix px py = 17
  · rw [if_pos k17, k17]
    exact h17 _ (NeighborsAdjust_sweep2_17_mem g px py)
  rw [if_neg k17]
  exact hrefl _

theorem ResolveConflicts_sweep1_cases (Q : Int → Int → Prop) (hrefl : ∀ n, Q n n)
    (h1 : ∀ v ∈ ([7, 3, 1] : List Int), Q 1 v) (h3 : ∀ v ∈ ([1, 5, 3] : List Int), Q 3 v)
    (h5 : ∀ v ∈ ([3, 7, 5] : List Int), Q 5 v) (h7 : ∀ v ∈ ([5, 1, 7] : List Int), Q 7 v)
    (h15 : ∀ v ∈ ([13, 17, 15] : List Int), Q 15 v)
    (h17 : ∀ v ∈ ([15, 11, 17] : List Int), Q 17 v)
    (h11 : ∀ v ∈ ([17, 13, 11] : List Int), Q 11 v)
    (h13 : ∀ v ∈ ([11, 15, 13] : List Int), Q 13 v) (h2 : ∀ v ∈ ([4, 8, 2] : List Int), Q 2 v)
    (h6 : ∀ v ∈ ([4, 8, 6] : List Int), Q 6 v) (h4 : ∀ v ∈ ([6, 2, 4] : List Int), Q 4 v)
    (h8 : ∀ v ∈ ([6, 2, 8] : List Int), Q 8 v)
    (g : Gray2Vec_Grid) (px py : Int) :
    Q (g.m_img_n.pix px py) (ResolveConflicts_sweep1 g px py) := by
  unfold ResolveConflicts_sweep1
  by_cases k1 : g.m_img_n.pix px py = 1
  · rw [if_pos k1, k1]
    exact h1 _ (ResolveConflicts_sweep1_1_mem g px py)
  rw [if_neg k1]
  by_cases k3 : g.m_img_n.pix px py = 3
  · rw [if_pos k3, k3]
    exact h3 _ (ResolveConflicts_sweep1_3_mem g px py)
  rw [if_neg k3]
  by_cases k5 : g.m_img_n.pix px py = 5
  · rw [if_pos k5, k5]
    exact h5 _ (ResolveConflicts_sweep1_5_mem g px py)
  rw [if_neg k5]
  by_cases k7 : g.m_img_n.pix px py = 7
  · rw [if_pos k7, k7]
    exact h7 _ (ResolveConflicts_sweep1_7_mem g px py)
  rw [if_neg k7]
  by_cases k15 : g.m_img_n.pix px py = 15
  · rw [if_pos k15, k15]
    exact h15 _ (ResolveConflicts_sweep1_15_mem g px py)
  rw [if_neg k15]
  by_cases k17 : g.m_img_n.pix px py = 17
  · rw [if_pos k17, k17]
    exact h17 _ (ResolveConflicts_sweep1_17_mem g px py)
  rw [if_neg k17]
  by_cases k11 : g.m_img_n.pix px py = 11
  · rw [if_pos k11, k11]
    exact h11 _ (ResolveConflicts_sweep1_11_mem g px py)
  rw [if_neg k11]
  by_cases k13 : g.m_img_n.pix px py = 13
  · rw [if_pos k13, k13]
    exact h13 _ (ResolveConflicts_sweep1_13_mem g px py)
  rw [if_neg k13]
  by_cases k2 : g.m_img_n.pix px py = 2
  · rw [if_pos k2, k2]
    exact h2 _ (ResolveConflicts_sweep1_2_mem g px py)
  rw [if_neg k2]
  by_cases k6 : g.m_img_n.pix px py = 6
  · rw [if_pos k6, k6]
    exact h6 _ (ResolveConflicts_sweep1_6_mem g px py)
  rw [if_neg k6]
  by_cases k4 : g.m_img_n.pix px py = 4
  · rw [if_pos k4, k4]
    exact h4 _ (ResolveConflicts_sweep1_4_mem g px py)
  rw [if_neg k4]
  by_cases k8 : g.m_img_n.pix px py = 8
  · rw [if_pos k8, k8]
    exact h8 _ (ResolveConflicts_sweep1_8_mem g px py)
  rw [if_neg k8]
  exact hrefl _

theorem ResolveConflicts_sweep2_cases (Q : Int → Int → Prop) (hrefl : ∀ n, Q n n)
    (h1 : ∀ v ∈ ([7, 3, 1] : List Int), Q 1 v) (h3 : ∀ v ∈ ([1, 5, 3] : List Int), Q 3 v)
    (h5 : ∀ v ∈ ([3, 7, 5] : List Int), Q 5 v) (h7 : ∀ v ∈ ([5, 1, 7] : List Int), Q 7 v)
    (h15 : ∀ v ∈ ([13, 17, 15] : List Int), Q 15 v)
    (h17 : ∀ v ∈ ([15, 11, 17] : List Int), Q 17 v)
    (h11 : ∀ v ∈ ([17, 13, 11] : List Int), Q 11 v)
    (h13 : ∀ v ∈ ([11, 15, 13] : List Int), Q 13 v) (h2 : ∀ v ∈ ([6, 2] : List Int), Q 2 v)
    (h6 : ∀ v ∈ ([2, 6] : List Int), Q 6 v) (h4 : ∀ v ∈ ([8, 4] : List Int), Q 4 v)
    (h8 : ∀ v ∈ ([4, 8] : List Int), Q 8 v)
    (g : Gray2Vec_Grid) (px py : Int) :
    Q (g.m_img_n.pix px py) (ResolveConflicts_sweep2 g px py) := by
  unfold ResolveConflicts_sweep2
  by_cases k1 : g.m_img_n.pix px py = 1
  · rw [if_pos k1, k1]
    exact h1 _ (ResolveConflicts_sweep2_1_mem g px py)
  rw [if_neg k1]
  by_cases k3 : g.m_img_n.pix px py = 3
  · rw [if_pos k3, k3]
    exact h3 _ (ResolveConflicts_sweep2_3_mem g px py)
  rw [if_neg k3]
  by_cases k5 : g.m_img_n.pix px py = 5
  · rw [if_pos k5, k5]
    exact h5 _ (ResolveConflicts_sweep2_5_mem g px py)
  rw [if_neg k5]
  by_cases k7 : g.m_img_n.pix px py = 7
  · rw [if_pos k7, k7]
    exact h7 _ (ResolveConflicts_sweep2_7_mem g px py)
  rw [if_neg k7]
  by_cases k15 : g.m_img_n.pix px py = 15
  · rw [if_pos k15, k15]
    exact h15 _ (ResolveConflicts_sweep2_15_mem g px py)
  rw [if_neg k15]
  by_cases k17 : g.m_img_n.pix px py = 17
  · rw [if_pos k17, k17]
    exact h17 _ (ResolveConflicts_sweep2_17_mem g px py)
  rw [if_neg k17]
  by_cases k11 : g.m_img_n.pix px py = 11
  · rw [if_pos k11, k11]
    exact h11 _ (ResolveConflicts_sweep2_11_mem g px py)
  rw [if_neg k11]
  by_cases k13 : g.m_img_n.pix px py = 13
  · rw [if_pos k13, k13]
    exact h13 _ (ResolveConflicts_sweep2_13_mem g px py)
  rw [if_neg k13]
  by_cases k2 : g.m_img_n.pix px py = 2
  · rw [if_pos k2, k2]
    exact h2 _ (ResolveConflicts_sweep2_2_mem g px py)
  rw [if_neg k2]
  by_cases k6 : g.m_img_n.pix px py = 6
  · rw [if_pos k6, k6]
    exact h6 _ (ResolveConflicts_sweep2_6_mem g px py)
  rw [if_neg k6]
  by_cases k4 : g.m_img_n.pix px py = 4
  · rw [if_pos k4, k4]
    exact h4 _ (ResolveConflicts_sweep2_4_mem g px py)
  rw [if_neg k4]
  by_cases k8 : g.m_img_n.pix px py = 8
  · rw [if_pos k8, k8]
    exact h8 _ (ResolveConflicts_sweep2_8_mem g px py)
  rw [if_neg k8]
  exact hrefl _

theorem NeighborsAdjust2_switch_cases (Q : Int → Int → Prop) (hrefl : ∀ n, Q n n)
    (h1 : ∀ v ∈ ([2, 8, 1] : List Int), Q 1 v) (h3 : ∀ v ∈ ([4, 2, 3] : List Int), Q 3 v)
    (h5 : ∀ v ∈ ([6, 4, 5] : List Int), Q 5 v) (h7 : ∀ v ∈ ([8, 6, 7] : List Int), Q 7 v)
    (h2 : ∀ v ∈ ([13, 11, 1, 3, 2] : List Int), Q 2 v)
    (h4 : ∀ v ∈ ([15, 13, 3, 5, 4] : List Int), Q 4 v)
    (h6 : ∀ v ∈ ([17, 15, 5, 7, 6] : List Int), Q 6 v)
    (h8 : ∀ v ∈ ([11, 17, 7, 1, 8] : List Int), Q 8 v)
    (h11 : ∀ v ∈ ([8, 2, 11] : List Int), Q 11 v) (h13 : ∀ v ∈ ([2, 4, 13] : List Int), Q 13 v)
    (h15 : ∀ v ∈ ([4, 6, 15] : List Int), Q 15 v) (h17 : ∀ v ∈ ([6, 8, 17] : List Int), Q 17 v)
    (g : Gray2Vec_Grid) (px py : Int) :
    Q (g.m_img_n.pix px py) (NeighborsAdjust2_switch g px py) := by
  unfold NeighborsAdjust2_switch
  by_cases k1 : g.m_img_n.pix px py = 1
  · rw [if_pos k1, k1]
    exact h1 _ (NeighborsAdjust2_switch_1_mem g px py)
  rw [if_neg k1]
  by_cases k3 : g.m_img_n.pix px py = 3
  · rw [if_pos k3, k3]
    exact h3 _ (NeighborsAdjust2_switch_3_mem g px py)
  rw [if_neg k3]
  by_cases k5 : g.m_img_n.pix px py = 5
  · rw [if_pos k5, k5]
    exact h5 _ (NeighborsAdjust2_switch_5_mem g px py)
  rw [if_neg k5]
  by_cases k7 : g.m_img_n.pix px py = 7
  · rw [if_pos k7, k7]
    exact h7 _ (NeighborsAdjust2_switch_7_mem g px py)
  rw [if_neg k7]
  by_cases k2 : g.m_img_n.pix px py = 2
  · rw [if_pos k2, k2]
    exact h2 _ (NeighborsAdjust2_switch_2_mem g px py)
  rw [if_neg k2]
  by_cases k4 : g.m_img_n.pix px py = 4
  · rw [if_pos k4, k4]
    exact h4 _ (NeighborsAdjust2_switch_4_mem g px py)
  rw [if_neg k4]
  by_cases k6 : g.m_img_n.pix px py = 6
  · rw [if_pos k6, k6]
    exact h6 _ (NeighborsAdjust2_switch_6_mem g px py)
  rw [if_neg k6]
  by_cases k8 : g.m_img_n.pix px py = 8
  · rw [if_pos k8, k8]
    exact h8 _ (NeighborsAdjust2_switch_8_mem g px py)
  rw [if_neg k8]
  by_cases k11 : g.m_img_n.pix px py = 11
  · rw [if_pos k11, k11]
    exact h11 _ (NeighborsAdjust2_switch_11_mem g px py)
  rw [if_neg k11]
  by_cases k13 : g.m_img_n.pix px py = 13
  · rw [if_pos k13, k13]
    exact h13 _ (NeighborsAdjust2_switch_13_mem g px py)
  rw [if_neg k13]
  by_cases k15 : g.m_img_n.pix px py = 15
  · rw [if_pos k15, k15]
    exact h15 _ (NeighborsAdjust2_switch_15_mem g px py)
  rw [if_neg k15]
  by_cases k17 : g.m_img_n.pix px py = 17
  · rw [if_pos k17, k17]
    exact h17 _ (NeighborsAdjust2_switch_17_mem g px py)
  rw [if_neg k17]
  exact hrefl _

theorem ResolveConflicts_eq_second (g : Gray2Vec_Grid) :
    ResolveConflicts g
      = ((forXY (ResolveConflicts_first g).m_img_s).foldl
          (ResolveConflicts_step ResolveConflicts_sweep2) (ResolveConflicts_first g, 0)).1 :=
  rfl

theorem ResolveConflicts_first_eq (g : Gray2Vec_Grid) :
    ResolveConflicts_first g
      = ((forXY g.m_img_s).foldl (ResolveConflicts_step ResolveConflicts_sweep1) (g, 0)).1 :=
  rfl

theorem NeighborsAdjust2_switch_1_sat (g : Gray2Vec_Grid) (px py : Int)
    (h : NeighborsAdjust2_switch_1 g px py ≠ 1) : g.m_img_f1.pix px py = 255 ∨ g.m_img_f2.pix px py = 255 := by
  by_cases h1 : g.m_img_f1.pix px py = 255
  · exact Or.inl h1
  by_cases h2 : g.m_img_f2.pix px py = 255
  · exact Or.inr h2
  exact absurd (by simp [NeighborsAdjust2_switch_1, h1, h2]) h

theorem NeighborsAdjust2_switch_3_sat (g : Gray2Vec_Grid) (px py : Int)
    (h : NeighborsAdjust2_switch_3 g px py ≠ 3) : g.m_img_f1.pix px py = 255 ∨ g.m_img_f2.pix px py = 255 := by
  by_cases h1 : g.m_img_f1.pix px py = 255
  · exact Or.inl h1
  by_cases h2 : g.m_img_f2.pix px py = 255
  · exact Or.inr h2
  exact absurd (by simp [NeighborsAdjust2_switch_3, h1, h2]) h

theorem NeighborsAdjust2_switch_5_sat (g : Gray2Vec_Grid) (px py : Int)
    (h : NeighborsAdjust2_switch_5 g px py ≠ 5) : g.m_img_f1.pix px py = 255 ∨ g.m_img_f2.pix px py = 255 := by
  by_cases h1 : g.m_img_f1.pix px py = 255
  · exact Or.inl h1
  by_cases h2 : g.m_img_f2.pix px py = 255
  · exact Or.inr h2
  exact absurd (by simp [NeighborsAdjust2_switch_5, h1, h2]) h

theorem NeighborsAdjust2_switch_7_sat (g : Gray2Vec_Grid) (px py : Int)
    (h : NeighborsAdjust2_switch_7 g px py ≠ 7) : g.m_img_f1.pix px py = 255 ∨ g.m_img_f2.pix px py = 255 := by
  by_cases h1 : g.m_img_f1.pix px py = 255
  · exact Or.inl h1
  by_cases h2 : g.m_img_f2.pix px py = 255
  · exact Or.inr h2
  exact absurd (by simp [NeighborsAdjust2_switch_7, h1, h2]) h

theorem NeighborsAdjust2_switch_11_sat (g : Gray2Vec_Grid) (px py : Int)
    (h : NeighborsAdjust2_switch_11 g px py ≠ 11) : g.m_img_f1.pix px py = 0 ∨ g.m_img_f2.pix px py = 0 := by
  by_cases h1 : g.m_img_f1.pix px py = 0
  · exact Or.inl h1
  by_cases h2 : g.m_img_f2.pix px py = 0
  · exact Or.inr h2
  exact absurd (by simp [NeighborsAdjust2_switch_11, h1, h2]) h

theorem NeighborsAdjust2_switch_13_sat (g : Gray2Vec_Grid) (px py : Int)
    (h : NeighborsAdjust2_switch_13 g px py ≠ 13) : g.m_img_f1.pix px py = 0 ∨ g.m_img_f2.pix px py = 0 := by
  by_cases h1 : g.m_img_f1.pix px py = 0
  · exact Or.inl h1
  by_cases h2 : g.m_img_f2.pix px py = 0
  · exact Or.inr h2
  exact absurd (by simp [NeighborsAdjust2_switch_13, h1, h2]) h

theorem NeighborsAdjust2_switch_15_sat (g : Gray2Vec_Grid) (px py : Int)
    (h : NeighborsAdjust2_switch_15 g px py ≠ 15) : g.m_img_f1.pix px py = 0 ∨ g.m_img_f2.pix px py = 0 := by
  by_cases h1 : g.m_img_f1.pix px py = 0
  · exact Or.inl h1
  by_cases h2 : g.m_img_f2.pix px py = 0
  · exact Or.inr h2
  exact absurd (by simp [NeighborsAdjust2_switch_15, h1, h2]) h

theorem NeighborsAdjust2_switch_17_sat (g : Gray2Vec_Grid) (px py : Int)
    (h : NeighborsAdjust2_switch_17 g px py ≠ 17) : g.m_img_f1.pix px py = 0 ∨ g.m_img_f2.pix px py = 0 := by
  by_cases h1 : g.m_img_f1.pix px py = 0
  · exact Or.inl h1
  by_cases h2 : g.m_img_f2.pix px py = 0
  · exact Or.inr h2
  exact absurd (by simp [NeighborsAdjust2_switch_17, h1, h2]) h

theorem NeighborsAdjust2_switch_2_sat (g : Gray2Vec_Grid) (px py : Int)
    (h : NeighborsAdjust2_switch_2 g px py ≠ 2) :
    ((g.m_img_f1.pix px py = 255 ∨ g.m_img_f2.pix px py = 255) ∧
      NeighborsAdjust2_switch_2 g px py ∈ ([11, 13] : List Int)) ∨
    ((g.m_img_f1.pix px py = 0 ∨ g.m_img_f2.pix px py = 0) ∧
      NeighborsAdjust2_switch_2 g px py ∈ ([1, 3] : List Int)) := by
  unfold NeighborsAdjust2_switch_2 at h ⊢
  by_cases h1 : g.m_img_f1.pix px py = 255
  · simp only [h1, beq_self_eq_true, if_true] at h ⊢
    refine Or.inl ⟨Or.inl trivial, ?_⟩
    split_ifs at h ⊢ <;> simp at h ⊢
  have b1 : (g.m_img_f1.pix px py == 255) = false := by simpa using h1
  simp only [b1, Bool.false_eq_true, if_false] at h ⊢
  by_cases h2 : g.m_img_f2.pix px py = 255
  · simp only [h2, beq_self_eq_true, if_true] at h ⊢
    refine Or.inl ⟨Or.inr trivial, ?_⟩
    split_ifs at h ⊢ <;> simp at h ⊢
  have b2 : (g.m_img_f2.pix px py == 255) = false := by simpa using h2
  simp only [b2, Bool.false_eq_true, if_false] at h ⊢
  by_cases h3 : g.m_img_f1.pix px py = 0
  · simp only [h3, beq_self_eq_true, if_true] at h ⊢
    refine Or.inr ⟨Or.inl trivial, ?_⟩
    split_ifs at h ⊢ <;> simp at h ⊢
  have b3 : (g.m_img_f1.pix px py == 0) = false := by simpa using h3
  simp only [b3, Bool.false_eq_true, if_false] at h ⊢
  by_cases h4 : g.m_img_f2.pix px py = 0
  · simp only [h4, beq_self_eq_true, if_true] at h ⊢
    refine Or.inr ⟨Or.inr trivial, ?_⟩
    split_ifs at h ⊢ <;> simp at h ⊢
  have b4 : (g.m_img_f2.pix px py == 0) = false := by simpa using h4
  simp only [b4, Bool.false_eq_true, if_false] at h ⊢
  exact absurd rfl h

theorem NeighborsAdjust2_switch_4_sat (g : Gray2Vec_Grid) (px py : Int)
    (h : NeighborsAdjust2_switch_4 g px py ≠ 4) :
    ((g.m_img_f1.pix px py = 255 ∨ g.m_img_f2.pix px py = 255) ∧
      NeighborsAdjust2_switch_4 g px py ∈ ([13, 15] : List Int)) ∨
    ((g.m_img_f1.pix px py = 0 ∨ g.m_img_f2.pix px py = 0) ∧
      NeighborsAdjust2_switch_4 g px py ∈ ([3, 5] : List Int)) := by
  unfold NeighborsAdjust2_switch_4 at h ⊢
  by_cases h1 : g.m_img_f1.pix px py = 255
  · simp only [h1, beq_self_eq_true, if_true] at h ⊢
    refine Or.inl ⟨Or.inl trivial, ?_⟩
    split_ifs at h ⊢ <;> simp at h ⊢
  have b1 : (g.m_img_f1.pix px py == 255) = false := by simpa using h1
  simp only [b1, Bool.false_eq_true, if_false] at h ⊢
  by_cases h2 : g.m_img_f2.pix px py = 255
  · simp only [h2, beq_self_eq_true, if_true] at h ⊢
    refine Or.inl ⟨Or.inr trivial, ?_⟩
    split_ifs at h ⊢ <;> simp at h ⊢
  have b2 : (g.m_img_f2.pix px py == 255) = false := by simpa using h2
  simp only [b2, Bool.false_eq_true, if_false] at h ⊢
  by_cases h3 : g.m_img_f1.pix px py = 0
  · simp only [h3, beq_self_eq_true, if_true] at h ⊢
    refine Or.inr ⟨Or.inl trivial, ?_⟩
    split_ifs at h ⊢ <;> simp at h ⊢
  have b3 : (g.m_img_f1.pix px py == 0) = false := by simpa using h3
  simp only [b3, Bool.false_eq_true, if_false] at h ⊢
  by_cases h4 : g.m_img_f2.pix px py = 0
  · simp only [h4, beq_self_eq_true, if_true] at h ⊢
    refine Or.inr ⟨Or.inr trivial, ?_⟩
    split_ifs at h ⊢ <;> simp at h ⊢
  have b4 : (g.m_img_f2.pix px py == 0) = false := by simpa using h4
  simp only [b4, Bool.false_eq_true, if_false] at h ⊢
  exact absurd rfl h

theorem NeighborsAdjust2_switch_6_sat (g : Gray2Vec_Grid) (px py : Int)
    (h : NeighborsAdjust2_switch_6 g px py ≠ 6) :
    ((g.m_img_f1.pix px py = 255 ∨ g.m_img_f2.pix px py = 255) ∧
      NeighborsAdjust2_switch_6 g px py ∈ ([15, 17] : List Int)) ∨
    ((g.m_img_f1.pix px py = 0 ∨ g.m_img_f2.pix px py = 0) ∧
      NeighborsAdjust2_switch_6 g px py ∈ ([5, 7] : List Int)) := by
  unfold NeighborsAdjust2_switch_6 at h ⊢
  by_cases h1 : g.m_img_f1.pix px py = 255
  · simp only [h1, beq_self_eq_true, if_true] at h ⊢
    refine Or.inl ⟨Or.inl trivial, ?_⟩
    split_ifs at h ⊢ <;> simp at h ⊢
  have b1 : (g.m_img_f1.pix px py == 255) = false := by simpa using h1
  simp only [b1, Bool.false_eq_true, if_false] at h ⊢
  by_cases h2 : g.m_img_f2.pix px py = 255
  · simp only [h2, beq_self_eq_true, if_true] at h ⊢
    refine Or.inl ⟨Or.inr trivial, ?_⟩
    split_ifs at h ⊢ <;> simp at h ⊢
  have b2 : (g.m_img_f2.pix px py == 255) = false := by simpa using h2
  simp only [b2, Bool.false_eq_true, if_false] at h ⊢
  by_cases h3 : g.m_img_f1.pix px py = 0
  · simp only [h3, beq_self_eq_true, if_true] at h ⊢
    refine Or.inr ⟨Or.inl trivial, ?_⟩
    split_ifs at h ⊢ <;> simp at h ⊢
  have b3 : (g.m_img_f1.pix px py == 0) = false := by simpa using h3
  simp only [b3, Bool.false_eq_true, if_false] at h ⊢
  by_cases h4 : g.m_img_f2.pix px py = 0
  · simp only [h4, beq_self_eq_true, if_true] at h ⊢
    refine Or.inr ⟨Or.inr trivial, ?_⟩
    split_ifs at h ⊢ <;> simp at h ⊢
  have b4 : (g.m_img_f2.pix px py == 0) = false := by simpa using h4
  simp only [b4, Bool.false_eq_true, if_false] at h ⊢
  exact absurd rfl h

theorem NeighborsAdjust2_switch_8_sat (g : Gray2Vec_Grid) (px py : Int)
    (h : NeighborsAdjust2_switch_8 g px py ≠ 8) :
    ((g.m_img_f1.pix px py = 255 ∨ g.m_img_f2.pix px py = 255) ∧
      NeighborsAdjust2_switch_8 g px py ∈ ([17, 11] : List Int)) ∨
    ((g.m_img_f1.pix px py = 0 ∨ g.m_img_f2.pix px py = 0) ∧
      NeighborsAdjust2_switch_8 g px py ∈ ([7, 1] : List Int)) := by
  unfold NeighborsAdjust2_switch_8 at h ⊢
  by_cases h1 : g.m_img_f1.pix px py = 255
  · simp only [h1, beq_self_eq_true, if_true] at h ⊢
    refine Or.inl ⟨Or.inl trivial, ?_⟩
    split_ifs at h ⊢ <;> simp at h ⊢
  have b1 : (g.m_img_f1.pix px py == 255) = false := by simpa using h1
  simp only [b1, Bool.false_eq_true, if_false] at h ⊢
  by_cases h2 : g.m_img_f2.pix px py = 255
  · simp only [h2, beq_self_eq_true, if_true] at h ⊢
    refine Or.inl ⟨Or.inr trivial, ?_⟩
    split_ifs at h ⊢ <;> simp at h ⊢
  have b2 : (g.m_img_f2.pix px py == 255) = false := by simpa using h2
  simp only [b2, Bool.false_eq_true, if_false] at h ⊢
  by_cases h3 : g.m_img_f1.pix px py = 0
  · simp only [h3, beq_self_eq_true, if_true] at h ⊢
    refine Or.inr ⟨Or.inl trivial, ?_⟩
    split_ifs at h ⊢ <;> simp at h ⊢
  have b3 : (g.m_img_f1.pix px py == 0) = false := by simpa using h3
  simp only [b3, Bool.false_eq_true, if_false] at h ⊢
  by_cases h4 : g.m_img_f2.pix px py = 0
  · simp only [h4, beq_self_eq_true, if_true] at h ⊢
    refine Or.inr ⟨Or.inr trivial, ?_⟩
    split_ifs at h ⊢ <;> simp at h ⊢
  have b4 : (g.m_img_f2.pix px py == 0) = false := by simpa using h4
  simp only [b4, Bool.false_eq_true, if_false] at h ⊢
  exact absurd rfl h

theorem NeighborsAdjust2_switch_sat (g : Gray2Vec_Grid) (px py : Int)
    (h : NeighborsAdjust2_switch g px py ≠ g.m_img_n.pix px py) :
    (g.m_img_n.pix px py ∈ ([1, 3, 5, 7] : List Int) → g.m_img_f1.pix px py = 255 ∨ g.m_img_f2.pix px py = 255) ∧
    (g.m_img_n.pix px py ∈ ([11, 13, 15, 17] : List Int) → g.m_img_f1.pix px py = 0 ∨ g.m_img_f2.pix px py = 0) ∧
    (g.m_img_n.pix px py ∈ ([2, 4, 6, 8] : List Int) →
      ((g.m_img_f1.pix px py = 255 ∨ g.m_img_f2.pix px py = 255) ∧
        NeighborsAdjust2_switch g px py ∈ ([11, 13, 15, 17] : List Int)) ∨
      ((g.m_img_f1.pix px py = 0 ∨ g.m_img_f2.pix px py = 0) ∧
        NeighborsAdjust2_switch g px py ∈ ([1, 3, 5, 7] : List Int))) := by
  by_cases k1 : g.m_img_n.pix px py = 1
  · have e : NeighborsAdjust2_switch g px py = NeighborsAdjust2_switch_1 g px py := by
      unfold NeighborsAdjust2_switch
      rw [if_pos k1]
    rw [e, k1] at h
    rw [e, k1]
    have s := NeighborsAdjust2_switch_1_sat g px py h
    exact ⟨fun _ => s, fun hm => absurd hm (by decide), fun hm => absurd hm (by decide)⟩
  by_cases k3 : g.m_img_n.pix px py = 3
  · have e : NeighborsAdjust2_switch g px py = NeighborsAdjust2_switch_3 g px py := by
      unfold NeighborsAdjust2_switch
      rw [if_neg k1, if_pos k3]
    rw [e, k3] at h
    rw [e, k3]
    have s := NeighborsAdjust2_switch_3_sat g px py h
    exact ⟨fun _ => s, fun hm => absurd hm (by decide), fun hm => absurd hm (by decide)⟩
  by_cases k5 : g.m_img_n.pix px py = 5
  · have e : NeighborsAdjust2_switch g px py = NeighborsAdjust2_switch_5 g px py := by
      unfold NeighborsAdjust2_switch
      rw [if_neg k1, if_neg k3, if_pos k5]
    rw [e, k5] at h
    rw [e, k5]
    have s := NeighborsAdjust2_switch_5_sat g px py h
    exact ⟨fun _ => s, fun hm => absurd hm (by decide), fun hm => absurd hm (by decide)⟩
  by_cases k7 : g.m_img_n.pix px py = 7
  · have e : NeighborsAdjust2_switch g px py = NeighborsAdjust2_switch_7 g px py := by
      unfold NeighborsAdjust2_switch
      rw [if_neg k1, if_neg k3, if_neg k5, if_pos k7]
    rw [e, k7] at h
    rw [e, k7]
    have s := NeighborsAdjust2_switch_7_sat g px py h
    exact ⟨fun _ => s, fun hm => absurd hm (by decide), fun hm => absurd hm (by decide)⟩
  by_cases k2 : g.m_img_n.pix px py = 2
  · have e : NeighborsAdjust2_switch g px py = NeighborsAdjust2_switch_2 g px py := by
      unfold NeighborsAdjust2_switch
      rw [if_neg k1, if_neg k3, if_neg k5, if_neg k7, if_pos k2]
    rw [e, k2] at h
    rw [e, k2]
    have s := NeighborsAdjust2_switch_2_sat g px py h
    refine ⟨fun hm => absurd hm (by decide), fun hm => absurd hm (by decide), fun _ => ?_⟩
    rcases s with ⟨s1, s2⟩ | ⟨s1, s2⟩
    · refine Or.inl ⟨s1, ?_⟩
      revert s2
      generalize NeighborsAdjust2_switch_2 g px py = v
      intro s2
      simp only [List.mem_cons, List.mem_singleton, List.not_mem_nil, or_false] at s2 ⊢
      omega
    · refine Or.inr ⟨s1, ?_⟩
      revert s2
      generalize NeighborsAdjust2_switch_2 g px py = v
      intro s2
      simp only [List.mem_cons, List.mem_singleton, List.not_mem_nil, or_false] at s2 ⊢
      omega
  by_cases k4 : g.m_img_n.pix px py = 4
  · have e : NeighborsAdjust2_switch g px py = NeighborsAdjust2_switch_4 g px py := by
      unfold NeighborsAdjust2_switch
      rw [if_neg k1, if_neg k3, if_neg k5, if_neg k7, if_neg k2, if_pos k4]
    rw [e, k4] at h
    rw [e, k4]
    have s := NeighborsAdjust2_switch_4_sat g px py h
    refine ⟨fun hm => absurd hm (by decide), fun hm => absurd hm (by decide), fun _ => ?_⟩
    rcases s with ⟨s1, s2⟩ | ⟨s1, s2⟩
    · refine Or.inl ⟨s1, ?_⟩
      revert s2
      generalize NeighborsAdjust2_switch_4 g px py = v
      intro s2
      simp only [List.mem_cons, List.mem_singleton, List.not_mem_nil, or_false] at s2 ⊢
      omega
    · refine Or.inr ⟨s1, ?_⟩
      revert s2
      generalize NeighborsAdjust2_switch_4 g px py = v
      intro s2
      simp only [List.mem_cons, List.mem_singleton, List.not_mem_nil, or_false] at s2 ⊢
      omega
  by_cases k6 : g.m_img_n.pix px py = 6
  · have e : NeighborsAdjust2_switch g px py = NeighborsAdjust2_switch_6 g px py := by
      unfold NeighborsAdjust2_switch
      rw [if_neg k1, if_neg k3, if_neg k5, if_neg k7, if_neg k2, if_neg k4, if_pos k6]
    rw [e, k6] at h
    rw [e, k6]
    have s := NeighborsAdjust2_switch_6_sat g px py h
    refine ⟨fun hm => absurd hm (by decide), fun hm => absurd hm (by decide), fun _ => ?_⟩
    rcases s with ⟨s1, s2⟩ | ⟨s1, s2⟩
    · refine Or.inl ⟨s1, ?_⟩
      revert s2
      generalize NeighborsAdjust2_switch_6 g px py = v
      intro s2
      simp only [List.mem_cons, List.mem_singleton, List.not_mem_nil, or_false] at s2 ⊢
      omega
    · refine Or.inr ⟨s1, ?_⟩
      revert s2
      generalize NeighborsAdjust2_switch_6 g px py = v
      intro s2
      simp only [List.mem_cons, List.mem_singleton, List.not_mem_nil, or_false] at s2 ⊢
      omega
  by_cases k8 : g.m_img_n.pix px py = 8
  · have e : NeighborsAdjust2_switch g px py = NeighborsAdjust2_switch_8 g px py := by
      unfold NeighborsAdjust2_switch
      rw [if_neg k1, if_neg k3, if_neg k5, if_neg k7, if_neg k2, if_neg k4, if_neg k6, if_pos k8]
    rw [e, k8] at h
    rw [e, k8]
    have s := NeighborsAdjust2_switch_8_sat g px py h
    refine ⟨fun hm => absurd hm (by decide), fun hm => absurd hm (by decide), fun _ => ?_⟩
    rcases s with ⟨s1, s2⟩ | ⟨s1, s2⟩
    · refine Or.inl ⟨s1, ?_⟩
      revert s2
      generalize NeighborsAdjust2_switch_8 g px py = v
      intro s2
      simp only [List.mem_cons, List.mem_singleton, List.not_mem_nil, or_false] at s2 ⊢
      omega
    · refine Or.inr ⟨s1, ?_⟩
      revert s2
      generalize NeighborsAdjust2_switch_8 g px py = v
      intro s2
      simp only [List.mem_cons, List.mem_singleton, List.not_mem_nil, or_false] at s2 ⊢
      omega
  by_cases k11 : g.m_img_n.pix px py = 11
  · have e : NeighborsAdjust2_switch g px py = NeighborsAdjust2_switch_11 g px py := by
      unfold NeighborsAdjust2_switch
      rw [if_neg k1, if_neg k3, if_neg k5, if_neg k7, if_neg k2, if_neg k4, if_neg k6, if_neg k8, if_pos k11]
    rw [e, k11] at h
    rw [e, k11]
    have s := NeighborsAdjust2_switch_11_sat g px py h
    exact ⟨fun hm => absurd hm (by decide), fun _ => s, fun hm => absurd hm (by decide)⟩
  by_cases k13 : g.m_img_n.pix px py = 13
  · have e : NeighborsAdjust2_switch g px py = NeighborsAdjust2_switch_13 g px py := by
      unfold NeighborsAdjust2_switch
      rw [if_neg k1, if_neg k3, if_neg k5, if_neg k7, if_neg k2, if_neg k4, if_neg k6, if_neg k8, if_neg k11, if_pos k13]
    rw [e, k13] at h
    rw [e, k13]
    have s := NeighborsAdjust2_switch_13_sat g px py h
    exact ⟨fun hm => absurd hm (by decide), fun _ => s, fun hm => absurd hm (by decide)⟩
  by_cases k15 : g.m_img_n.pix px py = 15
  · have e : NeighborsAdjust2_switch g px py = NeighborsAdjust2_switch_15 g px py := by
      unfold NeighborsAdjust2_switch
      rw [if_neg k1, if_neg k3, if_neg k5, if_neg k7, if_neg k2, if_neg k4, if_neg k6, if_neg k8, if_neg k11, if_neg k13, if_pos k15]
    rw [e, k15] at h
    rw [e, k15]
    have s := NeighborsAdjust2_switch_15_sat g px py h
    exact ⟨fun hm => absurd hm (by decide), fun _ => s, fun hm => absurd hm (by decide)⟩
  by_cases k17 : g.m_img_n.pix px py = 17
  · have e : NeighborsAdjust2_switch g px py = NeighborsAdjust2_switch_17 g px py := by
      unfold NeighborsAdjust2_switch
      rw [if_neg k1, if_neg k3, if_neg k5, if_neg k7, if_neg k2, if_neg k4, if_neg k6, if_neg k8, if_neg k11, if_neg k13, if_neg k15, if_pos k17]
    rw [e, k17] at h
    rw [e, k17]
    have s := NeighborsAdjust2_switch_17_sat g px py h
    exact ⟨fun hm => absurd hm (by decide), fun _ => s, fun hm => absurd hm (by decide)⟩
  exfalso
  apply h
  unfold NeighborsAdjust2_switch
  rw [if_neg k1, if_neg k3, if_neg k5, if_neg k7, if_neg k2, if_neg k4, if_neg k6, if_neg k8, if_neg k11, if_neg k13, if_neg k15, if_neg k17]

theorem NeighborsAdjust_sweep1_1_sat (g : Gray2Vec_Grid) (px py : Int)
    (h : NeighborsAdjust_sweep1_1 g px py ≠ 1) : g.m_img_s.pix px py ≥ 43 := by
  by_cases hs : g.m_img_s.pix px py > 255 / 6
  · have : (255 : Int) / 6 = 42 := by decide
    omega
  · exact absurd (by simp only [NeighborsAdjust_sweep1_1, if_neg hs]) h

theorem NeighborsAdjust_sweep1_3_sat (g : Gray2Vec_Grid) (px py : Int)
    (h : NeighborsAdjust_sweep1_3 g px py ≠ 3) : g.m_img_s.pix px py ≥ 43 := by
  by_cases hs : g.m_img_s.pix px py > 255 / 6
  · have : (255 : Int) / 6 = 42 := by decide
    omega
  · exact absurd (by simp only [NeighborsAdjust_sweep1_3, if_neg hs]) h

theorem NeighborsAdjust_sweep1_5_sat (g : Gray2Vec_Grid) (px py : Int)
    (h : NeighborsAdjust_sweep1_5 g px py ≠ 5) : g.m_img_s.pix px py ≥ 43 := by
  by_cases hs : g.m_img_s.pix px py > 255 / 6
  · have : (255 : Int) / 6 = 42 := by decide
    omega
  · exact absurd (by simp only [NeighborsAdjust_sweep1_5, if_neg hs]) h

theorem NeighborsAdjust_sweep1_7_sat (g : Gray2Vec_Grid) (px py : Int)
    (h : NeighborsAdjust_sweep1_7 g px py ≠ 7) : g.m_img_s.pix px py ≥ 43 := by
  by_cases hs : g.m_img_s.pix px py > 255 / 6
  · have : (255 : Int) / 6 = 42 := by decide
    omega
  · exact absurd (by simp only [NeighborsAdjust_sweep1_7, if_neg hs]) h

theorem NeighborsAdjust_sweep1_sat (g : Gray2Vec_Grid) (px py : Int)
    (h : NeighborsAdjust_sweep1 g px py ≠ g.m_img_n.pix px py) : g.m_img_s.pix px py ≥ 43 := by
  by_cases k1 : g.m_img_n.pix px py = 1
  · have e : NeighborsAdjust_sweep1 g px py = NeighborsAdjust_sweep1_1 g px py := by
      unfold NeighborsAdjust_sweep1
      rw [if_pos k1]
    rw [e, k1] at h
    exact NeighborsAdjust_sweep1_1_sat g px py h
  by_cases k3 : g.m_img_n.pix px py = 3
  · have e : NeighborsAdjust_sweep1 g px py = NeighborsAdjust_sweep1_3 g px py := by
      unfold NeighborsAdjust_sweep1
      rw [if_neg k1, if_pos k3]
    rw [e, k3] at h
    exact NeighborsAdjust_sweep1_3_sat g px py h
  by_cases k5 : g.m_img_n.pix px py = 5
  · have e : NeighborsAdjust_sweep1 g px py = NeighborsAdjust_sweep1_5 g px py := by
      unfold NeighborsAdjust_sweep1
      rw [if_neg k1, if_neg k3, if_pos k5]
    rw [e, k5] at h
    exact NeighborsAdjust_sweep1_5_sat g px py h
  by_cases k7 : g.m_img_n.pix px py = 7
  · have e : NeighborsAdjust_sweep1 g px py = NeighborsAdjust_sweep1_7 g px py := by
      unfold NeighborsAdjust_sweep1
      rw [if_neg k1, if_neg k3, if_neg k5, if_pos k7]
    rw [e, k7] at h
    exact NeighborsAdjust_sweep1_7_sat g px py h
  exfalso
  apply h
  unfold NeighborsAdjust_sweep1
  rw [if_neg k1, if_neg k3, if_neg k5, if_neg k7]

theorem NeighborsAdjust_sweep1_1_order (g : Gray2Vec_Grid) (px py : Int)
    (hn : g.m_img_n.pix px py = 1) (hs : g.m_img_s.pix px py ≥ 43) :
    ((cover g px (py - 1) 6 = true ∧ cover g (px + 1) py 1 = true) → NeighborsAdjust_sweep1 g px py = 2) ∧
    (¬ (cover g px (py - 1) 6 = true ∧ cover g (px + 1) py 1 = true) → (cover g (px - 1) py 4 = true ∧ cover g px (py + 1) 1 = true) →
      NeighborsAdjust_sweep1 g px py = 8) ∧
    (¬ (cover g px (py - 1) 6 = true ∧ cover g (px + 1) py 1 = true) → ¬ (cover g (px - 1) py 4 = true ∧ cover g px (py + 1) 1 = true) →
      NeighborsAdjust_sweep1 g px py = 1) := by
  have hs' : g.m_img_s.pix px py > 255 / 6 := by
    have : (255 : Int) / 6 = 42 := by decide
    omega
  have e : NeighborsAdjust_sweep1 g px py = NeighborsAdjust_sweep1_1 g px py := by
    unfold NeighborsAdjust_sweep1
    simp only [hn, Int.reduceEq, if_true, if_false]
  rw [e]
  unfold NeighborsAdjust_sweep1_1
  rw [if_pos hs']
  refine ⟨fun hA => ?_, fun hA hB => ?_, fun hA hB => ?_⟩
  · rw [if_pos (by simpa using hA)]
  · rw [if_neg (by simpa using hA), if_pos (by simpa using hB)]
  · rw [if_neg (by simpa using hA), if_neg (by simpa using hB)]

theorem NeighborsAdjust_sweep1_3_order (g : Gray2Vec_Grid) (px py : Int)
    (hn : g.m_img_n.pix px py = 3) (hs : g.m_img_s.pix px py ≥ 43) :
    ((cover g px (py - 1) 6 = true ∧ cover g (px - 1) py 3 = true) → NeighborsAdjust_sweep1 g px py = 2) ∧
    (¬ (cover g px (py - 1) 6 = true ∧ cover g (px - 1) py 3 = true) → (cover g (px + 1) py 8 = true ∧ cover g px (py + 1) 3 = true) →
      NeighborsAdjust_sweep1 g px py = 4) ∧
    (¬ (cover g px (py - 1) 6 = true ∧ cover g (px - 1) py 3 = true) → ¬ (cover g (px + 1) py 8 = true ∧ cover g px (py + 1) 3 = true) →
      NeighborsAdjust_sweep1 g px py = 3) := by
  have hs' : g.m_img_s.pix px py > 255 / 6 := by
    have : (255 : Int) / 6 = 42 := by decide
    omega
  have e : NeighborsAdjust_sweep1 g px py = NeighborsAdjust_sweep1_3 g px py := by
    unfold NeighborsAdjust_sweep1
    simp only [hn, Int.reduceEq, if_true, if_false]
  rw [e]
  unfold NeighborsAdjust_sweep1_3
  rw [if_pos hs']
  refine ⟨fun hA => ?_, fun hA hB => ?_, fun hA hB => ?_⟩
  · rw [if_pos (by simpa using hA)]
  · rw [if_neg (by simpa using hA), if_pos (by simpa using hB)]
  · rw [if_neg (by simpa using hA), if_neg (by simpa using hB)]

theorem NeighborsAdjust_sweep1_5_order (g : Gray2Vec_Grid) (px py : Int)
    (hn : g.m_img_n.pix px py = 5) (hs : g.m_img_s.pix px py ≥ 43) :
    ((cover g px (py + 1) 6 = true ∧ cover g (px - 1) py 5 = true) → NeighborsAdjust_sweep1 g px py = 6) ∧
    (¬ (cover g px (py + 1) 6 = true ∧ cover g (px - 1) py 5 = true) → (cover g (px + 1) py 4 = true ∧ cover g px (py - 1) 5 = true) →
      NeighborsAdjust_sweep1 g px py = 4) ∧
    (¬ (cover g px (py + 1) 6 = true ∧ cover g (px - 1) py 5 = true) → ¬ (cover g (px + 1) py 4 = true ∧ cover g px (py - 1) 5 = true) →
      NeighborsAdjust_sweep1 g px py = 5) := by
  have hs' : g.m_img_s.pix px py > 255 / 6 := by
    have : (255 : Int) / 6 = 42 := by decide
    omega
  have e : NeighborsAdjust_sweep1 g px py = NeighborsAdjust_sweep1_5 g px py := by
    unfold NeighborsAdjust_sweep1
    simp only [hn, Int.reduceEq, if_true, if_false]
  rw [e]
  unfold NeighborsAdjust_sweep1_5
  rw [if_pos hs']
  refine ⟨fun hA => ?_, fun hA hB => ?_, fun hA hB => ?_⟩
  · rw [if_pos (by simpa using hA)]
  · rw [if_neg (by simpa using hA), if_pos (by simpa using hB)]
  · rw [if_neg (by simpa using hA), if_neg (by simpa using hB)]

theorem NeighborsAdjust_sweep1_7_order (g : Gray2Vec_Grid) (px py : Int)
    (hn : g.m_img_n.pix px py = 7) (hs : g.m_img_s.pix px py ≥ 43) :
    ((cover g (px - 1) py 4 = true ∧ cover g px (py - 1) 7 = true) → NeighborsAdjust_sweep1 g px py = 8) ∧
    (¬ (cover g (px - 1) py 4 = true ∧ cover g px (py - 1) 7 = true) → (cover g px (py + 1) 2 = true ∧ cover g (px + 1) py 7 = true) →
      NeighborsAdjust_sweep1 g px py = 6) ∧
    (¬ (cover g (px - 1) py 4 = true ∧ cover g px (py - 1) 7 = true) → ¬ (cover g px (py + 1) 2 = true ∧ cover g (px + 1) py 7 = true) →
      NeighborsAdjust_sweep1 g px py = 7) := by
  have hs' : g.m_img_s.pix px py > 255 / 6 := by
    have : (255 : Int) / 6 = 42 := by decide
    omega
  have e : NeighborsAdjust_sweep1 g px py = NeighborsAdjust_sweep1_7 g px py := by
    unfold NeighborsAdjust_sweep1
    simp only [hn, Int.reduceEq, if_true, if_false]
  rw [e]
  unfold NeighborsAdjust_sweep1_7
  rw [if_pos hs']
  refine ⟨fun hA => ?_, fun hA hB => ?_, fun hA hB => ?_⟩
  · rw [if_pos (by simpa using hA)]
  · rw [if_neg (by simpa using hA), if_pos (by simpa using hB)]
  · rw [if_neg (by simpa using hA), if_neg (by simpa using hB)]

theorem NeighborsAdjust_step_code (sw : Gray2Vec_Grid → Int → Int → Int) (g : Gray2Vec_Grid)
    (x y : Int) (hint : interior g x y = true) :
    (NeighborsAdjust_step sw g (x, y)).m_img_n.pix x y = sw g x y ∧
    (NeighborsAdjust_step sw g (x, y)).m_img_s = g.m_img_s := by
  simp [NeighborsAdjust_step, hint, CImg.set]

theorem set_fraction_class (g : Gray2Vec_Grid) (px py : Int) :
    (set_fraction g px py).2
      = if g.m_img_n.pix px py ∈ ([1, 3, 5, 7] : List Int) then 1
        else if g.m_img_n.pix px py ∈ ([2, 4, 6, 8] : List Int) then 2
        else if g.m_img_n.pix px py ∈ ([11, 13, 15, 17] : List Int) then 3 else 0 := by
  simp only [List.mem_cons, List.mem_singleton, List.not_mem_nil, or_false]
  by_cases c1 : g.m_img_n.pix px py = 1 ∨ g.m_img_n.pix px py = 3 ∨
      g.m_img_n.pix px py = 5 ∨ g.m_img_n.pix px py = 7
  · simp [set_fraction, if_pos c1]
  by_cases c2 : g.m_img_n.pix px py = 2 ∨ g.m_img_n.pix px py = 4 ∨
      g.m_img_n.pix px py = 6 ∨ g.m_img_n.pix px py = 8
  · simp [set_fraction, if_neg c1, if_pos c2]
  by_cases c3 : g.m_img_n.pix px py = 11 ∨ g.m_img_n.pix px py = 13 ∨
      g.m_img_n.pix px py = 15 ∨ g.m_img_n.pix px py = 17
  · simp [set_fraction, if_neg c1, if_neg c2, if_pos c3]
  · simp [set_fraction, if_neg c1, if_neg c2, if_neg c3]

theorem class_init_side (n s : Int) (h : n ∈ ([2, 4, 6, 8] : List Int)) : class_init n s = s := by
  simp only [List.mem_cons, List.mem_singleton, List.not_mem_nil, or_false] at h
  unfold class_init
  rw [if_neg (by omega), if_pos h]

theorem NeighborsAdjust_sweep2_1_order (g : Gray2Vec_Grid) (x y : Int) (hn : g.m_img_n.pix x y = 1) :
    ((g.m_img_s.pix (x - 1) y = 255 ∧ cover g x (y + 1) 1 = true) → NeighborsAdjust_sweep2 g x y = 8) ∧
    (¬ (g.m_img_s.pix (x - 1) y = 255 ∧ cover g x (y + 1) 1 = true) → (g.m_img_s.pix x (y - 1) = 255 ∧ cover g (x + 1) y 1 = true) →
      NeighborsAdjust_sweep2 g x y = 2) := by
  have e : NeighborsAdjust_sweep2 g x y = NeighborsAdjust_sweep2_1 g x y := by
    unfold NeighborsAdjust_sweep2
    simp only [hn, Int.reduceEq, if_true, if_false]
  rw [e]
  unfold NeighborsAdjust_sweep2_1
  refine ⟨fun hA => ?_, fun hA hB => ?_⟩
  · rw [if_pos (by simp [hA.1, hA.2])]
  · rw [if_neg (by simpa using hA), if_pos (by simp [hB.1, hB.2])]

theorem NeighborsAdjust_sweep2_3_order (g : Gray2Vec_Grid) (x y : Int) (hn : g.m_img_n.pix x y = 3) :
    ((g.m_img_s.pix x (y - 1) = 255 ∧ cover g (x - 1) y 3 = true) → NeighborsAdjust_sweep2 g x y = 2) ∧
    (¬ (g.m_img_s.pix x (y - 1) = 255 ∧ cover g (x - 1) y 3 = true) → (g.m_img_s.pix (x + 1) y = 255 ∧ cover g x (y + 1) 3 = true) →
      NeighborsAdjust_sweep2 g x y = 4) := by
  have e : NeighborsAdjust_sweep2 g x y = NeighborsAdjust_sweep2_3 g x y := by
    unfold NeighborsAdjust_sweep2
    simp only [hn, Int.reduceEq, if_true, if_false]
  rw [e]
  unfold NeighborsAdjust_sweep2_3
  refine ⟨fun hA => ?_, fun hA hB => ?_⟩
  · rw [if_pos (by simp [hA.1, hA.2])]
  · rw [if_neg (by simpa using hA), if_pos (by simp [hB.1, hB.2])]

theorem NeighborsAdjust_sweep2_5_order (g : Gray2Vec_Grid) (x y : Int) (hn : g.m_img_n.pix x y = 5) :
    ((g.m_img_s.pix (x + 1) y = 255 ∧ cover g x (y - 1) 5 = true) → NeighborsAdjust_sweep2 g x y = 4) ∧
    (¬ (g.m_img_s.pix (x + 1) y = 255 ∧ cover g x (y - 1) 5 = true) → (g.m_img_s.pix x (y + 1) = 255 ∧ cover g (x - 1) y 5 = true) →
      NeighborsAdjust_sweep2 g x y = 6) := by
  have e : NeighborsAdjust_sweep2 g x y = NeighborsAdjust_sweep2_5 g x y := by
    unfold NeighborsAdjust_sweep2
    simp only [hn, Int.reduceEq, if_true, if_false]
  rw [e]
  unfold NeighborsAdjust_sweep2_5
  refine ⟨fun hA => ?_, fun hA hB => ?_⟩
  · rw [if_pos (by simp [hA.1, hA.2])]
  · rw [if_neg (by simpa using hA), if_pos (by simp [hB.1, hB.2])]

theorem NeighborsAdjust_sweep2_7_order (g : Gray2Vec_Grid) (x y : Int) (hn : g.m_img_n.pix x y = 7) :
    ((g.m_img_s.pix x (y + 1) = 255 ∧ cover g (x + 1) y 7 = true) → NeighborsAdjust_sweep2 g x y = 6) ∧
    (¬ (g.m_img_s.pix x (y + 1) = 255 ∧ cover g (x + 1) y 7 = true) → (g.m_img_s.pix (x - 1) y = 255 ∧ cover g x (y - 1) 7 = true) →
      NeighborsAdjust_sweep2 g x y = 8) := by
  have e : NeighborsAdjust_sweep2 g x y = NeighborsAdjust_sweep2_7 g x y := by
    unfold NeighborsAdjust_sweep2
    simp only [hn, Int.reduceEq, if_true, if_false]
  rw [e]
  unfold NeighborsAdjust_sweep2_7
  refine ⟨fun hA => ?_, fun hA hB => ?_⟩
  · rw [if_pos (by simp [hA.1, hA.2])]
  · rw [if_neg (by simpa using hA), if_pos (by simp [hB.1, hB.2])]

theorem corner_init_20 : corner_init 20 = 100 := by
  unfold corner_init
  have h : Nat.sqrt 10200 = 100 := by
    symm
    rw [Nat.eq_sqrt]
    decide
  have e : ((20 : Int) * 255 * 2).toNat = 10200 := by decide
  rw [e, h]
  rfl

theorem foldl_fixed {σ α : Type} (step : σ → α → σ) (l : List α) (s : σ)
    (h : ∀ c ∈ l, step s c = s) : l.foldl step s = s := by
  induction l with
  | nil => rfl
  | cons c l ih =>
    rw [List.foldl_cons, h c (List.mem_cons_self _ _)]
    exact ih (fun d hd => h d (List.mem_cons_of_mem _ hd))

theorem NeighborsAdjust_step_fixed (sw : Gray2Vec_Grid → Int → Int → Int) (g : Gray2Vec_Grid)
    (c : Int × Int)
    (h : interior g c.1 c.2 = true → sw g c.1 c.2 = g.m_img_n.pix c.1 c.2) :
    NeighborsAdjust_step sw g c = g := by
  unfold NeighborsAdjust_step
  split_ifs with hint
  · rw [h hint]
    exact set_code_self g c
  · rfl

theorem ResolveConflicts_step_fixed (sw : Gray2Vec_Grid → Int → Int → Int)
    (st : Gray2Vec_Grid × Nat) (c : Int × Int)
    (h : interior st.1 c.1 c.2 = true → sw st.1 c.1 c.2 = st.1.m_img_n.pix c.1 c.2) :
    ResolveConflicts_step sw st c = st := by
  by_cases hint : interior st.1 c.1 c.2 = true
  · have hpix : (st.1.m_img_n.set c.1 c.2 (sw st.1 c.1 c.2)).pix c.1 c.2 = sw st.1 c.1 c.2 := by
      simp [CImg.set]
    simp only [ResolveConflicts_step, hint, if_true, hpix]
    rw [if_neg (not_not.2 (h hint).symm), h hint, set_code_self]
  · simp only [ResolveConflicts_step, hint]
    rfl

theorem NeighborsAdjust2_step_fixed (st : Gray2Vec_Grid × Nat) (c : Int × Int)
    (h : interior st.1 c.1 c.2 = true →
      NeighborsAdjust2_switch st.1 c.1 c.2 = st.1.m_img_n.pix c.1 c.2) :
    NeighborsAdjust2_step st c = st := by
  by_cases hint : interior st.1 c.1 c.2 = true
  · have hpix : (st.1.m_img_n.set c.1 c.2 (NeighborsAdjust2_switch st.1 c.1 c.2)).pix c.1 c.2
        = NeighborsAdjust2_switch st.1 c.1 c.2 := by
      simp [CImg.set]
    simp only [NeighborsAdjust2_step, hint, if_true, hpix]
    rw [if_neg (not_not.2 (h hint).symm), h hint, set_code_self]
  · simp only [NeighborsAdjust2_step, hint]
    rfl

theorem NeighborsAdjust_of_stable (g : Gray2Vec_Grid) (h : NeighborsAdjust_stable g) :
    NeighborsAdjust g = g := by
  have e1 : (forXY g.m_img_s).foldl (NeighborsAdjust_step NeighborsAdjust_sweep1) g = g :=
    foldl_fixed _ _ _ (fun c hc => NeighborsAdjust_step_fixed _ g c (fun hi => (h c hc hi).1))
  have e2 : (forXY g.m_img_s).foldl (NeighborsAdjust_step NeighborsAdjust_sweep2) g = g :=
    foldl_fixed _ _ _ (fun c hc => NeighborsAdjust_step_fixed _ g c (fun hi => (h c hc hi).2))
  unfold NeighborsAdjust
  simp only [e1, e2]

theorem ResolveConflicts_of_stable (g : Gray2Vec_Grid) (h : ResolveConflicts_stable g) :
    ResolveConflicts g = g := by
  have e1 : (forXY g.m_img_s).foldl (ResolveConflicts_step ResolveConflicts_sweep1) (g, 0)
      = (g, 0) :=
    foldl_fixed _ _ _ (fun c hc => ResolveConflicts_step_fixed _ (g, 0) c
      (fun hi => (h c hc hi).1))
  have e2 : (forXY g.m_img_s).foldl (ResolveConflicts_step ResolveConflicts_sweep2) (g, 0)
      = (g, 0) :=
    foldl_fixed _ _ _ (fun c hc => ResolveConflicts_step_fixed _ (g, 0) c
      (fun hi => (h c hc hi).2))
  have f1 : ResolveConflicts_first g = g := by
    rw [ResolveConflicts_first_eq, e1]
  rw [ResolveConflicts_eq_second, f1, e2]

theorem NeighborsAdjust2_of_stable (g : Gray2Vec_Grid) (h : NeighborsAdjust2_stable g) :
    NeighborsAdjust2 g = g := by
  have e1 : (forXY g.m_img_s).foldl NeighborsAdjust2_step (g, 0) = (g, 0) :=
    foldl_fixed _ _ _ (fun c hc => NeighborsAdjust2_step_fixed (g, 0) c (fun hi => h c hc hi))
  unfold NeighborsAdjust2
  rw [e1]

theorem isqrt_spec (m : Int) (hm : 0 ≤ m) :
    0 ≤ (Nat.sqrt m.toNat : Int) ∧
    (Nat.sqrt m.toNat : Int) * (Nat.sqrt m.toNat : Int) ≤ m ∧
    m < ((Nat.sqrt m.toNat : Int) + 1) * ((Nat.sqrt m.toNat : Int) + 1) := by
  have e : ((m.toNat : Nat) : Int) = m := Int.toNat_of_nonneg hm
  have h1 : Nat.sqrt m.toNat * Nat.sqrt m.toNat ≤ m.toNat := Nat.sqrt_le _
  have h2 : m.toNat < Nat.succ (Nat.sqrt m.toNat) * Nat.succ (Nat.sqrt m.toNat) :=
    Nat.lt_succ_sqrt _
  refine ⟨Int.natCast_nonneg _, ?_, ?_⟩
  · calc (Nat.sqrt m.toNat : Int) * (Nat.sqrt m.toNat : Int)
        = ((Nat.sqrt m.toNat * Nat.sqrt m.toNat : Nat) : Int) := by push_cast; ring
      _ ≤ ((m.toNat : Nat) : Int) := by exact_mod_cast h1
      _ = m := e
  · calc m = ((m.toNat : Nat) : Int) := e.symm
      _ < ((Nat.succ (Nat.sqrt m.toNat) * Nat.succ (Nat.sqrt m.toNat) : Nat) : Int) := by
        exact_mod_cast h2
      _ = ((Nat.sqrt m.toNat : Int) + 1) * ((Nat.sqrt m.toNat : Int) + 1) := by
        push_cast; ring

theorem corner_init_spec (c : Int) (h0 : 0 ≤ c) :
    0 ≤ corner_init c ∧ corner_init c * corner_init c ≤ c * 255 * 2 ∧
    c * 255 * 2 < (corner_init c + 1) * (corner_init c + 1) :=
  isqrt_spec (c * 255 * 2) (by omega)

theorem corner_init_le (c : Int) (h0 : 0 ≤ c) (h : c ≤ 128) : corner_init c ≤ 255 := by
  obtain ⟨k0, k1, -⟩ := corner_init_spec c h0
  by_contra hk
  have hk' : 256 ≤ corner_init c := by omega
  nlinarith

theorem to_uchar_of_range (v : Int) (h0 : 0 ≤ v) (h : v ≤ 255) : to_uchar v = v := by
  unfold to_uchar
  omega

theorem large_init_spec (c : Int) (h127 : 127 ≤ c) (h255 : c ≤ 255) :
    0 ≤ large_init c ∧ large_init c ≤ 255 ∧
    ((255 - c) * 255 * 2 ≤ 255 * 255 →
      (255 - c) * 255 * 2 ≤ (255 - large_init c) * (255 - large_init c)) ∧
    (255 * 255 < (255 - c) * 255 * 2 → large_init c = 0) ∧
    (large_init c < 255 →
      (254 - large_init c) * (254 - large_init c) < (255 - c) * 255 * 2) := by
  obtain ⟨k0, k1, k2⟩ := isqrt_spec ((255 - c) * 255 * 2) (by omega)
  unfold large_init
  simp only
  generalize (Nat.sqrt ((255 - c) * 255 * 2).toNat : Int) = k at k0 k1 k2 ⊢
  have hm : (255 - c) * 255 * 2 ≤ 65280 := by omega
  generalize (255 - c) * 255 * 2 = m at k1 k2 hm ⊢
  have hk : k ≤ 255 := by
    by_contra hk
    have hk' : 256 ≤ k := by omega
    nlinarith
  by_cases hsq : k * k = m
  · rw [if_pos hsq]
    refine ⟨by omega, by omega, fun _ => ?_, fun h => ?_, fun h => ?_⟩
    · have : (255 - (255 - k)) = k := by ring
      rw [this, hsq]
    · exfalso
      nlinarith
    · have hk1 : 1 ≤ k := by omega
      have : (254 - (255 - k)) = k - 1 := by ring
      rw [this]
      nlinarith
  · rw [if_neg hsq]
    by_cases hlt : k < 255
    · rw [if_pos hlt]
      refine ⟨by omega, by omega, fun _ => ?_, fun h => ?_, fun _ => ?_⟩
      · have : (255 - (254 - k)) = k + 1 := by ring
        rw [this]
        exact le_of_lt k2
      · exfalso
        nlinarith
      · have : (254 - (254 - k)) = k := by ring
        rw [this]
        exact lt_of_le_of_ne k1 hsq
    · rw [if_neg hlt]
      have hk255 : k = 255 := by omega
      subst hk255
      refine ⟨by omega, by omega, fun h => ?_, fun _ => by norm_num, fun _ => ?_⟩
      · exfalso
        apply hsq
        omega
      · norm_num
        omega

theorem pixel_error_side (g : Gray2Vec_Grid) (px py : Int)
    (hn : g.m_img_n.pix px py ∈ ([2, 4, 6, 8] : List Int)) :
    pixel_error g px py false
      = some (((g.m_img_f1.pix px py : ℚ) + (g.m_img_f2.pix px py : ℚ)) * (1 / 2)
          - (g.m_img_s.pix px py : ℚ)) := by
  simp only [List.mem_cons, List.mem_singleton, List.not_mem_nil, or_false] at hn
  unfold pixel_error
  simp only
  rw [if_neg (by omega), if_pos hn]
  rfl

theorem class_init_corner (n s : Int) (h : n ∈ ([1, 3, 5, 7] : List Int)) :
    class_init n s = to_uchar (corner_init s) := by
  simp only [List.mem_cons, List.mem_singleton, List.not_mem_nil, or_false] at h
  unfold class_init
  rw [if_pos h]

theorem class_init_large (n s : Int) (h : n ∈ ([11, 13, 15, 17] : List Int)) :
    class_init n s = to_uchar (large_init s) := by
  simp only [List.mem_cons, List.mem_singleton, List.not_mem_nil, or_false] at h
  unfold class_init
  rw [if_neg (by omega), if_neg (by omega), if_pos h]

theorem class_init_trivial (n s : Int) (h : n ∉ nontrivial) : class_init n s = 0 := by
  simp only [nontrivial, List.mem_cons, List.mem_singleton, List.not_mem_nil, or_false,
    not_or] at h
  unfold class_init
  rw [if_neg (by omega), if_neg (by omega), if_neg (by omega)]

theorem TuneFractions_step_frame (max_error : ℚ) (g : Gray2Vec_Grid) (c : Int × Int) :
    (TuneFractions_step max_error g c).m_img_n = g.m_img_n ∧
    (TuneFractions_step max_error g c).m_img_s = g.m_img_s ∧
    (TuneFractions_step max_error g c).m_img = g.m_img ∧
    ∀ p : Int × Int, p ≠ c →
      (TuneFractions_step max_error g c).m_img_f1.pix p.1 p.2 = g.m_img_f1.pix p.1 p.2 ∧
      (TuneFractions_step max_error g c).m_img_f2.pix p.1 p.2 = g.m_img_f2.pix p.1 p.2 ∧
      (TuneFractions_step max_error g c).m_img_f3.pix p.1 p.2 = g.m_img_f3.pix p.1 p.2 := by
  have hput : ∀ v : Int × Int × Int,
      (put_fractions g c.1 c.2 v).m_img_n = g.m_img_n ∧
      (put_fractions g c.1 c.2 v).m_img_s = g.m_img_s ∧
      (put_fractions g c.1 c.2 v).m_img = g.m_img ∧
      ∀ p : Int × Int, p ≠ c →
        (put_fractions g c.1 c.2 v).m_img_f1.pix p.1 p.2 = g.m_img_f1.pix p.1 p.2 ∧
        (put_fractions g c.1 c.2 v).m_img_f2.pix p.1 p.2 = g.m_img_f2.pix p.1 p.2 ∧
        (put_fractions g c.1 c.2 v).m_img_f3.pix p.1 p.2 = g.m_img_f3.pix p.1 p.2 := by
    intro v
    refine ⟨rfl, rfl, rfl, fun p hne => ?_⟩
    have hxy : ¬ (p.1 = c.1 ∧ p.2 = c.2) := fun h => hne (Prod.ext h.1 h.2)
    simp [put_fractions, CImg.set, hxy]
  unfold TuneFractions_step
  simp only
  split_ifs
  · exact hput _
  · exact hput _
  · exact hput _
  · exact ⟨rfl, rfl, rfl, fun _ _ => ⟨rfl, rfl, rfl⟩⟩

theorem TuneFractions_corner_off (max_error df : ℚ) (sc s f1 f2 : Int) (h : max_error ≤ 0) :
    (TuneFractions_corner max_error df sc s f1 f2).2.2 = -1 := by
  unfold TuneFractions_corner
  rw [if_neg (fun hh => absurd hh.1 (not_lt.2 h))]
  split_ifs <;> rfl

theorem TuneFractions_side_off (max_error df : ℚ) (sc s f1 f2 : Int) (h : max_error ≤ 0) :
    (TuneFractions_side max_error df sc s f1 f2).2.2 = -1 := by
  unfold TuneFractions_side
  rw [if_neg (fun hh => absurd hh.1 (not_lt.2 h))]
  split_ifs <;> rfl

theorem TuneFractions_large_off (max_error df : ℚ) (sc s f1 f2 : Int) (h : max_error ≤ 0) :
    (TuneFractions_large max_error df sc s f1 f2).2.2 = -1 := by
  unfold TuneFractions_large
  rw [if_neg (fun hh => absurd hh.1 (not_lt.2 h))]
  split_ifs <;> rfl

theorem put_fractions_f3 (g : Gray2Vec_Grid) (px py : Int) (v : Int × Int × Int) :
    (put_fractions g px py v).m_img_f3.pix px py = v.2.2 := by
  simp [put_fractions, CImg.set]

theorem TuneFractions_step_off (max_error : ℚ) (h : max_error ≤ 0) (g : Gray2Vec_Grid)
    (c : Int × Int) (hn : g.m_img_n.pix c.1 c.2 ∈ nontrivial) :
    (TuneFractions_step max_error g c).m_img_f3.pix c.1 c.2 = -1 := by
  simp only [nontrivial, List.mem_cons, List.mem_singleton, List.not_mem_nil, or_false] at hn
  unfold TuneFractions_step
  simp only
  split_ifs with c1 c2 c3
  · rw [put_fractions_f3]
    exact TuneFractions_corner_off _ _ _ _ _ _ h
  · rw [put_fractions_f3]
    exact TuneFractions_side_off _ _ _ _ _ _ h
  · rw [put_fractions_f3]
    exact TuneFractions_large_off _ _ _ _ _ _ h
  · omega

/-! ## Idempotence, reassignment targets and invalidation (C11 to C16) -/

/-- C11 (as stated, refuted): none of the three passes is idempotent on the codes.  In
`adjustGrid` a second run of `NeighborsAdjust` changes the cell (1,1) from 3 to 4; in
`resolveGrid` the first run of `ResolveConflicts` makes the cell (1,1) an 8 and the second
run a 6; in `saturatedPairGrid` a second run of `NeighborsAdjust2` changes the cell (1,1)
from 1 to 2. -/
theorem C11_counterexample :
    ((NeighborsAdjust adjustGrid).m_img_n.pix 1 1 = 3 ∧
      (NeighborsAdjust (NeighborsAdjust adjustGrid)).m_img_n.pix 1 1 = 4) ∧
    ((ResolveConflicts resolveGrid).m_img_n.pix 1 1 = 8 ∧
      (ResolveConflicts (ResolveConflicts resolveGrid)).m_img_n.pix 1 1 = 6) ∧
    ((NeighborsAdjust2 saturatedPairGrid).m_img_n.pix 1 1 = 1 ∧
      (NeighborsAdjust2 (NeighborsAdjust2 saturatedPairGrid)).m_img_n.pix 1 1 = 2) := by
  refine ⟨⟨?_, ?_⟩, ⟨?_, ?_⟩, ⟨?_, ?_⟩⟩ <;> decide

/-- C11 (amended): a pass that finds nothing to change is a no-op, and re-running it gives
the same grid.  If in `g` the `switch` of each sweep of `NeighborsAdjust` (respectively
`ResolveConflicts`, `NeighborsAdjust2`) selects for every interior cell the code the cell
already has, the pass returns `g` itself, so running it twice yields the same grid as
running it once. -/
theorem C11_stable_grid_is_fixed (g : Gray2Vec_Grid) :
    (NeighborsAdjust_stable g →
      NeighborsAdjust g = g ∧ NeighborsAdjust (NeighborsAdjust g) = NeighborsAdjust g) ∧
    (ResolveConflicts_stable g →
      ResolveConflicts g = g ∧ ResolveConflicts (ResolveConflicts g) = ResolveConflicts g) ∧
    (NeighborsAdjust2_stable g →
      NeighborsAdjust2 g = g ∧
      NeighborsAdjust2 (NeighborsAdjust2 g) = NeighborsAdjust2 g) := by
  refine ⟨fun h => ?_, fun h => ?_, fun h => ?_⟩
  · have e := NeighborsAdjust_of_stable g h
    exact ⟨e, by rw [e, e]⟩
  · have e := ResolveConflicts_of_stable g h
    exact ⟨e, by rw [e, e]⟩
  · have e := NeighborsAdjust2_of_stable g h
    exact ⟨e, by rw [e, e]⟩

/-- C11 witness: `resolveGrid` is stable for `NeighborsAdjust`, and `thinCornerGrid` is
stable for `ResolveConflicts` and for `NeighborsAdjust2`. -/
theorem C11_stable_grid_is_fixed_witness :
    (NeighborsAdjust_stable resolveGrid ∧
      NeighborsAdjust (NeighborsAdjust resolveGrid) = NeighborsAdjust resolveGrid) ∧
    (ResolveConflicts_stable thinCornerGrid ∧
      ResolveConflicts (ResolveConflicts thinCornerGrid) = ResolveConflicts thinCornerGrid) ∧
    (NeighborsAdjust2_stable thinCornerGrid ∧
      NeighborsAdjust2 (NeighborsAdjust2 thinCornerGrid) = NeighborsAdjust2 thinCornerGrid) :=
  ⟨⟨by unfold NeighborsAdjust_stable; decide,
    ((C11_stable_grid_is_fixed resolveGrid).1 (by unfold NeighborsAdjust_stable; decide)).2⟩,
   ⟨by unfold ResolveConflicts_stable; decide,
    ((C11_stable_grid_is_fixed thinCornerGrid).2.1
      (by unfold ResolveConflicts_stable; decide)).2⟩,
   ⟨by unfold NeighborsAdjust2_stable; decide,
    ((C11_stable_grid_is_fixed thinCornerGrid).2.2
      (by unfold NeighborsAdjust2_stable; decide)).2⟩⟩

/-- C12 (as stated, refuted): `ResolveConflicts` changes the corner cell (1,1) of
`conflictGrid` from code 1 to code 7, an adjacent corner, not to the diagonally opposite
corner 5; and it changes the side cell (1,1) of `sideConflictGrid` from code 2 to the
opposite side 6 (in its second sweep), not to a perpendicular side 4 or 8. -/
theorem C12_counterexample :
    (conflictGrid.m_img_n.pix 1 1 = 1 ∧ (ResolveConflicts conflictGrid).m_img_n.pix 1 1 = 7 ∧
      (ResolveConflicts conflictGrid).m_img_n.pix 1 1 ≠ 5) ∧
    (sideConflictGrid.m_img_n.pix 1 1 = 2 ∧
      (ResolveConflicts_first sideConflictGrid).m_img_n.pix 1 1 = 2 ∧
      (ResolveConflicts sideConflictGrid).m_img_n.pix 1 1 = 6 ∧
      (ResolveConflicts sideConflictGrid).m_img_n.pix 1 1 ∉ ([4, 8] : List Int)) := by
  decide

/-- C12 (amended): whenever a sweep of `ResolveConflicts` changes a cell's code, the old
code is non-trivial and the new code is of the same class: a small-corner code becomes an
adjacent small-corner code (1 or 5 -> 3 or 7, 3 or 7 -> 1 or 5), a large-corner code an
adjacent large-corner code (11 or 15 -> 13 or 17, 13 or 17 -> 11 or 15), and a side code
becomes a perpendicular side code in the first sweep (2 or 6 -> 4 or 8, 4 or 8 -> 2 or 6)
and the opposite side code in the second sweep (2 <-> 6, 4 <-> 8). -/
theorem C12_reassignment_targets (g : Gray2Vec_Grid) (x y : Int) :
    ((ResolveConflicts_first g).m_img_n.pix x y ≠ g.m_img_n.pix x y →
      g.m_img_n.pix x y ∈ nontrivial ∧
      (g.m_img_n.pix x y ∈ ([1, 5] : List Int) →
        (ResolveConflicts_first g).m_img_n.pix x y ∈ ([3, 7] : List Int)) ∧
      (g.m_img_n.pix x y ∈ ([3, 7] : List Int) →
        (ResolveConflicts_first g).m_img_n.pix x y ∈ ([1, 5] : List Int)) ∧
      (g.m_img_n.pix x y ∈ ([11, 15] : List Int) →
        (ResolveConflicts_first g).m_img_n.pix x y ∈ ([13, 17] : List Int)) ∧
      (g.m_img_n.pix x y ∈ ([13, 17] : List Int) →
        (ResolveConflicts_first g).m_img_n.pix x y ∈ ([11, 15] : List Int)) ∧
      (g.m_img_n.pix x y ∈ ([2, 6] : List Int) →
        (ResolveConflicts_first g).m_img_n.pix x y ∈ ([4, 8] : List Int)) ∧
      (g.m_img_n.pix x y ∈ ([4, 8] : List Int) →
        (ResolveConflicts_first g).m_img_n.pix x y ∈ ([2, 6] : List Int))) ∧
    ((ResolveConflicts g).m_img_n.pix x y ≠ (ResolveConflicts_first g).m_img_n.pix x y →
      (ResolveConflicts_first g).m_img_n.pix x y ∈ nontrivial ∧
      ((ResolveConflicts_first g).m_img_n.pix x y ∈ ([1, 5] : List Int) →
        (ResolveConflicts g).m_img_n.pix x y ∈ ([3, 7] : List Int)) ∧
      ((ResolveConflicts_first g).m_img_n.pix x y ∈ ([3, 7] : List Int) →
        (ResolveConflicts g).m_img_n.pix x y ∈ ([1, 5] : List Int)) ∧
      ((ResolveConflicts_first g).m_img_n.pix x y ∈ ([11, 15] : List Int) →
        (ResolveConflicts g).m_img_n.pix x y ∈ ([13, 17] : List Int)) ∧
      ((ResolveConflicts_first g).m_img_n.pix x y ∈ ([13, 17] : List Int) →
        (ResolveConflicts g).m_img_n.pix x y ∈ ([11, 15] : List Int)) ∧
      ((ResolveConflicts_first g).m_img_n.pix x y = 2 →
        (ResolveConflicts g).m_img_n.pix x y = 6) ∧
      ((ResolveConflicts_first g).m_img_n.pix x y = 6 →
        (ResolveConflicts g).m_img_n.pix x y = 2) ∧
      ((ResolveConflicts_first g).m_img_n.pix x y = 4 →
        (ResolveConflicts g).m_img_n.pix x y = 8) ∧
      ((ResolveConflicts_first g).m_img_n.pix x y = 8 →
        (ResolveConflicts g).m_img_n.pix x y = 4)) := by
  constructor
  · have h := (ResolveConflicts_sweep_view ResolveConflicts_sweep1
      (fun o v => v ≠ o.n →
        o.n ∈ nontrivial ∧
        (o.n ∈ ([1, 5] : List Int) → v ∈ ([3, 7] : List Int)) ∧
        (o.n ∈ ([3, 7] : List Int) → v ∈ ([1, 5] : List Int)) ∧
        (o.n ∈ ([11, 15] : List Int) → v ∈ ([13, 17] : List Int)) ∧
        (o.n ∈ ([13, 17] : List Int) → v ∈ ([11, 15] : List Int)) ∧
        (o.n ∈ ([2, 6] : List Int) → v ∈ ([4, 8] : List Int)) ∧
        (o.n ∈ ([4, 8] : List Int) → v ∈ ([2, 6] : List Int)))
      (fun g x y => ResolveConflicts_sweep1_cases
        (fun n v => v ≠ n →
          n ∈ nontrivial ∧
          (n ∈ ([1, 5] : List Int) → v ∈ ([3, 7] : List Int)) ∧
          (n ∈ ([3, 7] : List Int) → v ∈ ([1, 5] : List Int)) ∧
          (n ∈ ([11, 15] : List Int) → v ∈ ([13, 17] : List Int)) ∧
          (n ∈ ([13, 17] : List Int) → v ∈ ([11, 15] : List Int)) ∧
          (n ∈ ([2, 6] : List Int) → v ∈ ([4, 8] : List Int)) ∧
          (n ∈ ([4, 8] : List Int) → v ∈ ([2, 6] : List Int)))
        (fun n h => absurd rfl h)
        (by decide) (by decide) (by decide) (by decide) (by decide) (by decide)
        (by decide) (by decide) (by decide) (by decide) (by decide) (by decide) g x y)
      (fun o h => absurd rfl h) g 0 (x, y)).2.2.2.1
    exact h
  · rw [ResolveConflicts_eq_second]
    have h := (ResolveConflicts_sweep_view ResolveConflicts_sweep2
      (fun o v => v ≠ o.n →
        o.n ∈ nontrivial ∧
        (o.n ∈ ([1, 5] : List Int) → v ∈ ([3, 7] : List Int)) ∧
        (o.n ∈ ([3, 7] : List Int) → v ∈ ([1, 5] : List Int)) ∧
        (o.n ∈ ([11, 15] : List Int) → v ∈ ([13, 17] : List Int)) ∧
        (o.n ∈ ([13, 17] : List Int) → v ∈ ([11, 15] : List Int)) ∧
        (o.n = 2 → v = 6) ∧ (o.n = 6 → v = 2) ∧ (o.n = 4 → v = 8) ∧ (o.n = 8 → v = 4))
      (fun g x y => ResolveConflicts_sweep2_cases
        (fun n v => v ≠ n →
          n ∈ nontrivial ∧
          (n ∈ ([1, 5] : List Int) → v ∈ ([3, 7] : List Int)) ∧
          (n ∈ ([3, 7] : List Int) → v ∈ ([1, 5] : List Int)) ∧
          (n ∈ ([11, 15] : List Int) → v ∈ ([13, 17] : List Int)) ∧
          (n ∈ ([13, 17] : List Int) → v ∈ ([11, 15] : List Int)) ∧
          (n = 2 → v = 6) ∧ (n = 6 → v = 2) ∧ (n = 4 → v = 8) ∧ (n = 8 → v = 4))
        (fun n h => absurd rfl h)
        (by decide) (by decide) (by decide) (by decide) (by decide) (by decide)
        (by decide) (by decide) (by decide) (by decide) (by decide) (by decide) g x y)
      (fun o h => absurd rfl h) (ResolveConflicts_first g) 0 (x, y)).2.2.2.1
    exact h

/-- C12 witness: the cell (1,1) of `conflictGrid` is changed by the first sweep, from the
corner code 1 to an adjacent corner code. -/
theorem C12_reassignment_targets_witness :
    (ResolveConflicts_first conflictGrid).m_img_n.pix 1 1 ∈ ([3, 7] : List Int) :=
  ((C12_reassignment_targets conflictGrid 1 1).1 (by decide)).2.1 (by decide)

/-- C13: when the fraction grids exist (`m_img_f1.width() > 0`), a cell whose code was
changed by the first or by the second sweep of `ResolveConflicts` ends with `f1` and `f2`
equal to the value `set_fraction` stores for its final code and its (unchanged) coverage,
and with `f3 = -1`; a cell whose code was changed by neither sweep keeps `f1`, `f2` and
`f3`. -/
theorem C13_invalidates_exactly_reassigned (g : Gray2Vec_Grid) (hw : g.m_img_f1.width > 0)
    (x y : Int) :
    (((ResolveConflicts_first g).m_img_n.pix x y ≠ g.m_img_n.pix x y ∨
      (ResolveConflicts g).m_img_n.pix x y ≠ (ResolveConflicts_first g).m_img_n.pix x y) →
      (ResolveConflicts g).m_img_f1.pix x y
        = class_init ((ResolveConflicts g).m_img_n.pix x y) (g.m_img_s.pix x y) ∧
      (ResolveConflicts g).m_img_f2.pix x y
        = class_init ((ResolveConflicts g).m_img_n.pix x y) (g.m_img_s.pix x y) ∧
      (ResolveConflicts g).m_img_f3.pix x y = -1 ∧
      cell_view (set_fraction (ResolveConflicts g) x y).1 (x, y)
        = cell_view (ResolveConflicts g) (x, y)) ∧
    (((ResolveConflicts_first g).m_img_n.pix x y = g.m_img_n.pix x y ∧
      (ResolveConflicts g).m_img_n.pix x y = (ResolveConflicts_first g).m_img_n.pix x y) →
      (ResolveConflicts g).m_img_f1.pix x y = g.m_img_f1.pix x y ∧
      (ResolveConflicts g).m_img_f2.pix x y = g.m_img_f2.pix x y ∧
      (ResolveConflicts g).m_img_f3.pix x y = g.m_img_f3.pix x y) := by
  obtain ⟨hw1, hs1, r1⟩ := ResolveConflicts_sweep_view ResolveConflicts_sweep1
    (fun _ _ => True) (fun _ _ _ => trivial) (fun _ => trivial) g 0 (x, y)
  obtain ⟨-, hs2, r2⟩ := ResolveConflicts_sweep_view ResolveConflicts_sweep2
    (fun _ _ => True) (fun _ _ _ => trivial) (fun _ => trivial) (ResolveConflicts_first g) 0
    (x, y)
  rw [← ResolveConflicts_first_eq] at hw1 hs1 r1
  rw [← ResolveConflicts_eq_second] at hs2 r2
  simp only [Reassigned, cell_view] at r1 r2
  have hfin : ((ResolveConflicts_first g).m_img_n.pix x y ≠ g.m_img_n.pix x y ∨
      (ResolveConflicts g).m_img_n.pix x y ≠ (ResolveConflicts_first g).m_img_n.pix x y) →
      (ResolveConflicts g).m_img_f1.pix x y
        = class_init ((ResolveConflicts g).m_img_n.pix x y) (g.m_img_s.pix x y) ∧
      (ResolveConflicts g).m_img_f2.pix x y
        = class_init ((ResolveConflicts g).m_img_n.pix x y) (g.m_img_s.pix x y) ∧
      (ResolveConflicts g).m_img_f3.pix x y = -1 := by
    intro hch
    obtain ⟨q1, -, r1⟩ := r1
    obtain ⟨q2, -, r2⟩ := r2
    rcases r2 with ⟨hn, h1, h2, h3⟩ | ⟨hn, ⟨-, h1, h2, h3⟩ | ⟨hnw, -⟩⟩
    · rcases r1 with ⟨hn', -⟩ | ⟨hn', ⟨-, k1, k2, k3⟩ | ⟨hnw, -⟩⟩
      · rcases hch with h | h
        · exact absurd hn' h
        · exact absurd hn h
      · rw [h1, h2, h3, hn, k1, k2, k3, q1]
        exact ⟨rfl, rfl, rfl⟩
      · exact absurd hw hnw
    · rw [h1, h2, h3, q2, q1]
      exact ⟨rfl, rfl, rfl⟩
    · exact absurd (hw1 ▸ hw) hnw
  refine ⟨fun hch => ?_, ?_⟩
  · obtain ⟨e1, e2, e3⟩ := hfin hch
    refine ⟨e1, e2, e3, ?_⟩
    rw [set_fraction_view]
    simp only [cell_view]
    rw [e1, e2, e3, r2.1, r1.1]
  · rintro ⟨hb, hc⟩
    obtain ⟨-, -, r1⟩ := r1
    obtain ⟨-, -, r2⟩ := r2
    rcases r2 with ⟨-, h1, h2, h3⟩ | ⟨hn, -⟩
    · rcases r1 with ⟨-, k1, k2, k3⟩ | ⟨hn', -⟩
      · rw [h1, h2, h3, k1, k2, k3]
        exact ⟨rfl, rfl, rfl⟩
      · exact absurd hb hn'
    · exact absurd hc hn

/-- C13 witness: in `conflictGridF` the first sweep changes the code of the cell (1,1), which
ends re-initialised, and the cell (1,0) keeps its code and its fractions 1, 2, 3. -/
theorem C13_invalidates_exactly_reassigned_witness :
    conflictGridF.m_img_f1.width > 0 ∧
    ((ResolveConflicts_first conflictGridF).m_img_n.pix 1 1 ≠ conflictGridF.m_img_n.pix 1 1 ∧
      (ResolveConflicts conflictGridF).m_img_f3.pix 1 1 = -1) ∧
    (ResolveConflicts conflictGridF).m_img_f3.pix 1 0 = conflictGridF.m_img_f3.pix 1 0 :=
  ⟨by decide,
   ⟨by decide,
    ((C13_invalidates_exactly_reassigned conflictGridF (by decide) 1 1).1
      (Or.inl (by decide))).2.2.1⟩,
   ((C13_invalidates_exactly_reassigned conflictGridF (by decide) 1 0).2
      ⟨by decide, by decide⟩).2.2⟩

/-- C14: whenever `NeighborsAdjust2` changes the code of a cell, one of the cell's fractions
`f1`, `f2` is exactly 0 or 255 (255 for a small-corner code, 0 for a large-corner code; for
a side code 255 when it becomes a large-corner code and 0 when it becomes a small-corner
code); a small-corner code moves to one of its two flanking side codes, a side code to one
of its two contained small-corner codes or one of its two containing large-corner codes, a
large-corner code to one of its two contained side codes; the 2x2 patterns of the old and the
new code differ in exactly one sub-sample; and the cell ends with the fractions `set_fraction`
stores for its new code and coverage and with `f3 = -1`. -/
theorem C14_saturation_moves (g : Gray2Vec_Grid) (x y : Int)
    (hch : (NeighborsAdjust2 g).m_img_n.pix x y ≠ g.m_img_n.pix x y) :
    (g.m_img_f1.pix x y = 0 ∨ g.m_img_f1.pix x y = 255 ∨
      g.m_img_f2.pix x y = 0 ∨ g.m_img_f2.pix x y = 255) ∧
    (g.m_img_n.pix x y ∈ ([1, 3, 5, 7] : List Int) →
      g.m_img_f1.pix x y = 255 ∨ g.m_img_f2.pix x y = 255) ∧
    (g.m_img_n.pix x y ∈ ([11, 13, 15, 17] : List Int) →
      g.m_img_f1.pix x y = 0 ∨ g.m_img_f2.pix x y = 0) ∧
    (g.m_img_n.pix x y ∈ ([2, 4, 6, 8] : List Int) →
      ((g.m_img_f1.pix x y = 255 ∨ g.m_img_f2.pix x y = 255) ∧
        (NeighborsAdjust2 g).m_img_n.pix x y ∈ ([11, 13, 15, 17] : List Int)) ∨
      ((g.m_img_f1.pix x y = 0 ∨ g.m_img_f2.pix x y = 0) ∧
        (NeighborsAdjust2 g).m_img_n.pix x y ∈ ([1, 3, 5, 7] : List Int))) ∧
    ((g.m_img_n.pix x y = 1 ∧ (NeighborsAdjust2 g).m_img_n.pix x y ∈ ([2, 8] : List Int)) ∨
     (g.m_img_n.pix x y = 3 ∧ (NeighborsAdjust2 g).m_img_n.pix x y ∈ ([2, 4] : List Int)) ∨
     (g.m_img_n.pix x y = 5 ∧ (NeighborsAdjust2 g).m_img_n.pix x y ∈ ([4, 6] : List Int)) ∨
     (g.m_img_n.pix x y = 7 ∧ (NeighborsAdjust2 g).m_img_n.pix x y ∈ ([6, 8] : List Int)) ∨
     (g.m_img_n.pix x y = 2 ∧
        (NeighborsAdjust2 g).m_img_n.pix x y ∈ ([1, 3, 11, 13] : List Int)) ∨
     (g.m_img_n.pix x y = 4 ∧
        (NeighborsAdjust2 g).m_img_n.pix x y ∈ ([3, 5, 13, 15] : List Int)) ∨
     (g.m_img_n.pix x y = 6 ∧
        (NeighborsAdjust2 g).m_img_n.pix x y ∈ ([5, 7, 15, 17] : List Int)) ∨
     (g.m_img_n.pix x y = 8 ∧
        (NeighborsAdjust2 g).m_img_n.pix x y ∈ ([7, 1, 17, 11] : List Int)) ∨
     (g.m_img_n.pix x y = 11 ∧ (NeighborsAdjust2 g).m_img_n.pix x y ∈ ([8, 2] : List Int)) ∨
     (g.m_img_n.pix x y = 13 ∧ (NeighborsAdjust2 g).m_img_n.pix x y ∈ ([2, 4] : List Int)) ∨
     (g.m_img_n.pix x y = 15 ∧ (NeighborsAdjust2 g).m_img_n.pix x y ∈ ([4, 6] : List Int)) ∨
     (g.m_img_n.pix x y = 17 ∧ (NeighborsAdjust2 g).m_img_n.pix x y ∈ ([6, 8] : List Int))) ∧
    pattern_distance (g.m_img_n.pix x y) ((NeighborsAdjust2 g).m_img_n.pix x y) = some 1 ∧
    (NeighborsAdjust2 g).m_img_f1.pix x y
      = class_init ((NeighborsAdjust2 g).m_img_n.pix x y) (g.m_img_s.pix x y) ∧
    (NeighborsAdjust2 g).m_img_f2.pix x y
      = class_init ((NeighborsAdjust2 g).m_img_n.pix x y) (g.m_img_s.pix x y) ∧
    (NeighborsAdjust2 g).m_img_f3.pix x y = -1 ∧
    cell_view (set_fraction (NeighborsAdjust2 g) x y).1 (x, y)
      = cell_view (NeighborsAdjust2 g) (x, y) := by
  obtain ⟨-, r⟩ := NeighborsAdjust2_view
    (fun o v =>
      (v ≠ o.n →
        ((o.n = 1 ∧ v ∈ ([2, 8] : List Int)) ∨ (o.n = 3 ∧ v ∈ ([2, 4] : List Int)) ∨
         (o.n = 5 ∧ v ∈ ([4, 6] : List Int)) ∨ (o.n = 7 ∧ v ∈ ([6, 8] : List Int)) ∨
         (o.n = 2 ∧ v ∈ ([1, 3, 11, 13] : List Int)) ∨
         (o.n = 4 ∧ v ∈ ([3, 5, 13, 15] : List Int)) ∨
         (o.n = 6 ∧ v ∈ ([5, 7, 15, 17] : List Int)) ∨
         (o.n = 8 ∧ v ∈ ([7, 1, 17, 11] : List Int)) ∨
         (o.n = 11 ∧ v ∈ ([8, 2] : List Int)) ∨ (o.n = 13 ∧ v ∈ ([2, 4] : List Int)) ∨
         (o.n = 15 ∧ v ∈ ([4, 6] : List Int)) ∨ (o.n = 17 ∧ v ∈ ([6, 8] : List Int))) ∧
        pattern_distance o.n v = some 1) ∧
      (v ≠ o.n →
        (o.n ∈ ([1, 3, 5, 7] : List Int) → o.f1 = 255 ∨ o.f2 = 255) ∧
        (o.n ∈ ([11, 13, 15, 17] : List Int) → o.f1 = 0 ∨ o.f2 = 0) ∧
        (o.n ∈ ([2, 4, 6, 8] : List Int) →
          ((o.f1 = 255 ∨ o.f2 = 255) ∧ v ∈ ([11, 13, 15, 17] : List Int)) ∨
          ((o.f1 = 0 ∨ o.f2 = 0) ∧ v ∈ ([1, 3, 5, 7] : List Int)))))
    (fun g x y => ⟨NeighborsAdjust2_switch_cases
        (fun n v => v ≠ n →
          ((n = 1 ∧ v ∈ ([2, 8] : List Int)) ∨ (n = 3 ∧ v ∈ ([2, 4] : List Int)) ∨
           (n = 5 ∧ v ∈ ([4, 6] : List Int)) ∨ (n = 7 ∧ v ∈ ([6, 8] : List Int)) ∨
           (n = 2 ∧ v ∈ ([1, 3, 11, 13] : List Int)) ∨
           (n = 4 ∧ v ∈ ([3, 5, 13, 15] : List Int)) ∨
           (n = 6 ∧ v ∈ ([5, 7, 15, 17] : List Int)) ∨
           (n = 8 ∧ v ∈ ([7, 1, 17, 11] : List Int)) ∨
           (n = 11 ∧ v ∈ ([8, 2] : List Int)) ∨ (n = 13 ∧ v ∈ ([2, 4] : List Int)) ∨
           (n = 15 ∧ v ∈ ([4, 6] : List Int)) ∨ (n = 17 ∧ v ∈ ([6, 8] : List Int))) ∧
          pattern_distance n v = some 1)
        (fun n h => absurd rfl h)
        (by decide) (by decide) (by decide) (by decide) (by decide) (by decide)
        (by decide) (by decide) (by decide) (by decide) (by decide) (by decide) g x y,
      fun h => NeighborsAdjust2_switch_sat g x y h⟩)
    (fun o => ⟨fun h => absurd rfl h, fun h => absurd rfl h⟩) g (x, y)
  simp only [Reassigned, cell_view] at r
  obtain ⟨q, ⟨pc, ps⟩, r⟩ := r
  rcases r with ⟨hn, -⟩ | ⟨-, ⟨-, h1, h2, h3⟩ | ⟨hf, -⟩⟩
  · exact absurd hn hch
  · obtain ⟨s1, s2, s3⟩ := ps hch
    obtain ⟨c1, c2⟩ := pc hch
    have hsat : g.m_img_f1.pix x y = 0 ∨ g.m_img_f1.pix x y = 255 ∨
        g.m_img_f2.pix x y = 0 ∨ g.m_img_f2.pix x y = 255 := by
      rcases c1 with ⟨e, -⟩ | ⟨e, -⟩ | ⟨e, -⟩ | ⟨e, -⟩ | ⟨e, -⟩ | ⟨e, -⟩ | ⟨e, -⟩ | ⟨e, -⟩ |
        ⟨e, -⟩ | ⟨e, -⟩ | ⟨e, -⟩ | ⟨e, -⟩
      · rcases s1 (by rw [e]; decide) with h | h
        · exact Or.inr (Or.inl h)
        · exact Or.inr (Or.inr (Or.inr h))
      · rcases s1 (by rw [e]; decide) with h | h
        · exact Or.inr (Or.inl h)
        · exact Or.inr (Or.inr (Or.inr h))
      · rcases s1 (by rw [e]; decide) with h | h
        · exact Or.inr (Or.inl h)
        · exact Or.inr (Or.inr (Or.inr h))
      · rcases s1 (by rw [e]; decide) with h | h
        · exact Or.inr (Or.inl h)
        · exact Or.inr (Or.inr (Or.inr h))
      · rcases s3 (by rw [e]; decide) with ⟨h | h, -⟩ | ⟨h | h, -⟩
        · exact Or.inr (Or.inl h)
        · exact Or.inr (Or.inr (Or.inr h))
        · exact Or.inl h
        · exact Or.inr (Or.inr (Or.inl h))
      · rcases s3 (by rw [e]; decide) with ⟨h | h, -⟩ | ⟨h | h, -⟩
        · exact Or.inr (Or.inl h)
        · exact Or.inr (Or.inr (Or.inr h))
        · exact Or.inl h
        · exact Or.inr (Or.inr (Or.inl h))
      · rcases s3 (by rw [e]; decide) with ⟨h | h, -⟩ | ⟨h | h, -⟩
        · exact Or.inr (Or.inl h)
        · exact Or.inr (Or.inr (Or.inr h))
        · exact Or.inl h
        · exact Or.inr (Or.inr (Or.inl h))
      · rcases s3 (by rw [e]; decide) with ⟨h | h, -⟩ | ⟨h | h, -⟩
        · exact Or.inr (Or.inl h)
        · exact Or.inr (Or.inr (Or.inr h))
        · exact Or.inl h
        · exact Or.inr (Or.inr (Or.inl h))
      · rcases s2 (by rw [e]; decide) with h | h
        · exact Or.inl h
        · exact Or.inr (Or.inr (Or.inl h))
      · rcases s2 (by rw [e]; decide) with h | h
        · exact Or.inl h
        · exact Or.inr (Or.inr (Or.inl h))
      · rcases s2 (by rw [e]; decide) with h | h
        · exact Or.inl h
        · exact Or.inr (Or.inr (Or.inl h))
      · rcases s2 (by rw [e]; decide) with h | h
        · exact Or.inl h
        · exact Or.inr (Or.inr (Or.inl h))
    refine ⟨hsat, s1, s2, s3, c1, c2, ?_, ?_, h3, ?_⟩
    · rw [h1, q]
    · rw [h2, q]
    · rw [set_fraction_view]
      simp only [cell_view]
      rw [h1, h2, h3]
  · exact absurd trivial hf

/-- C14 witness: in `saturatedGrid` the side cell (1,1) with `f1 = 255` is changed by
`NeighborsAdjust2`. -/
theorem C14_saturation_moves_witness :
    (NeighborsAdjust2 saturatedGrid).m_img_n.pix 1 1 ≠ saturatedGrid.m_img_n.pix 1 1 ∧
    pattern_distance (saturatedGrid.m_img_n.pix 1 1)
      ((NeighborsAdjust2 saturatedGrid).m_img_n.pix 1 1) = some 1 ∧
    (NeighborsAdjust2 saturatedGrid).m_img_f3.pix 1 1 = -1 :=
  ⟨by decide, (C14_saturation_moves saturatedGrid 1 1 (by decide)).2.2.2.2.2.1,
    (C14_saturation_moves saturatedGrid 1 1 (by decide)).2.2.2.2.2.2.2.2.1⟩

/-- C15: the first sweep of `NeighborsAdjust` changes the code of a cell only if the code
is a small-corner code and the coverage is at least 43 (it exceeds `255/6 = 42`), and the new
code is one of the two flanking side codes (1 -> 2 or 8, 3 -> 2 or 4, 5 -> 4 or 6,
7 -> 6 or 8).  The code its `switch` selects for a small-corner cell of coverage at least 43
is the first candidate when the first condition holds, the second candidate when the first
condition fails and the second holds, and the old code when both fail. -/
theorem C15_first_sweep_flanks (g : Gray2Vec_Grid) (x y : Int) :
    ((NeighborsAdjust_first g).m_img_n.pix x y ≠ g.m_img_n.pix x y →
      g.m_img_s.pix x y ≥ 43 ∧
      ((g.m_img_n.pix x y = 1 ∧ (NeighborsAdjust_first g).m_img_n.pix x y ∈ ([2, 8] : List Int)) ∨
       (g.m_img_n.pix x y = 3 ∧ (NeighborsAdjust_first g).m_img_n.pix x y ∈ ([2, 4] : List Int)) ∨
       (g.m_img_n.pix x y = 5 ∧ (NeighborsAdjust_first g).m_img_n.pix x y ∈ ([4, 6] : List Int)) ∨
       (g.m_img_n.pix x y = 7 ∧ (NeighborsAdjust_first g).m_img_n.pix x y ∈ ([6, 8] : List Int)))) ∧
    (g.m_img_n.pix x y = 1 → g.m_img_s.pix x y ≥ 43 →
      ((cover g x (y - 1) 6 = true ∧ cover g (x + 1) y 1 = true) →
        NeighborsAdjust_sweep1 g x y = 2) ∧
      (¬ (cover g x (y - 1) 6 = true ∧ cover g (x + 1) y 1 = true) →
        (cover g (x - 1) y 4 = true ∧ cover g x (y + 1) 1 = true) →
        NeighborsAdjust_sweep1 g x y = 8) ∧
      (¬ (cover g x (y - 1) 6 = true ∧ cover g (x + 1) y 1 = true) →
        ¬ (cover g (x - 1) y 4 = true ∧ cover g x (y + 1) 1 = true) →
        NeighborsAdjust_sweep1 g x y = 1)) ∧
    (g.m_img_n.pix x y = 3 → g.m_img_s.pix x y ≥ 43 →
      ((cover g x (y - 1) 6 = true ∧ cover g (x - 1) y 3 = true) →
        NeighborsAdjust_sweep1 g x y = 2) ∧
      (¬ (cover g x (y - 1) 6 = true ∧ cover g (x - 1) y 3 = true) →
        (cover g (x + 1) y 8 = true ∧ cover g x (y + 1) 3 = true) →
        NeighborsAdjust_sweep1 g x y = 4) ∧
      (¬ (cover g x (y - 1) 6 = true ∧ cover g (x - 1) y 3 = true) →
        ¬ (cover g (x + 1) y 8 = true ∧ cover g x (y + 1) 3 = true) →
        NeighborsAdjust_sweep1 g x y = 3)) ∧
    (g.m_img_n.pix x y = 5 → g.m_img_s.pix x y ≥ 43 →
      ((cover g x (y + 1) 6 = true ∧ cover g (x - 1) y 5 = true) →
        NeighborsAdjust_sweep1 g x y = 6) ∧
      (¬ (cover g x (y + 1) 6 = true ∧ cover g (x - 1) y 5 = true) →
        (cover g (x + 1) y 4 = true ∧ cover g x (y - 1) 5 = true) →
        NeighborsAdjust_sweep1 g x y = 4) ∧
      (¬ (cover g x (y + 1) 6 = true ∧ cover g (x - 1) y 5 = true) →
        ¬ (cover g (x + 1) y 4 = true ∧ cover g x (y - 1) 5 = true) →
        NeighborsAdjust_sweep1 g x y = 5)) ∧
    (g.m_img_n.pix x y = 7 → g.m_img_s.pix x y ≥ 43 →
      ((cover g (x - 1) y 4 = true ∧ cover g x (y - 1) 7 = true) →
        NeighborsAdjust_sweep1 g x y = 8) ∧
      (¬ (cover g (x - 1) y 4 = true ∧ cover g x (y - 1) 7 = true) →
        (cover g x (y + 1) 2 = true ∧ cover g (x + 1) y 7 = true) →
        NeighborsAdjust_sweep1 g x y = 6) ∧
      (¬ (cover g (x - 1) y 4 = true ∧ cover g x (y - 1) 7 = true) →
        ¬ (cover g x (y + 1) 2 = true ∧ cover g (x + 1) y 7 = true) →
        NeighborsAdjust_sweep1 g x y = 7)) := by
  refine ⟨?_, fun hn hs => NeighborsAdjust_sweep1_1_order g x y hn hs,
    fun hn hs => NeighborsAdjust_sweep1_3_order g x y hn hs,
    fun hn hs => NeighborsAdjust_sweep1_5_order g x y hn hs,
    fun hn hs => NeighborsAdjust_sweep1_7_order g x y hn hs⟩
  obtain ⟨-, r⟩ := NeighborsAdjust_sweep_view NeighborsAdjust_sweep1
    (fun o v => v ≠ o.n →
      o.s ≥ 43 ∧
      ((o.n = 1 ∧ v ∈ ([2, 8] : List Int)) ∨ (o.n = 3 ∧ v ∈ ([2, 4] : List Int)) ∨
       (o.n = 5 ∧ v ∈ ([4, 6] : List Int)) ∨ (o.n = 7 ∧ v ∈ ([6, 8] : List Int))))
    (fun g x y h => ⟨NeighborsAdjust_sweep1_sat g x y h,
      NeighborsAdjust_sweep1_cases
        (fun n v => v ≠ n →
          ((n = 1 ∧ v ∈ ([2, 8] : List Int)) ∨ (n = 3 ∧ v ∈ ([2, 4] : List Int)) ∨
           (n = 5 ∧ v ∈ ([4, 6] : List Int)) ∨ (n = 7 ∧ v ∈ ([6, 8] : List Int))))
        (fun n h => absurd rfl h) (by decide) (by decide) (by decide) (by decide) g x y h⟩)
    (fun o h => absurd rfl h) g (x, y)
  exact r.2.1

/-- C15 witness: the first sweep changes the corner cell (1,1) of `flankGrid`, of coverage
60, and the first candidate (code 2) is selected for it. -/
theorem C15_first_sweep_flanks_witness :
    (NeighborsAdjust_first flankGrid).m_img_n.pix 1 1 ≠ flankGrid.m_img_n.pix 1 1 ∧
    flankGrid.m_img_s.pix 1 1 ≥ 43 ∧
    NeighborsAdjust_sweep1 flankGrid 1 1 = 2 :=
  ⟨by decide, ((C15_first_sweep_flanks flankGrid 1 1).1 (by decide)).1,
    ((C15_first_sweep_flanks flankGrid 1 1).2.1 (by decide) (by decide)).1
      ⟨by decide, by decide⟩⟩

/-- C16: when the second sweep of `NeighborsAdjust` visits an interior small-corner cell, of
any coverage, in the grid state `g`: if the neighbour across one flank side has coverage 255
and the neighbour opposite the other flank covers the corner's own direction, the code
becomes the side code facing that saturated neighbour (code 1: west neighbour saturated and
south neighbour covering 1 gives 8, otherwise north neighbour saturated and east neighbour
covering 1 gives 2; likewise 3 -> 2, 4; 5 -> 4, 6; 7 -> 6, 8; when both conditions hold the
first is taken).  The coverage is unchanged, and `set_fraction` on a cell that has become a
side cell returns 2 and stores `f1 = f2 = coverage` and `f3 = -1`. -/
theorem C16_corner_to_saturated_flank (g : Gray2Vec_Grid) (x y : Int)
    (hint : interior g x y = true) :
    (g.m_img_n.pix x y = 1 →
      ((g.m_img_s.pix (x - 1) y = 255 ∧ cover g x (y + 1) 1 = true) →
        (NeighborsAdjust_step NeighborsAdjust_sweep2 g (x, y)).m_img_n.pix x y = 8) ∧
      (¬ (g.m_img_s.pix (x - 1) y = 255 ∧ cover g x (y + 1) 1 = true) →
        (g.m_img_s.pix x (y - 1) = 255 ∧ cover g (x + 1) y 1 = true) →
        (NeighborsAdjust_step NeighborsAdjust_sweep2 g (x, y)).m_img_n.pix x y = 2)) ∧
    (g.m_img_n.pix x y = 3 →
      ((g.m_img_s.pix x (y - 1) = 255 ∧ cover g (x - 1) y 3 = true) →
        (NeighborsAdjust_step NeighborsAdjust_sweep2 g (x, y)).m_img_n.pix x y = 2) ∧
      (¬ (g.m_img_s.pix x (y - 1) = 255 ∧ cover g (x - 1) y 3 = true) →
        (g.m_img_s.pix (x + 1) y = 255 ∧ cover g x (y + 1) 3 = true) →
        (NeighborsAdjust_step NeighborsAdjust_sweep2 g (x, y)).m_img_n.pix x y = 4)) ∧
    (g.m_img_n.pix x y = 5 →
      ((g.m_img_s.pix (x + 1) y = 255 ∧ cover g x (y - 1) 5 = true) →
        (NeighborsAdjust_step NeighborsAdjust_sweep2 g (x, y)).m_img_n.pix x y = 4) ∧
      (¬ (g.m_img_s.pix (x + 1) y = 255 ∧ cover g x (y - 1) 5 = true) →
        (g.m_img_s.pix x (y + 1) = 255 ∧ cover g (x - 1) y 5 = true) →
        (NeighborsAdjust_step NeighborsAdjust_sweep2 g (x, y)).m_img_n.pix x y = 6)) ∧
    (g.m_img_n.pix x y = 7 →
      ((g.m_img_s.pix x (y + 1) = 255 ∧ cover g (x + 1) y 7 = true) →
        (NeighborsAdjust_step NeighborsAdjust_sweep2 g (x, y)).m_img_n.pix x y = 6) ∧
      (¬ (g.m_img_s.pix x (y + 1) = 255 ∧ cover g (x + 1) y 7 = true) →
        (g.m_img_s.pix (x - 1) y = 255 ∧ cover g x (y - 1) 7 = true) →
        (NeighborsAdjust_step NeighborsAdjust_sweep2 g (x, y)).m_img_n.pix x y = 8)) ∧
    (NeighborsAdjust_step NeighborsAdjust_sweep2 g (x, y)).m_img_s = g.m_img_s ∧
    ((NeighborsAdjust_step NeighborsAdjust_sweep2 g (x, y)).m_img_n.pix x y
        ∈ ([2, 4, 6, 8] : List Int) →
      (set_fraction (NeighborsAdjust_step NeighborsAdjust_sweep2 g (x, y)) x y).2 = 2 ∧
      (set_fraction (NeighborsAdjust_step NeighborsAdjust_sweep2 g (x, y)) x y).1.m_img_f1.pix x y
        = g.m_img_s.pix x y ∧
      (set_fraction (NeighborsAdjust_step NeighborsAdjust_sweep2 g (x, y)) x y).1.m_img_f2.pix x y
        = g.m_img_s.pix x y ∧
      (set_fraction (NeighborsAdjust_step NeighborsAdjust_sweep2 g (x, y)) x y).1.m_img_f3.pix x y
        = -1) := by
  obtain ⟨hc, hs⟩ := NeighborsAdjust_step_code NeighborsAdjust_sweep2 g x y hint
  rw [hc]
  refine ⟨fun hn => NeighborsAdjust_sweep2_1_order g x y hn,
    fun hn => NeighborsAdjust_sweep2_3_order g x y hn,
    fun hn => NeighborsAdjust_sweep2_5_order g x y hn,
    fun hn => NeighborsAdjust_sweep2_7_order g x y hn, hs, fun hside => ?_⟩
  rw [← hc] at hside
  have hv := set_fraction_view (NeighborsAdjust_step NeighborsAdjust_sweep2 g (x, y)) x y
  rw [class_init_side _ _ hside, hs] at hv
  have h1 := congrArg Cell.f1 hv
  have h2 := congrArg Cell.f2 hv
  have h3 := congrArg Cell.f3 hv
  simp only [cell_view] at h1 h2 h3
  refine ⟨?_, h1, h2, h3⟩
  rw [set_fraction_class, if_neg, if_pos hside]
  simp only [List.mem_cons, List.mem_singleton, List.not_mem_nil, or_false] at hside ⊢
  omega

/-- C16 witness: the corner cell (1,1) of `thinCornerGrid` has coverage 20, its west
neighbour has coverage 255 and its south neighbour covers direction 1; the step of the second
sweep makes it a west side cell (code 8), and `set_fraction` then stores `f1 = 20`, not the
value 100 of the corner formula. -/
theorem C16_corner_to_saturated_flank_witness :
    interior thinCornerGrid 1 1 = true ∧ thinCornerGrid.m_img_n.pix 1 1 = 1 ∧
    thinCornerGrid.m_img_s.pix 1 1 = 20 ∧
    (NeighborsAdjust_step NeighborsAdjust_sweep2 thinCornerGrid (1, 1)).m_img_n.pix 1 1 = 8 ∧
    (set_fraction (NeighborsAdjust_step NeighborsAdjust_sweep2 thinCornerGrid (1, 1))
      1 1).1.m_img_f1.pix 1 1 = thinCornerGrid.m_img_s.pix 1 1 ∧
    corner_init 20 = 100 :=
  ⟨by decide, by decide, by decide,
    ((C16_corner_to_saturated_flank thinCornerGrid 1 1 (by decide)).1 (by decide)).1
      ⟨by decide, by decide⟩,
    ((C16_corner_to_saturated_flank thinCornerGrid 1 1 (by decide)).2.2.2.2.2
      (by decide)).2.1,
    corner_init_20⟩

/-! ## Initial fractions, error and tuning (C17 to C20) -/

/-- C19 (as stated, refuted): for the large-corner cell of `fullCornerCell` (code 11,
coverage 200, `f1 = f2 = 255`) the class area is 255 and the area minus the coverage is 55,
but `pixel_error` without correction returns -55. -/
theorem C19_counterexample :
    fullCornerCell.m_img_n.pix 0 0 = 11 ∧
    spec_area 11 (fullCornerCell.m_img_f1.pix 0 0 : ℚ) (fullCornerCell.m_img_f2.pix 0 0 : ℚ)
        - (fullCornerCell.m_img_s.pix 0 0 : ℚ) = 55 ∧
    pixel_error fullCornerCell 0 0 false = some (-55) := by
  have e0 : fullCornerCell.m_img_n.pix 0 0 = 11 := by decide
  have e1 : fullCornerCell.m_img_f1.pix 0 0 = 255 := by decide
  have e2 : fullCornerCell.m_img_f2.pix 0 0 = 255 := by decide
  have e3 : fullCornerCell.m_img_s.pix 0 0 = 200 := by decide
  refine ⟨e0, ?_, ?_⟩
  · rw [e1, e2, e3]
    norm_num [spec_area]
  · unfold pixel_error
    simp only [e0, e1, e2, e3]
    norm_num

/-- C19 (amended): for a cell with a non-trivial code, `pixel_error` without the correction
scalar returns the class area minus the coverage for a small-corner code and for a side
code, and the coverage minus the class area for a large-corner code (it compares the
uncovered areas), the class area being `spec_area`: `0.5*f1*f2/255`, `(f1+f2)/2` and
`255 - 0.5*(255-f1)*(255-f2)/255`.  In every case its absolute value is that of the area
minus the coverage. -/
theorem C19_pixel_error_sign (g : Gray2Vec_Grid) (px py : Int)
    (hn : g.m_img_n.pix px py ∈ nontrivial) :
    (g.m_img_n.pix px py ∈ ([1, 3, 5, 7, 2, 4, 6, 8] : List Int) →
      pixel_error g px py false
        = some (spec_area (g.m_img_n.pix px py) (g.m_img_f1.pix px py : ℚ)
            (g.m_img_f2.pix px py : ℚ) - (g.m_img_s.pix px py : ℚ))) ∧
    (g.m_img_n.pix px py ∈ ([11, 13, 15, 17] : List Int) →
      pixel_error g px py false
        = some ((g.m_img_s.pix px py : ℚ) - spec_area (g.m_img_n.pix px py)
            (g.m_img_f1.pix px py : ℚ) (g.m_img_f2.pix px py : ℚ))) ∧
    ∃ e : ℚ, pixel_error g px py false = some e ∧
      |e| = |spec_area (g.m_img_n.pix px py) (g.m_img_f1.pix px py : ℚ)
          (g.m_img_f2.pix px py : ℚ) - (g.m_img_s.pix px py : ℚ)| := by
  have key : (g.m_img_n.pix px py ∈ ([1, 3, 5, 7, 2, 4, 6, 8] : List Int) →
      pixel_error g px py false
        = some (spec_area (g.m_img_n.pix px py) (g.m_img_f1.pix px py : ℚ)
            (g.m_img_f2.pix px py : ℚ) - (g.m_img_s.pix px py : ℚ))) ∧
    (g.m_img_n.pix px py ∈ ([11, 13, 15, 17] : List Int) →
      pixel_error g px py false
        = some ((g.m_img_s.pix px py : ℚ) - spec_area (g.m_img_n.pix px py)
            (g.m_img_f1.pix px py : ℚ) (g.m_img_f2.pix px py : ℚ))) := by
    constructor
    · intro h
      simp only [List.mem_cons, List.mem_singleton, List.not_mem_nil, or_false] at h
      by_cases c1 : g.m_img_n.pix px py = 1 ∨ g.m_img_n.pix px py = 3 ∨
          g.m_img_n.pix px py = 5 ∨ g.m_img_n.pix px py = 7
      · unfold pixel_error spec_area
        simp only [if_pos c1]
        rfl
      · have c2 : g.m_img_n.pix px py = 2 ∨ g.m_img_n.pix px py = 4 ∨
            g.m_img_n.pix px py = 6 ∨ g.m_img_n.pix px py = 8 := by omega
        unfold pixel_error spec_area
        simp only [if_neg c1, if_pos c2]
        simp only [Bool.false_eq_true, if_false]
        congr 1
        ring
    · intro h
      simp only [List.mem_cons, List.mem_singleton, List.not_mem_nil, or_false] at h
      have c1 : ¬ (g.m_img_n.pix px py = 1 ∨ g.m_img_n.pix px py = 3 ∨
          g.m_img_n.pix px py = 5 ∨ g.m_img_n.pix px py = 7) := by omega
      have c2 : ¬ (g.m_img_n.pix px py = 2 ∨ g.m_img_n.pix px py = 4 ∨
          g.m_img_n.pix px py = 6 ∨ g.m_img_n.pix px py = 8) := by omega
      unfold pixel_error spec_area
      simp only [if_neg c1, if_neg c2, if_pos h]
      simp only [Bool.false_eq_true, if_false]
      congr 1
      ring
  refine ⟨key.1, key.2, ?_⟩
  simp only [nontrivial, List.mem_cons, List.mem_singleton, List.not_mem_nil, or_false] at hn
  by_cases hl : g.m_img_n.pix px py ∈ ([11, 13, 15, 17] : List Int)
  · refine ⟨_, key.2 hl, ?_⟩
    rw [abs_sub_comm]
  · have hs : g.m_img_n.pix px py ∈ ([1, 3, 5, 7, 2, 4, 6, 8] : List Int) := by
      simp only [List.mem_cons, List.mem_singleton, List.not_mem_nil, or_false] at hl ⊢
      omega
    exact ⟨_, key.1 hs, rfl⟩

/-- C19 witness: the large-corner cell of `fullCornerCell` has a non-trivial code, and its
`pixel_error` is the coverage minus the class area. -/
theorem C19_pixel_error_sign_witness :
    fullCornerCell.m_img_n.pix 0 0 ∈ nontrivial ∧
    pixel_error fullCornerCell 0 0 false
      = some ((fullCornerCell.m_img_s.pix 0 0 : ℚ) - spec_area (fullCornerCell.m_img_n.pix 0 0)
          (fullCornerCell.m_img_f1.pix 0 0 : ℚ) (fullCornerCell.m_img_f2.pix 0 0 : ℚ)) :=
  ⟨by decide, (C19_pixel_error_sign fullCornerCell 0 0 (by decide)).2.1 (by decide)⟩

/-- C20: a tolerance `max_error <= 0` (the default -1 included) disables the
correction-scalar branch: after `TuneFractions(max_error)` every cell of the grid with a
non-trivial code has `f3 = -1`, whatever its error and its `f3` before; the pass changes no
code. -/
theorem C20_nonpositive_tolerance_unsets_f3 (max_error : ℚ) (hme : max_error ≤ 0)
    (g : Gray2Vec_Grid) (x y : Int) (hin : (x, y) ∈ forXY g.m_img_s)
    (hn : g.m_img_n.pix x y ∈ nontrivial) :
    (TuneFractions max_error g).m_img_f3.pix x y = -1 ∧
    (TuneFractions max_error g).m_img_n = g.m_img_n := by
  have key := fold_local
    (fun (st : Gray2Vec_Grid) (p : Int × Int) => (st.m_img_n.pix p.1 p.2, st.m_img_f3.pix p.1 p.2))
    (fun old new => new.1 = old.1 ∧ (old.1 ∈ nontrivial → new.2 = -1))
    (fun st => st.m_img_n = g.m_img_n)
    (TuneFractions_step max_error)
    (fun st c hi => (TuneFractions_step_frame max_error st c).1.trans hi)
    (fun st c p hne => by
      obtain ⟨h1, -, -, h4⟩ := TuneFractions_step_frame max_error st c
      simp only [h1, (h4 p hne).2.2])
    (fun st c _ => by
      obtain ⟨h1, -, -, -⟩ := TuneFractions_step_frame max_error st c
      exact ⟨by simp only [h1], fun hc => TuneFractions_step_off max_error hme st c hc⟩)
    (forXY g.m_img_s) (forXY_nodup _) g rfl
  exact ⟨((key.2 (x, y)).1 hin).2 hn, key.1⟩

/-- C20 witness: with the default tolerance -1, the side cell (0,0) of `tunedRow`, whose `f3`
was 77, ends with `f3 = -1`. -/
theorem C20_nonpositive_tolerance_unsets_f3_witness :
    ((-1 : ℚ) ≤ 0 ∧ ((0 : Int), (0 : Int)) ∈ forXY tunedRow.m_img_s ∧
      tunedRow.m_img_n.pix 0 0 ∈ nontrivial ∧ tunedRow.m_img_f3.pix 0 0 = 77) ∧
    (TuneFractions (-1) tunedRow).m_img_f3.pix 0 0 = -1 :=
  ⟨⟨by norm_num, by decide, by decide, by decide⟩,
    (C20_nonpositive_tolerance_unsets_f3 (-1) (by norm_num) tunedRow 0 0 (by decide)
      (by decide)).1⟩

/-! ## Fraction tuning, blending and vertex placement: lemmas -/

theorem TuneFractions_corner_on (max_error df : ℚ) (sc s f1 f2 : Int)
    (h : max_error > 0 ∧ |df| > max_error * 255) :
    (TuneFractions_corner max_error df sc s f1 f2).1 = f1 ∧
    (TuneFractions_corner max_error df sc s f1 f2).2.1 = f2 := by
  unfold TuneFractions_corner
  rw [if_pos h]
  exact ⟨rfl, rfl⟩

theorem TuneFractions_side_on (max_error df : ℚ) (sc s f1 f2 : Int)
    (h : max_error > 0 ∧ |df| > max_error * 255) :
    (TuneFractions_side max_error df sc s f1 f2).1 = f1 ∧
    (TuneFractions_side max_error df sc s f1 f2).2.1 = f2 := by
  unfold TuneFractions_side
  rw [if_pos h]
  exact ⟨rfl, rfl⟩

theorem TuneFractions_large_on (max_error df : ℚ) (sc s f1 f2 : Int)
    (h : max_error > 0 ∧ |df| > max_error * 255) :
    (TuneFractions_large max_error df sc s f1 f2).1 = f1 ∧
    (TuneFractions_large max_error df sc s f1 f2).2.1 = f2 := by
  unfold TuneFractions_large
  rw [if_pos h]
  exact ⟨rfl, rfl⟩

theorem put_fractions_keep (g : Gray2Vec_Grid) (px py : Int) (v : Int × Int × Int)
    (h1 : v.1 = g.m_img_f1.pix px py) (h2 : v.2.1 = g.m_img_f2.pix px py) :
    (put_fractions g px py v).m_img_f1 = g.m_img_f1 ∧
    (put_fractions g px py v).m_img_f2 = g.m_img_f2 := by
  unfold put_fractions
  simp only [h1, h2, CImg.set_self, and_self]

theorem pixel_error_corner (g : Gray2Vec_Grid) (px py : Int)
    (hn : g.m_img_n.pix px py ∈ ([1, 3, 5, 7] : List Int)) :
    pixel_error g px py false
      = some (1 / 2 * (g.m_img_f1.pix px py : ℚ) * (g.m_img_f2.pix px py : ℚ) / 255
          - (g.m_img_s.pix px py : ℚ)) := by
  simp only [List.mem_cons, List.mem_singleton, List.not_mem_nil, or_false] at hn
  unfold pixel_error
  simp only
  rw [if_pos hn]
  rfl

theorem pixel_error_large (g : Gray2Vec_Grid) (px py : Int)
    (hn : g.m_img_n.pix px py ∈ ([11, 13, 15, 17] : List Int)) :
    pixel_error g px py false
      = some (1 / 2 * (255 - (g.m_img_f1.pix px py : ℚ)) * (255 - (g.m_img_f2.pix px py : ℚ))
          / 255 - (255 - (g.m_img_s.pix px py : ℚ))) := by
  simp only [List.mem_cons, List.mem_singleton, List.not_mem_nil, or_false] at hn
  unfold pixel_error
  simp only
  rw [if_neg (by omega), if_neg (by omega), if_pos hn]
  rfl

theorem pixel_error_skewCornerCell :
    pixel_error skewCornerCell 0 0 false = some (-1040 / 51) := by
  have e1 : skewCornerCell.m_img_f1.pix 0 0 = 100 := by decide
  have e2 : skewCornerCell.m_img_f2.pix 0 0 = 100 := by decide
  have e3 : skewCornerCell.m_img_s.pix 0 0 = 40 := by decide
  rw [pixel_error_corner _ _ _ (by decide), e1, e2, e3]
  norm_num

theorem TuneFractions_step_corner (max_error : ℚ) (g : Gray2Vec_Grid) (c : Int × Int)
    (hn : g.m_img_n.pix c.1 c.2 ∈ ([1, 3, 5, 7] : List Int)) :
    TuneFractions_step max_error g c
      = put_fractions g c.1 c.2
          (TuneFractions_corner max_error ((pixel_error g c.1 c.2 false).getD 0)
            (sides_connected g c.1 c.2) (g.m_img_s.pix c.1 c.2) (g.m_img_f1.pix c.1 c.2)
            (g.m_img_f2.pix c.1 c.2)) := by
  simp only [List.mem_cons, List.mem_singleton, List.not_mem_nil, or_false] at hn
  unfold TuneFractions_step
  simp only
  rw [if_pos hn]

theorem TuneFractions_step_side (max_error : ℚ) (g : Gray2Vec_Grid) (c : Int × Int)
    (hn : g.m_img_n.pix c.1 c.2 ∈ ([2, 4, 6, 8] : List Int)) :
    TuneFractions_step max_error g c
      = put_fractions g c.1 c.2
          (TuneFractions_side max_error ((pixel_error g c.1 c.2 false).getD 0)
            (sides_connected g c.1 c.2) (g.m_img_s.pix c.1 c.2) (g.m_img_f1.pix c.1 c.2)
            (g.m_img_f2.pix c.1 c.2)) := by
  simp only [List.mem_cons, List.mem_singleton, List.not_mem_nil, or_false] at hn
  unfold TuneFractions_step
  simp only
  rw [if_neg (by omega), if_pos hn]

theorem TuneFractions_step_large (max_error : ℚ) (g : Gray2Vec_Grid) (c : Int × Int)
    (hn : g.m_img_n.pix c.1 c.2 ∈ ([11, 13, 15, 17] : List Int)) :
    TuneFractions_step max_error g c
      = put_fractions g c.1 c.2
          (TuneFractions_large max_error ((pixel_error g c.1 c.2 false).getD 0)
            (sides_connected g c.1 c.2) (g.m_img_s.pix c.1 c.2) (g.m_img_f1.pix c.1 c.2)
            (g.m_img_f2.pix c.1 c.2)) := by
  simp only [List.mem_cons, List.mem_singleton, List.not_mem_nil, or_false] at hn
  unfold TuneFractions_step
  simp only
  rw [if_neg (by omega), if_neg (by omega), if_pos hn]

theorem TuneFractions_step_trivial (max_error : ℚ) (g : Gray2Vec_Grid) (c : Int × Int)
    (hn : g.m_img_n.pix c.1 c.2 ∉ nontrivial) : TuneFractions_step max_error g c = g := by
  simp only [nontrivial, List.mem_cons, List.mem_singleton, List.not_mem_nil, or_false,
    not_or] at hn
  unfold TuneFractions_step
  simp only
  rw [if_neg (by omega), if_neg (by omega), if_neg (by omega)]

theorem put_fractions_at (g : Gray2Vec_Grid) (px py : Int) (v : Int × Int × Int) :
    (put_fractions g px py v).m_img_f1.pix px py = v.1 ∧
    (put_fractions g px py v).m_img_f2.pix px py = v.2.1 ∧
    (put_fractions g px py v).m_img_f3.pix px py = v.2.2 := by
  simp [put_fractions, CImg.set]

theorem to_short_of_range (v : Int) (h0 : -32768 ≤ v) (h : v ≤ 32767) : to_short v = v := by
  unfold to_short
  omega

theorem floor_scale_bound (v : ℚ) (M : Int) (hM : 1 ≤ M) (hv0 : 0 ≤ v)
    (hv : v ≤ 255 / (M : ℚ)) : 0 ≤ ⌊v * 255⌋ ∧ ⌊v * 255⌋ * M ≤ 255 * 255 := by
  have hMq : (0 : ℚ) < (M : ℚ) := by exact_mod_cast (by omega : (0 : Int) < M)
  refine ⟨Int.floor_nonneg.2 (by positivity), ?_⟩
  have h1 : ((⌊v * 255⌋ : Int) : ℚ) ≤ v * 255 := Int.floor_le _
  have h2 : v * (M : ℚ) ≤ 255 := by
    rw [le_div_iff₀ hMq] at hv
    exact hv
  have h3 : ((⌊v * 255⌋ : Int) : ℚ) * (M : ℚ) ≤ 255 * 255 := by
    calc ((⌊v * 255⌋ : Int) : ℚ) * (M : ℚ) ≤ v * 255 * (M : ℚ) := by
          exact mul_le_mul_of_nonneg_right h1 (le_of_lt hMq)
      _ = v * (M : ℚ) * 255 := by ring
      _ ≤ 255 * 255 := by
          exact mul_le_mul_of_nonneg_right h2 (by norm_num)
  exact_mod_cast h3

theorem scale_f3_range (f : ℚ) (a b : Int) (ha : 0 ≤ a) (hb : 0 ≤ b)
    (hf : a * b ≤ 0 → f = 1) (hne : ¬ (a = 1 ∧ b = 1)) :
    0 ≤ to_short ⌊(if max a b = 0 then max f 0
        else min (max f 0) (255 / ((max a b : Int) : ℚ))) * 255⌋ ∧
    to_short ⌊(if max a b = 0 then max f 0
        else min (max f 0) (255 / ((max a b : Int) : ℚ))) * 255⌋ ≤ 32512 ∧
    to_short ⌊(if max a b = 0 then max f 0
        else min (max f 0) (255 / ((max a b : Int) : ℚ))) * 255⌋ * max a b ≤ 255 * 255 := by
  by_cases hM0 : max a b = 0
  · have ha0 : a = 0 := by
      have := le_max_left a b
      omega
    have hb0 : b = 0 := by
      have := le_max_right a b
      omega
    have hf1 : f = 1 := hf (by rw [ha0, hb0]; norm_num)
    rw [if_pos hM0, hf1, hM0]
    have : ⌊(max (1 : ℚ) 0) * 255⌋ = 255 := by
      norm_num
    rw [this]
    decide
  · rw [if_neg hM0]
    have hM1 : 1 ≤ max a b := by
      have := le_max_left a b
      omega
    by_cases hM2 : max a b = 1
    · have hab : a * b ≤ 0 := by
        have h1 := le_max_left a b
        have h2 := le_max_right a b
        have ha1 : a = 0 ∨ a = 1 := by omega
        have hb1 : b = 0 ∨ b = 1 := by omega
        rcases ha1 with h | h <;> rcases hb1 with k | k
        · rw [h, k]; norm_num
        · rw [h, k]; norm_num
        · rw [h, k]; norm_num
        · exact absurd ⟨h, k⟩ hne
      rw [hf hab, hM2]
      have : ⌊(min (max (1 : ℚ) 0) (255 / ((1 : Int) : ℚ))) * 255⌋ = 255 := by
        norm_num
      rw [this]
      decide
    · have hM3 : 2 ≤ max a b := by omega
      have hv0 : (0 : ℚ) ≤ min (max f 0) (255 / ((max a b : Int) : ℚ)) := by
        apply le_min (le_max_right _ _)
        have : (0 : ℚ) < ((max a b : Int) : ℚ) := by exact_mod_cast (by omega : 0 < max a b)
        positivity
      obtain ⟨k0, k1⟩ := floor_scale_bound _ (max a b) hM1 hv0 (min_le_right _ _)
      have k2 : ⌊(min (max f 0) (255 / ((max a b : Int) : ℚ))) * 255⌋ ≤ 32512 := by
        by_contra hc
        have hc' : 32513 ≤ ⌊(min (max f 0) (255 / ((max a b : Int) : ℚ))) * 255⌋ := by omega
        nlinarith
      rw [to_short_of_range _ (by omega) (by omega)]
      exact ⟨k0, k2, k1⟩

theorem TuneFractions_corner_skip (max_error df : ℚ) (sc s f1 f2 : Int)
    (h : ¬ (max_error > 0 ∧ |df| > max_error * 255)) :
    (TuneFractions_corner max_error df sc s f1 f2).2.2 = -1 := by
  unfold TuneFractions_corner
  rw [if_neg h]
  split_ifs <;> rfl

theorem TuneFractions_side_skip (max_error df : ℚ) (sc s f1 f2 : Int)
    (h : ¬ (max_error > 0 ∧ |df| > max_error * 255)) :
    (TuneFractions_side max_error df sc s f1 f2).2.2 = -1 := by
  unfold TuneFractions_side
  rw [if_neg h]
  split_ifs <;> rfl

theorem TuneFractions_large_skip (max_error df : ℚ) (sc s f1 f2 : Int)
    (h : ¬ (max_error > 0 ∧ |df| > max_error * 255)) :
    (TuneFractions_large max_error df sc s f1 f2).2.2 = -1 := by
  unfold TuneFractions_large
  rw [if_neg h]
  split_ifs <;> rfl

theorem TuneFractions_corner_f3 (max_error df : ℚ) (sc s f1 f2 : Int)
    (h1 : 0 ≤ f1) (h2 : 0 ≤ f2) (hne : ¬ (f1 = 1 ∧ f2 = 1)) :
    (TuneFractions_corner max_error df sc s f1 f2).2.2 = -1 ∨
    (0 ≤ (TuneFractions_corner max_error df sc s f1 f2).2.2 ∧
      (TuneFractions_corner max_error df sc s f1 f2).2.2 ≤ 32512 ∧
      (TuneFractions_corner max_error df sc s f1 f2).2.2 * max f1 f2 ≤ 255 * 255) := by
  by_cases hb : max_error > 0 ∧ |df| > max_error * 255
  · right
    unfold TuneFractions_corner
    rw [if_pos hb]
    simp only
    exact scale_f3_range _ f1 f2 h1 h2 (fun hab => by rw [if_neg (by omega)]) hne
  · exact Or.inl (TuneFractions_corner_skip _ _ _ _ _ _ hb)

theorem TuneFractions_large_f3 (max_error df : ℚ) (sc s f1 f2 : Int)
    (h1 : f1 ≤ 255) (h2 : f2 ≤ 255) (hne : ¬ (f1 = 254 ∧ f2 = 254)) :
    (TuneFractions_large max_error df sc s f1 f2).2.2 = -1 ∨
    (0 ≤ (TuneFractions_large max_error df sc s f1 f2).2.2 ∧
      (TuneFractions_large max_error df sc s f1 f2).2.2 ≤ 32512 ∧
      (TuneFractions_large max_error df sc s f1 f2).2.2 * max (255 - f1) (255 - f2)
        ≤ 255 * 255) := by
  by_cases hb : max_error > 0 ∧ |df| > max_error * 255
  · right
    unfold TuneFractions_large
    rw [if_pos hb]
    simp only
    exact scale_f3_range _ (255 - f1) (255 - f2) (by omega) (by omega)
      (fun hab => by rw [if_neg (by omega)]) (by omega)
  · exact Or.inl (TuneFractions_large_skip _ _ _ _ _ _ hb)

theorem TuneFractions_side_f3 (max_error df : ℚ) (sc s f1 f2 : Int) :
    (TuneFractions_side max_error df sc s f1 f2).2.2 = -1 ∨
    (0 ≤ (TuneFractions_side max_error df sc s f1 f2).2.2 ∧
      (TuneFractions_side max_error df sc s f1 f2).2.2 ≤ 255) := by
  by_cases hb : max_error > 0 ∧ |df| > max_error * 255
  · right
    unfold TuneFractions_side
    rw [if_pos hb]
    simp only
    have k0 : 0 ≤ ⌊min (max (2 * ((s : ℚ) - 1 / 4 * (f1 : ℚ) - 1 / 4 * (f2 : ℚ))) 0) 255⌋ :=
      Int.floor_nonneg.2 (le_min (le_max_right _ _) (by norm_num))
    have k1 : ⌊min (max (2 * ((s : ℚ) - 1 / 4 * (f1 : ℚ) - 1 / 4 * (f2 : ℚ))) 0) 255⌋ ≤ 255 := by
      have h := Int.floor_le_floor (min_le_right
        (max (2 * ((s : ℚ) - 1 / 4 * (f1 : ℚ) - 1 / 4 * (f2 : ℚ))) 0) (255 : ℚ))
      have e : ⌊(255 : ℚ)⌋ = 255 := by norm_num
      rw [e] at h
      exact h
    rw [to_short_of_range _ (by omega) (by omega)]
    exact ⟨k0, k1⟩
  · exact Or.inl (TuneFractions_side_skip _ _ _ _ _ _ hb)

theorem floor_div_int (a b : Int) (hb : 0 < b) : ⌊(a : ℚ) / (b : ℚ)⌋ = a / b := by
  have hbq : (0 : ℚ) < (b : ℚ) := by exact_mod_cast hb
  rw [Int.floor_eq_iff]
  constructor
  · rw [le_div_iff₀ hbq]
    exact_mod_cast Int.ediv_mul_le a (ne_of_gt hb)
  · rw [div_lt_iff₀ hbq]
    have := Int.lt_ediv_add_one_mul_self a hb
    exact_mod_cast this

theorem floor_clamp255 (x : ℚ) : ⌊clamp255 x⌋ = max 0 (min 255 ⌊x⌋) := by
  unfold clamp255
  have hm : Monotone (Int.floor : ℚ → Int) := Int.floor_mono
  rw [hm.map_max, hm.map_min]
  norm_num

theorem ceil_clamp255 (x : ℚ) : ⌈clamp255 x⌉ = max 0 (min 255 ⌈x⌉) := by
  unfold clamp255
  have hm : Monotone (Int.ceil : ℚ → Int) := Int.ceil_mono
  rw [hm.map_max, hm.map_min]
  norm_num

theorem clamp_int (f : Int) :
    (if f < 0 then 0 else if f > 255 then 255 else f) = max 0 (min 255 f) := by
  simp only [max_def, min_def]
  split_ifs <;> omega

theorem TuneFractions_corner_one (max_error df : ℚ) (s f1 f2 : Int)
    (hb : ¬ (max_error > 0 ∧ |df| > max_error * 255)) (hs : 0 ≤ s) (hf : 0 < f1) :
    TuneFractions_corner max_error df 1 s f1 f2
      = (f1, ⌊clamp255 (510 * (s : ℚ) / (f1 : ℚ))⌋, -1) := by
  unfold TuneFractions_corner
  rw [if_neg hb, if_neg (by decide), if_pos rfl]
  simp only
  rw [if_pos hf, Int.tdiv_eq_ediv (by omega) (le_of_lt hf)]
  have e : (510 * (s : ℚ) / (f1 : ℚ)) = ((s * 255 * 2 : Int) : ℚ) / (f1 : ℚ) := by
    push_cast
    ring
  rw [floor_clamp255, e, floor_div_int _ _ hf]
  have hq : 0 ≤ s * 255 * 2 / f1 := Int.ediv_nonneg (by omega) (le_of_lt hf)
  congr 2
  by_cases hgt : s * 255 * 2 / f1 > 255
  · rw [if_pos hgt]
    simp only [max_def, min_def]
    split_ifs <;> omega
  · rw [if_neg hgt, to_uchar_of_range _ hq (by omega)]
    simp only [max_def, min_def]
    split_ifs <;> omega

theorem TuneFractions_corner_two (max_error df : ℚ) (s f1 f2 : Int)
    (hb : ¬ (max_error > 0 ∧ |df| > max_error * 255)) (hs : 0 ≤ s) (hf : 0 < f2) :
    TuneFractions_corner max_error df 2 s f1 f2
      = (⌊clamp255 (510 * (s : ℚ) / (f2 : ℚ))⌋, f2, -1) := by
  unfold TuneFractions_corner
  rw [if_neg hb, if_neg (by decide), if_neg (by decide), if_pos rfl]
  simp only
  rw [if_pos hf, Int.tdiv_eq_ediv (by omega) (le_of_lt hf)]
  have e : (510 * (s : ℚ) / (f2 : ℚ)) = ((s * 255 * 2 : Int) : ℚ) / (f2 : ℚ) := by
    push_cast
    ring
  rw [floor_clamp255, e, floor_div_int _ _ hf]
  have hq : 0 ≤ s * 255 * 2 / f2 := Int.ediv_nonneg (by omega) (le_of_lt hf)
  congr 1
  by_cases hgt : s * 255 * 2 / f2 > 255
  · rw [if_pos hgt]
    simp only [max_def, min_def]
    split_ifs <;> omega
  · rw [if_neg hgt, to_uchar_of_range _ hq (by omega)]
    simp only [max_def, min_def]
    split_ifs <;> omega

theorem TuneFractions_corner_one_zero (max_error df : ℚ) (s f2 : Int)
    (hb : ¬ (max_error > 0 ∧ |df| > max_error * 255)) (hs : 0 ≤ s) :
    TuneFractions_corner max_error df 1 s 0 f2 = (0, if s = 0 then 0 else 255, -1) := by
  unfold TuneFractions_corner
  rw [if_neg hb, if_neg (by decide), if_pos rfl]
  simp only
  have e : (if (0 : Int) > 0 then Int.tdiv (s * 255 * 2) 0 else s * 255 * 2) = s * 255 * 2 :=
    if_neg (by decide)
  rw [e]
  by_cases h0 : s = 0
  · rw [h0]
    rfl
  · rw [if_pos (by omega), if_neg h0]

theorem TuneFractions_corner_two_zero (max_error df : ℚ) (s f1 : Int)
    (hb : ¬ (max_error > 0 ∧ |df| > max_error * 255)) (hs : 0 ≤ s) :
    TuneFractions_corner max_error df 2 s f1 0 = (if s = 0 then 0 else 255, 0, -1) := by
  unfold TuneFractions_corner
  rw [if_neg hb, if_neg (by decide), if_neg (by decide), if_pos rfl]
  simp only
  have e : (if (0 : Int) > 0 then Int.tdiv (s * 255 * 2) 0 else s * 255 * 2) = s * 255 * 2 :=
    if_neg (by decide)
  rw [e]
  by_cases h0 : s = 0
  · rw [h0]
    rfl
  · rw [if_pos (by omega), if_neg h0]

theorem ceil_sub_div (a b : Int) (hb : 0 < b) :
    ⌈(255 : ℚ) - (a : ℚ) / (b : ℚ)⌉ = 255 - a / b := by
  have hbq : (0 : ℚ) < (b : ℚ) := by exact_mod_cast hb
  have h1 : ((a / b : Int) : ℚ) ≤ (a : ℚ) / (b : ℚ) := by
    rw [le_div_iff₀ hbq]
    exact_mod_cast Int.ediv_mul_le a (ne_of_gt hb)
  have h2 : (a : ℚ) / (b : ℚ) < ((a / b : Int) : ℚ) + 1 := by
    rw [div_lt_iff₀ hbq]
    have := Int.lt_ediv_add_one_mul_self a hb
    exact_mod_cast this
  rw [Int.ceil_eq_iff]
  push_cast
  constructor <;> linarith

theorem TuneFractions_large_one (max_error df : ℚ) (s f1 f2 : Int)
    (hb : ¬ (max_error > 0 ∧ |df| > max_error * 255)) (hs : s ≤ 255) (hf : f1 < 255) :
    TuneFractions_large max_error df 1 s f1 f2
      = (f1, ⌈clamp255 (255 - 510 * (255 - (s : ℚ)) / (255 - (f1 : ℚ)))⌉, -1) := by
  unfold TuneFractions_large
  rw [if_neg hb, if_neg (by decide), if_pos rfl]
  simp only
  rw [if_pos hf, Int.tdiv_eq_ediv (by omega) (by omega)]
  have e : (255 - 510 * (255 - (s : ℚ)) / (255 - (f1 : ℚ)))
      = (255 : ℚ) - (((255 - s) * 255 * 2 : Int) : ℚ) / ((255 - f1 : Int) : ℚ) := by
    push_cast
    ring
  rw [ceil_clamp255, e, ceil_sub_div _ _ (by omega)]
  have hq : 0 ≤ (255 - s) * 255 * 2 / (255 - f1) := Int.ediv_nonneg (by omega) (by omega)
  congr 2
  by_cases hlt : 255 - (255 - s) * 255 * 2 / (255 - f1) < 0
  · rw [if_pos hlt]
    simp only [max_def, min_def]
    split_ifs <;> omega
  · rw [if_neg hlt, to_uchar_of_range _ (by omega) (by omega)]
    simp only [max_def, min_def]
    split_ifs <;> omega

theorem TuneFractions_large_two (max_error df : ℚ) (s f1 f2 : Int)
    (hb : ¬ (max_error > 0 ∧ |df| > max_error * 255)) (hs : s ≤ 255) (hf : f2 < 255) :
    TuneFractions_large max_error df 2 s f1 f2
      = (⌈clamp255 (255 - 510 * (255 - (s : ℚ)) / (255 - (f2 : ℚ)))⌉, f2, -1) := by
  unfold TuneFractions_large
  rw [if_neg hb, if_neg (by decide), if_neg (by decide), if_pos rfl]
  simp only
  rw [if_pos hf, Int.tdiv_eq_ediv (by omega) (by omega)]
  have e : (255 - 510 * (255 - (s : ℚ)) / (255 - (f2 : ℚ)))
      = (255 : ℚ) - (((255 - s) * 255 * 2 : Int) : ℚ) / ((255 - f2 : Int) : ℚ) := by
    push_cast
    ring
  rw [ceil_clamp255, e, ceil_sub_div _ _ (by omega)]
  have hq : 0 ≤ (255 - s) * 255 * 2 / (255 - f2) := Int.ediv_nonneg (by omega) (by omega)
  congr 1
  by_cases hlt : 255 - (255 - s) * 255 * 2 / (255 - f2) < 0
  · rw [if_pos hlt]
    simp only [max_def, min_def]
    split_ifs <;> omega
  · rw [if_neg hlt, to_uchar_of_range _ (by omega) (by omega)]
    simp only [max_def, min_def]
    split_ifs <;> omega

theorem TuneFractions_large_one_full (max_error df : ℚ) (s f2 : Int)
    (hb : ¬ (max_error > 0 ∧ |df| > max_error * 255)) (hs : s ≤ 255) :
    TuneFractions_large max_error df 1 s 255 f2 = (255, if s = 255 then 255 else 0, -1) := by
  unfold TuneFractions_large
  rw [if_neg hb, if_neg (by decide), if_pos rfl]
  simp only
  have e : (if (255 : Int) < 255 then 255 - Int.tdiv ((255 - s) * 255 * 2) (255 - 255)
      else 255 - (255 - s) * 255 * 2) = 255 - (255 - s) * 255 * 2 := if_neg (by decide)
  rw [e]
  by_cases h0 : s = 255
  · rw [h0]
    rfl
  · rw [if_pos (by omega), if_neg h0]

theorem TuneFractions_large_two_full (max_error df : ℚ) (s f1 : Int)
    (hb : ¬ (max_error > 0 ∧ |df| > max_error * 255)) (hs : s ≤ 255) :
    TuneFractions_large max_error df 2 s f1 255 = (if s = 255 then 255 else 0, 255, -1) := by
  unfold TuneFractions_large
  rw [if_neg hb, if_neg (by decide), if_neg (by decide), if_pos rfl]
  simp only
  have e : (if (255 : Int) < 255 then 255 - Int.tdiv ((255 - s) * 255 * 2) (255 - 255)
      else 255 - (255 - s) * 255 * 2) = 255 - (255 - s) * 255 * 2 := if_neg (by decide)
  rw [e]
  by_cases h0 : s = 255
  · rw [h0]
    rfl
  · rw [if_pos (by omega), if_neg h0]

theorem TuneFractions_side_one (max_error df : ℚ) (s f1 f2 : Int)
    (hb : ¬ (max_error > 0 ∧ |df| > max_error * 255)) :
    TuneFractions_side max_error df 1 s f1 f2 = (f1, max 0 (min 255 (2 * s - f1)), -1) := by
  unfold TuneFractions_side
  rw [if_neg hb, if_neg (by decide), if_pos rfl]
  simp only
  rw [clamp_int]

theorem TuneFractions_side_two (max_error df : ℚ) (s f1 f2 : Int)
    (hb : ¬ (max_error > 0 ∧ |df| > max_error * 255)) :
    TuneFractions_side max_error df 2 s f1 f2 = (max 0 (min 255 (2 * s - f2)), f2, -1) := by
  unfold TuneFractions_side
  rw [if_neg hb, if_neg (by decide), if_neg (by decide), if_pos rfl]
  simp only
  rw [clamp_int]

theorem OneSideSolved_side (n s f : Int) (hn : n ∈ ([2, 4, 6, 8] : List Int)) :
    OneSideSolved n s f (max 0 (min 255 (2 * s - f))) := by
  simp only [List.mem_cons, List.mem_singleton, List.not_mem_nil, or_false] at hn
  unfold OneSideSolved spec_solved
  rw [if_pos hn]
  simp only
  rw [if_pos hn]
  unfold clamp255
  push_cast
  rfl

theorem OneSideSolved_corner (n s f : Int) (hn : n ∈ ([1, 3, 5, 7] : List Int))
    (hf : f ≠ 0) : OneSideSolved n s f ⌊clamp255 (510 * (s : ℚ) / (f : ℚ))⌋ := by
  simp only [List.mem_cons, List.mem_singleton, List.not_mem_nil, or_false] at hn
  unfold OneSideSolved spec_solved
  rw [if_neg (by omega), if_pos hn, if_neg hf]
  simp only
  rw [if_neg (by omega), if_pos hn]
  trivial

theorem OneSideSolved_corner_zero (n s : Int) (hn : n ∈ ([1, 3, 5, 7] : List Int)) :
    OneSideSolved n s 0 (if s = 0 then 0 else 255) := by
  simp only [List.mem_cons, List.mem_singleton, List.not_mem_nil, or_false] at hn
  unfold OneSideSolved spec_solved
  rw [if_neg (by omega), if_pos hn, if_pos rfl]
  simp only
  rw [if_pos hn]
  trivial

theorem OneSideSolved_large (n s f : Int) (hn : n ∈ ([11, 13, 15, 17] : List Int))
    (hf : f ≠ 255) :
    OneSideSolved n s f ⌈clamp255 (255 - 510 * (255 - (s : ℚ)) / (255 - (f : ℚ)))⌉ := by
  simp only [List.mem_cons, List.mem_singleton, List.not_mem_nil, or_false] at hn
  unfold OneSideSolved spec_solved
  rw [if_neg (by omega), if_neg (by omega), if_pos hn, if_neg hf]
  simp only
  rw [if_neg (by omega), if_neg (by omega)]
  trivial

theorem OneSideSolved_large_full (n s : Int) (hn : n ∈ ([11, 13, 15, 17] : List Int)) :
    OneSideSolved n s 255 (if s = 255 then 255 else 0) := by
  simp only [List.mem_cons, List.mem_singleton, List.not_mem_nil, or_false] at hn
  unfold OneSideSolved spec_solved
  rw [if_neg (by omega), if_neg (by omega), if_pos hn, if_pos rfl]
  simp only
  rw [if_neg (by omega), if_pos hn]
  trivial

theorem spec_solved_first (n s f : Int) (x : ℚ) (h : spec_solved n s f = some x) :
    spec_area n (f : ℚ) x = (s : ℚ) ∧ spec_area n x (f : ℚ) = (s : ℚ) := by
  unfold spec_solved at h
  unfold spec_area
  by_cases c2 : n = 2 ∨ n = 4 ∨ n = 6 ∨ n = 8
  · rw [if_pos c2] at h
    have hx : x = 2 * (s : ℚ) - (f : ℚ) := (Option.some.inj h).symm
    rw [if_neg (by omega), if_pos c2, if_neg (by omega), if_pos c2, hx]
    constructor <;> ring
  rw [if_neg c2] at h
  by_cases c1 : n = 1 ∨ n = 3 ∨ n = 5 ∨ n = 7
  · rw [if_pos c1] at h
    by_cases hf : f = 0
    · rw [if_pos hf] at h
      exact absurd h (by simp)
    rw [if_neg hf] at h
    have hx : x = 510 * (s : ℚ) / (f : ℚ) := (Option.some.inj h).symm
    have hfq : (f : ℚ) ≠ 0 := by exact_mod_cast hf
    rw [if_pos c1, if_pos c1, hx]
    constructor <;> field_simp <;> ring
  rw [if_neg c1] at h
  by_cases c3 : n = 11 ∨ n = 13 ∨ n = 15 ∨ n = 17
  · rw [if_pos c3] at h
    by_cases hf : f = 255
    · rw [if_pos hf] at h
      exact absurd h (by simp)
    rw [if_neg hf] at h
    have hx : x = 255 - 510 * (255 - (s : ℚ)) / (255 - (f : ℚ)) := (Option.some.inj h).symm
    have hfq : (255 : ℚ) - (f : ℚ) ≠ 0 := by
      intro hc
      apply hf
      have : (f : ℚ) = 255 := by linarith
      exact_mod_cast this
    rw [if_neg c1, if_neg c2, if_pos c3, if_neg c1, if_neg c2, if_pos c3, hx]
    constructor <;> field_simp <;> ring
  · rw [if_neg c3] at h
    exact absurd h (by simp)

theorem pixel_error_nontrivial (g : Gray2Vec_Grid) (px py : Int) (b : Bool) (e : ℚ)
    (h : pixel_error g px py b = some e) : g.m_img_n.pix px py ∈ nontrivial := by
  by_contra hn
  simp only [nontrivial, List.mem_cons, List.mem_singleton, List.not_mem_nil, or_false,
    not_or] at hn
  unfold pixel_error at h
  simp only at h
  rw [if_neg (by omega), if_neg (by omega), if_neg (by omega)] at h
  exact absurd h (by simp)

theorem TuneFractions_step_one (max_error : ℚ) (g : Gray2Vec_Grid) (c : Int × Int) (e : ℚ)
    (he : pixel_error g c.1 c.2 false = some e)
    (hb : ¬ (max_error > 0 ∧ |e| > max_error * 255))
    (hs : 0 ≤ g.m_img_s.pix c.1 c.2 ∧ g.m_img_s.pix c.1 c.2 ≤ 255)
    (hf1 : 0 ≤ g.m_img_f1.pix c.1 c.2 ∧ g.m_img_f1.pix c.1 c.2 ≤ 255)
    (hsc : sides_connected g c.1 c.2 = 1) :
    (TuneFractions_step max_error g c).m_img_f1.pix c.1 c.2 = g.m_img_f1.pix c.1 c.2 ∧
    (TuneFractions_step max_error g c).m_img_f3.pix c.1 c.2 = -1 ∧
    OneSideSolved (g.m_img_n.pix c.1 c.2) (g.m_img_s.pix c.1 c.2) (g.m_img_f1.pix c.1 c.2)
      ((TuneFractions_step max_error g c).m_img_f2.pix c.1 c.2) := by
  have hn := pixel_error_nontrivial g c.1 c.2 false e he
  have hb' : ¬ (max_error > 0 ∧ |(pixel_error g c.1 c.2 false).getD 0| > max_error * 255) := by
    rw [he]
    exact hb
  simp only [nontrivial, List.mem_cons, List.mem_singleton, List.not_mem_nil, or_false] at hn
  by_cases c1 : g.m_img_n.pix c.1 c.2 ∈ ([1, 3, 5, 7] : List Int)
  · rw [TuneFractions_step_corner _ _ _ c1, hsc]
    obtain ⟨p1, p2, p3⟩ := put_fractions_at g c.1 c.2
      (TuneFractions_corner max_error ((pixel_error g c.1 c.2 false).getD 0) 1
        (g.m_img_s.pix c.1 c.2) (g.m_img_f1.pix c.1 c.2) (g.m_img_f2.pix c.1 c.2))
    rw [p1, p2, p3]
    by_cases hz : g.m_img_f1.pix c.1 c.2 = 0
    · rw [hz, TuneFractions_corner_one_zero _ _ _ _ hb' hs.1]
      exact ⟨rfl, rfl, OneSideSolved_corner_zero _ _ c1⟩
    · rw [TuneFractions_corner_one _ _ _ _ _ hb' hs.1 (by omega)]
      exact ⟨rfl, rfl, OneSideSolved_corner _ _ _ c1 hz⟩
  by_cases c2 : g.m_img_n.pix c.1 c.2 ∈ ([2, 4, 6, 8] : List Int)
  · rw [TuneFractions_step_side _ _ _ c2, hsc]
    obtain ⟨p1, p2, p3⟩ := put_fractions_at g c.1 c.2
      (TuneFractions_side max_error ((pixel_error g c.1 c.2 false).getD 0) 1
        (g.m_img_s.pix c.1 c.2) (g.m_img_f1.pix c.1 c.2) (g.m_img_f2.pix c.1 c.2))
    rw [p1, p2, p3, TuneFractions_side_one _ _ _ _ _ hb']
    exact ⟨rfl, rfl, OneSideSolved_side _ _ _ c2⟩
  have c3 : g.m_img_n.pix c.1 c.2 ∈ ([11, 13, 15, 17] : List Int) := by
    simp only [List.mem_cons, List.mem_singleton, List.not_mem_nil, or_false] at c1 c2 ⊢
    omega
  rw [TuneFractions_step_large _ _ _ c3, hsc]
  obtain ⟨p1, p2, p3⟩ := put_fractions_at g c.1 c.2
    (TuneFractions_large max_error ((pixel_error g c.1 c.2 false).getD 0) 1
      (g.m_img_s.pix c.1 c.2) (g.m_img_f1.pix c.1 c.2) (g.m_img_f2.pix c.1 c.2))
  rw [p1, p2, p3]
  by_cases hz : g.m_img_f1.pix c.1 c.2 = 255
  · rw [hz, TuneFractions_large_one_full _ _ _ _ hb' hs.2]
    exact ⟨rfl, rfl, OneSideSolved_large_full _ _ c3⟩
  · rw [TuneFractions_large_one _ _ _ _ _ hb' hs.2 (by omega)]
    exact ⟨rfl, rfl, OneSideSolved_large _ _ _ c3 hz⟩

theorem TuneFractions_step_two (max_error : ℚ) (g : Gray2Vec_Grid) (c : Int × Int) (e : ℚ)
    (he : pixel_error g c.1 c.2 false = some e)
    (hb : ¬ (max_error > 0 ∧ |e| > max_error * 255))
    (hs : 0 ≤ g.m_img_s.pix c.1 c.2 ∧ g.m_img_s.pix c.1 c.2 ≤ 255)
    (hf2 : 0 ≤ g.m_img_f2.pix c.1 c.2 ∧ g.m_img_f2.pix c.1 c.2 ≤ 255)
    (hsc : sides_connected g c.1 c.2 = 2) :
    (TuneFractions_step max_error g c).m_img_f2.pix c.1 c.2 = g.m_img_f2.pix c.1 c.2 ∧
    (TuneFractions_step max_error g c).m_img_f3.pix c.1 c.2 = -1 ∧
    OneSideSolved (g.m_img_n.pix c.1 c.2) (g.m_img_s.pix c.1 c.2) (g.m_img_f2.pix c.1 c.2)
      ((TuneFractions_step max_error g c).m_img_f1.pix c.1 c.2) := by
  have hn := pixel_error_nontrivial g c.1 c.2 false e he
  have hb' : ¬ (max_error > 0 ∧ |(pixel_error g c.1 c.2 false).getD 0| > max_error * 255) := by
    rw [he]
    exact hb
  simp only [nontrivial, List.mem_cons, List.mem_singleton, List.not_mem_nil, or_false] at hn
  by_cases c1 : g.m_img_n.pix c.1 c.2 ∈ ([1, 3, 5, 7] : List Int)
  · rw [TuneFractions_step_corner _ _ _ c1, hsc]
    obtain ⟨p1, p2, p3⟩ := put_fractions_at g c.1 c.2
      (TuneFractions_corner max_error ((pixel_error g c.1 c.2 false).getD 0) 2
        (g.m_img_s.pix c.1 c.2) (g.m_img_f1.pix c.1 c.2) (g.m_img_f2.pix c.1 c.2))
    rw [p1, p2, p3]
    by_cases hz : g.m_img_f2.pix c.1 c.2 = 0
    · rw [hz, TuneFractions_corner_two_zero _ _ _ _ hb' hs.1]
      exact ⟨rfl, rfl, OneSideSolved_corner_zero _ _ c1⟩
    · rw [TuneFractions_corner_two _ _ _ _ _ hb' hs.1 (by omega)]
      exact ⟨rfl, rfl, OneSideSolved_corner _ _ _ c1 hz⟩
  by_cases c2 : g.m_img_n.pix c.1 c.2 ∈ ([2, 4, 6, 8] : List Int)
  · rw [TuneFractions_step_side _ _ _ c2, hsc]
    obtain ⟨p1, p2, p3⟩ := put_fractions_at g c.1 c.2
      (TuneFractions_side max_error ((pixel_error g c.1 c.2 false).getD 0) 2
        (g.m_img_s.pix c.1 c.2) (g.m_img_f1.pix c.1 c.2) (g.m_img_f2.pix c.1 c.2))
    rw [p1, p2, p3, TuneFractions_side_two _ _ _ _ _ hb']
    exact ⟨rfl, rfl, OneSideSolved_side _ _ _ c2⟩
  have c3 : g.m_img_n.pix c.1 c.2 ∈ ([11, 13, 15, 17] : List Int) := by
    simp only [List.mem_cons, List.mem_singleton, List.not_mem_nil, or_false] at c1 c2 ⊢
    omega
  rw [TuneFractions_step_large _ _ _ c3, hsc]
  obtain ⟨p1, p2, p3⟩ := put_fractions_at g c.1 c.2
    (TuneFractions_large max_error ((pixel_error g c.1 c.2 false).getD 0) 2
      (g.m_img_s.pix c.1 c.2) (g.m_img_f1.pix c.1 c.2) (g.m_img_f2.pix c.1 c.2))
  rw [p1, p2, p3]
  by_cases hz : g.m_img_f2.pix c.1 c.2 = 255
  · rw [hz, TuneFractions_large_two_full _ _ _ _ hb' hs.2]
    exact ⟨rfl, rfl, OneSideSolved_large_full _ _ c3⟩
  · rw [TuneFractions_large_two _ _ _ _ _ hb' hs.2 (by omega)]
    exact ⟨rfl, rfl, OneSideSolved_large _ _ _ c3 hz⟩

theorem side_error_zero (g h : Gray2Vec_Grid) (px py a b : Int)
    (hn : g.m_img_n.pix px py ∈ ([2, 4, 6, 8] : List Int))
    (h0 : h.m_img_n = g.m_img_n) (hs : h.m_img_s = g.m_img_s)
    (h1 : h.m_img_f1.pix px py = a) (h2 : h.m_img_f2.pix px py = b)
    (hab : a + b = 2 * g.m_img_s.pix px py) :
    pixel_error h px py false = some 0 := by
  rw [pixel_error_side h px py (by rw [h0]; exact hn), h1, h2, hs]
  congr 1
  have : ((a + b : Int) : ℚ) = ((2 * g.m_img_s.pix px py : Int) : ℚ) := by rw [hab]
  push_cast at this
  linarith

theorem OneSideSolved_side_exact (n s f v : Int) (hn : n ∈ ([2, 4, 6, 8] : List Int))
    (h : OneSideSolved n s f v) (h0 : 0 ≤ 2 * s - f) (h255 : 2 * s - f ≤ 255) :
    v = 2 * s - f := by
  simp only [List.mem_cons, List.mem_singleton, List.not_mem_nil, or_false] at hn
  unfold OneSideSolved spec_solved at h
  rw [if_pos hn] at h
  simp only at h
  rw [if_pos hn] at h
  unfold clamp255 at h
  have q0 : (0 : ℚ) ≤ 2 * (s : ℚ) - (f : ℚ) := by exact_mod_cast h0
  have q1 : 2 * (s : ℚ) - (f : ℚ) ≤ 255 := by exact_mod_cast h255
  rw [min_eq_right q1, max_eq_right q0] at h
  exact_mod_cast h

theorem pixel_error_sideRow : pixel_error sideRow 0 0 false = some (-3) := by
  have e1 : sideRow.m_img_f1.pix 0 0 = 100 := by decide
  have e2 : sideRow.m_img_f2.pix 0 0 = 150 := by decide
  have e3 : sideRow.m_img_s.pix 0 0 = 128 := by decide
  rw [pixel_error_side _ _ _ (by decide), e1, e2, e3]
  norm_num

theorem sides_connected_congr (g h : Gray2Vec_Grid) (e : h.m_img_n = g.m_img_n)
    (px py : Int) : sides_connected h px py = sides_connected g px py := by
  unfold sides_connected
  rw [e]

theorem TuneFractions_corner_none (max_error df : ℚ) (s f1 f2 : Int)
    (hb : ¬ (max_error > 0 ∧ |df| > max_error * 255)) :
    TuneFractions_corner max_error df 0 s f1 f2
      = (to_uchar (corner_init s), to_uchar (corner_init s), -1) := by
  unfold TuneFractions_corner
  rw [if_neg hb, if_pos rfl]

theorem TuneFractions_side_none (max_error df : ℚ) (s f1 f2 : Int)
    (hb : ¬ (max_error > 0 ∧ |df| > max_error * 255)) :
    TuneFractions_side max_error df 0 s f1 f2 = (s, s, -1) := by
  unfold TuneFractions_side
  rw [if_neg hb, if_pos rfl]

theorem TuneFractions_large_none (max_error df : ℚ) (s f1 f2 : Int)
    (hb : ¬ (max_error > 0 ∧ |df| > max_error * 255)) :
    TuneFractions_large max_error df 0 s f1 f2
      = (to_uchar (large_init s), to_uchar (large_init s), -1) := by
  unfold TuneFractions_large
  rw [if_neg hb, if_pos rfl]

theorem TuneFractions_step_none (max_error : ℚ) (hme : max_error ≤ 0) (g : Gray2Vec_Grid)
    (c : Int × Int) (hn : g.m_img_n.pix c.1 c.2 ∈ nontrivial)
    (hsc : sides_connected g c.1 c.2 = 0) :
    (TuneFractions_step max_error g c).m_img_f1.pix c.1 c.2
      = class_init (g.m_img_n.pix c.1 c.2) (g.m_img_s.pix c.1 c.2) ∧
    (TuneFractions_step max_error g c).m_img_f2.pix c.1 c.2
      = class_init (g.m_img_n.pix c.1 c.2) (g.m_img_s.pix c.1 c.2) := by
  have hb : ¬ (max_error > 0 ∧ |(pixel_error g c.1 c.2 false).getD 0| > max_error * 255) :=
    fun h => absurd h.1 (not_lt.2 hme)
  simp only [nontrivial, List.mem_cons, List.mem_singleton, List.not_mem_nil, or_false] at hn
  by_cases c1 : g.m_img_n.pix c.1 c.2 ∈ ([1, 3, 5, 7] : List Int)
  · rw [TuneFractions_step_corner _ _ _ c1, hsc, TuneFractions_corner_none _ _ _ _ _ hb,
      class_init_corner _ _ c1]
    obtain ⟨p1, p2, -⟩ := put_fractions_at g c.1 c.2
      (to_uchar (corner_init (g.m_img_s.pix c.1 c.2)),
        to_uchar (corner_init (g.m_img_s.pix c.1 c.2)), -1)
    exact ⟨p1, p2⟩
  by_cases c2 : g.m_img_n.pix c.1 c.2 ∈ ([2, 4, 6, 8] : List Int)
  · rw [TuneFractions_step_side _ _ _ c2, hsc, TuneFractions_side_none _ _ _ _ _ hb,
      class_init_side _ _ c2]
    obtain ⟨p1, p2, -⟩ := put_fractions_at g c.1 c.2
      (g.m_img_s.pix c.1 c.2, g.m_img_s.pix c.1 c.2, -1)
    exact ⟨p1, p2⟩
  have c3 : g.m_img_n.pix c.1 c.2 ∈ ([11, 13, 15, 17] : List Int) := by
    simp only [List.mem_cons, List.mem_singleton, List.not_mem_nil, or_false] at c1 c2 ⊢
    omega
  rw [TuneFractions_step_large _ _ _ c3, hsc, TuneFractions_large_none _ _ _ _ _ hb,
    class_init_large _ _ c3]
  obtain ⟨p1, p2, -⟩ := put_fractions_at g c.1 c.2
    (to_uchar (large_init (g.m_img_s.pix c.1 c.2)),
      to_uchar (large_init (g.m_img_s.pix c.1 c.2)), -1)
  exact ⟨p1, p2⟩

theorem TuneFractions_step_none_twice (max_error : ℚ) (hme : max_error ≤ 0)
    (g : Gray2Vec_Grid) (c : Int × Int) (hn : g.m_img_n.pix c.1 c.2 ∈ nontrivial)
    (hsc : sides_connected g c.1 c.2 = 0) :
    (TuneFractions_step max_error (TuneFractions_step max_error g c) c).m_img_f1.pix c.1 c.2
      = (TuneFractions_step max_error g c).m_img_f1.pix c.1 c.2 ∧
    (TuneFractions_step max_error (TuneFractions_step max_error g c) c).m_img_f2.pix c.1 c.2
      = (TuneFractions_step max_error g c).m_img_f2.pix c.1 c.2 := by
  obtain ⟨k1, k2, -, -⟩ := TuneFractions_step_frame max_error g c
  obtain ⟨a1, a2⟩ := TuneFractions_step_none max_error hme g c hn hsc
  obtain ⟨b1, b2⟩ := TuneFractions_step_none max_error hme (TuneFractions_step max_error g c) c
    (by rw [k1]; exact hn) (by rw [sides_connected_congr _ _ k1]; exact hsc)
  rw [k1, k2] at b1 b2
  exact ⟨b1.trans a1.symm, b2.trans a2.symm⟩

theorem neighbours4_ne (p n : Int × Int) (h : n ∈ neighbours4 p) :
    ¬ (n.1 = p.1 ∧ n.2 = p.2) ∧ ¬ (p.1 = n.1 ∧ p.2 = n.2) := by
  simp only [neighbours4, List.mem_cons, List.mem_singleton, List.not_mem_nil, or_false] at h
  rcases h with rfl | rfl | rfl | rfl <;> constructor <;> intro hc <;> simp at hc

theorem blend_contracts (a b : Int) :
    min a b ≤ blend a (blend_avg a b) ∧ blend a (blend_avg a b) ≤ max a b ∧
    min a b ≤ blend b (blend_avg a b) ∧ blend b (blend_avg a b) ≤ max a b ∧
    (a ≠ b → |blend a (blend_avg a b) - blend b (blend_avg a b)| < |a - b|) ∧
    (a = b → blend a (blend_avg a b) = a ∧ blend b (blend_avg a b) = b) := by
  unfold blend blend_avg
  refine ⟨?_, ?_, ?_, ?_, fun hne => ?_, fun he => ?_⟩
  · simp only [min_def]
    split_ifs <;> omega
  · simp only [max_def]
    split_ifs <;> omega
  · simp only [min_def]
    split_ifs <;> omega
  · simp only [max_def]
    split_ifs <;> omega
  · rw [abs_sub_lt_iff]
    rcases lt_or_gt_of_ne hne with h | h
    · rw [abs_of_neg (by omega)]
      constructor <;> omega
    · rw [abs_of_pos (by omega)]
      constructor <;> omega
  · subst he
    constructor <;> omega

theorem FractionsNeighborsAdj_pair_frame (g : Gray2Vec_Grid) (p n : Int × Int) :
    (FractionsNeighborsAdj_pair g p n).m_img_n = g.m_img_n ∧
    (FractionsNeighborsAdj_pair g p n).m_img_s = g.m_img_s ∧
    (FractionsNeighborsAdj_pair g p n).m_img_f3 = g.m_img_f3 ∧
    (FractionsNeighborsAdj_pair g p n).m_img = g.m_img := by
  unfold FractionsNeighborsAdj_pair
  simp only
  split_ifs <;> exact ⟨rfl, rfl, rfl, rfl⟩

theorem FractionsNeighborsAdj_pair_zero (g : Gray2Vec_Grid) (p n : Int × Int)
    (h : share_sides g p.1 p.2 n.1 n.2 = 0) : FractionsNeighborsAdj_pair g p n = g := by
  unfold FractionsNeighborsAdj_pair
  simp only [h, Int.reduceEq, if_false]

theorem FractionsNeighborsAdj_pair_11 (g : Gray2Vec_Grid) (p n : Int × Int)
    (hpn : n ∈ neighbours4 p) (h : share_sides g p.1 p.2 n.1 n.2 = 11) :
    (FractionsNeighborsAdj_pair g p n).m_img_f1.pix p.1 p.2
        = blend (g.m_img_f1.pix p.1 p.2) (blend_avg (g.m_img_f1.pix p.1 p.2) (g.m_img_f1.pix n.1 n.2)) ∧
    (FractionsNeighborsAdj_pair g p n).m_img_f1.pix n.1 n.2
        = blend (g.m_img_f1.pix n.1 n.2) (blend_avg (g.m_img_f1.pix p.1 p.2) (g.m_img_f1.pix n.1 n.2)) ∧
    (FractionsNeighborsAdj_pair g p n).m_img_f2 = g.m_img_f2 ∧
    (∀ q : Int × Int, q ≠ p → q ≠ n →
        (FractionsNeighborsAdj_pair g p n).m_img_f1.pix q.1 q.2 = g.m_img_f1.pix q.1 q.2) := by
  obtain ⟨h1, h2⟩ := neighbours4_ne p n hpn
  unfold FractionsNeighborsAdj_pair
  simp only [h, Int.reduceEq, if_true, if_false]
  refine ⟨?_, ?_, trivial, fun q hq1 hq2 => ?_⟩
  · simp [CImg.set, h2]
  · simp [CImg.set, h1]
  · have k1 : ¬ (q.1 = p.1 ∧ q.2 = p.2) := fun hc => hq1 (Prod.ext hc.1 hc.2)
    have k2 : ¬ (q.1 = n.1 ∧ q.2 = n.2) := fun hc => hq2 (Prod.ext hc.1 hc.2)
    simp [CImg.set, k1, k2]

theorem FractionsNeighborsAdj_pair_12 (g : Gray2Vec_Grid) (p n : Int × Int)
    (hpn : n ∈ neighbours4 p) (h : share_sides g p.1 p.2 n.1 n.2 = 12) :
    (FractionsNeighborsAdj_pair g p n).m_img_f1.pix p.1 p.2
        = blend (g.m_img_f1.pix p.1 p.2) (blend_avg (g.m_img_f1.pix p.1 p.2) (g.m_img_f2.pix n.1 n.2)) ∧
    (FractionsNeighborsAdj_pair g p n).m_img_f2.pix n.1 n.2
        = blend (g.m_img_f2.pix n.1 n.2) (blend_avg (g.m_img_f1.pix p.1 p.2) (g.m_img_f2.pix n.1 n.2)) ∧
    (∀ q : Int × Int, q ≠ p →
        (FractionsNeighborsAdj_pair g p n).m_img_f1.pix q.1 q.2 = g.m_img_f1.pix q.1 q.2) ∧
    (∀ q : Int × Int, q ≠ n →
        (FractionsNeighborsAdj_pair g p n).m_img_f2.pix q.1 q.2 = g.m_img_f2.pix q.1 q.2) := by
  obtain ⟨h1, h2⟩ := neighbours4_ne p n hpn
  unfold FractionsNeighborsAdj_pair
  simp only [h, Int.reduceEq, if_true, if_false]
  refine ⟨?_, ?_, fun q hq1 => ?_, fun q hq2 => ?_⟩
  · simp [CImg.set]
  · simp [CImg.set]
  · have k1 : ¬ (q.1 = p.1 ∧ q.2 = p.2) := fun hc => hq1 (Prod.ext hc.1 hc.2)
    simp [CImg.set, k1]
  · have k2 : ¬ (q.1 = n.1 ∧ q.2 = n.2) := fun hc => hq2 (Prod.ext hc.1 hc.2)
    simp [CImg.set, k2]

theorem FractionsNeighborsAdj_pair_21 (g : Gray2Vec_Grid) (p n : Int × Int)
    (hpn : n ∈ neighbours4 p) (h : share_sides g p.1 p.2 n.1 n.2 = 21) :
    (FractionsNeighborsAdj_pair g p n).m_img_f2.pix p.1 p.2
        = blend (g.m_img_f2.pix p.1 p.2) (blend_avg (g.m_img_f2.pix p.1 p.2) (g.m_img_f1.pix n.1 n.2)) ∧
    (FractionsNeighborsAdj_pair g p n).m_img_f1.pix n.1 n.2
        = blend (g.m_img_f1.pix n.1 n.2) (blend_avg (g.m_img_f2.pix p.1 p.2) (g.m_img_f1.pix n.1 n.2)) ∧
    (∀ q : Int × Int, q ≠ p →
        (FractionsNeighborsAdj_pair g p n).m_img_f2.pix q.1 q.2 = g.m_img_f2.pix q.1 q.2) ∧
    (∀ q : Int × Int, q ≠ n →
        (FractionsNeighborsAdj_pair g p n).m_img_f1.pix q.1 q.2 = g.m_img_f1.pix q.1 q.2) := by
  obtain ⟨h1, h2⟩ := neighbours4_ne p n hpn
  unfold FractionsNeighborsAdj_pair
  simp only [h, Int.reduceEq, if_true, if_false]
  refine ⟨?_, ?_, fun q hq1 => ?_, fun q hq2 => ?_⟩
  · simp [CImg.set]
  · simp [CImg.set]
  · have k1 : ¬ (q.1 = p.1 ∧ q.2 = p.2) := fun hc => hq1 (Prod.ext hc.1 hc.2)
    simp [CImg.set, k1]
  · have k2 : ¬ (q.1 = n.1 ∧ q.2 = n.2) := fun hc => hq2 (Prod.ext hc.1 hc.2)
    simp [CImg.set, k2]

theorem FractionsNeighborsAdj_pair_22 (g : Gray2Vec_Grid) (p n : Int × Int)
    (hpn : n ∈ neighbours4 p) (h : share_sides g p.1 p.2 n.1 n.2 = 22) :
    (FractionsNeighborsAdj_pair g p n).m_img_f2.pix p.1 p.2
        = blend (g.m_img_f2.pix p.1 p.2) (blend_avg (g.m_img_f2.pix p.1 p.2) (g.m_img_f2.pix n.1 n.2)) ∧
    (FractionsNeighborsAdj_pair g p n).m_img_f2.pix n.1 n.2
        = blend (g.m_img_f2.pix n.1 n.2) (blend_avg (g.m_img_f2.pix p.1 p.2) (g.m_img_f2.pix n.1 n.2)) ∧
    (FractionsNeighborsAdj_pair g p n).m_img_f1 = g.m_img_f1 ∧
    (∀ q : Int × Int, q ≠ p → q ≠ n →
        (FractionsNeighborsAdj_pair g p n).m_img_f2.pix q.1 q.2 = g.m_img_f2.pix q.1 q.2) := by
  obtain ⟨h1, h2⟩ := neighbours4_ne p n hpn
  unfold FractionsNeighborsAdj_pair
  simp only [h, Int.reduceEq, if_true, if_false]
  refine ⟨?_, ?_, trivial, fun q hq1 hq2 => ?_⟩
  · simp [CImg.set, h2]
  · simp [CImg.set, h1]
  · have k1 : ¬ (q.1 = p.1 ∧ q.2 = p.2) := fun hc => hq1 (Prod.ext hc.1 hc.2)
    have k2 : ¬ (q.1 = n.1 ∧ q.2 = n.2) := fun hc => hq2 (Prod.ext hc.1 hc.2)
    simp [CImg.set, k1, k2]

theorem side1_eq_iff (n : Int) :
    (side1 n = 2 ↔ n = 1 ∨ n = 8 ∨ n = 17) ∧ (side1 n = 4 ↔ n = 2 ∨ n = 3 ∨ n = 11) ∧
    (side1 n = 6 ↔ n = 4 ∨ n = 5 ∨ n = 13) ∧ (side1 n = 8 ↔ n = 6 ∨ n = 7 ∨ n = 15) := by
  by_cases h1 : n = 1
  · subst h1
    decide
  by_cases h2 : n = 2
  · subst h2
    decide
  by_cases h3 : n = 3
  · subst h3
    decide
  by_cases h4 : n = 4
  · subst h4
    decide
  by_cases h5 : n = 5
  · subst h5
    decide
  by_cases h6 : n = 6
  · subst h6
    decide
  by_cases h7 : n = 7
  · subst h7
    decide
  by_cases h8 : n = 8
  · subst h8
    decide
  by_cases h11 : n = 11
  · subst h11
    decide
  by_cases h13 : n = 13
  · subst h13
    decide
  by_cases h15 : n = 15
  · subst h15
    decide
  by_cases h17 : n = 17
  · subst h17
    decide
  have e : side1 n = 0 := by
    unfold side1
    rw [if_neg h1, if_neg h2, if_neg h3, if_neg h4, if_neg h5, if_neg h6, if_neg h7, if_neg h8, if_neg h11, if_neg h13, if_neg h15, if_neg h17]
  rw [e]
  omega

theorem side2_eq_iff (n : Int) :
    (side2 n = 2 ↔ n = 3 ∨ n = 4 ∨ n = 15) ∧ (side2 n = 4 ↔ n = 5 ∨ n = 6 ∨ n = 17) ∧
    (side2 n = 6 ↔ n = 7 ∨ n = 8 ∨ n = 11) ∧ (side2 n = 8 ↔ n = 1 ∨ n = 2 ∨ n = 13) := by
  by_cases h1 : n = 1
  · subst h1
    decide
  by_cases h2 : n = 2
  · subst h2
    decide
  by_cases h3 : n = 3
  · subst h3
    decide
  by_cases h4 : n = 4
  · subst h4
    decide
  by_cases h5 : n = 5
  · subst h5
    decide
  by_cases h6 : n = 6
  · subst h6
    decide
  by_cases h7 : n = 7
  · subst h7
    decide
  by_cases h8 : n = 8
  · subst h8
    decide
  by_cases h11 : n = 11
  · subst h11
    decide
  by_cases h13 : n = 13
  · subst h13
    decide
  by_cases h15 : n = 15
  · subst h15
    decide
  by_cases h17 : n = 17
  · subst h17
    decide
  have e : side2 n = 0 := by
    unfold side2
    rw [if_neg h1, if_neg h2, if_neg h3, if_neg h4, if_neg h5, if_neg h6, if_neg h7, if_neg h8, if_neg h11, if_neg h13, if_neg h15, if_neg h17]
  rw [e]
  omega

theorem spec_exposed_2 (n f1 f2 : Int) :
    spec_exposed n f1 f2 2
      = if n = 1 ∨ n = 8 ∨ n = 17 then some (f1 : ℚ)
        else if n = 3 ∨ n = 4 ∨ n = 15 then some ((255 - f2 : Int) : ℚ) else none := by
  unfold spec_exposed
  by_cases a : n = 1 ∨ n = 8 ∨ n = 17
  · rw [if_pos a, if_pos ((side1_eq_iff n).1.2 a)]
    simp
  · rw [if_neg a, if_neg (fun h => a ((side1_eq_iff n).1.1 h))]
    by_cases b : n = 3 ∨ n = 4 ∨ n = 15
    · rw [if_pos b, if_pos ((side2_eq_iff n).1.2 b)]
      simp
    · rw [if_neg b, if_neg (fun h => b ((side2_eq_iff n).1.1 h))]

theorem spec_exposed_4 (n f1 f2 : Int) :
    spec_exposed n f1 f2 4
      = if n = 2 ∨ n = 3 ∨ n = 11 then some (f1 : ℚ)
        else if n = 5 ∨ n = 6 ∨ n = 17 then some ((255 - f2 : Int) : ℚ) else none := by
  unfold spec_exposed
  by_cases a : n = 2 ∨ n = 3 ∨ n = 11
  · rw [if_pos a, if_pos ((side1_eq_iff n).2.1.2 a)]
    simp
  · rw [if_neg a, if_neg (fun h => a ((side1_eq_iff n).2.1.1 h))]
    by_cases b : n = 5 ∨ n = 6 ∨ n = 17
    · rw [if_pos b, if_pos ((side2_eq_iff n).2.1.2 b)]
      simp
    · rw [if_neg b, if_neg (fun h => b ((side2_eq_iff n).2.1.1 h))]

theorem spec_exposed_6 (n f1 f2 : Int) :
    spec_exposed n f1 f2 6
      = if n = 4 ∨ n = 5 ∨ n = 13 then some ((255 - f1 : Int) : ℚ)
        else if n = 7 ∨ n = 8 ∨ n = 11 then some (f2 : ℚ) else none := by
  unfold spec_exposed
  by_cases a : n = 4 ∨ n = 5 ∨ n = 13
  · rw [if_pos a, if_pos ((side1_eq_iff n).2.2.1.2 a)]
    simp
  · rw [if_neg a, if_neg (fun h => a ((side1_eq_iff n).2.2.1.1 h))]
    by_cases b : n = 7 ∨ n = 8 ∨ n = 11
    · rw [if_pos b, if_pos ((side2_eq_iff n).2.2.1.2 b)]
      simp
    · rw [if_neg b, if_neg (fun h => b ((side2_eq_iff n).2.2.1.1 h))]

theorem spec_exposed_8 (n f1 f2 : Int) :
    spec_exposed n f1 f2 8
      = if n = 6 ∨ n = 7 ∨ n = 15 then some ((255 - f1 : Int) : ℚ)
        else if n = 1 ∨ n = 2 ∨ n = 13 then some (f2 : ℚ) else none := by
  unfold spec_exposed
  by_cases a : n = 6 ∨ n = 7 ∨ n = 15
  · rw [if_pos a, if_pos ((side1_eq_iff n).2.2.2.2 a)]
    simp
  · rw [if_neg a, if_neg (fun h => a ((side1_eq_iff n).2.2.2.1 h))]
    by_cases b : n = 1 ∨ n = 2 ∨ n = 13
    · rw [if_pos b, if_pos ((side2_eq_iff n).2.2.2.2 b)]
      simp
    · rw [if_neg b, if_neg (fun h => b ((side2_eq_iff n).2.2.2.1 h))]

theorem spec_exposed_at_nonneg (g : Gray2Vec_Grid) (px py dir : Int) (hpx : 0 ≤ px)
    (hpy : 0 ≤ py) :
    spec_exposed_at g px py dir
      = spec_exposed (g.m_img_n.pix px py) (g.m_img_f1.pix px py) (g.m_img_f2.pix px py) dir := by
  unfold spec_exposed_at
  exact if_neg (by omega)

theorem spec_exposed_at_neg (g : Gray2Vec_Grid) (px py dir : Int) (h : px < 0 ∨ py < 0) :
    spec_exposed_at g px py dir = none := by
  unfold spec_exposed_at
  exact if_pos h

theorem right_side_spec (g : Gray2Vec_Grid) (px py : Int) (hpx : 0 ≤ px) (hpy : 0 ≤ py) :
    right_side g px py = (spec_exposed_at g px py 8).getD (-1) := by
  unfold right_side
  simp only
  rw [spec_exposed_at_nonneg g px py 8 (by omega) (by omega), spec_exposed_8]
  by_cases a : g.m_img_n.pix px py = 1 ∨ g.m_img_n.pix px py = 2 ∨ g.m_img_n.pix px py = 13
  · rw [if_pos a]
    have e : (if g.m_img_n.pix px py = 6 ∨ g.m_img_n.pix px py = 7 ∨ g.m_img_n.pix px py = 15 then (some ((255 - g.m_img_f1.pix px py : Int) : ℚ) : Option ℚ)
        else if g.m_img_n.pix px py = 1 ∨ g.m_img_n.pix px py = 2 ∨ g.m_img_n.pix px py = 13 then some (g.m_img_f2.pix px py : ℚ) else none)
        = some (g.m_img_f2.pix px py : ℚ) := by
      rw [if_neg (by omega), if_pos (by omega)]
    rw [e]
    rfl
  · rw [if_neg a]
    by_cases b : g.m_img_n.pix px py = 15 ∨ g.m_img_n.pix px py = 6 ∨ g.m_img_n.pix px py = 7
    · rw [if_pos b]
      have e : (if g.m_img_n.pix px py = 6 ∨ g.m_img_n.pix px py = 7 ∨ g.m_img_n.pix px py = 15 then (some ((255 - g.m_img_f1.pix px py : Int) : ℚ) : Option ℚ)
          else if g.m_img_n.pix px py = 1 ∨ g.m_img_n.pix px py = 2 ∨ g.m_img_n.pix px py = 13 then some (g.m_img_f2.pix px py : ℚ) else none)
          = some ((255 - g.m_img_f1.pix px py : Int) : ℚ) := by
        rw [if_pos (by omega)]
      rw [e]
      rfl
    · rw [if_neg b]
      have e : (if g.m_img_n.pix px py = 6 ∨ g.m_img_n.pix px py = 7 ∨ g.m_img_n.pix px py = 15 then (some ((255 - g.m_img_f1.pix px py : Int) : ℚ) : Option ℚ)
          else if g.m_img_n.pix px py = 1 ∨ g.m_img_n.pix px py = 2 ∨ g.m_img_n.pix px py = 13 then some (g.m_img_f2.pix px py : ℚ) else none)
          = none := by
        rw [if_neg (by omega), if_neg (by omega)]
      rw [e]
      rfl

theorem left_side_spec (g : Gray2Vec_Grid) (px py : Int) (hpy : 0 ≤ py) :
    left_side g px py = (spec_exposed_at g (px - 1) py 4).getD (-1) := by
  unfold left_side
  by_cases hp : px > 0
  · rw [if_pos hp]
    simp only
    rw [spec_exposed_at_nonneg g (px - 1) py 4 (by omega) (by omega), spec_exposed_4]
    by_cases a : g.m_img_n.pix (px - 1) py = 11 ∨ g.m_img_n.pix (px - 1) py = 2 ∨ g.m_img_n.pix (px - 1) py = 3
    · rw [if_pos a]
      have e : (if g.m_img_n.pix (px - 1) py = 2 ∨ g.m_img_n.pix (px - 1) py = 3 ∨ g.m_img_n.pix (px - 1) py = 11 then (some (g.m_img_f1.pix (px - 1) py : ℚ) : Option ℚ)
          else if g.m_img_n.pix (px - 1) py = 5 ∨ g.m_img_n.pix (px - 1) py = 6 ∨ g.m_img_n.pix (px - 1) py = 17 then some ((255 - g.m_img_f2.pix (px - 1) py : Int) : ℚ) else none)
          = some (g.m_img_f1.pix (px - 1) py : ℚ) := by
        rw [if_pos (by omega)]
      rw [e]
      rfl
    · rw [if_neg a]
      by_cases b : g.m_img_n.pix (px - 1) py = 5 ∨ g.m_img_n.pix (px - 1) py = 6 ∨ g.m_img_n.pix (px - 1) py = 17
      · rw [if_pos b]
        have e : (if g.m_img_n.pix (px - 1) py = 2 ∨ g.m_img_n.pix (px - 1) py = 3 ∨ g.m_img_n.pix (px - 1) py = 11 then (some (g.m_img_f1.pix (px - 1) py : ℚ) : Option ℚ)
            else if g.m_img_n.pix (px - 1) py = 5 ∨ g.m_img_n.pix (px - 1) py = 6 ∨ g.m_img_n.pix (px - 1) py = 17 then some ((255 - g.m_img_f2.pix (px - 1) py : Int) : ℚ) else none)
            = some ((255 - g.m_img_f2.pix (px - 1) py : Int) : ℚ) := by
          rw [if_neg (by omega), if_pos (by omega)]
        rw [e]
        rfl
      · rw [if_neg b]
        have e : (if g.m_img_n.pix (px - 1) py = 2 ∨ g.m_img_n.pix (px - 1) py = 3 ∨ g.m_img_n.pix (px - 1) py = 11 then (some (g.m_img_f1.pix (px - 1) py : ℚ) : Option ℚ)
            else if g.m_img_n.pix (px - 1) py = 5 ∨ g.m_img_n.pix (px - 1) py = 6 ∨ g.m_img_n.pix (px - 1) py = 17 then some ((255 - g.m_img_f2.pix (px - 1) py : Int) : ℚ) else none)
            = none := by
          rw [if_neg (by omega), if_neg (by omega)]
        rw [e]
        rfl
  · rw [if_neg hp, spec_exposed_at_neg g (px - 1) py 4 (by omega)]
    rfl

theorem bottom_side_spec (g : Gray2Vec_Grid) (px py : Int) (hpx : 0 ≤ px) (hpy : 0 ≤ py) :
    bottom_side g px py = (spec_exposed_at g px py 2).getD (-1) := by
  unfold bottom_side
  simp only
  rw [spec_exposed_at_nonneg g px py 2 (by omega) (by omega), spec_exposed_2]
  by_cases a : g.m_img_n.pix px py = 17 ∨ g.m_img_n.pix px py = 8 ∨ g.m_img_n.pix px py = 1
  · rw [if_pos a]
    have e : (if g.m_img_n.pix px py = 1 ∨ g.m_img_n.pix px py = 8 ∨ g.m_img_n.pix px py = 17 then (some (g.m_img_f1.pix px py : ℚ) : Option ℚ)
        else if g.m_img_n.pix px py = 3 ∨ g.m_img_n.pix px py = 4 ∨ g.m_img_n.pix px py = 15 then some ((255 - g.m_img_f2.pix px py : Int) : ℚ) else none)
        = some (g.m_img_f1.pix px py : ℚ) := by
      rw [if_pos (by omega)]
    rw [e]
    rfl
  · rw [if_neg a]
    by_cases b : g.m_img_n.pix px py = 3 ∨ g.m_img_n.pix px py = 4 ∨ g.m_img_n.pix px py = 15
    · rw [if_pos b]
      have e : (if g.m_img_n.pix px py = 1 ∨ g.m_img_n.pix px py = 8 ∨ g.m_img_n.pix px py = 17 then (some (g.m_img_f1.pix px py : ℚ) : Option ℚ)
          else if g.m_img_n.pix px py = 3 ∨ g.m_img_n.pix px py = 4 ∨ g.m_img_n.pix px py = 15 then some ((255 - g.m_img_f2.pix px py : Int) : ℚ) else none)
          = some ((255 - g.m_img_f2.pix px py : Int) : ℚ) := by
        rw [if_neg (by omega), if_pos (by omega)]
      rw [e]
      rfl
    · rw [if_neg b]
      have e : (if g.m_img_n.pix px py = 1 ∨ g.m_img_n.pix px py = 8 ∨ g.m_img_n.pix px py = 17 then (some (g.m_img_f1.pix px py : ℚ) : Option ℚ)
          else if g.m_img_n.pix px py = 3 ∨ g.m_img_n.pix px py = 4 ∨ g.m_img_n.pix px py = 15 then some ((255 - g.m_img_f2.pix px py : Int) : ℚ) else none)
          = none := by
        rw [if_neg (by omega), if_neg (by omega)]
      rw [e]
      rfl

theorem top_side_spec (g : Gray2Vec_Grid) (px py : Int) (hpx : 0 ≤ px) :
    top_side g px py = (spec_exposed_at g px (py - 1) 6).getD (-1) := by
  unfold top_side
  by_cases hp : py > 0
  · rw [if_pos hp]
    simp only
    rw [spec_exposed_at_nonneg g px (py - 1) 6 (by omega) (by omega), spec_exposed_6]
    by_cases a : g.m_img_n.pix px (py - 1) = 7 ∨ g.m_img_n.pix px (py - 1) = 8 ∨ g.m_img_n.pix px (py - 1) = 11
    · rw [if_pos a]
      have e : (if g.m_img_n.pix px (py - 1) = 4 ∨ g.m_img_n.pix px (py - 1) = 5 ∨ g.m_img_n.pix px (py - 1) = 13 then (some ((255 - g.m_img_f1.pix px (py - 1) : Int) : ℚ) : Option ℚ)
          else if g.m_img_n.pix px (py - 1) = 7 ∨ g.m_img_n.pix px (py - 1) = 8 ∨ g.m_img_n.pix px (py - 1) = 11 then some (g.m_img_f2.pix px (py - 1) : ℚ) else none)
          = some (g.m_img_f2.pix px (py - 1) : ℚ) := by
        rw [if_neg (by omega), if_pos (by omega)]
      rw [e]
      rfl
    · rw [if_neg a]
      by_cases b : g.m_img_n.pix px (py - 1) = 13 ∨ g.m_img_n.pix px (py - 1) = 4 ∨ g.m_img_n.pix px (py - 1) = 5
      · rw [if_pos b]
        have e : (if g.m_img_n.pix px (py - 1) = 4 ∨ g.m_img_n.pix px (py - 1) = 5 ∨ g.m_img_n.pix px (py - 1) = 13 then (some ((255 - g.m_img_f1.pix px (py - 1) : Int) : ℚ) : Option ℚ)
            else if g.m_img_n.pix px (py - 1) = 7 ∨ g.m_img_n.pix px (py - 1) = 8 ∨ g.m_img_n.pix px (py - 1) = 11 then some (g.m_img_f2.pix px (py - 1) : ℚ) else none)
            = some ((255 - g.m_img_f1.pix px (py - 1) : Int) : ℚ) := by
          rw [if_pos (by omega)]
        rw [e]
        rfl
      · rw [if_neg b]
        have e : (if g.m_img_n.pix px (py - 1) = 4 ∨ g.m_img_n.pix px (py - 1) = 5 ∨ g.m_img_n.pix px (py - 1) = 13 then (some ((255 - g.m_img_f1.pix px (py - 1) : Int) : ℚ) : Option ℚ)
            else if g.m_img_n.pix px (py - 1) = 7 ∨ g.m_img_n.pix px (py - 1) = 8 ∨ g.m_img_n.pix px (py - 1) = 11 then some (g.m_img_f2.pix px (py - 1) : ℚ) else none)
            = none := by
          rw [if_neg (by omega), if_neg (by omega)]
        rw [e]
        rfl
  · rw [if_neg hp, spec_exposed_at_neg g px (py - 1) 6 (by omega)]
    rfl

theorem interior_vertex_unset (g : Gray2Vec_Grid) (px py : Int) (fx fy : ℚ)
    (hn : g.m_img_n.pix px py ∈ nontrivial) (h : g.m_img_f3.pix px py < 0) :
    interior_vertex g px py fx fy = none := by
  simp only [nontrivial, List.mem_cons, List.mem_singleton, List.not_mem_nil, or_false] at hn
  have h3 : ¬ (g.m_img_f3.pix px py ≥ 0) := by omega
  unfold interior_vertex
  simp only
  by_cases c1 : g.m_img_n.pix px py = 1 ∨ g.m_img_n.pix px py = 3 ∨
      g.m_img_n.pix px py = 5 ∨ g.m_img_n.pix px py = 7
  · rw [if_pos c1, if_neg h3]
  rw [if_neg c1]
  by_cases c2 : g.m_img_n.pix px py = 2 ∨ g.m_img_n.pix px py = 4 ∨
      g.m_img_n.pix px py = 6 ∨ g.m_img_n.pix px py = 8
  · rw [if_pos c2, if_neg h3]
  rw [if_neg c2, if_pos (by omega), if_neg h3]

theorem interior_vertex_set (g : Gray2Vec_Grid) (px py : Int) (fx fy : ℚ)
    (h : g.m_img_f3.pix px py ≥ 0) : ∃ q, interior_vertex g px py fx fy = some q := by
  unfold interior_vertex
  simp only
  split_ifs <;> exact ⟨_, rfl⟩

theorem interior_vertex_large (g : Gray2Vec_Grid) (px py : Int) (fx fy : ℚ)
    (hn : g.m_img_n.pix px py ∈ ([11, 13, 15, 17] : List Int))
    (h : g.m_img_f3.pix px py ≥ 0) : interior_vertex g px py fx fy = some (fx, fy) := by
  simp only [List.mem_cons, List.mem_singleton, List.not_mem_nil, or_false] at hn
  unfold interior_vertex
  simp only
  rw [if_neg (by omega), if_neg (by omega), if_pos hn, if_pos h, if_neg (by omega),
    if_neg (by omega), if_neg (by omega), if_neg (by omega)]

theorem trivial_not_nontrivial (n : Int) (h : n = 0 ∨ n = 255) : n ∉ nontrivial := by
  rcases h with rfl | rfl <;> decide

theorem trivial_codes_mem (g : Gray2Vec_Grid) (h : trivial_codes g) (c : Int × Int)
    (hc : c ∈ forXY g.m_img_s) : g.m_img_n.pix c.1 c.2 ∉ nontrivial := by
  have hm := (mem_forXY g.m_img_s c.1 c.2).1 hc
  exact trivial_not_nontrivial _ (h c.1 c.2 hm.1.1 hm.1.2 hm.2.1 hm.2.2)

theorem NeighborsAdjust_sweep1_trivial (g : Gray2Vec_Grid) (px py : Int)
    (h : g.m_img_n.pix px py ∉ nontrivial) :
    NeighborsAdjust_sweep1 g px py = g.m_img_n.pix px py :=
  NeighborsAdjust_sweep1_cases (fun n v => n ∉ nontrivial → v = n) (fun _ _ => rfl)
    (by decide) (by decide) (by decide) (by decide) g px py h

theorem NeighborsAdjust_sweep2_trivial (g : Gray2Vec_Grid) (px py : Int)
    (h : g.m_img_n.pix px py ∉ nontrivial) :
    NeighborsAdjust_sweep2 g px py = g.m_img_n.pix px py :=
  NeighborsAdjust_sweep2_cases (fun n v => n ∉ nontrivial → v = n) (fun _ _ => rfl)
    (by decide) (by decide) (by decide) (by decide) (by decide) (by decide) (by decide)
    (by decide) g px py h

theorem ResolveConflicts_sweep1_trivial (g : Gray2Vec_Grid) (px py : Int)
    (h : g.m_img_n.pix px py ∉ nontrivial) :
    ResolveConflicts_sweep1 g px py = g.m_img_n.pix px py :=
  ResolveConflicts_sweep1_cases (fun n v => n ∉ nontrivial → v = n) (fun _ _ => rfl)
    (by decide) (by decide) (by decide) (by decide) (by decide) (by decide) (by decide)
    (by decide) (by decide) (by decide) (by decide) (by decide) g px py h

theorem ResolveConflicts_sweep2_trivial (g : Gray2Vec_Grid) (px py : Int)
    (h : g.m_img_n.pix px py ∉ nontrivial) :
    ResolveConflicts_sweep2 g px py = g.m_img_n.pix px py :=
  ResolveConflicts_sweep2_cases (fun n v => n ∉ nontrivial → v = n) (fun _ _ => rfl)
    (by decide) (by decide) (by decide) (by decide) (by decide) (by decide) (by decide)
    (by decide) (by decide) (by decide) (by decide) (by decide) g px py h

theorem NeighborsAdjust2_switch_trivial (g : Gray2Vec_Grid) (px py : Int)
    (h : g.m_img_n.pix px py ∉ nontrivial) :
    NeighborsAdjust2_switch g px py = g.m_img_n.pix px py :=
  NeighborsAdjust2_switch_cases (fun n v => n ∉ nontrivial → v = n) (fun _ _ => rfl)
    (by decide) (by decide) (by decide) (by decide) (by decide) (by decide) (by decide)
    (by decide) (by decide) (by decide) (by decide) (by decide) g px py h

theorem side1_trivial (n : Int) (h : n ∉ nontrivial) : side1 n = 0 := by
  simp only [nontrivial, List.mem_cons, List.mem_singleton, List.not_mem_nil, or_false,
    not_or] at h
  unfold side1
  rw [if_neg h.1, if_neg h.2.1, if_neg h.2.2.1, if_neg h.2.2.2.1, if_neg h.2.2.2.2.1,
    if_neg h.2.2.2.2.2.1, if_neg h.2.2.2.2.2.2.1, if_neg h.2.2.2.2.2.2.2.1,
    if_neg h.2.2.2.2.2.2.2.2.1, if_neg h.2.2.2.2.2.2.2.2.2.1,
    if_neg h.2.2.2.2.2.2.2.2.2.2.1, if_neg h.2.2.2.2.2.2.2.2.2.2.2]

theorem side2_trivial (n : Int) (h : n ∉ nontrivial) : side2 n = 0 := by
  simp only [nontrivial, List.mem_cons, List.mem_singleton, List.not_mem_nil, or_false,
    not_or] at h
  unfold side2
  rw [if_neg h.1, if_neg h.2.1, if_neg h.2.2.1, if_neg h.2.2.2.1, if_neg h.2.2.2.2.1,
    if_neg h.2.2.2.2.2.1, if_neg h.2.2.2.2.2.2.1, if_neg h.2.2.2.2.2.2.2.1,
    if_neg h.2.2.2.2.2.2.2.2.1, if_neg h.2.2.2.2.2.2.2.2.2.1,
    if_neg h.2.2.2.2.2.2.2.2.2.2.1, if_neg h.2.2.2.2.2.2.2.2.2.2.2]

theorem move_dir_zero (p : Int × Int) : move_dir p 0 = p := by
  unfold move_dir
  simp

theorem share_sides_trivial (g : Gray2Vec_Grid) (p n : Int × Int)
    (hp : g.m_img_n.pix p.1 p.2 ∉ nontrivial) (hne : ¬ (p.1 = n.1 ∧ p.2 = n.2)) :
    share_sides g p.1 p.2 n.1 n.2 = 0 := by
  have hfalse : ∀ P : Prop, (p.1 = n.1 ∧ p.2 = n.2 ∧ P) = False := fun P =>
    eq_false (fun h => hne ⟨h.1, h.2.1⟩)
  unfold share_sides
  simp only [side1_trivial _ hp, side2_trivial _ hp, move_dir_zero, hfalse, if_false, ite_self]

theorem NeighborsAdjust_trivial (g : Gray2Vec_Grid) (h : trivial_codes g) :
    NeighborsAdjust g = g :=
  NeighborsAdjust_of_stable g (fun c hc _ =>
    ⟨NeighborsAdjust_sweep1_trivial g c.1 c.2 (trivial_codes_mem g h c hc),
      NeighborsAdjust_sweep2_trivial g c.1 c.2 (trivial_codes_mem g h c hc)⟩)

theorem ResolveConflicts_trivial (g : Gray2Vec_Grid) (h : trivial_codes g) :
    ResolveConflicts g = g :=
  ResolveConflicts_of_stable g (fun c hc _ =>
    ⟨ResolveConflicts_sweep1_trivial g c.1 c.2 (trivial_codes_mem g h c hc),
      ResolveConflicts_sweep2_trivial g c.1 c.2 (trivial_codes_mem g h c hc)⟩)

theorem NeighborsAdjust2_trivial (g : Gray2Vec_Grid) (h : trivial_codes g) :
    NeighborsAdjust2 g = g :=
  NeighborsAdjust2_of_stable g (fun c hc _ =>
    NeighborsAdjust2_switch_trivial g c.1 c.2 (trivial_codes_mem g h c hc))

theorem TuneFractions_trivial (max_error : ℚ) (g : Gray2Vec_Grid) (h : trivial_codes g) :
    TuneFractions max_error g = g :=
  foldl_fixed _ _ _ (fun c hc =>
    TuneFractions_step_trivial max_error g c (trivial_codes_mem g h c hc))

theorem FractionsNeighborsAdj_trivial (g : Gray2Vec_Grid) (h : trivial_codes g) :
    FractionsNeighborsAdj g = g :=
  foldl_fixed _ _ _ (fun c hc =>
    foldl_fixed _ _ _ (fun n hn =>
      FractionsNeighborsAdj_pair_zero g c n
        (share_sides_trivial g c n (trivial_codes_mem g h c hc) (neighbours4_ne c n hn).2)))

theorem set_fraction_rasters (g : Gray2Vec_Grid) (px py : Int) :
    (set_fraction g px py).1.m_img_n = g.m_img_n ∧
    (set_fraction g px py).1.m_img_s = g.m_img_s ∧
    (set_fraction g px py).1.m_img = g.m_img := by
  by_cases c1 : g.m_img_n.pix px py = 1 ∨ g.m_img_n.pix px py = 3 ∨
      g.m_img_n.pix px py = 5 ∨ g.m_img_n.pix px py = 7
  · simp [set_fraction, if_pos c1]
  by_cases c2 : g.m_img_n.pix px py = 2 ∨ g.m_img_n.pix px py = 4 ∨
      g.m_img_n.pix px py = 6 ∨ g.m_img_n.pix px py = 8
  · simp [set_fraction, if_neg c1, if_pos c2]
  by_cases c3 : g.m_img_n.pix px py = 11 ∨ g.m_img_n.pix px py = 13 ∨
      g.m_img_n.pix px py = 15 ∨ g.m_img_n.pix px py = 17
  · simp [set_fraction, if_neg c1, if_neg c2, if_pos c3]
  · simp [set_fraction, if_neg c1, if_neg c2, if_neg c3]

theorem InitFractions_trivial (u1 u2 u3 : Int → Int → Int) (g : Gray2Vec_Grid)
    (h : trivial_codes g) :
    (InitFractions u1 u2 u3 g).m_img_n = g.m_img_n ∧
    (InitFractions u1 u2 u3 g).m_img_s = g.m_img_s ∧
    ∀ x y : Int, 0 ≤ x → x < g.m_img_s.width → 0 ≤ y → y < g.m_img_s.height →
      (InitFractions u1 u2 u3 g).m_img_f1.pix x y = 0 ∧
      (InitFractions u1 u2 u3 g).m_img_f2.pix x y = 0 ∧
      (InitFractions u1 u2 u3 g).m_img_f3.pix x y = -1 := by
  unfold InitFractions
  simp only
  have key := fold_local (fun (st : Gray2Vec_Grid) q => cell_view st q)
    (fun old new => old.n ∉ nontrivial → new.f1 = 0 ∧ new.f2 = 0 ∧ new.f3 = -1)
    (fun st => st.m_img_n = g.m_img_n ∧ st.m_img_s = g.m_img_s)
    (fun st c => (set_fraction st c.1 c.2).1)
    (fun st c hi => ⟨(set_fraction_rasters st c.1 c.2).1.trans hi.1,
      (set_fraction_rasters st c.1 c.2).2.1.trans hi.2⟩)
    (fun st c q hne => set_fraction_view_ne st c.1 c.2 q (by simpa using hne))
    (fun st c _ hn => by
      have hv := set_fraction_view st c.1 c.2
      simp only [Prod.mk.eta] at hv
      have hn' : st.m_img_n.pix c.1 c.2 ∉ nontrivial := hn
      show (cell_view (set_fraction st c.1 c.2).1 c).f1 = 0 ∧
        (cell_view (set_fraction st c.1 c.2).1 c).f2 = 0 ∧
        (cell_view (set_fraction st c.1 c.2).1 c).f3 = -1
      rw [hv]
      exact ⟨class_init_trivial _ _ hn', class_init_trivial _ _ hn', rfl⟩)
    (forXY g.m_img_s) (forXY_nodup _)
    { g with
      m_img_f1 := ⟨g.m_img.width / 2, g.m_img.height / 2, u1⟩
      m_img_f2 := ⟨g.m_img.width / 2, g.m_img.height / 2, u2⟩
      m_img_f3 := ⟨g.m_img.width / 2, g.m_img.height / 2, u3⟩ } ⟨rfl, rfl⟩
  refine ⟨key.1.1, key.1.2, fun x y hx hxw hy hyh => ?_⟩
  have hm : (x, y) ∈ forXY g.m_img_s := (mem_forXY _ x y).2 ⟨⟨hx, hxw⟩, ⟨hy, hyh⟩⟩
  exact (key.2 (x, y)).1 hm (trivial_not_nontrivial _ (h x y hx hxw hy hyh))

theorem right_side_trivial (g : Gray2Vec_Grid) (px py : Int)
    (h : g.m_img_n.pix px py ∉ nontrivial) : right_side g px py = -1 := by
  simp only [nontrivial, List.mem_cons, List.mem_singleton, List.not_mem_nil, or_false,
    not_or] at h
  unfold right_side
  simp only
  rw [if_neg (by omega), if_neg (by omega)]

theorem bottom_side_trivial (g : Gray2Vec_Grid) (px py : Int)
    (h : g.m_img_n.pix px py ∉ nontrivial) : bottom_side g px py = -1 := by
  simp only [nontrivial, List.mem_cons, List.mem_singleton, List.not_mem_nil, or_false,
    not_or] at h
  unfold bottom_side
  simp only
  rw [if_neg (by omega), if_neg (by omega)]

theorem left_side_trivial (g : Gray2Vec_Grid) (px py : Int)
    (h : px > 0 → g.m_img_n.pix (px - 1) py ∉ nontrivial) : left_side g px py = -1 := by
  unfold left_side
  by_cases hp : px > 0
  · have h' := h hp
    simp only [nontrivial, List.mem_cons, List.mem_singleton, List.not_mem_nil, or_false,
      not_or] at h'
    rw [if_pos hp]
    simp only
    rw [if_neg (by omega), if_neg (by omega)]
  · rw [if_neg hp]

theorem top_side_trivial (g : Gray2Vec_Grid) (px py : Int)
    (h : py > 0 → g.m_img_n.pix px (py - 1) ∉ nontrivial) : top_side g px py = -1 := by
  unfold top_side
  by_cases hp : py > 0
  · have h' := h hp
    simp only [nontrivial, List.mem_cons, List.mem_singleton, List.not_mem_nil, or_false,
      not_or] at h'
    rw [if_pos hp]
    simp only
    rw [if_neg (by omega), if_neg (by omega)]
  · rw [if_neg hp]

theorem interior_vertex_trivial (g : Gray2Vec_Grid) (px py : Int) (fx fy : ℚ)
    (h : g.m_img_n.pix px py ∉ nontrivial) :
    interior_vertex g px py fx fy = some (fx, fy) := by
  simp only [nontrivial, List.mem_cons, List.mem_singleton, List.not_mem_nil, or_false,
    not_or] at h
  unfold interior_vertex
  simp only
  rw [if_neg (by omega), if_neg (by omega), if_neg (by omega)]

theorem EmitVertex_trivial (g : Gray2Vec_Grid) (h : trivial_codes g) (x y : Int)
    (hx : 0 ≤ x) (hxw : x < 2 * g.m_img_s.width) (hy : 0 ≤ y)
    (hyh : y < 2 * g.m_img_s.height) : EmitVertex g x y = some ((x : ℚ), (y : ℚ)) := by
  have cell : ∀ a b : Int, 0 ≤ a → a < g.m_img_s.width → 0 ≤ b → b < g.m_img_s.height →
      g.m_img_n.pix a b ∉ nontrivial :=
    fun a b h1 h2 h3 h4 => trivial_not_nontrivial _ (h a b h1 h2 h3 h4)
  obtain ⟨px, hpx⟩ : ∃ px : Int, x = px * 2 ∨ x = px * 2 + 1 := ⟨x / 2, by omega⟩
  obtain ⟨py, hpy⟩ : ∃ py : Int, y = py * 2 ∨ y = py * 2 + 1 := ⟨y / 2, by omega⟩
  have bx : 0 ≤ px ∧ px < g.m_img_s.width := by omega
  have bY : 0 ≤ py ∧ py < g.m_img_s.height := by omega
  rcases hpx with rfl | rfl <;> rcases hpy with rfl | rfl
  · exact EmitVertex_even_even g px py
  · rw [EmitVertex_even_odd, right_side_trivial g px py (cell px py bx.1 bx.2 bY.1 bY.2),
      left_side_trivial g px py
        (fun hp => cell (px - 1) py (by omega) (by omega) bY.1 bY.2),
      average_sides_none]
    norm_num
  · rw [EmitVertex_odd_even, bottom_side_trivial g px py (cell px py bx.1 bx.2 bY.1 bY.2),
      top_side_trivial g px py
        (fun hp => cell px (py - 1) bx.1 bx.2 (by omega) (by omega)),
      average_sides_none]
    norm_num
  · rw [EmitVertex_odd_odd,
      interior_vertex_trivial g px py _ _ (cell px py bx.1 bx.2 bY.1 bY.2)]

theorem Analyze_trivial (g : Gray2Vec_Grid)
    (hs : ∀ x y : Int, 0 ≤ x → x < g.m_img_s.width → 0 ≤ y → y < g.m_img_s.height →
      g.m_img_s.pix x y = 0 ∨ g.m_img_s.pix x y = 255) :
    (∀ x y : Int, 0 ≤ x → x < g.m_img_s.width → 0 ≤ y → y < g.m_img_s.height →
      (Analyze g).m_img_n.pix x y = g.m_img_s.pix x y) ∧
    trivial_codes (Analyze g) := by
  have hS : (Analyze g).m_img_s = g.m_img_s := (Analyze_fold _ g).2.1
  have key : ∀ x y : Int, 0 ≤ x → x < g.m_img_s.width → 0 ≤ y → y < g.m_img_s.height →
      (Analyze g).m_img_n.pix x y = g.m_img_s.pix x y := by
    intro x y hx hxw hy hyh
    rw [Analyze_pix g x y ⟨hx, hxw⟩ ⟨hy, hyh⟩]
    unfold Analyze_at
    rcases hs x y hx hxw hy hyh with e | e
    · rw [e, Analyze_cell_zero]
    · rw [e, Analyze_cell_full]
  refine ⟨key, ?_⟩
  intro x y hx hxw hy hyh
  rw [hS] at hxw hyh
  rw [key x y hx hxw hy hyh]
  exact hs x y hx hxw hy hyh

theorem trivialGrid_coverage (x y : Int) (hx : 0 ≤ x) (hxw : x < trivialGrid.m_img_s.width)
    (hy : 0 ≤ y) (hyh : y < trivialGrid.m_img_s.height) :
    trivialGrid.m_img_s.pix x y = 0 ∨ trivialGrid.m_img_s.pix x y = 255 := by
  have hw : (trivialGrid.m_img_s.width : Int) = 2 := rfl
  have hh : (trivialGrid.m_img_s.height : Int) = 2 := rfl
  rw [hw] at hxw
  rw [hh] at hyh
  interval_cases x <;> interval_cases y <;> decide

/-! ## Fraction tuning, blending and vertex placement: claims -/

/-- C21: in the correction-scalar branch of `TuneFractions` (a cell with a non-trivial code,
for which `pixel_error` has a value `e`, with `max_error > 0` and `|e| > max_error*255`) the iteration writes only `f3` of the
cell: the rasters of `f1` and `f2`, of the codes, of the coverage and of the fine samples
are the same afterwards, and `f3` of every other cell is unchanged. -/
theorem C21_correction_writes_only_f3 (max_error : ℚ) (g : Gray2Vec_Grid) (c : Int × Int)
    (e : ℚ) (he : pixel_error g c.1 c.2 false = some e) (hme : max_error > 0)
    (herr : |e| > max_error * 255) :
    (TuneFractions_step max_error g c).m_img_f1 = g.m_img_f1 ∧
    (TuneFractions_step max_error g c).m_img_f2 = g.m_img_f2 ∧
    (TuneFractions_step max_error g c).m_img_n = g.m_img_n ∧
    (TuneFractions_step max_error g c).m_img_s = g.m_img_s ∧
    (TuneFractions_step max_error g c).m_img = g.m_img ∧
    ∀ p : Int × Int, p ≠ c →
      (TuneFractions_step max_error g c).m_img_f3.pix p.1 p.2 = g.m_img_f3.pix p.1 p.2 := by
  obtain ⟨k1, k2, k3, k4⟩ := TuneFractions_step_frame max_error g c
  have hb : max_error > 0 ∧ |(pixel_error g c.1 c.2 false).getD 0| > max_error * 255 := by
    rw [he]
    exact ⟨hme, herr⟩
  have key : (TuneFractions_step max_error g c).m_img_f1 = g.m_img_f1 ∧
      (TuneFractions_step max_error g c).m_img_f2 = g.m_img_f2 := by
    unfold TuneFractions_step
    simp only
    split_ifs
    · exact put_fractions_keep g c.1 c.2 _ (TuneFractions_corner_on _ _ _ _ _ _ hb).1
        (TuneFractions_corner_on _ _ _ _ _ _ hb).2
    · exact put_fractions_keep g c.1 c.2 _ (TuneFractions_side_on _ _ _ _ _ _ hb).1
        (TuneFractions_side_on _ _ _ _ _ _ hb).2
    · exact put_fractions_keep g c.1 c.2 _ (TuneFractions_large_on _ _ _ _ _ _ hb).1
        (TuneFractions_large_on _ _ _ _ _ _ hb).2
    · exact ⟨rfl, rfl⟩
  exact ⟨key.1, key.2, k1, k2, k3, fun p hp => (k4 p hp).2.2⟩

/-- C21 witness: for the corner cell of `skewCornerCell` the error is -1040/51, beyond the
tolerance 1/100, and the iteration leaves the rasters of `f1` and `f2` as they are. -/
theorem C21_correction_writes_only_f3_witness :
    (pixel_error skewCornerCell 0 0 false = some (-1040 / 51) ∧ (1 / 100 : ℚ) > 0 ∧
      |(-1040 / 51 : ℚ)| > 1 / 100 * 255) ∧
    (TuneFractions_step (1 / 100) skewCornerCell (0, 0)).m_img_f1 = skewCornerCell.m_img_f1 ∧
    (TuneFractions_step (1 / 100) skewCornerCell (0, 0)).m_img_f2 = skewCornerCell.m_img_f2 :=
  ⟨⟨pixel_error_skewCornerCell, by norm_num, by rw [abs_of_neg (by norm_num)]; norm_num⟩,
    (C21_correction_writes_only_f3 (1 / 100) skewCornerCell (0, 0) (-1040 / 51)
      pixel_error_skewCornerCell (by norm_num)
      (by rw [abs_of_neg (by norm_num)]; norm_num)).1,
    (C21_correction_writes_only_f3 (1 / 100) skewCornerCell (0, 0) (-1040 / 51)
      pixel_error_skewCornerCell (by norm_num)
      (by rw [abs_of_neg (by norm_num)]; norm_num)).2.1⟩

/-- C22 (as stated, refuted): for the small-corner cell of `skewCornerCell` (code 1, coverage
40, `f1 = f2 = 100`) and the tolerance 1/100, `TuneFractions` stores `f3 = 520`, which is
above 255. -/
theorem C22_counterexample :
    skewCornerCell.m_img_n.pix 0 0 = 1 ∧ skewCornerCell.m_img_s.pix 0 0 = 40 ∧
    skewCornerCell.m_img_f1.pix 0 0 = 100 ∧ skewCornerCell.m_img_f2.pix 0 0 = 100 ∧
    (TuneFractions_step (1 / 100) skewCornerCell (0, 0)).m_img_f3.pix 0 0 = 520 := by
  have e0 : skewCornerCell.m_img_n.pix 0 0 = 1 := by decide
  have e1 : skewCornerCell.m_img_f1.pix 0 0 = 100 := by decide
  have e2 : skewCornerCell.m_img_f2.pix 0 0 = 100 := by decide
  have e3 : skewCornerCell.m_img_s.pix 0 0 = 40 := by decide
  refine ⟨e0, e3, e1, e2, ?_⟩
  rw [TuneFractions_step_corner _ _ _ (by decide)]
  rw [(put_fractions_at _ _ _ _).2.2]
  simp only [pixel_error_skewCornerCell, e1, e2, e3, Option.getD_some]
  unfold TuneFractions_corner
  rw [if_pos ⟨by norm_num, by rw [abs_of_neg (by norm_num)]; norm_num⟩]
  simp only
  have hv : ⌊(if max (100 : Int) 100 = 0 then
      max (if (100 : Int) * 100 > 0 then (((40 * 255 : Int) : ℚ)) / (1 / 2 * ((100 : Int) : ℚ) * ((100 : Int) : ℚ)) else 1) 0
      else min (max (if (100 : Int) * 100 > 0 then (((40 * 255 : Int) : ℚ)) / (1 / 2 * ((100 : Int) : ℚ) * ((100 : Int) : ℚ)) else 1) 0)
        (255 / ((max (100 : Int) 100 : Int) : ℚ))) * 255⌋ = 520 := by
    rw [Int.floor_eq_iff]
    norm_num
  rw [hv]
  decide

/-- C22 (amended): whatever the tolerance, the value `TuneFractions` stores in `f3` of a cell
is -1 or a non-negative integer that is at most 255 for a side code; for a small-corner code
with `f1`, `f2 >= 0`, not both 1, it is at most 32512 and satisfies
`f3 * max(f1,f2) <= 255*255` (the scaled fractions `f1*f3/255`, `f2*f3/255` stay within
0..255), and likewise for a large-corner code with `f1`, `f2 <= 255`, not both 254, and
`255 - f1`, `255 - f2` in place of `f1`, `f2`.  It can exceed 255 for corner codes. -/
theorem C22_f3_range (max_error : ℚ) (g : Gray2Vec_Grid) (c : Int × Int)
    (hf1 : 0 ≤ g.m_img_f1.pix c.1 c.2 ∧ g.m_img_f1.pix c.1 c.2 ≤ 255)
    (hf2 : 0 ≤ g.m_img_f2.pix c.1 c.2 ∧ g.m_img_f2.pix c.1 c.2 ≤ 255) :
    (g.m_img_n.pix c.1 c.2 ∈ ([2, 4, 6, 8] : List Int) →
      (TuneFractions_step max_error g c).m_img_f3.pix c.1 c.2 = -1 ∨
      (0 ≤ (TuneFractions_step max_error g c).m_img_f3.pix c.1 c.2 ∧
        (TuneFractions_step max_error g c).m_img_f3.pix c.1 c.2 ≤ 255)) ∧
    (g.m_img_n.pix c.1 c.2 ∈ ([1, 3, 5, 7] : List Int) →
      ¬ (g.m_img_f1.pix c.1 c.2 = 1 ∧ g.m_img_f2.pix c.1 c.2 = 1) →
      (TuneFractions_step max_error g c).m_img_f3.pix c.1 c.2 = -1 ∨
      (0 ≤ (TuneFractions_step max_error g c).m_img_f3.pix c.1 c.2 ∧
        (TuneFractions_step max_error g c).m_img_f3.pix c.1 c.2 ≤ 32512 ∧
        (TuneFractions_step max_error g c).m_img_f3.pix c.1 c.2
          * max (g.m_img_f1.pix c.1 c.2) (g.m_img_f2.pix c.1 c.2) ≤ 255 * 255)) ∧
    (g.m_img_n.pix c.1 c.2 ∈ ([11, 13, 15, 17] : List Int) →
      ¬ (g.m_img_f1.pix c.1 c.2 = 254 ∧ g.m_img_f2.pix c.1 c.2 = 254) →
      (TuneFractions_step max_error g c).m_img_f3.pix c.1 c.2 = -1 ∨
      (0 ≤ (TuneFractions_step max_error g c).m_img_f3.pix c.1 c.2 ∧
        (TuneFractions_step max_error g c).m_img_f3.pix c.1 c.2 ≤ 32512 ∧
        (TuneFractions_step max_error g c).m_img_f3.pix c.1 c.2
          * max (255 - g.m_img_f1.pix c.1 c.2) (255 - g.m_img_f2.pix c.1 c.2)
          ≤ 255 * 255)) := by
  refine ⟨fun hn => ?_, fun hn hne => ?_, fun hn hne => ?_⟩
  · rw [TuneFractions_step_side _ _ _ hn, (put_fractions_at _ _ _ _).2.2]
    exact TuneFractions_side_f3 _ _ _ _ _ _
  · rw [TuneFractions_step_corner _ _ _ hn, (put_fractions_at _ _ _ _).2.2]
    exact TuneFractions_corner_f3 _ _ _ _ _ _ hf1.1 hf2.1 hne
  · rw [TuneFractions_step_large _ _ _ hn, (put_fractions_at _ _ _ _).2.2]
    exact TuneFractions_large_f3 _ _ _ _ _ _ hf1.2 hf2.2 hne

/-- C22 witness: the corner cell of `skewCornerCell` has fractions in range, not both 1. -/
theorem C22_f3_range_witness :
    ((0 ≤ skewCornerCell.m_img_f1.pix 0 0 ∧ skewCornerCell.m_img_f1.pix 0 0 ≤ 255) ∧
      (0 ≤ skewCornerCell.m_img_f2.pix 0 0 ∧ skewCornerCell.m_img_f2.pix 0 0 ≤ 255)) ∧
    ((TuneFractions_step (1 / 100) skewCornerCell (0, 0)).m_img_f3.pix 0 0 = -1 ∨
      (0 ≤ (TuneFractions_step (1 / 100) skewCornerCell (0, 0)).m_img_f3.pix 0 0 ∧
        (TuneFractions_step (1 / 100) skewCornerCell (0, 0)).m_img_f3.pix 0 0 ≤ 32512 ∧
        (TuneFractions_step (1 / 100) skewCornerCell (0, 0)).m_img_f3.pix 0 0
          * max (skewCornerCell.m_img_f1.pix 0 0) (skewCornerCell.m_img_f2.pix 0 0)
          ≤ 255 * 255)) :=
  ⟨⟨by decide, by decide⟩,
    (C22_f3_range (1 / 100) skewCornerCell (0, 0) (by decide) (by decide)).2.1 (by decide)
      (by decide)⟩

/-- C23: when the tolerance branch is not taken for a cell with a non-trivial code (whose
`pixel_error` is `e`), coverage and fractions in 0..255: if `sides_connected` returns 1,
`TuneFractions` keeps `f1`, sets `f3 = -1` and sets `f2` to the solution of the class area
formula for the coverage with `f1` held fixed (`2c - f1` for a side code, `510c/f1` for a
small-corner code, `255 - 510(255-c)/(255-f1)` for a large-corner code), clamped into
[0,255] and made an integer (`OneSideSolved`); that value does solve `spec_area`; and for a
side cell whose solution lies in [0,255] the resulting `pixel_error` is 0.  If
`sides_connected` returns 2 the same holds with `f1` and `f2` exchanged. -/
theorem C23_one_side_solved (max_error : ℚ) (g : Gray2Vec_Grid) (c : Int × Int) (e : ℚ)
    (he : pixel_error g c.1 c.2 false = some e)
    (hb : ¬ (max_error > 0 ∧ |e| > max_error * 255))
    (hs : 0 ≤ g.m_img_s.pix c.1 c.2 ∧ g.m_img_s.pix c.1 c.2 ≤ 255)
    (hf1 : 0 ≤ g.m_img_f1.pix c.1 c.2 ∧ g.m_img_f1.pix c.1 c.2 ≤ 255)
    (hf2 : 0 ≤ g.m_img_f2.pix c.1 c.2 ∧ g.m_img_f2.pix c.1 c.2 ≤ 255) :
    (sides_connected g c.1 c.2 = 1 →
      (TuneFractions_step max_error g c).m_img_f1.pix c.1 c.2 = g.m_img_f1.pix c.1 c.2 ∧
      (TuneFractions_step max_error g c).m_img_f3.pix c.1 c.2 = -1 ∧
      OneSideSolved (g.m_img_n.pix c.1 c.2) (g.m_img_s.pix c.1 c.2) (g.m_img_f1.pix c.1 c.2)
        ((TuneFractions_step max_error g c).m_img_f2.pix c.1 c.2) ∧
      (∀ x : ℚ, spec_solved (g.m_img_n.pix c.1 c.2) (g.m_img_s.pix c.1 c.2)
          (g.m_img_f1.pix c.1 c.2) = some x →
        spec_area (g.m_img_n.pix c.1 c.2) (g.m_img_f1.pix c.1 c.2 : ℚ) x
          = (g.m_img_s.pix c.1 c.2 : ℚ)) ∧
      (g.m_img_n.pix c.1 c.2 ∈ ([2, 4, 6, 8] : List Int) →
        0 ≤ 2 * g.m_img_s.pix c.1 c.2 - g.m_img_f1.pix c.1 c.2 →
        2 * g.m_img_s.pix c.1 c.2 - g.m_img_f1.pix c.1 c.2 ≤ 255 →
        pixel_error (TuneFractions_step max_error g c) c.1 c.2 false = some 0)) ∧
    (sides_connected g c.1 c.2 = 2 →
      (TuneFractions_step max_error g c).m_img_f2.pix c.1 c.2 = g.m_img_f2.pix c.1 c.2 ∧
      (TuneFractions_step max_error g c).m_img_f3.pix c.1 c.2 = -1 ∧
      OneSideSolved (g.m_img_n.pix c.1 c.2) (g.m_img_s.pix c.1 c.2) (g.m_img_f2.pix c.1 c.2)
        ((TuneFractions_step max_error g c).m_img_f1.pix c.1 c.2) ∧
      (∀ x : ℚ, spec_solved (g.m_img_n.pix c.1 c.2) (g.m_img_s.pix c.1 c.2)
          (g.m_img_f2.pix c.1 c.2) = some x →
        spec_area (g.m_img_n.pix c.1 c.2) x (g.m_img_f2.pix c.1 c.2 : ℚ)
          = (g.m_img_s.pix c.1 c.2 : ℚ)) ∧
      (g.m_img_n.pix c.1 c.2 ∈ ([2, 4, 6, 8] : List Int) →
        0 ≤ 2 * g.m_img_s.pix c.1 c.2 - g.m_img_f2.pix c.1 c.2 →
        2 * g.m_img_s.pix c.1 c.2 - g.m_img_f2.pix c.1 c.2 ≤ 255 →
        pixel_error (TuneFractions_step max_error g c) c.1 c.2 false = some 0)) := by
  obtain ⟨k1, k2, -, -⟩ := TuneFractions_step_frame max_error g c
  constructor
  · intro hsc
    obtain ⟨a1, a2, a3⟩ := TuneFractions_step_one max_error g c e he hb hs hf1 hsc
    refine ⟨a1, a2, a3, fun x hx => (spec_solved_first _ _ _ x hx).1, fun hn h0 h255 => ?_⟩
    have hv := OneSideSolved_side_exact _ _ _ _ hn a3 h0 h255
    exact side_error_zero g _ c.1 c.2 _ _ hn k1 k2 a1 hv (by ring)
  · intro hsc
    obtain ⟨a1, a2, a3⟩ := TuneFractions_step_two max_error g c e he hb hs hf2 hsc
    refine ⟨a1, a2, a3, fun x hx => (spec_solved_first _ _ _ x hx).2, fun hn h0 h255 => ?_⟩
    have hv := OneSideSolved_side_exact _ _ _ _ hn a3 h0 h255
    exact side_error_zero g _ c.1 c.2 _ _ hn k1 k2 hv a1 (by ring)

/-- C23 witness: the side cell (0,0) of `sideRow` (coverage 128, `f1 = 100`, `f2 = 150`) has
its first side connected; with the default tolerance -1 the iteration keeps `f1` and the
resulting `pixel_error` is 0. -/
theorem C23_one_side_solved_witness :
    (pixel_error sideRow 0 0 false = some (-3) ∧ sides_connected sideRow 0 0 = 1 ∧
      sideRow.m_img_n.pix 0 0 ∈ ([2, 4, 6, 8] : List Int)) ∧
    (TuneFractions_step (-1) sideRow (0, 0)).m_img_f1.pix 0 0 = sideRow.m_img_f1.pix 0 0 ∧
    pixel_error (TuneFractions_step (-1) sideRow (0, 0)) 0 0 false = some 0 :=
  ⟨⟨pixel_error_sideRow, by decide, by decide⟩,
    ((C23_one_side_solved (-1) sideRow (0, 0) (-3) pixel_error_sideRow
      (fun h => absurd h.1 (by norm_num)) (by decide) (by decide) (by decide)).1
      (by decide)).1,
    ((C23_one_side_solved (-1) sideRow (0, 0) (-3) pixel_error_sideRow
      (fun h => absurd h.1 (by norm_num)) (by decide) (by decide) (by decide)).1
      (by decide)).2.2.2.2 (by decide) (by decide) (by decide)⟩

/-- C25 (as stated, refuted): the side cell of `settledSideCell` (code 2, coverage 128,
`f1 = f2 = 128`) has no connected side; with the tolerance disabled neither the first nor
the second application of the tuning step changes `f1`, so the second change (0) is not
strictly less than the first (0). -/
theorem C25_counterexample :
    settledSideCell.m_img_n.pix 0 0 = 2 ∧ sides_connected settledSideCell 0 0 = 0 ∧
    (TuneFractions_step (-1) settledSideCell (0, 0)).m_img_f1.pix 0 0
      = settledSideCell.m_img_f1.pix 0 0 ∧
    (TuneFractions_step (-1) (TuneFractions_step (-1) settledSideCell (0, 0)) (0, 0)).m_img_f1.pix
      0 0 = (TuneFractions_step (-1) settledSideCell (0, 0)).m_img_f1.pix 0 0 ∧
    ¬ (|(TuneFractions_step (-1) (TuneFractions_step (-1) settledSideCell (0, 0))
          (0, 0)).m_img_f1.pix 0 0
        - (TuneFractions_step (-1) settledSideCell (0, 0)).m_img_f1.pix 0 0|
      < |(TuneFractions_step (-1) settledSideCell (0, 0)).m_img_f1.pix 0 0
        - settledSideCell.m_img_f1.pix 0 0|) := by
  have hsc : sides_connected settledSideCell 0 0 = 0 := by decide
  have hn : settledSideCell.m_img_n.pix 0 0 ∈ nontrivial := by decide
  have h1 := (TuneFractions_step_none (-1) (by norm_num) settledSideCell (0, 0) hn hsc).1
  have h2 := (TuneFractions_step_none_twice (-1) (by norm_num) settledSideCell (0, 0) hn hsc).1
  have e1 : class_init (settledSideCell.m_img_n.pix 0 0) (settledSideCell.m_img_s.pix 0 0)
      = settledSideCell.m_img_f1.pix 0 0 := by decide
  simp only at h1 h2
  rw [e1] at h1
  refine ⟨by decide, hsc, h1, h2, ?_⟩
  rw [h2, h1]
  simp

/-- C25 (amended): for a cell with a non-trivial code and no connected side
(`sides_connected = 0`), the tuning step with the tolerance disabled (`max_error <= 0`) sets
`f1` and `f2` to the class initializer of the code and coverage, so a second application
changes neither of them: the second change is 0, and it is strictly less than the first
change exactly when the first application changed the fraction.  The value computed lies in
0..255 for a side code with coverage in 0..255, for a small-corner code with coverage in
0..128 and for a large-corner code with coverage in 127..255. -/
theorem C25_recompute_is_idempotent (max_error : ℚ) (hme : max_error ≤ 0)
    (g : Gray2Vec_Grid) (c : Int × Int) (hn : g.m_img_n.pix c.1 c.2 ∈ nontrivial)
    (hsc : sides_connected g c.1 c.2 = 0) :
    ((TuneFractions_step max_error g c).m_img_f1.pix c.1 c.2
        = class_init (g.m_img_n.pix c.1 c.2) (g.m_img_s.pix c.1 c.2) ∧
      (TuneFractions_step max_error g c).m_img_f2.pix c.1 c.2
        = class_init (g.m_img_n.pix c.1 c.2) (g.m_img_s.pix c.1 c.2)) ∧
    ((TuneFractions_step max_error (TuneFractions_step max_error g c) c).m_img_f1.pix c.1 c.2
        = (TuneFractions_step max_error g c).m_img_f1.pix c.1 c.2 ∧
      (TuneFractions_step max_error (TuneFractions_step max_error g c) c).m_img_f2.pix c.1 c.2
        = (TuneFractions_step max_error g c).m_img_f2.pix c.1 c.2) ∧
    ((|(TuneFractions_step max_error (TuneFractions_step max_error g c) c).m_img_f1.pix c.1 c.2
          - (TuneFractions_step max_error g c).m_img_f1.pix c.1 c.2|
        < |(TuneFractions_step max_error g c).m_img_f1.pix c.1 c.2 - g.m_img_f1.pix c.1 c.2|)
      ↔ (TuneFractions_step max_error g c).m_img_f1.pix c.1 c.2 ≠ g.m_img_f1.pix c.1 c.2) ∧
    ((|(TuneFractions_step max_error (TuneFractions_step max_error g c) c).m_img_f2.pix c.1 c.2
          - (TuneFractions_step max_error g c).m_img_f2.pix c.1 c.2|
        < |(TuneFractions_step max_error g c).m_img_f2.pix c.1 c.2 - g.m_img_f2.pix c.1 c.2|)
      ↔ (TuneFractions_step max_error g c).m_img_f2.pix c.1 c.2 ≠ g.m_img_f2.pix c.1 c.2) ∧
    (g.m_img_n.pix c.1 c.2 ∈ ([2, 4, 6, 8] : List Int) →
      class_init (g.m_img_n.pix c.1 c.2) (g.m_img_s.pix c.1 c.2) = g.m_img_s.pix c.1 c.2) ∧
    (g.m_img_n.pix c.1 c.2 ∈ ([1, 3, 5, 7] : List Int) →
      0 ≤ g.m_img_s.pix c.1 c.2 → g.m_img_s.pix c.1 c.2 ≤ 128 →
      class_init (g.m_img_n.pix c.1 c.2) (g.m_img_s.pix c.1 c.2)
          = corner_init (g.m_img_s.pix c.1 c.2) ∧
        0 ≤ corner_init (g.m_img_s.pix c.1 c.2) ∧ corner_init (g.m_img_s.pix c.1 c.2) ≤ 255) ∧
    (g.m_img_n.pix c.1 c.2 ∈ ([11, 13, 15, 17] : List Int) →
      127 ≤ g.m_img_s.pix c.1 c.2 → g.m_img_s.pix c.1 c.2 ≤ 255 →
      class_init (g.m_img_n.pix c.1 c.2) (g.m_img_s.pix c.1 c.2)
          = large_init (g.m_img_s.pix c.1 c.2) ∧
        0 ≤ large_init (g.m_img_s.pix c.1 c.2) ∧ large_init (g.m_img_s.pix c.1 c.2) ≤ 255) := by
  obtain ⟨a1, a2⟩ := TuneFractions_step_none max_error hme g c hn hsc
  obtain ⟨b1, b2⟩ := TuneFractions_step_none_twice max_error hme g c hn hsc
  refine ⟨⟨a1, a2⟩, ⟨b1, b2⟩, ?_, ?_, fun h => class_init_side _ _ h, fun h h0 h128 => ?_,
    fun h h127 h255 => ?_⟩
  · rw [b1, sub_self, abs_zero, abs_pos, sub_ne_zero]
  · rw [b2, sub_self, abs_zero, abs_pos, sub_ne_zero]
  · obtain ⟨k0, -, -⟩ := corner_init_spec _ h0
    have kle := corner_init_le _ h0 h128
    exact ⟨by rw [class_init_corner _ _ h, to_uchar_of_range _ k0 kle], k0, kle⟩
  · obtain ⟨v0, v1, -⟩ := large_init_spec _ h127 h255
    exact ⟨by rw [class_init_large _ _ h, to_uchar_of_range _ v0 v1], v0, v1⟩

/-- C25 witness: the corner cell of `skewCornerCell` has no connected side; with the default
tolerance -1 the second application of the tuning step leaves `f1` as the first one set
it. -/
theorem C25_recompute_is_idempotent_witness :
    ((-1 : ℚ) ≤ 0 ∧ skewCornerCell.m_img_n.pix 0 0 ∈ nontrivial ∧
      sides_connected skewCornerCell 0 0 = 0) ∧
    (TuneFractions_step (-1) (TuneFractions_step (-1) skewCornerCell (0, 0)) (0, 0)).m_img_f1.pix
      0 0 = (TuneFractions_step (-1) skewCornerCell (0, 0)).m_img_f1.pix 0 0 :=
  ⟨⟨by norm_num, by decide, by decide⟩,
    (C25_recompute_is_idempotent (-1) (by norm_num) skewCornerCell (0, 0) (by decide)
      (by decide)).2.1.1⟩

/-- C26: one blending step of `FractionsNeighborsAdj` on a cell `p` and one of its four
neighbours `n`.  If `share_sides` is 11, 12, 21 or 22 the two shared-edge fraction values
`a` (of `p`: `f1` for 11 and 12, `f2` for 21 and 22) and `b` (of `n`: `f1` for 11 and 21,
`f2` for 12 and 22) are replaced by `(a + avg) div 2` and `(b + avg) div 2` with
`avg = (a + b) div 2`, and every other fraction value is kept; if it is 0 the grid is
unchanged; codes, coverage and correction scalars are never changed.  For all integers `a`,
`b` the new values lie between `min a b` and `max a b`, their distance is strictly smaller
when `a` and `b` differ, and they are `a` and `b` when `a = b`. -/
theorem C26_blending_step (g : Gray2Vec_Grid) (p n : Int × Int) (hpn : n ∈ neighbours4 p) :
    (share_sides g p.1 p.2 n.1 n.2 = 11 →
      (FractionsNeighborsAdj_pair g p n).m_img_f1.pix p.1 p.2
          = blend (g.m_img_f1.pix p.1 p.2) (blend_avg (g.m_img_f1.pix p.1 p.2) (g.m_img_f1.pix n.1 n.2)) ∧
      (FractionsNeighborsAdj_pair g p n).m_img_f1.pix n.1 n.2
          = blend (g.m_img_f1.pix n.1 n.2) (blend_avg (g.m_img_f1.pix p.1 p.2) (g.m_img_f1.pix n.1 n.2)) ∧
      (FractionsNeighborsAdj_pair g p n).m_img_f2 = g.m_img_f2 ∧
      (∀ q : Int × Int, q ≠ p → q ≠ n →
          (FractionsNeighborsAdj_pair g p n).m_img_f1.pix q.1 q.2 = g.m_img_f1.pix q.1 q.2)) ∧
    (share_sides g p.1 p.2 n.1 n.2 = 12 →
      (FractionsNeighborsAdj_pair g p n).m_img_f1.pix p.1 p.2
          = blend (g.m_img_f1.pix p.1 p.2) (blend_avg (g.m_img_f1.pix p.1 p.2) (g.m_img_f2.pix n.1 n.2)) ∧
      (FractionsNeighborsAdj_pair g p n).m_img_f2.pix n.1 n.2
          = blend (g.m_img_f2.pix n.1 n.2) (blend_avg (g.m_img_f1.pix p.1 p.2) (g.m_img_f2.pix n.1 n.2)) ∧
      (∀ q : Int × Int, q ≠ p →
          (FractionsNeighborsAdj_pair g p n).m_img_f1.pix q.1 q.2 = g.m_img_f1.pix q.1 q.2) ∧
      (∀ q : Int × Int, q ≠ n →
          (FractionsNeighborsAdj_pair g p n).m_img_f2.pix q.1 q.2 = g.m_img_f2.pix q.1 q.2)) ∧
    (share_sides g p.1 p.2 n.1 n.2 = 21 →
      (FractionsNeighborsAdj_pair g p n).m_img_f2.pix p.1 p.2
          = blend (g.m_img_f2.pix p.1 p.2) (blend_avg (g.m_img_f2.pix p.1 p.2) (g.m_img_f1.pix n.1 n.2)) ∧
      (FractionsNeighborsAdj_pair g p n).m_img_f1.pix n.1 n.2
          = blend (g.m_img_f1.pix n.1 n.2) (blend_avg (g.m_img_f2.pix p.1 p.2) (g.m_img_f1.pix n.1 n.2)) ∧
      (∀ q : Int × Int, q ≠ p →
          (FractionsNeighborsAdj_pair g p n).m_img_f2.pix q.1 q.2 = g.m_img_f2.pix q.1 q.2) ∧
      (∀ q : Int × Int, q ≠ n →
          (FractionsNeighborsAdj_pair g p n).m_img_f1.pix q.1 q.2 = g.m_img_f1.pix q.1 q.2)) ∧
    (share_sides g p.1 p.2 n.1 n.2 = 22 →
      (FractionsNeighborsAdj_pair g p n).m_img_f2.pix p.1 p.2
          = blend (g.m_img_f2.pix p.1 p.2) (blend_avg (g.m_img_f2.pix p.1 p.2) (g.m_img_f2.pix n.1 n.2)) ∧
      (FractionsNeighborsAdj_pair g p n).m_img_f2.pix n.1 n.2
          = blend (g.m_img_f2.pix n.1 n.2) (blend_avg (g.m_img_f2.pix p.1 p.2) (g.m_img_f2.pix n.1 n.2)) ∧
      (FractionsNeighborsAdj_pair g p n).m_img_f1 = g.m_img_f1 ∧
      (∀ q : Int × Int, q ≠ p → q ≠ n →
          (FractionsNeighborsAdj_pair g p n).m_img_f2.pix q.1 q.2 = g.m_img_f2.pix q.1 q.2)) ∧
    (share_sides g p.1 p.2 n.1 n.2 = 0 → FractionsNeighborsAdj_pair g p n = g) ∧
    ((FractionsNeighborsAdj_pair g p n).m_img_n = g.m_img_n ∧
      (FractionsNeighborsAdj_pair g p n).m_img_s = g.m_img_s ∧
      (FractionsNeighborsAdj_pair g p n).m_img_f3 = g.m_img_f3 ∧
      (FractionsNeighborsAdj_pair g p n).m_img = g.m_img) ∧
    (∀ a b : Int,
      blend_avg a b = (a + b) / 2 ∧ blend a (blend_avg a b) = (a + (a + b) / 2) / 2 ∧
      blend b (blend_avg a b) = (b + (a + b) / 2) / 2 ∧
      min a b ≤ blend a (blend_avg a b) ∧ blend a (blend_avg a b) ≤ max a b ∧
      min a b ≤ blend b (blend_avg a b) ∧ blend b (blend_avg a b) ≤ max a b ∧
      (a ≠ b → |blend a (blend_avg a b) - blend b (blend_avg a b)| < |a - b|) ∧
      (a = b → blend a (blend_avg a b) = a ∧ blend b (blend_avg a b) = b)) :=
  ⟨fun h => FractionsNeighborsAdj_pair_11 g p n hpn h,
    fun h => FractionsNeighborsAdj_pair_12 g p n hpn h,
    fun h => FractionsNeighborsAdj_pair_21 g p n hpn h,
    fun h => FractionsNeighborsAdj_pair_22 g p n hpn h,
    fun h => FractionsNeighborsAdj_pair_zero g p n h,
    FractionsNeighborsAdj_pair_frame g p n,
    fun a b => ⟨rfl, rfl, rfl, blend_contracts a b⟩⟩

/-- C26 witness: the cells (0,0) and (1,0) of `sideRow` share a side (`share_sides = 12`);
the step replaces `f1 = 100` of the first by 92 and `f2 = 70` of the second by 77. -/
theorem C26_blending_step_witness :
    (((1 : Int), (0 : Int)) ∈ neighbours4 (0, 0) ∧ share_sides sideRow 0 0 1 0 = 12) ∧
    (FractionsNeighborsAdj_pair sideRow (0, 0) (1, 0)).m_img_f1.pix 0 0 = 92 ∧
    (FractionsNeighborsAdj_pair sideRow (0, 0) (1, 0)).m_img_f2.pix 1 0 = 77 :=
  ⟨⟨by decide, by decide⟩,
    ((C26_blending_step sideRow (0, 0) (1, 0) (by decide)).2.1 (by decide)).1.trans
      (by decide),
    ((C26_blending_step sideRow (0, 0) (1, 0) (by decide)).2.1 (by decide)).2.1.trans
      (by decide)⟩

/-- Round trip on trivial grids, inside the grid. When every in-grid coverage value is 0 or
255, `Analyze` gives each cell the code equal to its coverage, so the analysed grid carries
only the trivial codes 0 and 255; and on every grid `h` carrying only trivial codes,
`InitFractions` (from arbitrary uninitialised raster contents `u1 u2 u3`) keeps the codes and
coverages and gives every cell `f1 = f2 = 0`, `f3 = -1`, each of `NeighborsAdjust`,
`ResolveConflicts`, `NeighborsAdjust2`, `TuneFractions` (for every tolerance) and
`FractionsNeighborsAdj` returns the grid unchanged, and vertex placement emits every vertex
`(x, y)` with `x < 2W` and `y < 2H`, whose cell lookups fall inside the grid, at its integer
fine coordinates. -/
theorem trivial_round_trip (g : Gray2Vec_Grid)
    (hs : ∀ x y : Int, 0 ≤ x → x < g.m_img_s.width → 0 ≤ y → y < g.m_img_s.height →
      g.m_img_s.pix x y = 0 ∨ g.m_img_s.pix x y = 255) :
    (∀ x y : Int, 0 ≤ x → x < g.m_img_s.width → 0 ≤ y → y < g.m_img_s.height →
      (Analyze g).m_img_n.pix x y = g.m_img_s.pix x y) ∧
    trivial_codes (Analyze g) ∧
    ∀ h : Gray2Vec_Grid, trivial_codes h →
      (∀ u1 u2 u3 : Int → Int → Int,
        (InitFractions u1 u2 u3 h).m_img_n = h.m_img_n ∧
        (InitFractions u1 u2 u3 h).m_img_s = h.m_img_s ∧
        ∀ x y : Int, 0 ≤ x → x < h.m_img_s.width → 0 ≤ y → y < h.m_img_s.height →
          (InitFractions u1 u2 u3 h).m_img_f1.pix x y = 0 ∧
          (InitFractions u1 u2 u3 h).m_img_f2.pix x y = 0 ∧
          (InitFractions u1 u2 u3 h).m_img_f3.pix x y = -1) ∧
      NeighborsAdjust h = h ∧ ResolveConflicts h = h ∧ NeighborsAdjust2 h = h ∧
      (∀ max_error : ℚ, TuneFractions max_error h = h) ∧
      FractionsNeighborsAdj h = h ∧
      ∀ x y : Int, 0 ≤ x → x < 2 * h.m_img_s.width → 0 ≤ y → y < 2 * h.m_img_s.height →
        EmitVertex h x y = some ((x : ℚ), (y : ℚ)) :=
  ⟨(Analyze_trivial g hs).1, (Analyze_trivial g hs).2, fun h ht =>
    ⟨fun u1 u2 u3 => InitFractions_trivial u1 u2 u3 h ht,
      NeighborsAdjust_trivial h ht, ResolveConflicts_trivial h ht,
      NeighborsAdjust2_trivial h ht, fun me => TuneFractions_trivial me h ht,
      FractionsNeighborsAdj_trivial h ht, EmitVertex_trivial h ht⟩⟩

/-- C29: the ring vertex `(2px+1, 2py+1)`, the interior point of the cell `(px,py)`, is
omitted from the emitted ring when the cell has a non-trivial code (any of the twelve) and
`f3 < 0`, and it is emitted when `f3 >= 0`. -/
theorem C29_interior_vertex_needs_f3 (g : Gray2Vec_Grid) (px py : Int)
    (hn : g.m_img_n.pix px py ∈ nontrivial) :
    (g.m_img_f3.pix px py < 0 → EmitVertex g (px * 2 + 1) (py * 2 + 1) = none) ∧
    (g.m_img_f3.pix px py ≥ 0 → ∃ q, EmitVertex g (px * 2 + 1) (py * 2 + 1) = some q) := by
  rw [EmitVertex_odd_odd]
  exact ⟨fun h => interior_vertex_unset g px py _ _ hn h,
    fun h => interior_vertex_set g px py _ _ h⟩

/-- C29 witness: the interior vertex (1,1) of the corner cell of `skewCornerCell`, whose
`f3` is -1, is omitted. -/
theorem C29_interior_vertex_needs_f3_witness :
    (skewCornerCell.m_img_n.pix 0 0 ∈ nontrivial ∧ skewCornerCell.m_img_f3.pix 0 0 < 0) ∧
    EmitVertex skewCornerCell (0 * 2 + 1) (0 * 2 + 1) = none :=
  ⟨⟨by decide, by decide⟩,
    (C29_interior_vertex_needs_f3 skewCornerCell 0 0 (by decide)).1 (by decide)⟩

/-- C30 (failing input): for the large-corner cell of `largeCornerCell` (code 11,
`f1 = f2 = 100`, `f3 = 200`) the interior vertex (1,1) is emitted at (1,1), the cell centre,
with no displacement, whereas for the small-corner cell of `correctedCornerCell` (code 1,
same fractions) it is displaced by `2*100*200/255^2 - 1` in both coordinates. -/
theorem C30_large_corner_not_displaced :
    (largeCornerCell.m_img_n.pix 0 0 = 11 ∧ largeCornerCell.m_img_f3.pix 0 0 = 200 ∧
      EmitVertex largeCornerCell (0 * 2 + 1) (0 * 2 + 1) = some (1, 1)) ∧
    (correctedCornerCell.m_img_n.pix 0 0 = 1 ∧ correctedCornerCell.m_img_f3.pix 0 0 = 200 ∧
      EmitVertex correctedCornerCell (0 * 2 + 1) (0 * 2 + 1)
        = some (1 + (2 * (100 * 200) / (255 * 255) - 1),
            1 + (2 * (100 * 200) / (255 * 255) - 1))) := by
  refine ⟨⟨by decide, by decide, ?_⟩, ⟨by decide, by decide, ?_⟩⟩
  · rw [EmitVertex_odd_odd, interior_vertex_large _ _ _ _ _ (by decide) (by decide)]
    norm_num
  · have e0 : correctedCornerCell.m_img_n.pix 0 0 = 1 := by decide
    have e1 : correctedCornerCell.m_img_f1.pix 0 0 = 100 := by decide
    have e2 : correctedCornerCell.m_img_f2.pix 0 0 = 100 := by decide
    have e3 : correctedCornerCell.m_img_f3.pix 0 0 = 200 := by decide
    rw [EmitVertex_odd_odd]
    unfold interior_vertex
    simp only [e0, e1, e2, e3]
    norm_num

/-! ## Rings, sides and bands: lemmas -/

theorem Vectorize_block_code (s n : Int) (hs0 : s ≠ 0) (hs255 : s ≠ 255) :
    Vectorize_block s n = Vectorize_block 1 n := by
  have e0 : ¬ ((1 : Int) = 0) := by decide
  have e255 : ¬ ((1 : Int) = 255) := by decide
  unfold Vectorize_block
  rw [if_neg hs0, if_neg hs255, if_neg e0, if_neg e255]

theorem share_sides_in_grid (g : Gray2Vec_Grid) (p q : Int × Int) (hp : in_grid g p)
    (hq : in_grid g q) :
    share_sides g p.1 p.2 q.1 q.2
      = if ((move_dir p (side1 (g.m_img_n.pix p.1 p.2))).1 = q.1 ∧
            (move_dir p (side1 (g.m_img_n.pix p.1 p.2))).2 = q.2) ∧
           ((move_dir q (side1 (g.m_img_n.pix q.1 q.2))).1 = p.1 ∧
            (move_dir q (side1 (g.m_img_n.pix q.1 q.2))).2 = p.2) then 11
        else if ((move_dir p (side1 (g.m_img_n.pix p.1 p.2))).1 = q.1 ∧
            (move_dir p (side1 (g.m_img_n.pix p.1 p.2))).2 = q.2) ∧
           ((move_dir q (side2 (g.m_img_n.pix q.1 q.2))).1 = p.1 ∧
            (move_dir q (side2 (g.m_img_n.pix q.1 q.2))).2 = p.2) then 12
        else if ((move_dir p (side2 (g.m_img_n.pix p.1 p.2))).1 = q.1 ∧
            (move_dir p (side2 (g.m_img_n.pix p.1 p.2))).2 = q.2) ∧
           ((move_dir q (side1 (g.m_img_n.pix q.1 q.2))).1 = p.1 ∧
            (move_dir q (side1 (g.m_img_n.pix q.1 q.2))).2 = p.2) then 21
        else if ((move_dir p (side2 (g.m_img_n.pix p.1 p.2))).1 = q.1 ∧
            (move_dir p (side2 (g.m_img_n.pix p.1 p.2))).2 = q.2) ∧
           ((move_dir q (side2 (g.m_img_n.pix q.1 q.2))).1 = p.1 ∧
            (move_dir q (side2 (g.m_img_n.pix q.1 q.2))).2 = p.2) then 22
        else 0 := by
  obtain ⟨h1, h2, h3, h4⟩ := hp
  obtain ⟨k1, k2, k3, k4⟩ := hq
  unfold share_sides
  rw [if_neg (not_lt.2 h1), if_neg (not_lt.2 h3), if_neg (not_lt.2 k1), if_neg (not_lt.2 k3),
    if_neg (not_le.2 h2), if_neg (not_le.2 h4), if_neg (not_le.2 k2), if_neg (not_le.2 k4)]
  simp only [and_assoc]

theorem share_sides_out (g : Gray2Vec_Grid) (p q : Int × Int)
    (h : ¬ in_grid g p ∨ ¬ in_grid g q) : share_sides g p.1 p.2 q.1 q.2 = 0 := by
  unfold share_sides
  by_cases a1 : p.1 < 0
  · rw [if_pos a1]
  rw [if_neg a1]
  by_cases a2 : p.2 < 0
  · rw [if_pos a2]
  rw [if_neg a2]
  by_cases a3 : q.1 < 0
  · rw [if_pos a3]
  rw [if_neg a3]
  by_cases a4 : q.2 < 0
  · rw [if_pos a4]
  rw [if_neg a4]
  by_cases a5 : p.1 ≥ g.m_img_n.width
  · rw [if_pos a5]
  rw [if_neg a5]
  by_cases a6 : p.2 ≥ g.m_img_n.height
  · rw [if_pos a6]
  rw [if_neg a6]
  by_cases a7 : q.1 ≥ g.m_img_n.width
  · rw [if_pos a7]
  rw [if_neg a7]
  by_cases a8 : q.2 ≥ g.m_img_n.height
  · rw [if_pos a8]
  exfalso
  unfold in_grid at h
  rcases h with h | h <;> apply h <;> refine ⟨?_, ?_, ?_, ?_⟩ <;> omega

theorem share_sides_swap (g : Gray2Vec_Grid) (p q : Int × Int) :
    (share_sides g p.1 p.2 q.1 q.2 = 11 ↔ share_sides g q.1 q.2 p.1 p.2 = 11) ∧
    (share_sides g p.1 p.2 q.1 q.2 = 12 ↔ share_sides g q.1 q.2 p.1 p.2 = 21) ∧
    (share_sides g p.1 p.2 q.1 q.2 = 21 ↔ share_sides g q.1 q.2 p.1 p.2 = 12) ∧
    (share_sides g p.1 p.2 q.1 q.2 = 22 ↔ share_sides g q.1 q.2 p.1 p.2 = 22) ∧
    (share_sides g p.1 p.2 q.1 q.2 = 0 ↔ share_sides g q.1 q.2 p.1 p.2 = 0) ∧
    share_sides g p.1 p.2 q.1 q.2 ∈ ([0, 11, 12, 21, 22] : List Int) := by
  by_cases hg : in_grid g p ∧ in_grid g q
  · rw [share_sides_in_grid g p q hg.1 hg.2, share_sides_in_grid g q p hg.2 hg.1]
    by_cases hA1 : ((move_dir p (side1 (g.m_img_n.pix p.1 p.2))).1 = q.1 ∧
            (move_dir p (side1 (g.m_img_n.pix p.1 p.2))).2 = q.2) <;>
    by_cases hA2 : ((move_dir p (side2 (g.m_img_n.pix p.1 p.2))).1 = q.1 ∧
            (move_dir p (side2 (g.m_img_n.pix p.1 p.2))).2 = q.2) <;>
    by_cases hB1 : ((move_dir q (side1 (g.m_img_n.pix q.1 q.2))).1 = p.1 ∧
            (move_dir q (side1 (g.m_img_n.pix q.1 q.2))).2 = p.2) <;>
    by_cases hB2 : ((move_dir q (side2 (g.m_img_n.pix q.1 q.2))).1 = p.1 ∧
            (move_dir q (side2 (g.m_img_n.pix q.1 q.2))).2 = p.2) <;>
    simp [hA1, hA2, hB1, hB2]
  · have h1 : ¬ in_grid g p ∨ ¬ in_grid g q := by tauto
    have h2 : ¬ in_grid g q ∨ ¬ in_grid g p := by tauto
    rw [share_sides_out g p q h1, share_sides_out g q p h2]
    decide

theorem EmitVertex_fullCell : EmitVertex fullCell 2 1 = some ((2 : ℚ), (1 : ℚ)) := by
  have e := EmitVertex_even_odd fullCell 1 0
  have r : right_side fullCell 1 0 = -1 := by
    simp [right_side, fullCell, gridF, rasterOf]
  have l : left_side fullCell 1 0 = -1 := by
    simp [left_side, fullCell, gridF, rasterOf]
  rw [r, l, average_sides_none] at e
  have e2 : EmitVertex _ 2 1 = _ := e
  rw [e2]
  norm_num

theorem EmitVertex_fullCellBeyond :
    EmitVertex fullCellBeyond 2 1 = some ((2 : ℚ), (40 / 51 : ℚ)) := by
  have e := EmitVertex_even_odd fullCellBeyond 1 0
  have r : right_side fullCellBeyond 1 0 = 100 := by
    simp [right_side, fullCellBeyond, gridF, rasterOf]
  have l : left_side fullCellBeyond 1 0 = -1 := by
    simp [left_side, fullCellBeyond, gridF, rasterOf]
  rw [r, l, average_sides_left _ (by norm_num)] at e
  have e2 : EmitVertex _ 2 1 = _ := e
  rw [e2]
  norm_num

theorem corrected_area_1 (g : Gray2Vec_Grid) (px py : Int)
    (hk : g.m_img_n.pix px py = 1)
    (hf1 : 0 ≤ g.m_img_f1.pix px py ∧ g.m_img_f1.pix px py ≤ 255)
    (hf2 : 0 ≤ g.m_img_f2.pix px py ∧ g.m_img_f2.pix px py ≤ 255)
    (hf3 : 0 ≤ g.m_img_f3.pix px py)
    (hN : top_side g px py = -1) (hW : left_side g px py = -1) :
    polygon_area (placed_region g px py) / 4
      = (g.m_img_f1.pix px py : ℚ) * (g.m_img_f2.pix px py : ℚ) * (g.m_img_f3.pix px py : ℚ)
          / (255 * 255 * 255) := by
  have q1 : (0 : ℚ) ≤ (g.m_img_f1.pix px py : ℚ) := by exact_mod_cast hf1.1
  have q2 : (0 : ℚ) ≤ (g.m_img_f2.pix px py : ℚ) := by exact_mod_cast hf2.1
  have q3 : (0 : ℚ) ≤ (g.m_img_f3.pix px py : ℚ) := by exact_mod_cast hf3
  have p3 : g.m_img_f3.pix px py ≥ 0 := hf3
  have iv : ∀ fx fy, interior_vertex g px py fx fy
      = some (fx + (2 * ((g.m_img_f1.pix px py : ℚ) * (g.m_img_f3.pix px py : ℚ))
              / (255 * 255) - 1),
          fy + (2 * ((g.m_img_f2.pix px py : ℚ) * (g.m_img_f3.pix px py : ℚ))
              / (255 * 255) - 1)) := by
    intro fx fy; simp [interior_vertex, hk, p3]
  have ownR : right_side g px py = (g.m_img_f2.pix px py : ℚ) := by
    simp [right_side, hk]
  have ownB : bottom_side g px py = (g.m_img_f1.pix px py : ℚ) := by
    simp [bottom_side, hk]
  simp only [placed_region, hk, spec_region, Int.reduceEq, if_true, if_false,
    List.filterMap_cons, List.filterMap_nil,
    EmitVertex_even_even, EmitVertex_odd_even, EmitVertex_even_odd, EmitVertex_odd_odd,
    ownR, ownB, hN, hW, iv]
  generalize (g.m_img_f1.pix px py : ℚ) = F1 at *
  generalize (g.m_img_f2.pix px py : ℚ) = F2 at *
  generalize (g.m_img_f3.pix px py : ℚ) = F3 at *
  simp only [average_sides_left _ q1, average_sides_left _ q2,
    polygon_area, shoelace_chain, List.cons_append, List.nil_append]
  push_cast
  have h : ∀ a : ℚ, a = 8 * (F1 * F2 * F3) / (255 * 255 * 255) → 0 ≤ a := fun a ha =>
    ha ▸ div_nonneg (mul_nonneg (by norm_num) (mul_nonneg (mul_nonneg q1 q2) q3))
      (by norm_num)
  rw [abs_of_nonneg]
  · ring
  · apply h
    ring

theorem corrected_area_2 (g : Gray2Vec_Grid) (px py : Int) (hpx : 0 ≤ px)
    (hk : g.m_img_n.pix px py = 2)
    (hf1 : 0 ≤ g.m_img_f1.pix px py ∧ g.m_img_f1.pix px py ≤ 255)
    (hf2 : 0 ≤ g.m_img_f2.pix px py ∧ g.m_img_f2.pix px py ≤ 255)
    (hf3 : 0 ≤ g.m_img_f3.pix px py)
    (hN : top_side g px py = -1) (hW : left_side g px py = -1)
    (hE : right_side g (px + 1) py = -1) :
    polygon_area (placed_region g px py) / 4
      = (2 * (g.m_img_f3.pix px py : ℚ) + (g.m_img_f1.pix px py : ℚ)
          + (g.m_img_f2.pix px py : ℚ)) / (4 * 255) := by
  have q1 : (0 : ℚ) ≤ (g.m_img_f1.pix px py : ℚ) := by exact_mod_cast hf1.1
  have q2 : (0 : ℚ) ≤ (g.m_img_f2.pix px py : ℚ) := by exact_mod_cast hf2.1
  have q3 : (0 : ℚ) ≤ (g.m_img_f3.pix px py : ℚ) := by exact_mod_cast hf3
  have p3 : g.m_img_f3.pix px py ≥ 0 := hf3
  have e1 : px + 1 - 1 = px := by omega
  have g1 : px + 1 > 0 := by omega
  have iv : ∀ fx fy, interior_vertex g px py fx fy
      = some (fx, fy + (2 * (g.m_img_f3.pix px py : ℚ) / 255 - 1)) := by
    intro fx fy; simp [interior_vertex, hk, p3]
  have ownR : right_side g px py = (g.m_img_f2.pix px py : ℚ) := by
    simp [right_side, hk]
  have ownB : bottom_side g px py = -1 := by
    simp [bottom_side, hk]
  have ownL : left_side g (px + 1) py = (g.m_img_f1.pix px py : ℚ) := by
    simp [left_side, hk, e1, g1]
  simp only [placed_region, hk, spec_region, Int.reduceEq, if_true, if_false,
    List.filterMap_cons, List.filterMap_nil,
    EmitVertex_even_even, EmitVertex_odd_even, EmitVertex_even_odd, EmitVertex_odd_odd,
    ownR, ownB, ownL, hN, hW, hE, iv]
  generalize (g.m_img_f1.pix px py : ℚ) = F1 at *
  generalize (g.m_img_f2.pix px py : ℚ) = F2 at *
  generalize (g.m_img_f3.pix px py : ℚ) = F3 at *
  simp only [average_sides_left _ q1, average_sides_left _ q2, average_sides_right _ q1,
    average_sides_right _ q2, average_sides_none,
    polygon_area, shoelace_chain, List.cons_append, List.nil_append]
  push_cast
  have h : ∀ a : ℚ, a = 2 * (2 * F3 + F1 + F2) / 255 → 0 ≤ a := fun a ha =>
    ha ▸ div_nonneg (mul_nonneg (by norm_num) (by linarith)) (by norm_num)
  rw [abs_of_nonneg]
  · ring
  · apply h
    ring

theorem pixel_error_adjust_1 (g : Gray2Vec_Grid) (px py : Int)
    (hk : g.m_img_n.pix px py = 1) :
    pixel_error g px py true
      = some (1 / 2 * (g.m_img_f1.pix px py : ℚ) * (g.m_img_f2.pix px py : ℚ)
          * (g.m_img_f3.pix px py : ℚ) / (255 * 255) - (g.m_img_s.pix px py : ℚ)) := by
  simp [pixel_error, hk]

theorem pixel_error_adjust_2 (g : Gray2Vec_Grid) (px py : Int)
    (hk : g.m_img_n.pix px py = 2) :
    pixel_error g px py true
      = some ((2 * (g.m_img_f3.pix px py : ℚ) + (g.m_img_f1.pix px py : ℚ)
          + (g.m_img_f2.pix px py : ℚ)) * (1 / 4) - (g.m_img_s.pix px py : ℚ)) := by
  simp [pixel_error, hk]

theorem band_of_corner (k v : Int) (hk : k ∈ ([1, 3, 5, 7] : List Int))
    (hv : v ∈ ([1, 2, 3, 4, 5, 6, 7, 8] : List Int)) (s : Int) (h : coverage_band k s) :
    coverage_band v s := by
  have hr := h.1 hk
  simp only [List.mem_cons, List.mem_singleton, List.not_mem_nil, or_false] at hv
  unfold coverage_band
  simp only [List.mem_cons, List.mem_singleton, List.not_mem_nil, or_false]
  refine ⟨fun _ => ?_, fun _ => ?_, fun hl => ?_⟩ <;> omega

theorem band_of_side (k v : Int) (hk : k ∈ ([2, 4, 6, 8] : List Int))
    (hv : v ∈ ([2, 4, 6, 8] : List Int)) (s : Int) (h : coverage_band k s) :
    coverage_band v s := by
  have hr := h.2.1 hk
  simp only [List.mem_cons, List.mem_singleton, List.not_mem_nil, or_false] at hv
  unfold coverage_band
  simp only [List.mem_cons, List.mem_singleton, List.not_mem_nil, or_false]
  refine ⟨fun _ => ?_, fun _ => ?_, fun hl => ?_⟩ <;> omega

theorem band_of_large (k v : Int) (hk : k ∈ ([11, 13, 15, 17] : List Int))
    (hv : v ∈ ([2, 4, 6, 8, 11, 13, 15, 17] : List Int)) (s : Int) (h : coverage_band k s) :
    coverage_band v s := by
  have hr := h.2.2 hk
  simp only [List.mem_cons, List.mem_singleton, List.not_mem_nil, or_false] at hv
  unfold coverage_band
  simp only [List.mem_cons, List.mem_singleton, List.not_mem_nil, or_false]
  refine ⟨fun _ => ?_, fun _ => ?_, fun hl => ?_⟩ <;> omega

theorem mem_sub (v : Int) (l m : List Int) (hs : ∀ a ∈ l, a ∈ m) (hv : v ∈ l) : v ∈ m :=
  hs v hv

theorem NeighborsAdjust_sweep1_band (g : Gray2Vec_Grid) (x y : Int) (s : Int)
    (h : coverage_band (g.m_img_n.pix x y) s) :
    coverage_band (NeighborsAdjust_sweep1 g x y) s :=
  NeighborsAdjust_sweep1_cases (fun n v => ∀ s, coverage_band n s → coverage_band v s)
    (fun _ _ h => h)
    (fun v hv => band_of_corner 1 v (by decide) (mem_sub v _ _ (by decide) hv))
    (fun v hv => band_of_corner 3 v (by decide) (mem_sub v _ _ (by decide) hv))
    (fun v hv => band_of_corner 5 v (by decide) (mem_sub v _ _ (by decide) hv))
    (fun v hv => band_of_corner 7 v (by decide) (mem_sub v _ _ (by decide) hv))
    g x y s h

theorem NeighborsAdjust_sweep2_band (g : Gray2Vec_Grid) (x y : Int) (s : Int)
    (h : coverage_band (g.m_img_n.pix x y) s) :
    coverage_band (NeighborsAdjust_sweep2 g x y) s :=
  NeighborsAdjust_sweep2_cases (fun n v => ∀ s, coverage_band n s → coverage_band v s)
    (fun _ _ h => h)
    (fun v hv => band_of_corner 1 v (by decide) (mem_sub v _ _ (by decide) hv))
    (fun v hv => band_of_corner 3 v (by decide) (mem_sub v _ _ (by decide) hv))
    (fun v hv => band_of_corner 5 v (by decide) (mem_sub v _ _ (by decide) hv))
    (fun v hv => band_of_corner 7 v (by decide) (mem_sub v _ _ (by decide) hv))
    (fun v hv => band_of_large 11 v (by decide) (mem_sub v _ _ (by decide) hv))
    (fun v hv => band_of_large 13 v (by decide) (mem_sub v _ _ (by decide) hv))
    (fun v hv => band_of_large 15 v (by decide) (mem_sub v _ _ (by decide) hv))
    (fun v hv => band_of_large 17 v (by decide) (mem_sub v _ _ (by decide) hv))
    g x y s h

theorem ResolveConflicts_sweep1_band (g : Gray2Vec_Grid) (x y : Int) (s : Int)
    (h : coverage_band (g.m_img_n.pix x y) s) :
    coverage_band (ResolveConflicts_sweep1 g x y) s :=
  ResolveConflicts_sweep1_cases (fun n v => ∀ s, coverage_band n s → coverage_band v s)
    (fun _ _ h => h)
    (fun v hv => band_of_corner 1 v (by decide) (mem_sub v _ _ (by decide) hv))
    (fun v hv => band_of_corner 3 v (by decide) (mem_sub v _ _ (by decide) hv))
    (fun v hv => band_of_corner 5 v (by decide) (mem_sub v _ _ (by decide) hv))
    (fun v hv => band_of_corner 7 v (by decide) (mem_sub v _ _ (by decide) hv))
    (fun v hv => band_of_large 15 v (by decide) (mem_sub v _ _ (by decide) hv))
    (fun v hv => band_of_large 17 v (by decide) (mem_sub v _ _ (by decide) hv))
    (fun v hv => band_of_large 11 v (by decide) (mem_sub v _ _ (by decide) hv))
    (fun v hv => band_of_large 13 v (by decide) (mem_sub v _ _ (by decide) hv))
    (fun v hv => band_of_side 2 v (by decide) (mem_sub v _ _ (by decide) hv))
    (fun v hv => band_of_side 6 v (by decide) (mem_sub v _ _ (by decide) hv))
    (fun v hv => band_of_side 4 v (by decide) (mem_sub v _ _ (by decide) hv))
    (fun v hv => band_of_side 8 v (by decide) (mem_sub v _ _ (by decide) hv))
    g x y s h

theorem ResolveConflicts_sweep2_band (g : Gray2Vec_Grid) (x y : Int) (s : Int)
    (h : coverage_band (g.m_img_n.pix x y) s) :
    coverage_band (ResolveConflicts_sweep2 g x y) s :=
  ResolveConflicts_sweep2_cases (fun n v => ∀ s, coverage_band n s → coverage_band v s)
    (fun _ _ h => h)
    (fun v hv => band_of_corner 1 v (by decide) (mem_sub v _ _ (by decide) hv))
    (fun v hv => band_of_corner 3 v (by decide) (mem_sub v _ _ (by decide) hv))
    (fun v hv => band_of_corner 5 v (by decide) (mem_sub v _ _ (by decide) hv))
    (fun v hv => band_of_corner 7 v (by decide) (mem_sub v _ _ (by decide) hv))
    (fun v hv => band_of_large 15 v (by decide) (mem_sub v _ _ (by decide) hv))
    (fun v hv => band_of_large 17 v (by decide) (mem_sub v _ _ (by decide) hv))
    (fun v hv => band_of_large 11 v (by decide) (mem_sub v _ _ (by decide) hv))
    (fun v hv => band_of_large 13 v (by decide) (mem_sub v _ _ (by decide) hv))
    (fun v hv => band_of_side 2 v (by decide) (mem_sub v _ _ (by decide) hv))
    (fun v hv => band_of_side 6 v (by decide) (mem_sub v _ _ (by decide) hv))
    (fun v hv => band_of_side 4 v (by decide) (mem_sub v _ _ (by decide) hv))
    (fun v hv => band_of_side 8 v (by decide) (mem_sub v _ _ (by decide) hv))
    g x y s h

theorem band_of_Reassigned (r : Prop) (old new : Cell)
    (h : Reassigned r (fun o v => coverage_band o.n o.s → coverage_band v o.s) old new)
    (hb : coverage_band old.n old.s) : new.s = old.s ∧ coverage_band new.n new.s := by
  obtain ⟨h1, h2, -⟩ := h
  exact ⟨h1, h1 ▸ h2 hb⟩

theorem NeighborsAdjust_band (g : Gray2Vec_Grid) (p : Int × Int)
    (hb : coverage_band (g.m_img_n.pix p.1 p.2) (g.m_img_s.pix p.1 p.2)) :
    (NeighborsAdjust g).m_img_s = g.m_img_s ∧
    coverage_band ((NeighborsAdjust g).m_img_n.pix p.1 p.2) (g.m_img_s.pix p.1 p.2) := by
  obtain ⟨a1, a2⟩ := NeighborsAdjust_sweep_view NeighborsAdjust_sweep1
    (fun o v => coverage_band o.n o.s → coverage_band v o.s)
    (fun g x y => NeighborsAdjust_sweep1_band g x y _) (fun _ h => h) g p
  obtain ⟨b1, b2⟩ := NeighborsAdjust_sweep_view NeighborsAdjust_sweep2
    (fun o v => coverage_band o.n o.s → coverage_band v o.s)
    (fun g x y => NeighborsAdjust_sweep2_band g x y _) (fun _ h => h)
    ((forXY g.m_img_s).foldl (NeighborsAdjust_step NeighborsAdjust_sweep1) g) p
  obtain ⟨c1, c2⟩ := band_of_Reassigned _ _ _ a2 hb
  obtain ⟨d1, d2⟩ := band_of_Reassigned _ _ _ b2 c2
  refine ⟨b1.trans a1, ?_⟩
  have e : (cell_view (NeighborsAdjust g) p).s = g.m_img_s.pix p.1 p.2 := d1.trans c1
  have d3 : coverage_band (cell_view (NeighborsAdjust g) p).n (cell_view (NeighborsAdjust g) p).s := d2
  rw [e] at d3
  exact d3

theorem ResolveConflicts_band (g : Gray2Vec_Grid) (p : Int × Int)
    (hb : coverage_band (g.m_img_n.pix p.1 p.2) (g.m_img_s.pix p.1 p.2)) :
    (ResolveConflicts g).m_img_s = g.m_img_s ∧
    coverage_band ((ResolveConflicts g).m_img_n.pix p.1 p.2) (g.m_img_s.pix p.1 p.2) := by
  obtain ⟨-, a1, a2⟩ := ResolveConflicts_sweep_view ResolveConflicts_sweep1
    (fun o v => coverage_band o.n o.s → coverage_band v o.s)
    (fun g x y => ResolveConflicts_sweep1_band g x y _) (fun _ h => h) g 0 p
  rw [← ResolveConflicts_first_eq] at a1 a2
  obtain ⟨-, b1, b2⟩ := ResolveConflicts_sweep_view ResolveConflicts_sweep2
    (fun o v => coverage_band o.n o.s → coverage_band v o.s)
    (fun g x y => ResolveConflicts_sweep2_band g x y _) (fun _ h => h)
    (ResolveConflicts_first g) 0 p
  rw [← ResolveConflicts_eq_second] at b1 b2
  obtain ⟨c1, c2⟩ := band_of_Reassigned _ _ _ a2 hb
  obtain ⟨d1, d2⟩ := band_of_Reassigned _ _ _ b2 c2
  refine ⟨b1.trans a1, ?_⟩
  have e : (cell_view (ResolveConflicts g) p).s = g.m_img_s.pix p.1 p.2 := d1.trans c1
  have d3 : coverage_band (cell_view (ResolveConflicts g) p).n
      (cell_view (ResolveConflicts g) p).s := d2
  rw [e] at d3
  exact d3

theorem Analyze_band (g : Gray2Vec_Grid) (x y : Int)
    (hx : 0 ≤ x ∧ x < g.m_img_s.width) (hy : 0 ≤ y ∧ y < g.m_img_s.height)
    (hs : 0 ≤ g.m_img_s.pix x y ∧ g.m_img_s.pix x y ≤ 255) :
    coverage_band ((Analyze g).m_img_n.pix x y) (g.m_img_s.pix x y) := by
  rw [Analyze_pix g x y hx hy]
  unfold Analyze_at
  generalize g.m_img_s.pix x y = s at hs ⊢
  by_cases h0 : s = 0
  · subst h0; rw [Analyze_cell_zero]; unfold coverage_band; simp
  by_cases h255 : s = 255
  · subst h255; rw [Analyze_cell_full]; unfold coverage_band; simp
  by_cases hA : s < 85
  · rw [Analyze_cell_small s _ _ _ _ h0 hA]
    unfold coverage_band
    split_ifs <;> simp <;> omega
  by_cases hB : 170 < s
  · rw [Analyze_cell_big s _ _ _ _ h255 hB]
    unfold coverage_band
    split_ifs <;> simp <;> omega
  · rw [Analyze_cell_medium s _ _ _ _ (by omega) (by omega)]
    unfold coverage_band
    split_ifs <;> simp <;> omega

theorem InitFractions_view (u1 u2 u3 : Int → Int → Int) (g : Gray2Vec_Grid) :
    (InitFractions u1 u2 u3 g).m_img_n = g.m_img_n ∧
    (InitFractions u1 u2 u3 g).m_img_s = g.m_img_s ∧
    ∀ x y : Int, 0 ≤ x → x < g.m_img_s.width → 0 ≤ y → y < g.m_img_s.height →
      (InitFractions u1 u2 u3 g).m_img_f1.pix x y
        = class_init (g.m_img_n.pix x y) (g.m_img_s.pix x y) ∧
      (InitFractions u1 u2 u3 g).m_img_f2.pix x y
        = class_init (g.m_img_n.pix x y) (g.m_img_s.pix x y) ∧
      (InitFractions u1 u2 u3 g).m_img_f3.pix x y = -1 := by
  unfold InitFractions
  simp only
  have key := fold_local (fun (st : Gray2Vec_Grid) q => cell_view st q)
    (fun old new => new.f1 = class_init old.n old.s ∧ new.f2 = class_init old.n old.s ∧
      new.f3 = -1)
    (fun st => st.m_img_n = g.m_img_n ∧ st.m_img_s = g.m_img_s)
    (fun st c => (set_fraction st c.1 c.2).1)
    (fun st c hi => ⟨(set_fraction_rasters st c.1 c.2).1.trans hi.1,
      (set_fraction_rasters st c.1 c.2).2.1.trans hi.2⟩)
    (fun st c q hne => set_fraction_view_ne st c.1 c.2 q (by simpa using hne))
    (fun st c _ => by
      have hv := set_fraction_view st c.1 c.2
      simp only [Prod.mk.eta] at hv
      show (cell_view (set_fraction st c.1 c.2).1 c).f1
          = class_init (st.m_img_n.pix c.1 c.2) (st.m_img_s.pix c.1 c.2) ∧
        (cell_view (set_fraction st c.1 c.2).1 c).f2
          = class_init (st.m_img_n.pix c.1 c.2) (st.m_img_s.pix c.1 c.2) ∧
        (cell_view (set_fraction st c.1 c.2).1 c).f3 = -1
      rw [hv]
      exact ⟨rfl, rfl, rfl⟩)
    (forXY g.m_img_s) (forXY_nodup _)
    { g with
      m_img_f1 := ⟨g.m_img.width / 2, g.m_img.height / 2, u1⟩
      m_img_f2 := ⟨g.m_img.width / 2, g.m_img.height / 2, u2⟩
      m_img_f3 := ⟨g.m_img.width / 2, g.m_img.height / 2, u3⟩ } ⟨rfl, rfl⟩
  refine ⟨key.1.1, key.1.2, fun x y hx hxw hy hyh => ?_⟩
  have hm : (x, y) ∈ forXY g.m_img_s := (mem_forXY _ x y).2 ⟨⟨hx, hxw⟩, ⟨hy, hyh⟩⟩
  exact (key.2 (x, y)).1 hm

theorem corner_init_band (s : Int) (h1 : 1 ≤ s) (h84 : s ≤ 84) :
    22 ≤ corner_init s ∧ corner_init s ≤ 206 := by
  obtain ⟨k0, k1, k2⟩ := corner_init_spec s (by omega)
  constructor
  · by_contra hk
    have hk' : corner_init s + 1 ≤ 22 := by omega
    nlinarith
  · by_contra hk
    have hk' : 207 ≤ corner_init s := by omega
    nlinarith

theorem large_init_band (s : Int) (h171 : 171 ≤ s) (h254 : s ≤ 254) :
    48 ≤ large_init s ∧ large_init s ≤ 232 := by
  obtain ⟨v0, v1, v2, -, v4⟩ := large_init_spec s (by omega) (by omega)
  have v2' := v2 (by omega)
  constructor
  · by_contra hk
    have hk' : large_init s ≤ 47 := by omega
    have v4' := v4 (by omega)
    nlinarith
  · by_contra hk
    have hk' : 233 ≤ large_init s := by omega
    nlinarith

theorem corner_error_small (k s : Int) (k1 : k * k ≤ s * 255 * 2)
    (k2 : s * 255 * 2 < (k + 1) * (k + 1)) (hk : k ≤ 206) :
    |1 / 2 * (k : ℚ) * (k : ℚ) / 255 - (s : ℚ)| < 1 := by
  have q1 : (k : ℚ) * k ≤ s * 255 * 2 := by exact_mod_cast k1
  have q2 : (s : ℚ) * 255 * 2 < ((k : ℚ) + 1) * (k + 1) := by exact_mod_cast k2
  have q3 : (k : ℚ) ≤ 206 := by exact_mod_cast hk
  have e : ((k : ℚ) + 1) * (k + 1) = k * k + 2 * k + 1 := by ring
  rw [e] at q2
  rw [abs_lt]
  constructor <;> linarith

theorem large_error_small (v s : Int) (h48 : 48 ≤ v)
    (k1 : (255 - s) * 255 * 2 ≤ (255 - v) * (255 - v))
    (k2 : (254 - v) * (254 - v) < (255 - s) * 255 * 2) :
    |1 / 2 * (255 - (v : ℚ)) * (255 - (v : ℚ)) / 255 - (255 - (s : ℚ))| < 1 := by
  have q1 : (255 - (s : ℚ)) * 255 * 2 ≤ (255 - v) * (255 - v) := by exact_mod_cast k1
  have q2 : (254 - (v : ℚ)) * (254 - v) < (255 - s) * 255 * 2 := by exact_mod_cast k2
  have q3 : (48 : ℚ) ≤ v := by exact_mod_cast h48
  have e : (254 - (v : ℚ)) * (254 - v) = (255 - v) * (255 - v) - 2 * (255 - v) + 1 := by ring
  rw [e] at q2
  rw [abs_lt]
  constructor <;> linarith

theorem cell_init_in_band (g : Gray2Vec_Grid) (x y : Int)
    (hb : coverage_band (g.m_img_n.pix x y) (g.m_img_s.pix x y))
    (h1 : g.m_img_f1.pix x y = class_init (g.m_img_n.pix x y) (g.m_img_s.pix x y))
    (h2 : g.m_img_f2.pix x y = class_init (g.m_img_n.pix x y) (g.m_img_s.pix x y)) :
    (0 ≤ g.m_img_f1.pix x y ∧ g.m_img_f1.pix x y ≤ 255) ∧
    (g.m_img_n.pix x y ∈ ([1, 3, 5, 7] : List Int) →
      g.m_img_f1.pix x y = corner_init (g.m_img_s.pix x y) ∧
      22 ≤ g.m_img_f1.pix x y ∧ g.m_img_f1.pix x y ≤ 206) ∧
    (g.m_img_n.pix x y ∈ ([2, 4, 6, 8] : List Int) →
      g.m_img_f1.pix x y = g.m_img_s.pix x y) ∧
    (g.m_img_n.pix x y ∈ ([11, 13, 15, 17] : List Int) →
      g.m_img_f1.pix x y = large_init (g.m_img_s.pix x y) ∧
      48 ≤ g.m_img_f1.pix x y ∧ g.m_img_f1.pix x y ≤ 232) ∧
    (g.m_img_n.pix x y ∈ nontrivial →
      ∃ e : ℚ, pixel_error g x y false = some e ∧ |e| < 1) := by
  have hc : g.m_img_n.pix x y ∈ ([1, 3, 5, 7] : List Int) →
      g.m_img_f1.pix x y = corner_init (g.m_img_s.pix x y) ∧
      22 ≤ g.m_img_f1.pix x y ∧ g.m_img_f1.pix x y ≤ 206 := by
    intro hn
    obtain ⟨r1, r2⟩ := hb.1 hn
    obtain ⟨b1, b2⟩ := corner_init_band _ r1 r2
    have e : g.m_img_f1.pix x y = corner_init (g.m_img_s.pix x y) := by
      rw [h1, class_init_corner _ _ hn, to_uchar_of_range _ (by omega) (by omega)]
    rw [e]
    exact ⟨rfl, b1, b2⟩
  have hsd : g.m_img_n.pix x y ∈ ([2, 4, 6, 8] : List Int) →
      g.m_img_f1.pix x y = g.m_img_s.pix x y := by
    intro hn
    rw [h1, class_init_side _ _ hn]
  have hl : g.m_img_n.pix x y ∈ ([11, 13, 15, 17] : List Int) →
      g.m_img_f1.pix x y = large_init (g.m_img_s.pix x y) ∧
      48 ≤ g.m_img_f1.pix x y ∧ g.m_img_f1.pix x y ≤ 232 := by
    intro hn
    obtain ⟨r1, r2⟩ := hb.2.2 hn
    obtain ⟨b1, b2⟩ := large_init_band _ r1 r2
    have e : g.m_img_f1.pix x y = large_init (g.m_img_s.pix x y) := by
      rw [h1, class_init_large _ _ hn, to_uchar_of_range _ (by omega) (by omega)]
    rw [e]
    exact ⟨rfl, b1, b2⟩
  have h12 : g.m_img_f2.pix x y = g.m_img_f1.pix x y := h2.trans h1.symm
  refine ⟨?_, hc, hsd, hl, fun hn => ?_⟩
  · by_cases a : g.m_img_n.pix x y ∈ ([1, 3, 5, 7] : List Int)
    · obtain ⟨-, b1, b2⟩ := hc a
      omega
    by_cases b : g.m_img_n.pix x y ∈ ([2, 4, 6, 8] : List Int)
    · obtain ⟨r1, r2⟩ := hb.2.1 b
      rw [hsd b]
      omega
    by_cases c : g.m_img_n.pix x y ∈ ([11, 13, 15, 17] : List Int)
    · obtain ⟨-, b1, b2⟩ := hl c
      omega
    · have hnt : g.m_img_n.pix x y ∉ nontrivial := by
        simp only [nontrivial, List.mem_cons, List.mem_singleton, List.not_mem_nil,
          or_false] at a b c ⊢
        omega
      rw [h1, class_init_trivial _ _ hnt]
      omega
  · by_cases a : g.m_img_n.pix x y ∈ ([1, 3, 5, 7] : List Int)
    · obtain ⟨e, b1, b2⟩ := hc a
      obtain ⟨r1, r2⟩ := hb.1 a
      obtain ⟨k0, k1, k2⟩ := corner_init_spec (g.m_img_s.pix x y) (by omega)
      refine ⟨_, pixel_error_corner g x y a, ?_⟩
      rw [h12, e]
      exact corner_error_small _ _ k1 k2 (by omega)
    by_cases b : g.m_img_n.pix x y ∈ ([2, 4, 6, 8] : List Int)
    · refine ⟨_, pixel_error_side g x y b, ?_⟩
      rw [h12, hsd b]
      have z : ((g.m_img_s.pix x y : ℚ) + (g.m_img_s.pix x y : ℚ)) * (1 / 2)
          - (g.m_img_s.pix x y : ℚ) = 0 := by ring
      rw [z]
      norm_num
    by_cases c : g.m_img_n.pix x y ∈ ([11, 13, 15, 17] : List Int)
    · obtain ⟨e, b1, b2⟩ := hl c
      obtain ⟨r1, r2⟩ := hb.2.2 c
      obtain ⟨-, -, v2, -, v4⟩ := large_init_spec (g.m_img_s.pix x y) (by omega) (by omega)
      refine ⟨_, pixel_error_large g x y c, ?_⟩
      rw [h12, e]
      rw [e] at b1 b2
      exact large_error_small _ _ b1 (v2 (by omega)) (v4 (by omega))
    · exfalso
      simp only [nontrivial, List.mem_cons, List.mem_singleton, List.not_mem_nil,
        or_false] at a b c hn
      omega

theorem scenarioGrid_coverage (x y : Int) (hx : 0 ≤ x) (hxw : x < scenarioGrid.m_img_s.width)
    (hy : 0 ≤ y) (hyh : y < scenarioGrid.m_img_s.height) :
    0 ≤ scenarioGrid.m_img_s.pix x y ∧ scenarioGrid.m_img_s.pix x y ≤ 255 := by
  have hw : (scenarioGrid.m_img_s.width : Int) = 2 := rfl
  have hh : (scenarioGrid.m_img_s.height : Int) = 2 := rfl
  rw [hw] at hxw
  rw [hh] at hyh
  interval_cases x <;> interval_cases y <;> decide

theorem sides_range (n : Int) :
    side1 n ∈ ([0, 2, 4, 6, 8] : List Int) ∧ side2 n ∈ ([0, 2, 4, 6, 8] : List Int) ∧
    (side1 n = side2 n → side1 n = 0) := by
  by_cases hn : n ∈ nontrivial
  · simp only [nontrivial, List.mem_cons, List.mem_singleton, List.not_mem_nil, or_false] at hn
    rcases hn with rfl | rfl | rfl | rfl | rfl | rfl | rfl | rfl | rfl | rfl | rfl | rfl <;>
      decide
  · rw [side1_trivial n hn, side2_trivial n hn]
    decide

theorem move_dir_inj (p : Int × Int) (k d : Int) (hk : k ∈ ([0, 2, 4, 6, 8] : List Int))
    (hd : d ∈ ([2, 4, 6, 8] : List Int))
    (h : (move_dir p k).1 = (move_dir p d).1 ∧ (move_dir p k).2 = (move_dir p d).2) :
    k = d := by
  simp only [List.mem_cons, List.mem_singleton, List.not_mem_nil, or_false] at hk hd
  rcases hk with rfl | rfl | rfl | rfl | rfl <;> rcases hd with rfl | rfl | rfl | rfl <;>
    simp [move_dir] at h ⊢ <;> omega

theorem share_sides_cases (g : Gray2Vec_Grid) (p n : Int × Int)
    (h0 : share_sides g p.1 p.2 n.1 n.2 ≠ 0) :
    in_grid g p ∧ in_grid g n ∧
    (share_sides g p.1 p.2 n.1 n.2 = 11 →
      ((move_dir p (side1 (g.m_img_n.pix p.1 p.2))).1 = n.1 ∧
        (move_dir p (side1 (g.m_img_n.pix p.1 p.2))).2 = n.2) ∧
      ((move_dir n (side1 (g.m_img_n.pix n.1 n.2))).1 = p.1 ∧
        (move_dir n (side1 (g.m_img_n.pix n.1 n.2))).2 = p.2)) ∧
    (share_sides g p.1 p.2 n.1 n.2 = 12 →
      ((move_dir p (side1 (g.m_img_n.pix p.1 p.2))).1 = n.1 ∧
        (move_dir p (side1 (g.m_img_n.pix p.1 p.2))).2 = n.2) ∧
      ((move_dir n (side2 (g.m_img_n.pix n.1 n.2))).1 = p.1 ∧
        (move_dir n (side2 (g.m_img_n.pix n.1 n.2))).2 = p.2)) ∧
    (share_sides g p.1 p.2 n.1 n.2 = 21 →
      ((move_dir p (side2 (g.m_img_n.pix p.1 p.2))).1 = n.1 ∧
        (move_dir p (side2 (g.m_img_n.pix p.1 p.2))).2 = n.2) ∧
      ((move_dir n (side1 (g.m_img_n.pix n.1 n.2))).1 = p.1 ∧
        (move_dir n (side1 (g.m_img_n.pix n.1 n.2))).2 = p.2)) ∧
    (share_sides g p.1 p.2 n.1 n.2 = 22 →
      ((move_dir p (side2 (g.m_img_n.pix p.1 p.2))).1 = n.1 ∧
        (move_dir p (side2 (g.m_img_n.pix p.1 p.2))).2 = n.2) ∧
      ((move_dir n (side2 (g.m_img_n.pix n.1 n.2))).1 = p.1 ∧
        (move_dir n (side2 (g.m_img_n.pix n.1 n.2))).2 = p.2)) := by
  have hg : in_grid g p ∧ in_grid g n := by
    by_contra hc
    exact h0 (share_sides_out g p n (by tauto))
  refine ⟨hg.1, hg.2, ?_⟩
  rw [share_sides_in_grid g p n hg.1 hg.2]
  refine ⟨fun h => ?_, fun h => ?_, fun h => ?_, fun h => ?_⟩ <;>
    (split_ifs at h with c1 c2 c3 c4 <;> first | exact c1 | exact c2 | exact c3 | exact c4 | omega)

theorem spec_exposed_side1 (k f1 f2 d : Int) (h : side1 k = d) :
    spec_exposed k f1 f2 d
      = some (if d = 2 ∨ d = 4 then (f1 : ℚ) else ((255 - f1 : Int) : ℚ)) := by
  unfold spec_exposed
  rw [if_pos h]

theorem spec_exposed_side2 (k f1 f2 d : Int) (hd : d ∈ ([2, 4, 6, 8] : List Int))
    (h : side2 k = d) :
    spec_exposed k f1 f2 d
      = some (if d = 6 ∨ d = 8 then (f2 : ℚ) else ((255 - f2 : Int) : ℚ)) := by
  have hne : ¬ side1 k = d := by
    intro h1
    have h0 := (sides_range k).2.2 (h1.trans h.symm)
    rw [h1] at h0
    subst h0
    simp at hd
  unfold spec_exposed
  rw [if_neg hne, if_pos h]

theorem gap_12 (d d' : Int) (hd' : d' ∈ ([2, 4, 6, 8] : List Int))
    (hiff : (d = 2 ∨ d = 4) ↔ (d' = 6 ∨ d' = 8)) (np nn a f2p f1n b : Int)
    (h1 : side1 np = d) (h2 : side2 nn = d') :
    |(spec_exposed np a f2p d).getD (-1) - (spec_exposed nn f1n b d').getD (-1)|
      = ((|a - b| : Int) : ℚ) := by
  rw [spec_exposed_side1 _ _ _ _ h1, spec_exposed_side2 _ _ _ _ hd' h2]
  simp only [Option.getD_some]
  by_cases c : d = 2 ∨ d = 4
  · rw [if_pos c, if_pos (hiff.1 c)]
    push_cast
    rfl
  · rw [if_neg c, if_neg (fun h => c (hiff.2 h))]
    push_cast
    rw [← abs_neg]
    congr 1
    ring

theorem gap_21 (d d' : Int) (hd : d ∈ ([2, 4, 6, 8] : List Int))
    (hiff : (d = 6 ∨ d = 8) ↔ (d' = 2 ∨ d' = 4)) (np nn f1p a b f2n : Int)
    (h1 : side2 np = d) (h2 : side1 nn = d') :
    |(spec_exposed np f1p a d).getD (-1) - (spec_exposed nn b f2n d').getD (-1)|
      = ((|a - b| : Int) : ℚ) := by
  rw [spec_exposed_side2 _ _ _ _ hd h1, spec_exposed_side1 _ _ _ _ h2]
  simp only [Option.getD_some]
  by_cases c : d = 6 ∨ d = 8
  · rw [if_pos c, if_pos (hiff.1 c)]
    push_cast
    rfl
  · rw [if_neg c, if_neg (fun h => c (hiff.2 h))]
    push_cast
    rw [← abs_neg]
    congr 1
    ring

theorem gap_11 (d d' : Int)
    (hiff : (d = 2 ∨ d = 4) ↔ (d' = 6 ∨ d' = 8))
    (hd' : d' ∈ ([2, 4, 6, 8] : List Int)) (np nn a f2p b f2n : Int)
    (h1 : side1 np = d) (h2 : side1 nn = d') :
    |(spec_exposed np a f2p d).getD (-1) - (spec_exposed nn b f2n d').getD (-1)|
      = ((|a + b - 255| : Int) : ℚ) := by
  rw [spec_exposed_side1 _ _ _ _ h1, spec_exposed_side1 _ _ _ _ h2]
  simp only [Option.getD_some]
  have hx : ¬ (d' = 2 ∨ d' = 4) ↔ (d' = 6 ∨ d' = 8) := by
    simp only [List.mem_cons, List.mem_singleton, List.not_mem_nil, or_false] at hd'
    omega
  by_cases c : d = 2 ∨ d = 4
  · rw [if_pos c, if_neg (hx.2 (hiff.1 c))]
    push_cast
    congr 1
    ring
  · rw [if_neg c, if_pos (by
      by_contra hc
      exact c (hiff.2 (hx.1 hc)))]
    push_cast
    rw [← abs_neg]
    congr 1
    ring

theorem gap_22 (d d' : Int) (hd : d ∈ ([2, 4, 6, 8] : List Int))
    (hiff : (d = 2 ∨ d = 4) ↔ (d' = 6 ∨ d' = 8))
    (hd' : d' ∈ ([2, 4, 6, 8] : List Int)) (np nn f1p a f1n b : Int)
    (h1 : side2 np = d) (h2 : side2 nn = d') :
    |(spec_exposed np f1p a d).getD (-1) - (spec_exposed nn f1n b d').getD (-1)|
      = ((|a + b - 255| : Int) : ℚ) := by
  rw [spec_exposed_side2 _ _ _ _ hd h1, spec_exposed_side2 _ _ _ _ hd' h2]
  simp only [Option.getD_some]
  have hx : ¬ (d = 6 ∨ d = 8) ↔ (d = 2 ∨ d = 4) := by
    simp only [List.mem_cons, List.mem_singleton, List.not_mem_nil, or_false] at hd
    omega
  by_cases c : d = 6 ∨ d = 8
  · rw [if_pos c, if_neg (fun h => hx.2 (hiff.2 h) c)]
    push_cast
    congr 1
    ring
  · rw [if_neg c, if_pos (hiff.1 (hx.1 c))]
    push_cast
    rw [← abs_neg]
    congr 1
    ring

theorem blend_sum (a b : Int) :
    a + b - 1 ≤ blend a (blend_avg a b) + blend b (blend_avg a b) ∧
    blend a (blend_avg a b) + blend b (blend_avg a b) ≤ a + b := by
  unfold blend blend_avg
  constructor <;> omega

theorem neighbour_dir (p n : Int × Int) (hpn : n ∈ neighbours4 p) :
    ∃ d d' : Int, d ∈ ([2, 4, 6, 8] : List Int) ∧ d' ∈ ([2, 4, 6, 8] : List Int) ∧
      ((d = 2 ∨ d = 4) ↔ (d' = 6 ∨ d' = 8)) ∧ ((d = 6 ∨ d = 8) ↔ (d' = 2 ∨ d' = 4)) ∧
      ((move_dir p d).1 = n.1 ∧ (move_dir p d).2 = n.2) ∧
      ((move_dir n d').1 = p.1 ∧ (move_dir n d').2 = p.2) ∧
      ∀ g : Gray2Vec_Grid, 0 ≤ p.1 → 0 ≤ p.2 → 0 ≤ n.1 → 0 ≤ n.2 →
        shared_edge_gap g p n
          = |(spec_exposed (g.m_img_n.pix p.1 p.2) (g.m_img_f1.pix p.1 p.2)
                (g.m_img_f2.pix p.1 p.2) d).getD (-1)
              - (spec_exposed (g.m_img_n.pix n.1 n.2) (g.m_img_f1.pix n.1 n.2)
                (g.m_img_f2.pix n.1 n.2) d').getD (-1)| := by
  simp only [neighbours4, List.mem_cons, List.mem_singleton, List.not_mem_nil, or_false] at hpn
  rcases hpn with rfl | rfl | rfl | rfl
  · refine ⟨8, 4, by decide, by decide, by decide, by decide,
      by constructor <;> simp [move_dir]; omega,
      by constructor <;> simp [move_dir], fun g h1 h2 h3 h4 => ?_⟩
    have c1 : ¬ ((p.1 + -1, p.2 + 0).1 = p.1 + 1 ∧ (p.1 + -1, p.2 + 0).2 = p.2) := by
      simp only
      omega
    have c2 : (p.1 + -1, p.2 + 0).1 = p.1 - 1 ∧ (p.1 + -1, p.2 + 0).2 = p.2 := by
      simp only
      omega
    have hv : shared_edge_values g p (p.1 + -1, p.2 + 0)
        = (right_side g p.1 p.2, left_side g p.1 p.2) := (if_neg c1).trans (if_pos c2)
    have e1 : p.1 + -1 = p.1 - 1 := by omega
    have e2 : p.2 + 0 = p.2 := by omega
    unfold shared_edge_gap
    rw [hv]
    simp only
    rw [right_side_spec g p.1 p.2 h1 h2, left_side_spec g p.1 p.2 h2,
      spec_exposed_at_nonneg g p.1 p.2 8 h1 h2,
      spec_exposed_at_nonneg g (p.1 - 1) p.2 4 (by omega) h2, e1, e2]
  · refine ⟨2, 6, by decide, by decide, by decide, by decide,
      by constructor <;> simp [move_dir]; omega,
      by constructor <;> simp [move_dir], fun g h1 h2 h3 h4 => ?_⟩
    have c1 : ¬ ((p.1 + 0, p.2 + -1).1 = p.1 + 1 ∧ (p.1 + 0, p.2 + -1).2 = p.2) := by
      simp only
      omega
    have c2 : ¬ ((p.1 + 0, p.2 + -1).1 = p.1 - 1 ∧ (p.1 + 0, p.2 + -1).2 = p.2) := by
      simp only
      omega
    have c3 : ¬ ((p.1 + 0, p.2 + -1).1 = p.1 ∧ (p.1 + 0, p.2 + -1).2 = p.2 + 1) := by
      simp only
      omega
    have c4 : (p.1 + 0, p.2 + -1).1 = p.1 ∧ (p.1 + 0, p.2 + -1).2 = p.2 - 1 := by
      simp only
      omega
    have hv : shared_edge_values g p (p.1 + 0, p.2 + -1)
        = (bottom_side g p.1 p.2, top_side g p.1 p.2) :=
      (if_neg c1).trans ((if_neg c2).trans ((if_neg c3).trans (if_pos c4)))
    have e1 : p.1 + 0 = p.1 := by omega
    have e2 : p.2 + -1 = p.2 - 1 := by omega
    unfold shared_edge_gap
    rw [hv]
    simp only
    rw [bottom_side_spec g p.1 p.2 h1 h2, top_side_spec g p.1 p.2 h1,
      spec_exposed_at_nonneg g p.1 p.2 2 h1 h2,
      spec_exposed_at_nonneg g p.1 (p.2 - 1) 6 h1 (by omega), e1, e2]
  · refine ⟨4, 8, by decide, by decide, by decide, by decide,
      by constructor <;> simp [move_dir],
      by constructor <;> simp [move_dir], fun g h1 h2 h3 h4 => ?_⟩
    have c1 : (p.1 + 1, p.2 + 0).1 = p.1 + 1 ∧ (p.1 + 1, p.2 + 0).2 = p.2 :=
      ⟨rfl, add_zero _⟩
    have hv : shared_edge_values g p (p.1 + 1, p.2 + 0)
        = (right_side g (p.1 + 1) (p.2 + 0), left_side g (p.1 + 1) (p.2 + 0)) := if_pos c1
    have e1 : p.1 + 1 - 1 = p.1 := by omega
    have e2 : p.2 + 0 = p.2 := by omega
    simp only at h3 h4
    unfold shared_edge_gap
    rw [hv]
    simp only
    rw [right_side_spec g (p.1 + 1) (p.2 + 0) h3 h4, left_side_spec g (p.1 + 1) (p.2 + 0) h4,
      spec_exposed_at_nonneg g (p.1 + 1) (p.2 + 0) 8 h3 h4,
      spec_exposed_at_nonneg g (p.1 + 1 - 1) (p.2 + 0) 4 (by omega) h4, e1, e2, abs_sub_comm]
  · refine ⟨6, 2, by decide, by decide, by decide, by decide,
      by constructor <;> simp [move_dir],
      by constructor <;> simp [move_dir], fun g h1 h2 h3 h4 => ?_⟩
    have c1 : ¬ ((p.1 + 0, p.2 + 1).1 = p.1 + 1 ∧ (p.1 + 0, p.2 + 1).2 = p.2) := by
      simp only
      omega
    have c2 : ¬ ((p.1 + 0, p.2 + 1).1 = p.1 - 1 ∧ (p.1 + 0, p.2 + 1).2 = p.2) := by
      simp only
      omega
    have c3 : (p.1 + 0, p.2 + 1).1 = p.1 ∧ (p.1 + 0, p.2 + 1).2 = p.2 + 1 :=
      ⟨add_zero _, rfl⟩
    have hv : shared_edge_values g p (p.1 + 0, p.2 + 1)
        = (bottom_side g (p.1 + 0) (p.2 + 1), top_side g (p.1 + 0) (p.2 + 1)) :=
      (if_neg c1).trans ((if_neg c2).trans (if_pos c3))
    have e1 : p.1 + 0 = p.1 := by omega
    have e2 : p.2 + 1 - 1 = p.2 := by omega
    simp only at h3 h4
    unfold shared_edge_gap
    rw [hv]
    simp only
    rw [bottom_side_spec g (p.1 + 0) (p.2 + 1) h3 h4, top_side_spec g (p.1 + 0) (p.2 + 1) h3,
      spec_exposed_at_nonneg g (p.1 + 0) (p.2 + 1) 2 h3 h4,
      spec_exposed_at_nonneg g (p.1 + 0) (p.2 + 1 - 1) 6 h3 (by omega), e1, e2, abs_sub_comm]

theorem pair_sides (g : Gray2Vec_Grid) (p n : Int × Int) (d d' : Int)
    (hd : d ∈ ([2, 4, 6, 8] : List Int)) (hd' : d' ∈ ([2, 4, 6, 8] : List Int))
    (m1 : (move_dir p d).1 = n.1 ∧ (move_dir p d).2 = n.2)
    (m2 : (move_dir n d').1 = p.1 ∧ (move_dir n d').2 = p.2)
    (h0 : share_sides g p.1 p.2 n.1 n.2 ≠ 0) :
    (0 ≤ p.1 ∧ 0 ≤ p.2 ∧ 0 ≤ n.1 ∧ 0 ≤ n.2) ∧
    (share_sides g p.1 p.2 n.1 n.2 = 11 →
      side1 (g.m_img_n.pix p.1 p.2) = d ∧ side1 (g.m_img_n.pix n.1 n.2) = d') ∧
    (share_sides g p.1 p.2 n.1 n.2 = 12 →
      side1 (g.m_img_n.pix p.1 p.2) = d ∧ side2 (g.m_img_n.pix n.1 n.2) = d') ∧
    (share_sides g p.1 p.2 n.1 n.2 = 21 →
      side2 (g.m_img_n.pix p.1 p.2) = d ∧ side1 (g.m_img_n.pix n.1 n.2) = d') ∧
    (share_sides g p.1 p.2 n.1 n.2 = 22 →
      side2 (g.m_img_n.pix p.1 p.2) = d ∧ side2 (g.m_img_n.pix n.1 n.2) = d') := by
  obtain ⟨gp, gn, c11, c12, c21, c22⟩ := share_sides_cases g p n h0
  have r1 := sides_range (g.m_img_n.pix p.1 p.2)
  have r2 := sides_range (g.m_img_n.pix n.1 n.2)
  refine ⟨⟨gp.1, gp.2.2.1, gn.1, gn.2.2.1⟩, fun h => ?_, fun h => ?_, fun h => ?_, fun h => ?_⟩
  · obtain ⟨a, b⟩ := c11 h
    exact ⟨move_dir_inj p _ d r1.1 hd ⟨a.1.trans m1.1.symm, a.2.trans m1.2.symm⟩,
      move_dir_inj n _ d' r2.1 hd' ⟨b.1.trans m2.1.symm, b.2.trans m2.2.symm⟩⟩
  · obtain ⟨a, b⟩ := c12 h
    exact ⟨move_dir_inj p _ d r1.1 hd ⟨a.1.trans m1.1.symm, a.2.trans m1.2.symm⟩,
      move_dir_inj n _ d' r2.2.1 hd' ⟨b.1.trans m2.1.symm, b.2.trans m2.2.symm⟩⟩
  · obtain ⟨a, b⟩ := c21 h
    exact ⟨move_dir_inj p _ d r1.2.1 hd ⟨a.1.trans m1.1.symm, a.2.trans m1.2.symm⟩,
      move_dir_inj n _ d' r2.1 hd' ⟨b.1.trans m2.1.symm, b.2.trans m2.2.symm⟩⟩
  · obtain ⟨a, b⟩ := c22 h
    exact ⟨move_dir_inj p _ d r1.2.1 hd ⟨a.1.trans m1.1.symm, a.2.trans m1.2.symm⟩,
      move_dir_inj n _ d' r2.2.1 hd' ⟨b.1.trans m2.1.symm, b.2.trans m2.2.symm⟩⟩

theorem abs_shift (x y : Int) (h1 : x - 1 ≤ y) (h2 : y ≤ x) :
    ((|y - 255| : Int) : ℚ) ≤ ((|x - 255| : Int) : ℚ) + 1 ∧
    ((|x - 255| : Int) : ℚ) ≤ ((|y - 255| : Int) : ℚ) + 1 := by
  have k : |y - 255| ≤ |x - 255| + 1 ∧ |x - 255| ≤ |y - 255| + 1 := by
    constructor
    · rw [abs_le]
      constructor
      · have := neg_abs_le (x - 255)
        omega
      · have := le_abs_self (x - 255)
        omega
    · rw [abs_le]
      constructor
      · have := neg_abs_le (y - 255)
        omega
      · have := le_abs_self (y - 255)
        omega
  exact ⟨by exact_mod_cast k.1, by exact_mod_cast k.2⟩

theorem blending_gap (g : Gray2Vec_Grid) (p n : Int × Int) (hpn : n ∈ neighbours4 p) :
    (share_sides g p.1 p.2 n.1 n.2 = 12 →
      shared_edge_gap g p n = ((|g.m_img_f1.pix p.1 p.2 - g.m_img_f2.pix n.1 n.2| : Int) : ℚ) ∧
      shared_edge_gap (FractionsNeighborsAdj_pair g p n) p n
        = ((|blend (g.m_img_f1.pix p.1 p.2)
              (blend_avg (g.m_img_f1.pix p.1 p.2) (g.m_img_f2.pix n.1 n.2))
            - blend (g.m_img_f2.pix n.1 n.2)
              (blend_avg (g.m_img_f1.pix p.1 p.2) (g.m_img_f2.pix n.1 n.2))| : Int) : ℚ)) ∧
    (share_sides g p.1 p.2 n.1 n.2 = 21 →
      shared_edge_gap g p n = ((|g.m_img_f2.pix p.1 p.2 - g.m_img_f1.pix n.1 n.2| : Int) : ℚ) ∧
      shared_edge_gap (FractionsNeighborsAdj_pair g p n) p n
        = ((|blend (g.m_img_f2.pix p.1 p.2)
              (blend_avg (g.m_img_f2.pix p.1 p.2) (g.m_img_f1.pix n.1 n.2))
            - blend (g.m_img_f1.pix n.1 n.2)
              (blend_avg (g.m_img_f2.pix p.1 p.2) (g.m_img_f1.pix n.1 n.2))| : Int) : ℚ)) ∧
    (share_sides g p.1 p.2 n.1 n.2 = 11 →
      shared_edge_gap g p n
        = ((|g.m_img_f1.pix p.1 p.2 + g.m_img_f1.pix n.1 n.2 - 255| : Int) : ℚ) ∧
      shared_edge_gap (FractionsNeighborsAdj_pair g p n) p n
        = ((|blend (g.m_img_f1.pix p.1 p.2)
              (blend_avg (g.m_img_f1.pix p.1 p.2) (g.m_img_f1.pix n.1 n.2))
            + blend (g.m_img_f1.pix n.1 n.2)
              (blend_avg (g.m_img_f1.pix p.1 p.2) (g.m_img_f1.pix n.1 n.2)) - 255| : Int) : ℚ)) ∧
    (share_sides g p.1 p.2 n.1 n.2 = 22 →
      shared_edge_gap g p n
        = ((|g.m_img_f2.pix p.1 p.2 + g.m_img_f2.pix n.1 n.2 - 255| : Int) : ℚ) ∧
      shared_edge_gap (FractionsNeighborsAdj_pair g p n) p n
        = ((|blend (g.m_img_f2.pix p.1 p.2)
              (blend_avg (g.m_img_f2.pix p.1 p.2) (g.m_img_f2.pix n.1 n.2))
            + blend (g.m_img_f2.pix n.1 n.2)
              (blend_avg (g.m_img_f2.pix p.1 p.2) (g.m_img_f2.pix n.1 n.2)) - 255| : Int) : ℚ)) := by
  obtain ⟨d, d', hd, hd', i1, i2, m1, m2, hgap⟩ := neighbour_dir p n hpn
  obtain ⟨fN, -, -, -⟩ := FractionsNeighborsAdj_pair_frame g p n
  refine ⟨fun h => ?_, fun h => ?_, fun h => ?_, fun h => ?_⟩
  · obtain ⟨⟨a1, a2, a3, a4⟩, -, s12, -, -⟩ :=
      pair_sides g p n d d' hd hd' m1 m2 (by rw [h]; decide)
    obtain ⟨k1, k2⟩ := s12 h
    obtain ⟨e1, e2, -, -⟩ := FractionsNeighborsAdj_pair_12 g p n hpn h
    rw [hgap g a1 a2 a3 a4, hgap _ a1 a2 a3 a4, fN, e1, e2]
    exact ⟨gap_12 d d' hd' i1 _ _ _ _ _ _ k1 k2, gap_12 d d' hd' i1 _ _ _ _ _ _ k1 k2⟩
  · obtain ⟨⟨a1, a2, a3, a4⟩, -, -, s21, -⟩ :=
      pair_sides g p n d d' hd hd' m1 m2 (by rw [h]; decide)
    obtain ⟨k1, k2⟩ := s21 h
    obtain ⟨e1, e2, -, -⟩ := FractionsNeighborsAdj_pair_21 g p n hpn h
    rw [hgap g a1 a2 a3 a4, hgap _ a1 a2 a3 a4, fN, e1, e2]
    exact ⟨gap_21 d d' hd i2 _ _ _ _ _ _ k1 k2, gap_21 d d' hd i2 _ _ _ _ _ _ k1 k2⟩
  · obtain ⟨⟨a1, a2, a3, a4⟩, s11, -, -, -⟩ :=
      pair_sides g p n d d' hd hd' m1 m2 (by rw [h]; decide)
    obtain ⟨k1, k2⟩ := s11 h
    obtain ⟨e1, e2, -, -⟩ := FractionsNeighborsAdj_pair_11 g p n hpn h
    rw [hgap g a1 a2 a3 a4, hgap _ a1 a2 a3 a4, fN, e1, e2]
    exact ⟨gap_11 d d' i1 hd' _ _ _ _ _ _ k1 k2, gap_11 d d' i1 hd' _ _ _ _ _ _ k1 k2⟩
  · obtain ⟨⟨a1, a2, a3, a4⟩, -, -, -, s22⟩ :=
      pair_sides g p n d d' hd hd' m1 m2 (by rw [h]; decide)
    obtain ⟨k1, k2⟩ := s22 h
    obtain ⟨e1, e2, -, -⟩ := FractionsNeighborsAdj_pair_22 g p n hpn h
    rw [hgap g a1 a2 a3 a4, hgap _ a1 a2 a3 a4, fN, e1, e2]
    exact ⟨gap_22 d d' hd i1 hd' _ _ _ _ _ _ k1 k2, gap_22 d d' hd i1 hd' _ _ _ _ _ _ k1 k2⟩

theorem string_segments_append (l : List (Int × Int)) (e : Int × Int) (r : List (Int × Int)) :
    string_segments (l ++ e :: r) = string_segments (l ++ [e]) ++ string_segments (e :: r) := by
  induction l with
  | nil => simp [string_segments]
  | cons a t ih =>
    cases t with
    | nil => simp [string_segments]
    | cons b t2 =>
      have e1 : string_segments (a :: b :: t2 ++ e :: r)
          = s(a, b) :: string_segments (b :: t2 ++ e :: r) := rfl
      have e2 : string_segments (a :: b :: t2 ++ [e])
          = s(a, b) :: string_segments (b :: t2 ++ [e]) := rfl
      rw [e1, e2, ih]
      rfl

theorem string_segments_snoc (s : List (Int × Int)) (c' c : Int × Int)
    (h : s.getLast? = some c') :
    string_segments (s ++ [c]) = string_segments s ++ [s(c', c)] := by
  obtain ⟨l, rfl⟩ : ∃ l, s = l ++ [c'] := by
    have hne : s ≠ [] := by
      intro h0
      rw [h0] at h
      simp at h
    refine ⟨s.dropLast, ?_⟩
    have := List.dropLast_append_getLast hne
    rw [List.getLast?_eq_getLast _ hne] at h
    rw [← Option.some.inj h]
    exact this.symm
  rw [List.append_assoc, List.singleton_append, string_segments_append l c' [c]]
  rfl

theorem string_segments_reverse (l : List (Int × Int)) :
    string_segments l.reverse = (string_segments l).reverse := by
  induction l with
  | nil => rfl
  | cons a t ih =>
    cases t with
    | nil => rfl
    | cons b t2 =>
      have e : (a :: b :: t2).reverse = (t2.reverse ++ [b]) ++ [a] := by simp
      have e2 : (b :: t2).reverse = t2.reverse ++ [b] := by simp
      rw [e, List.append_assoc, List.singleton_append,
        string_segments_append t2.reverse b [a], ← e2, ih]
      simp only [string_segments, List.reverse_cons]
      rw [Sym2.eq_swap]

theorem string_ends_add (p : Int × Int) (s : List (Int × Int)) :
    ((string_segments s).map (segment_ends p)).sum + string_ends p s = 2 * s.count p := by
  induction s with
  | nil => simp [string_segments, string_ends]
  | cons a t ih =>
    cases t with
    | nil =>
      by_cases h : a = p
      · subst h
        simp [string_segments, string_ends]
      · have h' : ¬ (a == p) = true := by simpa using h
        simp [string_segments, string_ends, h, List.count_cons, h']
    | cons b t2 =>
      have e1 : (string_segments (a :: b :: t2)) = s(a, b) :: string_segments (b :: t2) := rfl
      have e2 : segment_ends p s(a, b) = (if a = p then 1 else 0) + (if b = p then 1 else 0) :=
        rfl
      have e3 : string_ends p (a :: b :: t2)
          = (if a = p then 1 else 0) + (if (b :: t2).getLast? = some p then 1 else 0) := by
        simp [string_ends, List.getLast?_cons_cons]
      have e4 : string_ends p (b :: t2)
          = (if b = p then 1 else 0) + (if (b :: t2).getLast? = some p then 1 else 0) := by
        simp [string_ends]
      rw [e4] at ih
      rw [e1, List.map_cons, List.sum_cons, e2, e3, List.count_cons]
      by_cases h : a = p
      · have h' : (a == p) = true := by simpa using h
        rw [if_pos h', if_pos h]
        omega
      · have h' : ¬ (a == p) = true := by simpa using h
        rw [if_neg h', if_neg h]
        omega

theorem AddSegment_body_cases (s : List (Int × Int)) (a b : Int × Int) :
    (∃ c' c, s.getLast? = some c' ∧ s(c', c) = s(a, b)
      ∧ ∃ a' b', AddSegment_body s a b = (some (s ++ [c]), a', b'))
    ∨ AddSegment_body s a b = (none, a, b) := by
  unfold AddSegment_body
  by_cases h1 : s.getLast? = some a
  · left
    refine ⟨a, b, h1, rfl, b, a, ?_⟩
    simp [h1]
  · by_cases h2 : s.getLast? = some b
    · left
      refine ⟨b, a, h2, Sym2.eq_swap, a, b, ?_⟩
      have hba : ¬ b = a := by
        intro h
        rw [h] at h2
        exact h1 h2
      simp [h2, hba]
    · right
      simp [h1, h2]

theorem polygon_segments_cons (s : List (Int × Int)) (a : List (List (Int × Int))) :
    polygon_segments (s :: a)
      = ((string_segments s : List (Sym2 (Int × Int))) : Multiset (Sym2 (Int × Int)))
        + polygon_segments a := by
  simp [polygon_segments]

theorem AddSegment_loop_spec : ∀ (aanXY : List (List (Int × Int))) (a b : Int × Int),
    (∀ s ∈ aanXY, s ≠ []) →
    (∀ s ∈ AddSegment_loop aanXY a b, s ≠ [])
    ∧ polygon_segments (AddSegment_loop aanXY a b) = s(a, b) ::ₘ polygon_segments aanXY := by
  intro aanXY
  induction aanXY with
  | nil =>
    intro a b _
    refine ⟨?_, ?_⟩
    · intro s hs
      simp [AddSegment_loop] at hs
      rw [hs]
      simp
    · simp [AddSegment_loop, polygon_segments, string_segments]
  | cons s rest ih =>
    intro a b hne
    have hs : s ≠ [] := hne s (List.mem_cons_self _ _)
    have hrest : ∀ t ∈ rest, t ≠ [] := fun t ht => hne t (List.mem_cons_of_mem _ ht)
    rcases AddSegment_body_cases s a b with ⟨c', c, hl, hsym, a', b', hb⟩ | hb
    · have e : AddSegment_loop (s :: rest) a b = (s ++ [c]) :: rest := by
        simp [AddSegment_loop, hb]
      rw [e]
      refine ⟨?_, ?_⟩
      · intro t ht
        rcases List.mem_cons.mp ht with h | h
        · rw [h]
          simp
        · exact hrest t h
      · rw [polygon_segments_cons, polygon_segments_cons, string_segments_snoc s c' c hl, hsym]
        rw [← Multiset.coe_add, ← Multiset.singleton_add]
        rw [← add_assoc]
        congr 1
        rw [add_comm]
        rfl
    · have e : AddSegment_loop (s :: rest) a b = s :: AddSegment_loop rest a b := by
        simp [AddSegment_loop, hb]
      rw [e]
      obtain ⟨i1, i2⟩ := ih a b hrest
      refine ⟨?_, ?_⟩
      · intro t ht
        rcases List.mem_cons.mp ht with h | h
        · rw [h]
          exact hs
        · exact i1 t h
      · rw [polygon_segments_cons, polygon_segments_cons, i2]
        rw [Multiset.add_cons]

theorem build_strings_spec (segs : List ((Int × Int) × (Int × Int))) :
    ∀ (aanXY : List (List (Int × Int))), (∀ s ∈ aanXY, s ≠ []) →
    (∀ s ∈ segs.foldl (fun a s => AddSegment a s.1.1 s.1.2 s.2.1 s.2.2) aanXY, s ≠ [])
    ∧ polygon_segments (segs.foldl (fun a s => AddSegment a s.1.1 s.1.2 s.2.1 s.2.2) aanXY)
      = polygon_segments aanXY
        + ((segs.map (fun s => s(s.1, s.2)) : List (Sym2 (Int × Int)))
            : Multiset (Sym2 (Int × Int))) := by
  induction segs with
  | nil =>
    intro a ha
    exact ⟨ha, by simp⟩
  | cons sg rest ih =>
    intro a ha
    obtain ⟨j1, j2⟩ := AddSegment_loop_spec a (sg.1.1, sg.1.2) (sg.2.1, sg.2.2) ha
    obtain ⟨k1, k2⟩ := ih (AddSegment a sg.1.1 sg.1.2 sg.2.1 sg.2.2) j1
    refine ⟨k1, ?_⟩
    rw [List.foldl_cons, k2]
    have : polygon_segments (AddSegment a sg.1.1 sg.1.2 sg.2.1 sg.2.2)
        = s(sg.1, sg.2) ::ₘ polygon_segments a := j2
    rw [this, List.map_cons, ← Multiset.cons_coe, Multiset.cons_add, Multiset.add_cons]

theorem getD_set_ne (a : List (List (Int × Int))) (i k : Nat) (x : List (Int × Int))
    (h : i ≠ k) : (a.set i x).getD k [] = a.getD k [] := by
  simp [List.getD_eq_getElem?_getD, List.getElem?_set_ne h]

theorem getD_set_eq (a : List (List (Int × Int))) (i : Nat) (x : List (Int × Int))
    (h : i < a.length) : (a.set i x).getD i [] = x := by
  simp [List.getD_eq_getElem?_getD, h]

theorem getD_dropLast (a : List (List (Int × Int))) (k : Nat) (h : k + 1 < a.length) :
    a.dropLast.getD k [] = a.getD k [] := by
  rw [List.dropLast_eq_take, List.getD_eq_getElem?_getD, List.getD_eq_getElem?_getD,
    List.getElem?_take_of_lt (by omega)]

theorem getD_mem (a : List (List (Int × Int))) (k : Nat) (h : k < a.length) :
    a.getD k [] ∈ a := by
  rw [List.getD_eq_getElem _ _ h]
  exact List.getElem_mem h

theorem polygon_segments_append (a b : List (List (Int × Int))) :
    polygon_segments (a ++ b) = polygon_segments a + polygon_segments b := by
  simp [polygon_segments]

theorem polygon_segments_set : ∀ (a : List (List (Int × Int))) (i : Nat) (x : List (Int × Int)),
    i < a.length →
    polygon_segments (a.set i x)
        + ((string_segments (a.getD i []) : List (Sym2 (Int × Int)))
            : Multiset (Sym2 (Int × Int)))
      = polygon_segments a
        + ((string_segments x : List (Sym2 (Int × Int))) : Multiset (Sym2 (Int × Int))) := by
  intro a
  induction a with
  | nil =>
    intro i x h
    simp at h
  | cons s t ih =>
    intro i x h
    cases i with
    | zero =>
      simp only [List.set_cons_zero, List.getD_cons_zero, polygon_segments_cons]
      abel
    | succ k =>
      have hk : k < t.length := by simpa using h
      simp only [List.set_cons_succ, List.getD_cons_succ, polygon_segments_cons]
      rw [add_assoc, ih k x hk, add_assoc]

theorem polygon_segments_dropLast (a : List (List (Int × Int))) (h : a ≠ []) :
    polygon_segments a.dropLast
        + ((string_segments (a.getD (a.length - 1) []) : List (Sym2 (Int × Int)))
            : Multiset (Sym2 (Int × Int)))
      = polygon_segments a := by
  have hl : 0 < a.length := List.length_pos.mpr h
  have e1 : a.getD (a.length - 1) [] = a.getLast h := by
    rw [List.getD_eq_getElem _ _ (by omega), List.getLast_eq_getElem]
  have e2 : polygon_segments a = polygon_segments (a.dropLast ++ [a.getLast h]) := by
    rw [List.dropLast_append_getLast h]
  rw [e2, polygon_segments_append, e1]
  congr 1
  simp [polygon_segments]

theorem merged_segments (base str : List (Int × Int)) (e : Int × Int) (d : Int)
    (hl : base.getLast? = some e)
    (hd : (d = 1 ∧ str.head? = some e) ∨ (d ≠ 1 ∧ str.getLast? = some e)) :
    ((string_segments (base ++ (if d = 1 then str.tail else str.dropLast.reverse))
        : List (Sym2 (Int × Int))) : Multiset (Sym2 (Int × Int)))
      = ((string_segments base : List (Sym2 (Int × Int))) : Multiset (Sym2 (Int × Int)))
        + ((string_segments str : List (Sym2 (Int × Int))) : Multiset (Sym2 (Int × Int))) := by
  have hne : base ≠ [] := by
    intro h0
    rw [h0] at hl
    simp at hl
  have hb : base = base.dropLast ++ [e] := by
    have := List.dropLast_append_getLast hne
    rw [List.getLast?_eq_getLast _ hne] at hl
    rw [← Option.some.inj hl]
    exact this.symm
  rcases hd with ⟨h1, hh⟩ | ⟨h1, hh⟩
  · rw [if_pos h1]
    have hs : str = e :: str.tail := by
      cases str with
      | nil => simp at hh
      | cons x t =>
        simp at hh
        rw [hh]
        rfl
    have e1 : base ++ str.tail = base.dropLast ++ e :: str.tail := by
      nth_rewrite 1 [hb]
      simp
    rw [e1, string_segments_append, ← hb, ← hs, Multiset.coe_add]
  · rw [if_neg h1]
    have hsne : str ≠ [] := by
      intro h0
      rw [h0] at hh
      simp at hh
    have hs : str = str.dropLast ++ [e] := by
      have := List.dropLast_append_getLast hsne
      rw [List.getLast?_eq_getLast _ hsne] at hh
      rw [← Option.some.inj hh]
      exact this.symm
    have e1 : base ++ str.dropLast.reverse = base.dropLast ++ e :: str.dropLast.reverse := by
      nth_rewrite 1 [hb]
      simp
    have e2 : e :: str.dropLast.reverse = str.reverse := by
      nth_rewrite 2 [hs]
      simp
    rw [e1, string_segments_append, ← hb, e2, string_segments_reverse, ← Multiset.coe_add,
      Multiset.coe_reverse]

theorem take_set_ge : ∀ (a : List (List (Int × Int))) (i k : Nat) (x : List (Int × Int)),
    i ≤ k → (a.set k x).take i = a.take i := by
  intro a
  induction a with
  | nil =>
    intro i k x _
    simp
  | cons s t ih =>
    intro i k x h
    cases i with
    | zero => simp
    | succ i2 =>
      cases k with
      | zero => omega
      | succ k2 =>
        simp only [List.set_cons_succ, List.take_succ_cons]
        rw [ih i2 k2 x (by omega)]

theorem Merge_spec (a : List (List (Int × Int))) (i j : Nat) (d : Int) (e : Int × Int)
    (hij : i < j) (hj : j < a.length) (hne : ∀ s ∈ a, s ≠ [])
    (hl : (a.getD i []).getLast? = some e)
    (hd : (d = 1 ∧ (a.getD j []).head? = some e)
      ∨ (d ≠ 1 ∧ (a.getD j []).getLast? = some e)) :
    polygon_segments (Merge a i j d) = polygon_segments a
    ∧ (∀ s ∈ Merge a i j d, s ≠ [])
    ∧ (Merge a i j d).take i = a.take i
    ∧ ((Merge a i j d).getD i []).head? = (a.getD i []).head?
    ∧ (Merge a i j d).length + 1 = a.length := by
  have hbne : a.getD i [] ≠ [] := hne _ (getD_mem a i (by omega))
  generalize hB : a.getD i [] ++
    (if d = 1 then (a.getD j []).tail else (a.getD j []).dropLast.reverse) = base' at *
  have hseg := merged_segments (a.getD i []) (a.getD j []) e d hl hd
  rw [hB] at hseg
  have hb'ne : base' ≠ [] := by
    rw [← hB]
    intro h
    exact hbne (List.append_eq_nil.mp h).1
  have hhead : base'.head? = (a.getD i []).head? := by
    rw [← hB]
    exact List.head?_append_of_ne_nil _ hbne
  have hM : Merge a i j d
      = (if j + 1 < (a.set i base').length
          then (a.set i base').set j ((a.set i base').getD ((a.set i base').length - 1) [])
          else a.set i base').dropLast := by
    unfold Merge
    simp only [hB]
  have hlen1 : (a.set i base').length = a.length := List.length_set _ _ _
  have hS1 := polygon_segments_set a i base' (by omega)
  have hmem1 : ∀ s ∈ a.set i base', s ≠ [] := by
    intro s hs
    rcases List.mem_or_eq_of_mem_set hs with h | h
    · exact hne s h
    · rw [h]
      exact hb'ne
  have hj1 : (a.set i base').getD j [] = a.getD j [] := getD_set_ne a i j base' (by omega)
  have hi1 : (a.set i base').getD i [] = base' := getD_set_eq a i base' (by omega)
  have htake1 : (a.set i base').take i = a.take i := by
    exact take_set_ge a i i base' (le_refl _)
  generalize a.set i base' = a1 at *
  rw [hM]
  by_cases hc : j + 1 < a1.length
  · rw [if_pos hc]
    have hS2 := polygon_segments_set a1 j (a1.getD (a1.length - 1) []) (by omega)
    have hlast : (a1.set j (a1.getD (a1.length - 1) [])).getD (a1.length - 1) []
        = a1.getD (a1.length - 1) [] := getD_set_ne a1 j _ _ (by omega)
    have hlen2 : (a1.set j (a1.getD (a1.length - 1) [])).length = a1.length :=
      List.length_set _ _ _
    have hne2 : a1.set j (a1.getD (a1.length - 1) []) ≠ [] := by
      intro h0
      rw [h0] at hlen2
      simp at hlen2
      omega
    have hS3 := polygon_segments_dropLast (a1.set j (a1.getD (a1.length - 1) [])) hne2
    rw [hlen2, hlast] at hS3
    have hmem2 : ∀ s ∈ a1.set j (a1.getD (a1.length - 1) []), s ≠ [] := by
      intro s hs
      rcases List.mem_or_eq_of_mem_set hs with h | h
      · exact hmem1 s h
      · rw [h]
        exact hmem1 _ (getD_mem a1 _ (by omega))
    have hi2 : (a1.set j (a1.getD (a1.length - 1) [])).getD i [] = base' := by
      rw [getD_set_ne a1 j i _ (by omega), hi1]
    have htake2 : (a1.set j (a1.getD (a1.length - 1) [])).take i = a.take i := by
      rw [take_set_ge a1 i j _ (by omega), htake1]
    rw [hj1] at hS2
    generalize a1.set j (a1.getD (a1.length - 1) []) = a2 at *
    refine ⟨?_, ?_, ?_, ?_, ?_⟩
    · apply Multiset.ext.mpr
      intro x
      have q1 := congrArg (Multiset.count x) hS1
      have q2 := congrArg (Multiset.count x) hS2
      have q3 := congrArg (Multiset.count x) hS3
      have q4 := congrArg (Multiset.count x) hseg
      simp only [Multiset.count_add] at q1 q2 q3 q4
      omega
    · intro s hs
      exact hmem2 s (List.dropLast_subset _ hs)
    · rw [List.dropLast_eq_take, List.take_take, ← htake2]
      congr 1
      omega
    · rw [getD_dropLast a2 i (by omega), hi2, hhead]
    · rw [List.length_dropLast]
      omega
  · rw [if_neg hc]
    have hne1 : a1 ≠ [] := by
      intro h0
      rw [h0] at hlen1
      simp at hlen1
      omega
    have hS3 := polygon_segments_dropLast a1 hne1
    have hjl : a1.length - 1 = j := by omega
    rw [hjl, hj1] at hS3
    refine ⟨?_, ?_, ?_, ?_, ?_⟩
    · apply Multiset.ext.mpr
      intro x
      have q1 := congrArg (Multiset.count x) hS1
      have q3 := congrArg (Multiset.count x) hS3
      have q4 := congrArg (Multiset.count x) hseg
      simp only [Multiset.count_add] at q1 q3 q4
      omega
    · intro s hs
      exact hmem1 s (List.dropLast_subset _ hs)
    · rw [List.dropLast_eq_take, List.take_take, ← htake1]
      congr 1
      omega
    · rw [getD_dropLast a1 i (by omega), hi1, hhead]
    · rw [List.length_dropLast]
      omega

theorem Coalesce_for_spec (i : Nat) : ∀ (fuel j : Nat) (a : List (List (Int × Int))) (m : Bool),
    i < j → i < a.length → a.length ≤ j + fuel → (∀ s ∈ a, s ≠ []) →
    ∃ a' m', Coalesce_for i fuel j a m = some (a', m')
      ∧ polygon_segments a' = polygon_segments a
      ∧ (∀ s ∈ a', s ≠ [])
      ∧ a'.take i = a.take i
      ∧ (a'.getD i []).head? = (a.getD i []).head?
      ∧ i < a'.length
      ∧ ((m' = m ∧ a' = a ∧ ∀ s ∈ a.drop j, no_join (a.getD i []) s)
        ∨ (m' = true ∧ a'.length < a.length)) := by
  intro fuel
  induction fuel with
  | zero =>
    intro j a m _ hi hf hne
    refine ⟨a, m, ?_, rfl, hne, rfl, rfl, hi, Or.inl ⟨rfl, rfl, ?_⟩⟩
    · have : ¬ j < a.length := by omega
      simp [Coalesce_for, this]
    · rw [List.drop_eq_nil_of_le (by omega)]
      intro s hs
      simp at hs
  | succ fuel ih =>
    intro j a m hij hi hf hne
    by_cases hj : j < a.length
    · have hbne : a.getD i [] ≠ [] := hne _ (getD_mem a i hi)
      obtain ⟨e, he⟩ : ∃ e, (a.getD i []).getLast? = some e :=
        ⟨_, List.getLast?_eq_getLast _ hbne⟩
      by_cases h1 : (a.getD j []).head? = some e
      · have hC : Coalesce_for i (fuel + 1) j a m
            = Coalesce_for i fuel (j + 1) (Merge a i j 1) true := by
          simp only [Coalesce_for, if_pos hj, he, if_pos h1]
        obtain ⟨p1, p2, p3, p4, p5⟩ :=
          Merge_spec a i j 1 e hij hj hne he (Or.inl ⟨rfl, h1⟩)
        obtain ⟨a', m', q0, q1, q2, q3, q4, q5, q6⟩ :=
          ih (j + 1) (Merge a i j 1) true (by omega) (by omega) (by omega) p2
        refine ⟨a', m', hC.trans q0, q1.trans p1, q2, q3.trans p3, q4.trans p4, q5,
          Or.inr ?_⟩
        rcases q6 with ⟨r1, r2, _⟩ | ⟨r1, r2⟩
        · exact ⟨r1, by rw [r2]; omega⟩
        · exact ⟨r1, by omega⟩
      · by_cases h2 : (a.getD j []).getLast? = some e
        · have hC : Coalesce_for i (fuel + 1) j a m
              = Coalesce_for i fuel (j + 1) (Merge a i j (-1)) true := by
            simp only [Coalesce_for, if_pos hj, he, if_neg h1, if_pos h2]
          obtain ⟨p1, p2, p3, p4, p5⟩ :=
            Merge_spec a i j (-1) e hij hj hne he (Or.inr ⟨by decide, h2⟩)
          obtain ⟨a', m', q0, q1, q2, q3, q4, q5, q6⟩ :=
            ih (j + 1) (Merge a i j (-1)) true (by omega) (by omega) (by omega) p2
          refine ⟨a', m', hC.trans q0, q1.trans p1, q2, q3.trans p3, q4.trans p4, q5,
            Or.inr ?_⟩
          rcases q6 with ⟨r1, r2, _⟩ | ⟨r1, r2⟩
          · exact ⟨r1, by rw [r2]; omega⟩
          · exact ⟨r1, by omega⟩
        · have hC : Coalesce_for i (fuel + 1) j a m = Coalesce_for i fuel (j + 1) a m := by
            simp only [Coalesce_for, if_pos hj, he, if_neg h1, if_neg h2]
          obtain ⟨a', m', q0, q1, q2, q3, q4, q5, q6⟩ :=
            ih (j + 1) a m (by omega) hi (by omega) hne
          refine ⟨a', m', hC.trans q0, q1, q2, q3, q4, q5, ?_⟩
          rcases q6 with ⟨r1, r2, r3⟩ | ⟨r1, r2⟩
          · refine Or.inl ⟨r1, r2, ?_⟩
            intro s hs
            rw [List.drop_eq_getElem_cons hj] at hs
            rcases List.mem_cons.mp hs with h | h
            · intro e' he'
              rw [he] at he'
              rw [← Option.some.inj he', h, ← List.getD_eq_getElem a [] hj]
              exact ⟨h1, h2⟩
            · exact r3 s h
          · exact Or.inr ⟨r1, r2⟩
    · refine ⟨a, m, ?_, rfl, hne, rfl, rfl, hi, Or.inl ⟨rfl, rfl, ?_⟩⟩
      · simp [Coalesce_for, hj]
      · rw [List.drop_eq_nil_of_le (by omega)]
        intro s hs
        simp at hs

theorem Coalesce_while_spec (i : Nat) : ∀ (fuel : Nat) (a : List (List (Int × Int))),
    i < a.length → a.length ≤ fuel → (∀ s ∈ a, s ≠ []) →
    ∃ a', Coalesce_while i fuel a = some a'
      ∧ polygon_segments a' = polygon_segments a
      ∧ (∀ s ∈ a', s ≠ [])
      ∧ a'.take i = a.take i
      ∧ (a'.getD i []).head? = (a.getD i []).head?
      ∧ i < a'.length
      ∧ a'.length ≤ a.length
      ∧ ∀ s ∈ a'.drop (i + 1), no_join (a'.getD i []) s := by
  intro fuel
  induction fuel with
  | zero =>
    intro a hi hf _
    omega
  | succ fuel ih =>
    intro a hi hf hne
    obtain ⟨a1, m1, q0, q1, q2, q3, q4, q5, q6⟩ :=
      Coalesce_for_spec i a.length (i + 1) a false (by omega) hi (by omega) hne
    rcases q6 with ⟨r1, r2, r3⟩ | ⟨r1, r2⟩
    · refine ⟨a, ?_, rfl, hne, rfl, rfl, hi, le_refl _, r3⟩
      rw [r1, r2] at q0
      simp [Coalesce_while, q0]
    · obtain ⟨a', s0, s1, s2, s3, s4, s5, s6, s7⟩ := ih a1 q5 (by omega) q2
      refine ⟨a', ?_, s1.trans q1, s2, s3.trans q3, s4.trans q4, s5, by omega, s7⟩
      rw [r1] at q0
      simp [Coalesce_while, q0, s0]

theorem ends_parity (p : Int × Int) (a : List (List (Int × Int))) :
    ((polygon_segments a).map (segment_ends p)).sum + (a.map (string_ends p)).sum
      = 2 * (a.map (List.count p)).sum := by
  induction a with
  | nil => simp [polygon_segments]
  | cons s t ih =>
    rw [polygon_segments_cons, Multiset.map_add, Multiset.sum_add, Multiset.map_coe,
      Multiset.sum_coe, List.map_cons, List.sum_cons, List.map_cons, List.sum_cons]
    have := string_ends_add p s
    omega

theorem closed_string_ends (p : Int × Int) (s : List (Int × Int)) (h : closed_string s) :
    Even (string_ends p s) := by
  unfold string_ends
  rw [h.2]
  by_cases c : s.getLast? = some p
  · rw [if_pos c]
    decide
  · rw [if_neg c]
    decide

theorem sum_even_of_all (f : List (Int × Int) → Nat) : ∀ (l : List (List (Int × Int))),
    (∀ s ∈ l, Even (f s)) → Even (l.map f).sum := by
  intro l
  induction l with
  | nil =>
    intro _
    simp
  | cons s t ih =>
    intro h
    rw [List.map_cons, List.sum_cons]
    exact Even.add (h s (List.mem_cons_self _ _))
      (ih (fun u hu => h u (List.mem_cons_of_mem _ hu)))

theorem sum_zero_of_all (f : List (Int × Int) → Nat) : ∀ (l : List (List (Int × Int))),
    (∀ s ∈ l, f s = 0) → (l.map f).sum = 0 := by
  intro l
  induction l with
  | nil =>
    intro _
    simp
  | cons s t ih =>
    intro h
    rw [List.map_cons, List.sum_cons, h s (List.mem_cons_self _ _),
      ih (fun u hu => h u (List.mem_cons_of_mem _ hu))]

theorem base_closes (a : List (List (Int × Int))) (i : Nat) (hi : i < a.length)
    (hne : ∀ s ∈ a, s ≠ [])
    (hpar : ∀ p, Even (((polygon_segments a).map (segment_ends p)).sum))
    (hpre : ∀ s ∈ a.take i, closed_string s)
    (hpost : ∀ s ∈ a.drop (i + 1), no_join (a.getD i []) s) :
    closed_string (a.getD i []) := by
  have hbne : a.getD i [] ≠ [] := hne _ (getD_mem a i hi)
  refine ⟨hbne, ?_⟩
  obtain ⟨T, hT⟩ : ∃ e, (a.getD i []).getLast? = some e :=
    ⟨_, List.getLast?_eq_getLast _ hbne⟩
  have hsplit : a = a.take i ++ a.getD i [] :: a.drop (i + 1) := by
    rw [List.getD_eq_getElem a [] hi, ← List.drop_eq_getElem_cons hi, List.take_append_drop]
  have hsum : (a.map (string_ends T)).sum
      = ((a.take i).map (string_ends T)).sum + (string_ends T (a.getD i [])
        + ((a.drop (i + 1)).map (string_ends T)).sum) := by
    nth_rewrite 1 [hsplit]
    rw [List.map_append, List.sum_append, List.map_cons, List.sum_cons]
  have h1 : Even ((a.take i).map (string_ends T)).sum :=
    sum_even_of_all _ _ (fun s hs => closed_string_ends T s (hpre s hs))
  have h2 : ((a.drop (i + 1)).map (string_ends T)).sum = 0 := by
    apply sum_zero_of_all
    intro s hs
    obtain ⟨n1, n2⟩ := hpost s hs T hT
    unfold string_ends
    rw [if_neg n1, if_neg n2]
  have h3 : Even ((a.map (string_ends T)).sum) := by
    have e := ends_parity T a
    have := hpar T
    rcases this with ⟨k, hk⟩
    exact ⟨(a.map (List.count T)).sum - k, by omega⟩
  rw [hsum, h2] at h3
  have h4 : string_ends T (a.getD i [])
      = (if (a.getD i []).head? = some T then 1 else 0) + 1 := by
    unfold string_ends
    rw [if_pos hT]
  rw [h4] at h3
  by_cases c : (a.getD i []).head? = some T
  · rw [c, hT]
  · exfalso
    rw [if_neg c] at h3
    rcases h1 with ⟨k1, hk1⟩
    rcases h3 with ⟨k3, hk3⟩
    omega

theorem Coalesce_from_spec : ∀ (fuel i : Nat) (a : List (List (Int × Int))),
    a.length ≤ i + fuel → (∀ s ∈ a, s ≠ []) →
    (∀ p, Even (((polygon_segments a).map (segment_ends p)).sum)) →
    (∀ s ∈ a.take i, closed_string s) →
    ∃ r, Coalesce_from fuel i a = some r
      ∧ polygon_segments r = polygon_segments a
      ∧ ∀ s ∈ r, closed_string s := by
  intro fuel
  induction fuel with
  | zero =>
    intro i a hf _ _ hpre
    have : ¬ i < a.length := by omega
    refine ⟨a, by simp [Coalesce_from, this], rfl, ?_⟩
    rw [List.take_of_length_le (by omega)] at hpre
    exact hpre
  | succ fuel ih =>
    intro i a hf hne hpar hpre
    by_cases hi : i < a.length
    · obtain ⟨a', s0, s1, s2, s3, s4, s5, s6, s7⟩ :=
        Coalesce_while_spec i (a.length + 1) a hi (by omega) hne
      have hpar' : ∀ p, Even (((polygon_segments a').map (segment_ends p)).sum) := by
        intro p
        rw [s1]
        exact hpar p
      have hpre' : ∀ s ∈ a'.take i, closed_string s := by
        rw [s3]
        exact hpre
      have hcl := base_closes a' i s5 s2 hpar' hpre' s7
      have hpre2 : ∀ s ∈ a'.take (i + 1), closed_string s := by
        intro s hs
        rw [List.take_succ, List.mem_append] at hs
        rcases hs with h | h
        · exact hpre' s h
        · rw [List.getD_eq_getElem?_getD] at hcl
          rw [List.getElem?_eq_getElem s5] at h hcl
          simp at h hcl
          rw [h]
          exact hcl
      obtain ⟨r, r0, r1, r2⟩ := ih (i + 1) a' (by omega) s2 hpar' hpre2
      refine ⟨r, ?_, r1.trans s1, r2⟩
      simp only [Coalesce_from, if_pos hi, s0]
      exact r0
    · refine ⟨a, by simp [Coalesce_from, hi], rfl, ?_⟩
      rw [List.take_of_length_le (by omega)] at hpre
      exact hpre

theorem segment_ends_total (p : Int × Int) (segs : List ((Int × Int) × (Int × Int))) :
    ((segs.map (fun s => segment_ends p s(s.1, s.2))).sum) = endpoint_count p segs := by
  induction segs with
  | nil => rfl
  | cons s t ih =>
    rw [List.map_cons, List.sum_cons, ih]
    unfold endpoint_count
    rw [List.countP_cons, List.countP_cons]
    have e : segment_ends p s(s.1, s.2)
        = (if s.1 = p then 1 else 0) + (if s.2 = p then 1 else 0) := rfl
    rw [e]
    by_cases c1 : s.1 = p <;> by_cases c2 : s.2 = p <;> simp [c1, c2] <;> omega

theorem Coalesce_build_spec (segs : List ((Int × Int) × (Int × Int)))
    (h : ∀ p, Even (endpoint_count p segs)) :
    ∃ r, Coalesce (build_strings segs) = some r
      ∧ (∀ s ∈ r, s ≠ [] ∧ s.head? = s.getLast?)
      ∧ polygon_segments r
        = ((segs.map (fun s => s(s.1, s.2)) : List (Sym2 (Int × Int)))
            : Multiset (Sym2 (Int × Int)))
      ∧ polygon_segments r = polygon_segments (build_strings segs) := by
  obtain ⟨b1, b2⟩ := build_strings_spec segs [] (fun s hs => absurd hs (List.not_mem_nil s))
  have hps : polygon_segments (build_strings segs)
      = ((segs.map (fun s => s(s.1, s.2)) : List (Sym2 (Int × Int)))
          : Multiset (Sym2 (Int × Int))) := by
    unfold build_strings
    rw [b2]
    simp [polygon_segments]
  have hpar : ∀ p, Even (((polygon_segments (build_strings segs)).map (segment_ends p)).sum) := by
    intro p
    rw [hps, Multiset.map_coe, Multiset.sum_coe, List.map_map]
    have hh := h p
    rw [← segment_ends_total p segs] at hh
    exact hh
  obtain ⟨r, r0, r1, r2⟩ := Coalesce_from_spec (build_strings segs).length 0
    (build_strings segs) (by omega) b1 hpar (fun s hs => by simp at hs)
  exact ⟨r, r0, r2, r1.trans hps, r1⟩

theorem endpoint_count_even_of_points (segs : List ((Int × Int) × (Int × Int)))
    (pts : List (Int × Int)) (h1 : ∀ s ∈ segs, s.1 ∈ pts ∧ s.2 ∈ pts)
    (h2 : ∀ p ∈ pts, Even (endpoint_count p segs)) : ∀ p, Even (endpoint_count p segs) := by
  intro p
  by_cases hm : p ∈ pts
  · exact h2 p hm
  · have z1 : segs.countP (fun s => s.1 = p) = 0 := by
      rw [List.countP_eq_zero]
      intro s hs hsp
      apply hm
      rw [← of_decide_eq_true hsp]
      exact (h1 s hs).1
    have z2 : segs.countP (fun s => s.2 = p) = 0 := by
      rw [List.countP_eq_zero]
      intro s hs hsp
      apply hm
      rw [← of_decide_eq_true hsp]
      exact (h1 s hs).2
    unfold endpoint_count
    rw [z1, z2]
    decide

theorem fractions_inside_f1 (g : Gray2Vec_Grid) (px py : Int)
    (h : fractions_inside g (px, py)) (hn : g.m_img_n.pix px py ∈ nontrivial) :
    (1 : ℚ) ≤ (g.m_img_f1.pix px py : ℚ) ∧ (g.m_img_f1.pix px py : ℚ) ≤ 254
    ∧ (1 : ℚ) ≤ ((255 - g.m_img_f1.pix px py : Int) : ℚ)
    ∧ ((255 - g.m_img_f1.pix px py : Int) : ℚ) ≤ 254 := by
  obtain ⟨h1, h2, -⟩ := h hn
  dsimp only at h1 h2
  refine ⟨by exact_mod_cast h1, by exact_mod_cast h2, ?_, ?_⟩
  · have : (1 : Int) ≤ 255 - g.m_img_f1.pix px py := by omega
    exact_mod_cast this
  · have : 255 - g.m_img_f1.pix px py ≤ (254 : Int) := by omega
    exact_mod_cast this

theorem fractions_inside_f2 (g : Gray2Vec_Grid) (px py : Int)
    (h : fractions_inside g (px, py)) (hn : g.m_img_n.pix px py ∈ nontrivial) :
    (1 : ℚ) ≤ (g.m_img_f2.pix px py : ℚ) ∧ (g.m_img_f2.pix px py : ℚ) ≤ 254
    ∧ (1 : ℚ) ≤ ((255 - g.m_img_f2.pix px py : Int) : ℚ)
    ∧ ((255 - g.m_img_f2.pix px py : Int) : ℚ) ≤ 254 := by
  obtain ⟨-, -, h1, h2, -⟩ := h hn
  dsimp only at h1 h2
  refine ⟨by exact_mod_cast h1, by exact_mod_cast h2, ?_, ?_⟩
  · have : (1 : Int) ≤ 255 - g.m_img_f2.pix px py := by omega
    exact_mod_cast this
  · have : 255 - g.m_img_f2.pix px py ≤ (254 : Int) := by omega
    exact_mod_cast this

theorem right_side_range (g : Gray2Vec_Grid) (px py : Int)
    (h : fractions_inside g (px, py)) :
    right_side g px py = -1 ∨ (1 ≤ right_side g px py ∧ right_side g px py ≤ 254) := by
  unfold right_side
  simp only
  by_cases c1 : g.m_img_n.pix px py = 1 ∨ g.m_img_n.pix px py = 2 ∨ g.m_img_n.pix px py = 13
  · rw [if_pos c1]
    have hn : g.m_img_n.pix px py ∈ nontrivial := by
      rcases c1 with c | c | c <;> rw [c] <;> decide
    exact Or.inr ⟨(fractions_inside_f2 g px py h hn).1, (fractions_inside_f2 g px py h hn).2.1⟩
  rw [if_neg c1]
  by_cases c2 : g.m_img_n.pix px py = 15 ∨ g.m_img_n.pix px py = 6 ∨ g.m_img_n.pix px py = 7
  · rw [if_pos c2]
    have hn : g.m_img_n.pix px py ∈ nontrivial := by
      rcases c2 with c | c | c <;> rw [c] <;> decide
    exact Or.inr ⟨(fractions_inside_f1 g px py h hn).2.2.1,
      (fractions_inside_f1 g px py h hn).2.2.2⟩
  rw [if_neg c2]
  exact Or.inl rfl

theorem left_side_range (g : Gray2Vec_Grid) (px py : Int)
    (h : px > 0 → fractions_inside g (px - 1, py)) :
    left_side g px py = -1 ∨ (1 ≤ left_side g px py ∧ left_side g px py ≤ 254) := by
  unfold left_side
  by_cases c0 : px > 0
  · rw [if_pos c0]
    simp only
    by_cases c1 : g.m_img_n.pix (px - 1) py = 11 ∨ g.m_img_n.pix (px - 1) py = 2
        ∨ g.m_img_n.pix (px - 1) py = 3
    · rw [if_pos c1]
      have hn : g.m_img_n.pix (px - 1) py ∈ nontrivial := by
        rcases c1 with c | c | c <;> rw [c] <;> decide
      exact Or.inr ⟨(fractions_inside_f1 g _ py (h c0) hn).1,
        (fractions_inside_f1 g _ py (h c0) hn).2.1⟩
    rw [if_neg c1]
    by_cases c2 : g.m_img_n.pix (px - 1) py = 5 ∨ g.m_img_n.pix (px - 1) py = 6
        ∨ g.m_img_n.pix (px - 1) py = 17
    · rw [if_pos c2]
      have hn : g.m_img_n.pix (px - 1) py ∈ nontrivial := by
        rcases c2 with c | c | c <;> rw [c] <;> decide
      exact Or.inr ⟨(fractions_inside_f2 g _ py (h c0) hn).2.2.1,
        (fractions_inside_f2 g _ py (h c0) hn).2.2.2⟩
    rw [if_neg c2]
    exact Or.inl rfl
  · rw [if_neg c0]
    exact Or.inl rfl

theorem bottom_side_range (g : Gray2Vec_Grid) (px py : Int)
    (h : fractions_inside g (px, py)) :
    bottom_side g px py = -1 ∨ (1 ≤ bottom_side g px py ∧ bottom_side g px py ≤ 254) := by
  unfold bottom_side
  simp only
  by_cases c1 : g.m_img_n.pix px py = 17 ∨ g.m_img_n.pix px py = 8 ∨ g.m_img_n.pix px py = 1
  · rw [if_pos c1]
    have hn : g.m_img_n.pix px py ∈ nontrivial := by
      rcases c1 with c | c | c <;> rw [c] <;> decide
    exact Or.inr ⟨(fractions_inside_f1 g px py h hn).1, (fractions_inside_f1 g px py h hn).2.1⟩
  rw [if_neg c1]
  by_cases c2 : g.m_img_n.pix px py = 3 ∨ g.m_img_n.pix px py = 4 ∨ g.m_img_n.pix px py = 15
  · rw [if_pos c2]
    have hn : g.m_img_n.pix px py ∈ nontrivial := by
      rcases c2 with c | c | c <;> rw [c] <;> decide
    exact Or.inr ⟨(fractions_inside_f2 g px py h hn).2.2.1,
      (fractions_inside_f2 g px py h hn).2.2.2⟩
  rw [if_neg c2]
  exact Or.inl rfl

theorem top_side_range (g : Gray2Vec_Grid) (px py : Int)
    (h : py > 0 → fractions_inside g (px, py - 1)) :
    top_side g px py = -1 ∨ (1 ≤ top_side g px py ∧ top_side g px py ≤ 254) := by
  unfold top_side
  by_cases c0 : py > 0
  · rw [if_pos c0]
    simp only
    by_cases c1 : g.m_img_n.pix px (py - 1) = 7 ∨ g.m_img_n.pix px (py - 1) = 8
        ∨ g.m_img_n.pix px (py - 1) = 11
    · rw [if_pos c1]
      have hn : g.m_img_n.pix px (py - 1) ∈ nontrivial := by
        rcases c1 with c | c | c <;> rw [c] <;> decide
      exact Or.inr ⟨(fractions_inside_f2 g px _ (h c0) hn).1,
        (fractions_inside_f2 g px _ (h c0) hn).2.1⟩
    rw [if_neg c1]
    by_cases c2 : g.m_img_n.pix px (py - 1) = 13 ∨ g.m_img_n.pix px (py - 1) = 4
        ∨ g.m_img_n.pix px (py - 1) = 5
    · rw [if_pos c2]
      have hn : g.m_img_n.pix px (py - 1) ∈ nontrivial := by
        rcases c2 with c | c | c <;> rw [c] <;> decide
      exact Or.inr ⟨(fractions_inside_f1 g px _ (h c0) hn).2.2.1,
        (fractions_inside_f1 g px _ (h c0) hn).2.2.2⟩
    rw [if_neg c2]
    exact Or.inl rfl
  · rw [if_neg c0]
    exact Or.inl rfl

theorem average_sides_inside (a b : ℚ) (ha : a = -1 ∨ (1 ≤ a ∧ a ≤ 254))
    (hb : b = -1 ∨ (1 ≤ b ∧ b ≤ 254)) :
    2 * (average_sides a b - 1 / 2) ≠ 1 ∧ 2 * (average_sides a b - 1 / 2) ≠ -1 := by
  have key : 0 < average_sides a b ∧ average_sides a b < 1 := by
    unfold average_sides
    rcases ha with ha | ⟨ha1, ha2⟩ <;> rcases hb with hb | ⟨hb1, hb2⟩
    · rw [ha, hb]
      norm_num
    · rw [ha, if_neg (by norm_num), if_pos (by linarith)]
      constructor
      · apply div_pos <;> linarith
      · rw [div_lt_one (by norm_num)]
        linarith
    · rw [hb, if_pos (by linarith), if_neg (by norm_num)]
      constructor
      · apply div_pos <;> linarith
      · rw [div_lt_one (by norm_num)]
        linarith
    · rw [if_pos (by linarith), if_pos (by linarith)]
      constructor
      · apply div_pos <;> linarith
      · rw [div_lt_one (by norm_num)]
        linarith
  constructor
  · intro h
    linarith [key.2]
  · intro h
    linarith [key.1]

theorem interior_vertex_corner1 (g : Gray2Vec_Grid) (px py : Int) (fx fy : ℚ)
    (hk : g.m_img_n.pix px py = 1) (h3 : g.m_img_f3.pix px py ≥ 0) :
    interior_vertex g px py fx fy
      = some (fx + (2 * ((g.m_img_f1.pix px py * g.m_img_f3.pix px py : Int) : ℚ) / (255 * 255) - 1),
          fy + (2 * ((g.m_img_f2.pix px py * g.m_img_f3.pix px py : Int) : ℚ) / (255 * 255) - 1)) := by
  unfold interior_vertex
  simp only
  rw [if_pos (Or.inl hk), if_pos h3, if_pos hk]

theorem interior_vertex_corner3 (g : Gray2Vec_Grid) (px py : Int) (fx fy : ℚ)
    (hk : g.m_img_n.pix px py = 3) (h3 : g.m_img_f3.pix px py ≥ 0) :
    interior_vertex g px py fx fy
      = some (fx + (-2 * ((g.m_img_f1.pix px py * g.m_img_f3.pix px py : Int) : ℚ) / (255 * 255) + 1),
          fy + (2 * ((g.m_img_f2.pix px py * g.m_img_f3.pix px py : Int) : ℚ) / (255 * 255) - 1)) := by
  have n1 : ¬ g.m_img_n.pix px py = 1 := by omega
  unfold interior_vertex
  simp only
  rw [if_pos (Or.inr (Or.inl hk)), if_pos h3, if_neg n1, if_pos hk]

theorem interior_vertex_corner5 (g : Gray2Vec_Grid) (px py : Int) (fx fy : ℚ)
    (hk : g.m_img_n.pix px py = 5) (h3 : g.m_img_f3.pix px py ≥ 0) :
    interior_vertex g px py fx fy
      = some (fx + (-2 * ((g.m_img_f1.pix px py * g.m_img_f3.pix px py : Int) : ℚ) / (255 * 255) + 1),
          fy + (-2 * ((g.m_img_f2.pix px py * g.m_img_f3.pix px py : Int) : ℚ) / (255 * 255) + 1)) := by
  have n1 : ¬ g.m_img_n.pix px py = 1 := by omega
  have n3 : ¬ g.m_img_n.pix px py = 3 := by omega
  unfold interior_vertex
  simp only
  rw [if_pos (Or.inr (Or.inr (Or.inl hk))), if_pos h3, if_neg n1, if_neg n3, if_pos hk]

theorem interior_vertex_corner7 (g : Gray2Vec_Grid) (px py : Int) (fx fy : ℚ)
    (hk : g.m_img_n.pix px py = 7) (h3 : g.m_img_f3.pix px py ≥ 0) :
    interior_vertex g px py fx fy
      = some (fx + (2 * ((g.m_img_f1.pix px py * g.m_img_f3.pix px py : Int) : ℚ) / (255 * 255) - 1),
          fy + (-2 * ((g.m_img_f2.pix px py * g.m_img_f3.pix px py : Int) : ℚ) / (255 * 255) + 1)) := by
  have n1 : ¬ g.m_img_n.pix px py = 1 := by omega
  have n3 : ¬ g.m_img_n.pix px py = 3 := by omega
  have n5 : ¬ g.m_img_n.pix px py = 5 := by omega
  unfold interior_vertex
  simp only
  rw [if_pos (Or.inr (Or.inr (Or.inr hk))), if_pos h3, if_neg n1, if_neg n3, if_neg n5, if_pos hk]

theorem interior_vertex_side2 (g : Gray2Vec_Grid) (px py : Int) (fx fy : ℚ)
    (hk : g.m_img_n.pix px py = 2) (h3 : g.m_img_f3.pix px py ≥ 0) :
    interior_vertex g px py fx fy
      = some (fx, fy + (2 * (g.m_img_f3.pix px py : ℚ) / 255 - 1)) := by
  have c1 : ¬ (g.m_img_n.pix px py = 1 ∨ g.m_img_n.pix px py = 3 ∨ g.m_img_n.pix px py = 5
      ∨ g.m_img_n.pix px py = 7) := by omega
  unfold interior_vertex
  simp only
  rw [if_neg c1, if_pos (Or.inl hk), if_pos h3, if_pos hk]

theorem interior_vertex_side4 (g : Gray2Vec_Grid) (px py : Int) (fx fy : ℚ)
    (hk : g.m_img_n.pix px py = 4) (h3 : g.m_img_f3.pix px py ≥ 0) :
    interior_vertex g px py fx fy
      = some (fx + (-2 * (g.m_img_f3.pix px py : ℚ) / 255 + 1), fy) := by
  have c1 : ¬ (g.m_img_n.pix px py = 1 ∨ g.m_img_n.pix px py = 3 ∨ g.m_img_n.pix px py = 5
      ∨ g.m_img_n.pix px py = 7) := by omega
  have n2 : ¬ g.m_img_n.pix px py = 2 := by omega
  unfold interior_vertex
  simp only
  rw [if_neg c1, if_pos (Or.inr (Or.inl hk)), if_pos h3, if_neg n2, if_pos hk]

theorem interior_vertex_side6 (g : Gray2Vec_Grid) (px py : Int) (fx fy : ℚ)
    (hk : g.m_img_n.pix px py = 6) (h3 : g.m_img_f3.pix px py ≥ 0) :
    interior_vertex g px py fx fy
      = some (fx, fy + (-2 * (g.m_img_f3.pix px py : ℚ) / 255 + 1)) := by
  have c1 : ¬ (g.m_img_n.pix px py = 1 ∨ g.m_img_n.pix px py = 3 ∨ g.m_img_n.pix px py = 5
      ∨ g.m_img_n.pix px py = 7) := by omega
  have n2 : ¬ g.m_img_n.pix px py = 2 := by omega
  have n4 : ¬ g.m_img_n.pix px py = 4 := by omega
  unfold interior_vertex
  simp only
  rw [if_neg c1, if_pos (Or.inr (Or.inr (Or.inl hk))), if_pos h3, if_neg n2, if_neg n4, if_pos hk]

theorem interior_vertex_side8 (g : Gray2Vec_Grid) (px py : Int) (fx fy : ℚ)
    (hk : g.m_img_n.pix px py = 8) (h3 : g.m_img_f3.pix px py ≥ 0) :
    interior_vertex g px py fx fy
      = some (fx + (2 * (g.m_img_f3.pix px py : ℚ) / 255 - 1), fy) := by
  have c1 : ¬ (g.m_img_n.pix px py = 1 ∨ g.m_img_n.pix px py = 3 ∨ g.m_img_n.pix px py = 5
      ∨ g.m_img_n.pix px py = 7) := by omega
  have n2 : ¬ g.m_img_n.pix px py = 2 := by omega
  have n4 : ¬ g.m_img_n.pix px py = 4 := by omega
  have n6 : ¬ g.m_img_n.pix px py = 6 := by omega
  unfold interior_vertex
  simp only
  rw [if_neg c1, if_pos (Or.inr (Or.inr (Or.inr hk))), if_pos h3, if_neg n2, if_neg n4, if_neg n6, if_pos hk]

theorem corner_offset_off (F : ℚ) (h0 : F ≠ 0) (h1 : F ≠ 65025) (fx : ℚ) :
    fx + (2 * F / (255 * 255) - 1) ≠ fx + 1 ∧ fx + (2 * F / (255 * 255) - 1) ≠ fx - 1
    ∧ fx + (-2 * F / (255 * 255) + 1) ≠ fx + 1 ∧ fx + (-2 * F / (255 * 255) + 1) ≠ fx - 1 := by
  refine ⟨?_, ?_, ?_, ?_⟩
  · intro h
    apply h1
    field_simp at h
    linarith
  · intro h
    apply h0
    field_simp at h
    linarith
  · intro h
    apply h0
    field_simp at h
    linarith
  · intro h
    apply h1
    field_simp at h
    linarith

theorem side_offset_off (F : ℚ) (h0 : F ≠ 0) (h1 : F ≠ 255) (fx : ℚ) :
    fx + (2 * F / 255 - 1) ≠ fx + 1 ∧ fx + (2 * F / 255 - 1) ≠ fx - 1
    ∧ fx + (-2 * F / 255 + 1) ≠ fx + 1 ∧ fx + (-2 * F / 255 + 1) ≠ fx - 1 := by
  refine ⟨?_, ?_, ?_, ?_⟩
  · intro h
    apply h1
    field_simp at h
    linarith
  · intro h
    apply h0
    field_simp at h
    linarith
  · intro h
    apply h0
    field_simp at h
    linarith
  · intro h
    apply h1
    field_simp at h
    linarith

theorem self_off (fx : ℚ) : fx ≠ fx + 1 ∧ fx ≠ fx - 1 := by
  constructor <;> intro h <;> linarith

theorem interior_vertex_off (g : Gray2Vec_Grid) (px py : Int) (fx fy : ℚ) (p : ℚ × ℚ)
    (h : fractions_inside g (px, py)) (he : interior_vertex g px py fx fy = some p) :
    p.1 ≠ fx + 1 ∧ p.1 ≠ fx - 1 ∧ p.2 ≠ fy + 1 ∧ p.2 ≠ fy - 1 := by
  by_cases hn : g.m_img_n.pix px py ∈ nontrivial
  · by_cases h3 : g.m_img_f3.pix px py ≥ 0
    · obtain ⟨a1, a2, b1, b2, c0, cs, cc⟩ := h hn
      dsimp only at a1 a2 b1 b2 c0 cs cc
      have F3a : (g.m_img_f3.pix px py : ℚ) ≠ 0 := by exact_mod_cast c0
      simp only [nontrivial, List.mem_cons, List.mem_singleton, List.not_mem_nil,
        or_false] at hn
      have corner : g.m_img_n.pix px py ∈ ([1, 3, 5, 7] : List Int) →
          ((g.m_img_f1.pix px py * g.m_img_f3.pix px py : Int) : ℚ) ≠ 0
          ∧ ((g.m_img_f1.pix px py * g.m_img_f3.pix px py : Int) : ℚ) ≠ 65025
          ∧ ((g.m_img_f2.pix px py * g.m_img_f3.pix px py : Int) : ℚ) ≠ 0
          ∧ ((g.m_img_f2.pix px py * g.m_img_f3.pix px py : Int) : ℚ) ≠ 65025 := by
        intro hm
        obtain ⟨d1, d2⟩ := cc hm
        have e1 : g.m_img_f1.pix px py * g.m_img_f3.pix px py ≠ 0 :=
          mul_ne_zero (by omega) c0
        have e2 : g.m_img_f2.pix px py * g.m_img_f3.pix px py ≠ 0 :=
          mul_ne_zero (by omega) c0
        exact ⟨by exact_mod_cast e1, by exact_mod_cast d1, by exact_mod_cast e2,
          by exact_mod_cast d2⟩
      have side : g.m_img_n.pix px py ∈ ([2, 4, 6, 8] : List Int) →
          (g.m_img_f3.pix px py : ℚ) ≠ 255 := by
        intro hm
        have := cs hm
        exact_mod_cast this
      rcases hn with k | k | k | k | k | k | k | k | k | k | k | k
      · obtain ⟨q1, q2, q3, q4⟩ := corner (by rw [k]; decide)
        rw [interior_vertex_corner1 g px py fx fy k h3] at he
        rw [← Option.some.inj he]
        exact ⟨(corner_offset_off _ q1 q2 fx).1, (corner_offset_off _ q1 q2 fx).2.1,
          (corner_offset_off _ q3 q4 fy).1, (corner_offset_off _ q3 q4 fy).2.1⟩
      · have q := side (by rw [k]; decide)
        rw [interior_vertex_side2 g px py fx fy k h3] at he
        rw [← Option.some.inj he]
        exact ⟨(self_off fx).1, (self_off fx).2,
          (side_offset_off _ F3a q fy).1, (side_offset_off _ F3a q fy).2.1⟩
      · obtain ⟨q1, q2, q3, q4⟩ := corner (by rw [k]; decide)
        rw [interior_vertex_corner3 g px py fx fy k h3] at he
        rw [← Option.some.inj he]
        exact ⟨(corner_offset_off _ q1 q2 fx).2.2.1, (corner_offset_off _ q1 q2 fx).2.2.2,
          (corner_offset_off _ q3 q4 fy).1, (corner_offset_off _ q3 q4 fy).2.1⟩
      · have q := side (by rw [k]; decide)
        rw [interior_vertex_side4 g px py fx fy k h3] at he
        rw [← Option.some.inj he]
        exact ⟨(side_offset_off _ F3a q fx).2.2.1, (side_offset_off _ F3a q fx).2.2.2,
          (self_off fy).1, (self_off fy).2⟩
      · obtain ⟨q1, q2, q3, q4⟩ := corner (by rw [k]; decide)
        rw [interior_vertex_corner5 g px py fx fy k h3] at he
        rw [← Option.some.inj he]
        exact ⟨(corner_offset_off _ q1 q2 fx).2.2.1, (corner_offset_off _ q1 q2 fx).2.2.2,
          (corner_offset_off _ q3 q4 fy).2.2.1, (corner_offset_off _ q3 q4 fy).2.2.2⟩
      · have q := side (by rw [k]; decide)
        rw [interior_vertex_side6 g px py fx fy k h3] at he
        rw [← Option.some.inj he]
        exact ⟨(self_off fx).1, (self_off fx).2,
          (side_offset_off _ F3a q fy).2.2.1, (side_offset_off _ F3a q fy).2.2.2⟩
      · obtain ⟨q1, q2, q3, q4⟩ := corner (by rw [k]; decide)
        rw [interior_vertex_corner7 g px py fx fy k h3] at he
        rw [← Option.some.inj he]
        exact ⟨(corner_offset_off _ q1 q2 fx).1, (corner_offset_off _ q1 q2 fx).2.1,
          (corner_offset_off _ q3 q4 fy).2.2.1, (corner_offset_off _ q3 q4 fy).2.2.2⟩
      · have q := side (by rw [k]; decide)
        rw [interior_vertex_side8 g px py fx fy k h3] at he
        rw [← Option.some.inj he]
        exact ⟨(side_offset_off _ F3a q fx).1, (side_offset_off _ F3a q fx).2.1,
          (self_off fy).1, (self_off fy).2⟩
      all_goals
        rw [interior_vertex_large g px py fx fy (by rw [k]; decide) h3] at he
        rw [← Option.some.inj he]
        exact ⟨(self_off fx).1, (self_off fx).2, (self_off fy).1, (self_off fy).2⟩
    · rw [interior_vertex_unset g px py fx fy hn (by omega)] at he
      exact absurd he (by simp)
  · rw [interior_vertex_trivial g px py fx fy hn] at he
    rw [← Option.some.inj he]
    exact ⟨(self_off fx).1, (self_off fx).2, (self_off fy).1, (self_off fy).2⟩

theorem EmitVertex_lookups_even_odd (a b : Int) :
    EmitVertex_lookups (a * 2) (b * 2 + 1) = (a, b) :: (if a > 0 then [(a - 1, b)] else []) := by
  have h1 : a * 2 % 2 = 0 := by omega
  have h2 : (b * 2 + 1) % 2 = 1 := by omega
  have h3 : a * 2 / 2 = a := by omega
  have h4 : (b * 2 + 1) / 2 = b := by omega
  simp only [EmitVertex_lookups, h1, h2, h3, h4]
  simp

theorem EmitVertex_lookups_odd_even (a b : Int) :
    EmitVertex_lookups (a * 2 + 1) (b * 2) = (a, b) :: (if b > 0 then [(a, b - 1)] else []) := by
  have h1 : (a * 2 + 1) % 2 = 1 := by omega
  have h2 : b * 2 % 2 = 0 := by omega
  have h3 : (a * 2 + 1) / 2 = a := by omega
  have h4 : b * 2 / 2 = b := by omega
  simp only [EmitVertex_lookups, h1, h2, h3, h4]
  simp

theorem EmitVertex_lookups_odd_odd (a b : Int) :
    EmitVertex_lookups (a * 2 + 1) (b * 2 + 1) = [(a, b)] := by
  have h1 : (a * 2 + 1) % 2 = 1 := by omega
  have h2 : (b * 2 + 1) % 2 = 1 := by omega
  have h3 : (a * 2 + 1) / 2 = a := by omega
  have h4 : (b * 2 + 1) / 2 = b := by omega
  simp only [EmitVertex_lookups, h1, h2, h3, h4]
  simp

theorem EmitVertex_off (g : Gray2Vec_Grid) (x y : Int) (p : ℚ × ℚ)
    (h : ∀ c ∈ EmitVertex_lookups x y, fractions_inside g c)
    (he : EmitVertex g x y = some p) :
    p.1 ≠ (x : ℚ) + 1 ∧ p.1 ≠ (x : ℚ) - 1 ∧ p.2 ≠ (y : ℚ) + 1 ∧ p.2 ≠ (y : ℚ) - 1
    ∧ (x % 2 = 0 → p.1 = (x : ℚ)) ∧ (y % 2 = 0 → p.2 = (y : ℚ)) := by
  obtain ⟨a, ha⟩ : ∃ a : Int, x = a * 2 ∨ x = a * 2 + 1 := ⟨x / 2, by omega⟩
  obtain ⟨b, hb⟩ : ∃ b : Int, y = b * 2 ∨ y = b * 2 + 1 := ⟨y / 2, by omega⟩
  rcases ha with ha | ha <;> rcases hb with hb | hb
  · subst ha
    subst hb
    rw [EmitVertex_even_even] at he
    rw [← Option.some.inj he]
    exact ⟨(self_off _).1, (self_off _).2, (self_off _).1, (self_off _).2,
      fun _ => rfl, fun _ => rfl⟩
  · subst ha
    subst hb
    rw [EmitVertex_even_odd] at he
    rw [EmitVertex_lookups_even_odd] at h
    have r1 := right_side_range g a b (h _ (List.mem_cons_self _ _))
    have r2 := left_side_range g a b (fun c0 => h _ (by rw [if_pos c0]; simp))
    obtain ⟨o1, o2⟩ := average_sides_inside _ _ r1 r2
    rw [← Option.some.inj he]
    refine ⟨(self_off _).1, (self_off _).2, ?_, ?_, fun _ => rfl, fun hh => by omega⟩
    · intro e
      apply o1
      linarith
    · intro e
      apply o2
      linarith
  · subst ha
    subst hb
    rw [EmitVertex_odd_even] at he
    rw [EmitVertex_lookups_odd_even] at h
    have r1 := bottom_side_range g a b (h _ (List.mem_cons_self _ _))
    have r2 := top_side_range g a b (fun c0 => h _ (by rw [if_pos c0]; simp))
    obtain ⟨o1, o2⟩ := average_sides_inside _ _ r1 r2
    rw [← Option.some.inj he]
    refine ⟨?_, ?_, (self_off _).1, (self_off _).2, fun hh => by omega, fun _ => rfl⟩
    · intro e
      apply o1
      linarith
    · intro e
      apply o2
      linarith
  · subst ha
    subst hb
    rw [EmitVertex_odd_odd] at he
    rw [EmitVertex_lookups_odd_odd] at h
    obtain ⟨q1, q2, q3, q4⟩ :=
      interior_vertex_off g a b _ _ p (h _ (List.mem_cons_self _ _)) he
    exact ⟨q1, q2, q3, q4, fun hh => by omega, fun hh => by omega⟩

theorem EmitVertex_some_of_even (g : Gray2Vec_Grid) (x y : Int)
    (h : x % 2 = 0 ∨ y % 2 = 0) : ∃ p, EmitVertex g x y = some p := by
  unfold EmitVertex
  simp only
  by_cases c1 : x % 2 = 0
  · rw [if_pos c1]
    by_cases c2 : y % 2 ≠ 0
    · rw [if_pos c2]
      exact ⟨_, rfl⟩
    · rw [if_neg c2]
      exact ⟨_, rfl⟩
  · rw [if_neg c1]
    have c2 : y % 2 = 0 := by
      rcases h with h | h
      · exact absurd h c1
      · exact h
    rw [if_pos c2]
    exact ⟨_, rfl⟩

theorem unit_step_cases (a b : Int × Int) (h : unit_step a b) :
    (b.1 = a.1 + 1 ∧ b.2 = a.2) ∨ (b.1 = a.1 - 1 ∧ b.2 = a.2)
    ∨ (b.1 = a.1 ∧ b.2 = a.2 + 1) ∨ (b.1 = a.1 ∧ b.2 = a.2 - 1) := by
  unfold unit_step at h
  rcases abs_cases (a.1 - b.1) with ⟨h1, _⟩ | ⟨h1, _⟩ <;>
    rcases abs_cases (a.2 - b.2) with ⟨h2, _⟩ | ⟨h2, _⟩ <;> omega

theorem emitted_pair_ne (g : Gray2Vec_Grid) (a b : Int × Int) (pa pb : ℚ × ℚ)
    (hs : unit_step a b)
    (ha : ∀ c ∈ EmitVertex_lookups a.1 a.2, fractions_inside g c)
    (hb : ∀ c ∈ EmitVertex_lookups b.1 b.2, fractions_inside g c)
    (ea : EmitVertex g a.1 a.2 = some pa) (eb : EmitVertex g b.1 b.2 = some pb) :
    pa ≠ pb := by
  obtain ⟨A1, A2, A3, A4, A5, A6⟩ := EmitVertex_off g a.1 a.2 pa ha ea
  obtain ⟨B1, B2, B3, B4, B5, B6⟩ := EmitVertex_off g b.1 b.2 pb hb eb
  intro heq
  have e1 : pa.1 = pb.1 := by rw [heq]
  have e2 : pa.2 = pb.2 := by rw [heq]
  rcases unit_step_cases a b hs with ⟨x, y⟩ | ⟨x, y⟩ | ⟨x, y⟩ | ⟨x, y⟩
  · have q : (b.1 : ℚ) = (a.1 : ℚ) + 1 := by exact_mod_cast x
    by_cases c : a.1 % 2 = 0
    · exact B2 (by rw [← e1, A5 c, q]; ring)
    · exact A1 (by rw [e1, B5 (by omega), q])
  · have q : (b.1 : ℚ) = (a.1 : ℚ) - 1 := by exact_mod_cast x
    by_cases c : a.1 % 2 = 0
    · exact B1 (by rw [← e1, A5 c, q]; ring)
    · exact A2 (by rw [e1, B5 (by omega), q])
  · have q : (b.2 : ℚ) = (a.2 : ℚ) + 1 := by exact_mod_cast y
    by_cases c : a.2 % 2 = 0
    · exact B4 (by rw [← e2, A6 c, q]; ring)
    · exact A3 (by rw [e2, B6 (by omega), q])
  · have q : (b.2 : ℚ) = (a.2 : ℚ) - 1 := by exact_mod_cast y
    by_cases c : a.2 % 2 = 0
    · exact B3 (by rw [← e2, A6 c, q]; ring)
    · exact A4 (by rw [e2, B6 (by omega), q])

theorem emitted_neighbour (g : Gray2Vec_Grid) (m n : Int × Int) (pn : ℚ × ℚ)
    (h : unit_step m n) (hm1 : m.1 % 2 ≠ 0) (hm2 : m.2 % 2 ≠ 0)
    (hn : ∀ k ∈ EmitVertex_lookups n.1 n.2, fractions_inside g k)
    (en : EmitVertex g n.1 n.2 = some pn) :
    (n.1 = m.1 + 1 ∧ n.2 = m.2 ∧ pn.1 = (m.1 : ℚ) + 1
      ∧ pn.2 ≠ (m.2 : ℚ) + 1 ∧ pn.2 ≠ (m.2 : ℚ) - 1)
    ∨ (n.1 = m.1 - 1 ∧ n.2 = m.2 ∧ pn.1 = (m.1 : ℚ) - 1
      ∧ pn.2 ≠ (m.2 : ℚ) + 1 ∧ pn.2 ≠ (m.2 : ℚ) - 1)
    ∨ (n.1 = m.1 ∧ n.2 = m.2 + 1 ∧ pn.2 = (m.2 : ℚ) + 1
      ∧ pn.1 ≠ (m.1 : ℚ) + 1 ∧ pn.1 ≠ (m.1 : ℚ) - 1)
    ∨ (n.1 = m.1 ∧ n.2 = m.2 - 1 ∧ pn.2 = (m.2 : ℚ) - 1
      ∧ pn.1 ≠ (m.1 : ℚ) + 1 ∧ pn.1 ≠ (m.1 : ℚ) - 1) := by
  obtain ⟨A1, A2, A3, A4, A5, A6⟩ := EmitVertex_off g n.1 n.2 pn hn en
  rcases unit_step_cases m n h with ⟨x, y⟩ | ⟨x, y⟩ | ⟨x, y⟩ | ⟨x, y⟩
  · have q : (n.1 : ℚ) = (m.1 : ℚ) + 1 := by exact_mod_cast x
    have r : (n.2 : ℚ) = (m.2 : ℚ) := by exact_mod_cast y
    rw [r] at A3 A4
    exact Or.inl ⟨x, y, (A5 (by omega)).trans q, A3, A4⟩
  · have q : (n.1 : ℚ) = (m.1 : ℚ) - 1 := by exact_mod_cast x
    have r : (n.2 : ℚ) = (m.2 : ℚ) := by exact_mod_cast y
    rw [r] at A3 A4
    exact Or.inr (Or.inl ⟨x, y, (A5 (by omega)).trans q, A3, A4⟩)
  · have q : (n.2 : ℚ) = (m.2 : ℚ) + 1 := by exact_mod_cast y
    have r : (n.1 : ℚ) = (m.1 : ℚ) := by exact_mod_cast x
    rw [r] at A1 A2
    exact Or.inr (Or.inr (Or.inl ⟨x, y, (A6 (by omega)).trans q, A1, A2⟩))
  · have q : (n.2 : ℚ) = (m.2 : ℚ) - 1 := by exact_mod_cast y
    have r : (n.1 : ℚ) = (m.1 : ℚ) := by exact_mod_cast x
    rw [r] at A1 A2
    exact Or.inr (Or.inr (Or.inr ⟨x, y, (A6 (by omega)).trans q, A1, A2⟩))

theorem unit_step_symm (a b : Int × Int) (h : unit_step a b) : unit_step b a := by
  unfold unit_step at h ⊢
  rw [abs_sub_comm b.1 a.1, abs_sub_comm b.2 a.2]
  exact h

theorem emitted_around_ne (g : Gray2Vec_Grid) (a m c : Int × Int) (pa pc : ℚ × ℚ)
    (h1 : unit_step a m) (h2 : unit_step m c) (hne : a ≠ c)
    (hm1 : m.1 % 2 ≠ 0) (hm2 : m.2 % 2 ≠ 0)
    (ha : ∀ k ∈ EmitVertex_lookups a.1 a.2, fractions_inside g k)
    (hc : ∀ k ∈ EmitVertex_lookups c.1 c.2, fractions_inside g k)
    (ea : EmitVertex g a.1 a.2 = some pa) (ec : EmitVertex g c.1 c.2 = some pc) :
    pa ≠ pc := by
  intro heq
  have e1 : pa.1 = pc.1 := by rw [heq]
  have e2 : pa.2 = pc.2 := by rw [heq]
  rcases emitted_neighbour g m a pa (unit_step_symm a m h1) hm1 hm2 ha ea with
    ⟨x, y, fa, na1, na2⟩ | ⟨x, y, fa, na1, na2⟩ | ⟨x, y, fa, na1, na2⟩ | ⟨x, y, fa, na1, na2⟩ <;>
  rcases emitted_neighbour g m c pc h2 hm1 hm2 hc ec with
    ⟨u, w, fc, nc1, nc2⟩ | ⟨u, w, fc, nc1, nc2⟩ | ⟨u, w, fc, nc1, nc2⟩ | ⟨u, w, fc, nc1, nc2⟩
  all_goals
    first
    | exact hne (Prod.ext (by omega) (by omega))
    | exact na1 (e2.trans fc)
    | exact na2 (e2.trans fc)
    | exact na1 (e1.trans fc)
    | exact na2 (e1.trans fc)
    | (exfalso; linarith)

theorem no_backtrack_cons3 (a b c : Int × Int) (t : List (Int × Int)) :
    no_backtrack (a :: b :: c :: t) ↔ a ≠ c ∧ no_backtrack (b :: c :: t) := by
  simp [no_backtrack]

theorem no_backtrack_tail (a : Int × Int) (t : List (Int × Int))
    (h : no_backtrack (a :: t)) : no_backtrack t := by
  cases t with
  | nil => simp [no_backtrack]
  | cons b t2 =>
    cases t2 with
    | nil => simp [no_backtrack]
    | cons c t3 => exact ((no_backtrack_cons3 a b c t3).1 h).2

theorem emit_cons_none (g : Gray2Vec_Grid) (v : Int × Int) (t : List (Int × Int))
    (h : EmitVertex g v.1 v.2 = none) :
    (v :: t).filterMap (fun v => EmitVertex g v.1 v.2)
      = t.filterMap (fun v => EmitVertex g v.1 v.2) := by
  simp only [List.filterMap_cons, h]

theorem emit_cons_some (g : Gray2Vec_Grid) (v : Int × Int) (t : List (Int × Int)) (p : ℚ × ℚ)
    (h : EmitVertex g v.1 v.2 = some p) :
    (v :: t).filterMap (fun v => EmitVertex g v.1 v.2)
      = p :: t.filterMap (fun v => EmitVertex g v.1 v.2) := by
  simp only [List.filterMap_cons, h]

theorem emitted_chain (g : Gray2Vec_Grid) : ∀ (anString : List (Int × Int)),
    anString.Chain' unit_step → no_backtrack anString →
    (∀ v ∈ anString, ∀ c ∈ EmitVertex_lookups v.1 v.2, fractions_inside g c) →
    (anString.filterMap (fun v => EmitVertex g v.1 v.2)).Chain' (fun p q => p ≠ q) := by
  intro anString
  induction anString with
  | nil =>
    intro _ _ _
    simp
  | cons a t ih =>
    intro hs hb hf
    have iht := ih hs.tail (no_backtrack_tail a t hb)
      (fun v hv => hf v (List.mem_cons_of_mem _ hv))
    cases hEa : EmitVertex g a.1 a.2 with
    | none =>
      rw [emit_cons_none g a t hEa]
      exact iht
    | some pa =>
      rw [emit_cons_some g a t pa hEa]
      rw [List.chain'_cons']
      refine ⟨?_, iht⟩
      intro y hy
      cases t with
      | nil => simp at hy
      | cons b t2 =>
        have hab : unit_step a b := (List.chain'_cons.mp hs).1
        cases hEb : EmitVertex g b.1 b.2 with
        | some pb =>
          rw [emit_cons_some g b t2 pb hEb] at hy
          simp only [List.head?_cons, Option.mem_def, Option.some.injEq] at hy
          rw [← hy]
          exact emitted_pair_ne g a b pa pb hab (hf a (List.mem_cons_self _ _))
            (hf b (List.mem_cons_of_mem _ (List.mem_cons_self _ _))) hEa hEb
        | none =>
          rw [emit_cons_none g b t2 hEb] at hy
          have hb1 : b.1 % 2 ≠ 0 := by
            intro h0
            obtain ⟨q, hq⟩ := EmitVertex_some_of_even g b.1 b.2 (Or.inl h0)
            rw [hq] at hEb
            exact absurd hEb (by simp)
          have hb2 : b.2 % 2 ≠ 0 := by
            intro h0
            obtain ⟨q, hq⟩ := EmitVertex_some_of_even g b.1 b.2 (Or.inr h0)
            rw [hq] at hEb
            exact absurd hEb (by simp)
          cases t2 with
          | nil => simp at hy
          | cons c t3 =>
            have hbc : unit_step b c := (List.chain'_cons.mp hs.tail).1
            have hac : a ≠ c := ((no_backtrack_cons3 a b c t3).1 hb).1
            have hce : c.1 % 2 = 0 ∨ c.2 % 2 = 0 := by
              rcases unit_step_cases b c hbc with ⟨x, _⟩ | ⟨x, _⟩ | ⟨_, x⟩ | ⟨_, x⟩ <;> omega
            obtain ⟨pc, hEc⟩ := EmitVertex_some_of_even g c.1 c.2 hce
            rw [emit_cons_some g c t3 pc hEc] at hy
            simp only [List.head?_cons, Option.mem_def, Option.some.injEq] at hy
            rw [← hy]
            exact emitted_around_ne g a b c pa pc hab hbc hac hb1 hb2
              (hf a (List.mem_cons_self _ _))
              (hf c (List.mem_cons_of_mem _ (List.mem_cons_of_mem _ (List.mem_cons_self _ _))))
              hEa hEc

theorem EmitPoint_injective (gt : Nat → ℚ) (h : gt 1 * gt 5 - gt 2 * gt 4 ≠ 0)
    (p q : ℚ × ℚ) (hpq : EmitPoint gt p = EmitPoint gt q) : p = q := by
  unfold EmitPoint at hpq
  have h1 := congrArg Prod.fst hpq
  have h2 := congrArg Prod.snd hpq
  simp only at h1 h2
  have k1 : (p.1 - q.1) * (gt 1 * gt 5 - gt 2 * gt 4) = 0 := by
    linear_combination gt 5 * h1 - gt 2 * h2
  have k2 : (p.2 - q.2) * (gt 1 * gt 5 - gt 2 * gt 4) = 0 := by
    linear_combination gt 1 * h2 - gt 4 * h1
  rcases mul_eq_zero.mp k1 with z1 | z1
  · rcases mul_eq_zero.mp k2 with z2 | z2
    · exact Prod.ext (by linarith) (by linarith)
    · exact absurd z2 h
  · exact absurd z1 h

theorem string_segments_mem_step : ∀ (s : List (Int × Int)),
    (∀ e ∈ string_segments s, ∃ a b, e = s(a, b) ∧ unit_step a b) → s.Chain' unit_step := by
  intro s
  induction s with
  | nil =>
    intro _
    simp
  | cons a t ih =>
    intro h
    cases t with
    | nil => simp
    | cons b t2 =>
      have e : string_segments (a :: b :: t2) = s(a, b) :: string_segments (b :: t2) := rfl
      rw [e] at h
      rw [List.chain'_cons]
      refine ⟨?_, ih (fun e he => h e (List.mem_cons_of_mem _ he))⟩
      obtain ⟨x, y, hxy, hs⟩ := h _ (List.mem_cons_self _ _)
      rcases Sym2.eq_iff.mp hxy with ⟨r1, r2⟩ | ⟨r1, r2⟩
      · rw [r1, r2]
        exact hs
      · rw [r1, r2]
        exact unit_step_symm _ _ hs

theorem string_segments_nodup_back : ∀ (s : List (Int × Int)),
    (string_segments s).Nodup → no_backtrack s := by
  intro s
  induction s with
  | nil =>
    intro _
    simp [no_backtrack]
  | cons a t ih =>
    intro h
    cases t with
    | nil => simp [no_backtrack]
    | cons b t2 =>
      cases t2 with
      | nil => simp [no_backtrack]
      | cons c t3 =>
        have e : string_segments (a :: b :: c :: t3)
            = s(a, b) :: s(b, c) :: string_segments (c :: t3) := rfl
        have e2 : string_segments (b :: c :: t3) = s(b, c) :: string_segments (c :: t3) := rfl
        rw [no_backtrack_cons3]
        rw [e] at h
        refine ⟨?_, ih (by rw [e2]; exact (List.nodup_cons.mp h).2)⟩
        intro hac
        apply (List.nodup_cons.mp h).1
        rw [hac]
        rw [Sym2.eq_swap]
        exact List.mem_cons_self _ _

theorem coalesced_string_shape (segs : List ((Int × Int) × (Int × Int)))
    (r : List (List (Int × Int)))
    (hr : polygon_segments r
      = ((segs.map (fun s => s(s.1, s.2)) : List (Sym2 (Int × Int)))
          : Multiset (Sym2 (Int × Int))))
    (hunit : ∀ s ∈ segs, unit_step s.1 s.2)
    (hnd : (segs.map (fun s => s(s.1, s.2))).Nodup) :
    ∀ anString ∈ r, anString.Chain' unit_step ∧ no_backtrack anString := by
  intro anString hmem
  have hsub : ∀ e ∈ string_segments anString, e ∈ polygon_segments r := by
    intro e he
    unfold polygon_segments
    rw [Multiset.mem_coe, List.mem_flatten]
    exact ⟨string_segments anString, List.mem_map_of_mem _ hmem, he⟩
  have hnd2 : (polygon_segments r).Nodup := by
    rw [hr]
    exact Multiset.coe_nodup.mpr hnd
  constructor
  · apply string_segments_mem_step
    intro e he
    have h1 := hsub e he
    rw [hr, Multiset.mem_coe, List.mem_map] at h1
    obtain ⟨s, hs, hse⟩ := h1
    exact ⟨s.1, s.2, hse.symm, hunit s hs⟩
  · apply string_segments_nodup_back
    unfold polygon_segments at hnd2
    rw [Multiset.coe_nodup, List.nodup_flatten] at hnd2
    exact hnd2.1 _ (List.mem_map_of_mem _ hmem)

theorem string_vertex_in_segment : ∀ (s : List (Int × Int)), 2 ≤ s.length →
    ∀ v ∈ s, ∃ a b, s(a, b) ∈ string_segments s ∧ (v = a ∨ v = b) := by
  intro s
  induction s with
  | nil =>
    intro h
    simp at h
  | cons a t ih =>
    intro hl v hv
    cases t with
    | nil => simp at hl
    | cons b t2 =>
      have e : string_segments (a :: b :: t2) = s(a, b) :: string_segments (b :: t2) := rfl
      rw [e]
      rcases List.mem_cons.mp hv with h | h
      · exact ⟨a, b, List.mem_cons_self _ _, Or.inl h⟩
      · cases t2 with
        | nil =>
          simp only [List.mem_singleton] at h
          exact ⟨a, b, List.mem_cons_self _ _, Or.inr h⟩
        | cons c t3 =>
          obtain ⟨x, y, hxy, hv2⟩ := ih (by simp) v h
          exact ⟨x, y, List.mem_cons_of_mem _ hxy, hv2⟩

theorem EmitRing_chain (g : Gray2Vec_Grid) (m_GeoTransform : Nat → ℚ)
    (anString : List (Int × Int))
    (hgt : m_GeoTransform 1 * m_GeoTransform 5 - m_GeoTransform 2 * m_GeoTransform 4 ≠ 0)
    (hs : anString.Chain' unit_step) (hb : no_backtrack anString)
    (hf : ∀ v ∈ anString, ∀ c ∈ EmitVertex_lookups v.1 v.2, fractions_inside g c) :
    (EmitRing g m_GeoTransform anString).Chain' (fun p q => p ≠ q) := by
  unfold EmitRing
  rw [List.chain'_map]
  exact (emitted_chain g anString hs hb hf).imp
    (fun _ _ hpq he => hpq (EmitPoint_injective m_GeoTransform hgt _ _ he))

theorem EmitRing_short (g : Gray2Vec_Grid) (m_GeoTransform : Nat → ℚ)
    (anString : List (Int × Int)) (h : anString.length ≤ 1) :
    (EmitRing g m_GeoTransform anString).Chain' (fun p q => p ≠ q) := by
  cases anString with
  | nil => simp [EmitRing]
  | cons a t =>
    cases t with
    | nil =>
      cases hE : EmitVertex g a.1 a.2 <;> simp [EmitRing, hE]
    | cons b t2 => simp at h

theorem coalesced_rings_chain (g : Gray2Vec_Grid) (m_GeoTransform : Nat → ℚ)
    (segs : List ((Int × Int) × (Int × Int)))
    (heven : ∀ p, Even (endpoint_count p segs))
    (hunit : ∀ s ∈ segs, unit_step s.1 s.2)
    (hnd : (segs.map (fun s => s(s.1, s.2))).Nodup)
    (hgt : m_GeoTransform 1 * m_GeoTransform 5 - m_GeoTransform 2 * m_GeoTransform 4 ≠ 0)
    (hf : ∀ s ∈ segs, ∀ v ∈ [s.1, s.2], ∀ c ∈ EmitVertex_lookups v.1 v.2,
      fractions_inside g c) :
    ∃ r, Coalesce (build_strings segs) = some r
      ∧ ∀ anString ∈ r, (EmitRing g m_GeoTransform anString).Chain' (fun p q => p ≠ q) := by
  obtain ⟨r, r0, _, r2, _⟩ := Coalesce_build_spec segs heven
  refine ⟨r, r0, ?_⟩
  intro anString hmem
  by_cases hl : anString.length ≤ 1
  · exact EmitRing_short g m_GeoTransform anString hl
  · obtain ⟨s1, s2⟩ := coalesced_string_shape segs r r2 hunit hnd anString hmem
    apply EmitRing_chain g m_GeoTransform anString hgt s1 s2
    intro v hv
    obtain ⟨a, b, hab, hvab⟩ := string_vertex_in_segment anString (by omega) v hv
    have hin : s(a, b) ∈ polygon_segments r := by
      unfold polygon_segments
      rw [Multiset.mem_coe, List.mem_flatten]
      exact ⟨string_segments anString, List.mem_map_of_mem _ hmem, hab⟩
    rw [r2, Multiset.mem_coe, List.mem_map] at hin
    obtain ⟨sg, hsg, hsge⟩ := hin
    have hv2 : v = sg.1 ∨ v = sg.2 := by
      rcases Sym2.eq_iff.mp hsge with ⟨q1, q2⟩ | ⟨q1, q2⟩
      · rcases hvab with h | h
        · exact Or.inl (h.trans q1.symm)
        · exact Or.inr (h.trans q2.symm)
      · rcases hvab with h | h
        · exact Or.inr (h.trans q2.symm)
        · exact Or.inl (h.trans q1.symm)
    apply hf sg hsg v
    rcases hv2 with h | h <;> simp [h]

theorem EmitPoint_identity (p : ℚ × ℚ) : EmitPoint identityTransform p = p := by
  simp [EmitPoint, identityTransform]

theorem EmitRing_collapsedCornerGrid :
    EmitRing collapsedCornerGrid identityTransform [(2, 2), (2, 3), (3, 3), (3, 2), (2, 2)]
      = [((2 : ℚ), (2 : ℚ)), (2, 142 / 51), (2, 142 / 51), (2, 2), (2, 2)] := by
  have v22 : EmitVertex collapsedCornerGrid 2 2 = some ((2 : ℚ), (2 : ℚ)) := by
    have e := EmitVertex_even_even collapsedCornerGrid 1 1
    have e2 : EmitVertex _ 2 2 = _ := e
    rw [e2]
    norm_num
  have v23 : EmitVertex collapsedCornerGrid 2 3 = some ((2 : ℚ), (142 / 51 : ℚ)) := by
    have e := EmitVertex_even_odd collapsedCornerGrid 1 1
    have r : right_side collapsedCornerGrid 1 1 = 100 := by
      simp [right_side, collapsedCornerGrid, gridF, rasterOf]
    have l : left_side collapsedCornerGrid 1 1 = -1 := by
      simp [left_side, collapsedCornerGrid, gridF, rasterOf]
    rw [r, l, average_sides_left _ (by norm_num)] at e
    have e2 : EmitVertex _ 2 3 = _ := e
    rw [e2]
    norm_num
  have v32 : EmitVertex collapsedCornerGrid 3 2 = some ((2 : ℚ), (2 : ℚ)) := by
    have e := EmitVertex_odd_even collapsedCornerGrid 1 1
    have r : bottom_side collapsedCornerGrid 1 1 = 0 := by
      simp [bottom_side, collapsedCornerGrid, gridF, rasterOf]
    have l : top_side collapsedCornerGrid 1 1 = -1 := by
      simp [top_side, collapsedCornerGrid, gridF, rasterOf]
    rw [r, l, average_sides_left _ (by norm_num)] at e
    have e2 : EmitVertex _ 3 2 = _ := e
    rw [e2]
    norm_num
  have v33 : EmitVertex collapsedCornerGrid 3 3 = some ((2 : ℚ), (142 / 51 : ℚ)) := by
    have e := EmitVertex_odd_odd collapsedCornerGrid 1 1
    have k : collapsedCornerGrid.m_img_n.pix 1 1 = 1 := by decide
    have k3 : collapsedCornerGrid.m_img_f3.pix 1 1 ≥ 0 := by decide
    have f1 : collapsedCornerGrid.m_img_f1.pix 1 1 = 0 := by decide
    have f2 : collapsedCornerGrid.m_img_f2.pix 1 1 = 100 := by decide
    have f3 : collapsedCornerGrid.m_img_f3.pix 1 1 = 255 := by decide
    rw [interior_vertex_corner1 _ 1 1 _ _ k k3, f1, f2, f3] at e
    have e2 : EmitVertex _ 3 3 = _ := e
    rw [e2]
    norm_num
  simp only [EmitRing, List.filterMap_cons, List.filterMap_nil, v22, v23, v33, v32,
    List.map_cons, List.map_nil, EmitPoint_identity]

/-! ## Rings, sides and bands: claims -/

/-- C31: for strings built by AddSegment from a list of segments in which every lattice point
is an endpoint of an even number of segments, Coalesce returns, every string of the result
has a first point equal to its last point, and the multiset of segments traversed by the
strings is the multiset of the segments that were added, the same as before Coalesce. -/
theorem C31_rings_closed_after_coalesce (segs : List ((Int × Int) × (Int × Int)))
    (h : ∀ p, Even (endpoint_count p segs)) :
    ∃ r, Coalesce (build_strings segs) = some r
      ∧ (∀ s ∈ r, s ≠ [] ∧ s.head? = s.getLast?)
      ∧ polygon_segments r
        = ((segs.map (fun s => s(s.1, s.2)) : List (Sym2 (Int × Int)))
            : Multiset (Sym2 (Int × Int)))
      ∧ polygon_segments r = polygon_segments (build_strings segs) :=
  Coalesce_build_spec segs h

theorem C31_rings_closed_after_coalesce_witness :
    (∀ p, Even (endpoint_count p pixelSegments))
    ∧ Coalesce (build_strings pixelSegments)
        = some [[(0, 0), (0, 1), (1, 1), (1, 0), (0, 0)]]
    ∧ ∃ r, Coalesce (build_strings pixelSegments) = some r
      ∧ (∀ s ∈ r, s ≠ [] ∧ s.head? = s.getLast?)
      ∧ polygon_segments r
        = ((pixelSegments.map (fun s => s(s.1, s.2)) : List (Sym2 (Int × Int)))
            : Multiset (Sym2 (Int × Int)))
      ∧ polygon_segments r = polygon_segments (build_strings pixelSegments) := by
  have hp : ∀ p, Even (endpoint_count p pixelSegments) :=
    endpoint_count_even_of_points pixelSegments [(0, 0), (0, 1), (1, 0), (1, 1)]
      (by decide) (by decide)
  exact ⟨hp, by decide, C31_rings_closed_after_coalesce pixelSegments hp⟩

/-- C32 (counterexample): in `collapsedCornerGrid` every fraction `f1`, `f2` lies in 0..255
and every `f3` in -1..255; the four unit segments around the top left quarter of the centre
cell coalesce into the ring (2,2), (2,3), (3,3), (3,2), (2,2); with `f1 = 0` the vertex
(3,2) is placed on the vertex (2,2) that follows it, and the interior vertex (3,3) on the
placed vertex (2,3) that precedes it, so the emitted ring has consecutive equal points. -/
theorem C32_counterexample :
    (∀ c ∈ forXY collapsedCornerGrid.m_img_n,
      0 ≤ collapsedCornerGrid.m_img_f1.pix c.1 c.2
      ∧ collapsedCornerGrid.m_img_f1.pix c.1 c.2 ≤ 255
      ∧ 0 ≤ collapsedCornerGrid.m_img_f2.pix c.1 c.2
      ∧ collapsedCornerGrid.m_img_f2.pix c.1 c.2 ≤ 255
      ∧ -1 ≤ collapsedCornerGrid.m_img_f3.pix c.1 c.2
      ∧ collapsedCornerGrid.m_img_f3.pix c.1 c.2 ≤ 255)
    ∧ collapsedCornerGrid.m_img_n.pix 1 1 = 1
    ∧ collapsedCornerGrid.m_img_f1.pix 1 1 = 0
    ∧ Coalesce (build_strings cornerPixelSegments)
        = some [[(2, 2), (2, 3), (3, 3), (3, 2), (2, 2)]]
    ∧ EmitRing collapsedCornerGrid identityTransform [(2, 2), (2, 3), (3, 3), (3, 2), (2, 2)]
        = [((2 : ℚ), (2 : ℚ)), (2, 142 / 51), (2, 142 / 51), (2, 2), (2, 2)]
    ∧ ¬ (EmitRing collapsedCornerGrid identityTransform
          [(2, 2), (2, 3), (3, 3), (3, 2), (2, 2)]).Chain' (fun p q => p ≠ q) := by
  refine ⟨by decide, by decide, by decide, by decide, EmitRing_collapsedCornerGrid, ?_⟩
  rw [EmitRing_collapsedCornerGrid]
  intro h
  have h2 := (List.chain'_cons.mp (List.chain'_cons.mp h).2).1
  exact h2 rfl

/-- C32 (amended): for strings built by AddSegment from a list of distinct unit segments
in which every lattice point is an endpoint of an even number of segments, a geotransform
with a non-zero determinant, and a grid in which every cell read for a vertex keeps its
fractions inside (`f1`, `f2` in 1..254, and an interior vertex never displaced by exactly
one unit), Coalesce returns and no emitted ring has two consecutive equal points. -/
theorem C32_no_consecutive_duplicates (g : Gray2Vec_Grid) (m_GeoTransform : Nat → ℚ)
    (segs : List ((Int × Int) × (Int × Int)))
    (heven : ∀ p, Even (endpoint_count p segs))
    (hunit : ∀ s ∈ segs, unit_step s.1 s.2)
    (hnd : (segs.map (fun s => s(s.1, s.2))).Nodup)
    (hgt : m_GeoTransform 1 * m_GeoTransform 5 - m_GeoTransform 2 * m_GeoTransform 4 ≠ 0)
    (hf : ∀ s ∈ segs, ∀ v ∈ [s.1, s.2], ∀ c ∈ EmitVertex_lookups v.1 v.2,
      fractions_inside g c) :
    ∃ r, Coalesce (build_strings segs) = some r
      ∧ ∀ anString ∈ r, (EmitRing g m_GeoTransform anString).Chain' (fun p q => p ≠ q) :=
  coalesced_rings_chain g m_GeoTransform segs heven hunit hnd hgt hf

theorem C32_no_consecutive_duplicates_witness :
    (∀ p, Even (endpoint_count p cornerPixelSegments))
    ∧ (∀ s ∈ cornerPixelSegments, unit_step s.1 s.2)
    ∧ (cornerPixelSegments.map (fun s => s(s.1, s.2))).Nodup
    ∧ identityTransform 1 * identityTransform 5 - identityTransform 2 * identityTransform 4 ≠ 0
    ∧ (∀ s ∈ cornerPixelSegments, ∀ v ∈ [s.1, s.2], ∀ c ∈ EmitVertex_lookups v.1 v.2,
        fractions_inside tunedCornerGrid c)
    ∧ Coalesce (build_strings cornerPixelSegments)
        = some [[(2, 2), (2, 3), (3, 3), (3, 2), (2, 2)]]
    ∧ ∃ r, Coalesce (build_strings cornerPixelSegments) = some r
      ∧ ∀ anString ∈ r,
        (EmitRing tunedCornerGrid identityTransform anString).Chain' (fun p q => p ≠ q) := by
  have h1 : ∀ p, Even (endpoint_count p cornerPixelSegments) :=
    endpoint_count_even_of_points cornerPixelSegments [(2, 2), (2, 3), (3, 2), (3, 3)]
      (by decide) (by decide)
  have h2 : ∀ s ∈ cornerPixelSegments, unit_step s.1 s.2 := by decide
  have h3 : (cornerPixelSegments.map (fun s => s(s.1, s.2))).Nodup := by decide
  have h4 : identityTransform 1 * identityTransform 5
      - identityTransform 2 * identityTransform 4 ≠ 0 := by
    norm_num [identityTransform]
  have h5 : ∀ s ∈ cornerPixelSegments, ∀ v ∈ [s.1, s.2], ∀ c ∈ EmitVertex_lookups v.1 v.2,
      fractions_inside tunedCornerGrid c := by decide
  exact ⟨h1, h2, h3, h4, h5, by decide,
    C32_no_consecutive_duplicates tunedCornerGrid identityTransform cornerPixelSegments
      h1 h2 h3 h4 h5⟩

/-- C33 (what the code does): for a cell whose neighbours expose nothing on its edges, with
fractions in 0..255 and `f3 >= 0`.  With code 2 the placed polygon of the cell covers the
fraction `(2*f3 + f1 + f2)/(4*255)` of the cell, which is the adjusted area
`(2*f3 + f1 + f2)/4` of `pixel_error(use_adjust = true)` divided by 255.  With code 1 the
placed polygon covers the fraction `f1*f2*f3/255^3` of the cell, which is twice the adjusted
area `0.5*f1*f2*f3/255^2` of `pixel_error(use_adjust = true)` divided by 255. -/
theorem C33_corner_polygon_is_twice_the_model (g : Gray2Vec_Grid) (px py : Int)
    (hpx : 0 ≤ px)
    (hf1 : 0 ≤ g.m_img_f1.pix px py ∧ g.m_img_f1.pix px py ≤ 255)
    (hf2 : 0 ≤ g.m_img_f2.pix px py ∧ g.m_img_f2.pix px py ≤ 255)
    (hf3 : 0 ≤ g.m_img_f3.pix px py)
    (hN : top_side g px py = -1) (hW : left_side g px py = -1)
    (hE : right_side g (px + 1) py = -1) :
    (g.m_img_n.pix px py = 2 →
      pixel_error g px py true
        = some ((2 * (g.m_img_f3.pix px py : ℚ) + (g.m_img_f1.pix px py : ℚ)
            + (g.m_img_f2.pix px py : ℚ)) * (1 / 4) - (g.m_img_s.pix px py : ℚ)) ∧
      polygon_area (placed_region g px py) / 4
        = (2 * (g.m_img_f3.pix px py : ℚ) + (g.m_img_f1.pix px py : ℚ)
            + (g.m_img_f2.pix px py : ℚ)) * (1 / 4) / 255) ∧
    (g.m_img_n.pix px py = 1 →
      pixel_error g px py true
        = some (1 / 2 * (g.m_img_f1.pix px py : ℚ) * (g.m_img_f2.pix px py : ℚ)
            * (g.m_img_f3.pix px py : ℚ) / (255 * 255) - (g.m_img_s.pix px py : ℚ)) ∧
      polygon_area (placed_region g px py) / 4
        = 2 * (1 / 2 * (g.m_img_f1.pix px py : ℚ) * (g.m_img_f2.pix px py : ℚ)
            * (g.m_img_f3.pix px py : ℚ) / (255 * 255)) / 255) := by
  refine ⟨fun hk => ⟨pixel_error_adjust_2 g px py hk, ?_⟩,
    fun hk => ⟨pixel_error_adjust_1 g px py hk, ?_⟩⟩
  · rw [corrected_area_2 g px py hpx hk hf1 hf2 hf3 hN hW hE]
    ring
  · rw [corrected_area_1 g px py hk hf1 hf2 hf3 hN hW]
    ring

/-- C33 failing input: the centre cell of `tunedCornerGrid` (code 1, coverage 40,
`f1 = f2 = 100`, `f3 = 520`).  The error model's adjusted area is 104000/2601 = 39.98,
within 0.02 of the coverage 40, and the placed polygon covers twice that, 79.97/255 of the
cell. -/
theorem C33_corner_polygon_is_twice_the_model_witness :
    tunedCornerGrid.m_img_n.pix 1 1 = 1 ∧ tunedCornerGrid.m_img_s.pix 1 1 = 40 ∧
    pixel_error tunedCornerGrid 1 1 true = some (104000 / 2601 - 40) ∧
    polygon_area (placed_region tunedCornerGrid 1 1) / 4 * 255 = 2 * (104000 / 2601) := by
  have hN : top_side tunedCornerGrid 1 1 = -1 := by
    simp [top_side, tunedCornerGrid, gridF, rasterOf]
  have hW : left_side tunedCornerGrid 1 1 = -1 := by
    simp [left_side, tunedCornerGrid, gridF, rasterOf]
  have hE : right_side tunedCornerGrid (1 + 1) 1 = -1 := by
    simp [right_side, tunedCornerGrid, gridF, rasterOf]
  have e1 : tunedCornerGrid.m_img_f1.pix 1 1 = 100 := by decide
  have e2 : tunedCornerGrid.m_img_f2.pix 1 1 = 100 := by decide
  have e3 : tunedCornerGrid.m_img_f3.pix 1 1 = 520 := by decide
  have es : tunedCornerGrid.m_img_s.pix 1 1 = 40 := by decide
  have key := (C33_corner_polygon_is_twice_the_model tunedCornerGrid 1 1 (by decide)
    (by decide) (by decide) (by decide) hN hW hE).2 (by decide)
  rw [e1, e2, e3, es] at key
  refine ⟨by decide, es, ?_, ?_⟩
  · rw [key.1]
    norm_num
  · rw [key.2]
    norm_num

/-- C34 (failing input): in `eastTrivialRow` the cell (0,0) has code 2, whose `side1` is 4,
and its east neighbour (1,0) is inside the grid with the trivial code 0; `share_sides` of the
two cells is 0, but `sides_connected` returns 1: bit 1 is set.  By contrast a trivial west
neighbour (`westTrivialRow`, code 6 with `side1 = 8`) and a non-trivial east neighbour with no
side towards the cell (`eastSideRow`) do not count as connected. -/
theorem C34_trivial_east_neighbour_connected :
    eastTrivialRow.m_img_n.pix 0 0 = 2 ∧ side1 2 = 4 ∧ move_dir (0, 0) 4 = (1, 0) ∧
    in_grid eastTrivialRow (1, 0) ∧ eastTrivialRow.m_img_n.pix 1 0 = 0 ∧
    share_sides eastTrivialRow 0 0 1 0 = 0 ∧ sides_connected eastTrivialRow 0 0 = 1 ∧
    sides_connected westTrivialRow 1 0 = 0 ∧ sides_connected eastSideRow 0 0 = 0 := by
  refine ⟨by decide, by decide, by decide, by decide, by decide, by decide, ?_, ?_, ?_⟩ <;>
    decide

/-- C35 (as stated, refuted): in `opposedRow` the cells (0,0) (code 2, `f1 = 100`) and (1,0)
(code 6, `f1 = 101`) have `share_sides = 11`.  The vertex loop derives the values
`fB = 100` from the left cell and `fA = 255 - 101 = 154` from the right cell, 54 apart; one
blending step makes both `f1` equal to 100, after which the values are 100 and 155, 55
apart. -/
theorem C35_counterexample :
    (1, 0) ∈ neighbours4 ((0 : Int), (0 : Int)) ∧ share_sides opposedRow 0 0 1 0 = 11 ∧
    shared_edge_values opposedRow (0, 0) (1, 0) = (154, 100) ∧
    shared_edge_values (FractionsNeighborsAdj_pair opposedRow (0, 0) (1, 0)) (0, 0) (1, 0)
      = (155, 100) ∧
    shared_edge_gap opposedRow (0, 0) (1, 0) = 54 ∧
    shared_edge_gap (FractionsNeighborsAdj_pair opposedRow (0, 0) (1, 0)) (0, 0) (1, 0)
      = 55 := by
  have hs : share_sides opposedRow 0 0 1 0 = 11 := by decide
  have c1 : ((1 : Int), (0 : Int)).1 = ((0 : Int), (0 : Int)).1 + 1 ∧
      ((1 : Int), (0 : Int)).2 = ((0 : Int), (0 : Int)).2 := by decide
  have v0 : shared_edge_values opposedRow (0, 0) (1, 0)
      = (right_side opposedRow 1 0, left_side opposedRow 1 0) := if_pos c1
  have v1 : shared_edge_values (FractionsNeighborsAdj_pair opposedRow (0, 0) (1, 0)) (0, 0)
      (1, 0) = (right_side (FractionsNeighborsAdj_pair opposedRow (0, 0) (1, 0)) 1 0,
        left_side (FractionsNeighborsAdj_pair opposedRow (0, 0) (1, 0)) 1 0) := if_pos c1
  have n0 : opposedRow.m_img_n.pix 0 0 = 2 := by decide
  have n1 : opposedRow.m_img_n.pix 1 0 = 6 := by decide
  have a0 : opposedRow.m_img_f1.pix 0 0 = 100 := by decide
  have a1 : opposedRow.m_img_f1.pix 1 0 = 101 := by decide
  have b0 : (FractionsNeighborsAdj_pair opposedRow (0, 0) (1, 0)).m_img_f1.pix 0 0 = 100 := by
    decide
  have b1 : (FractionsNeighborsAdj_pair opposedRow (0, 0) (1, 0)).m_img_f1.pix 1 0 = 100 := by
    decide
  have m0 : (FractionsNeighborsAdj_pair opposedRow (0, 0) (1, 0)).m_img_n.pix 0 0 = 2 := by
    decide
  have m1 : (FractionsNeighborsAdj_pair opposedRow (0, 0) (1, 0)).m_img_n.pix 1 0 = 6 := by
    decide
  have r0 : right_side opposedRow 1 0 = 154 := by
    simp [right_side, n1, a1]
  have l0 : left_side opposedRow 1 0 = 100 := by
    simp [left_side, n0, a0]
  have r1 : right_side (FractionsNeighborsAdj_pair opposedRow (0, 0) (1, 0)) 1 0 = 155 := by
    generalize FractionsNeighborsAdj_pair opposedRow (0, 0) (1, 0) = G at m1 b1
    simp [right_side, m1, b1]
  have l1 : left_side (FractionsNeighborsAdj_pair opposedRow (0, 0) (1, 0)) 1 0 = 100 := by
    generalize FractionsNeighborsAdj_pair opposedRow (0, 0) (1, 0) = G at m0 b0
    simp [left_side, m0, b0]
  refine ⟨by decide, hs, by rw [v0, r0, l0], by rw [v1, r1, l1], ?_, ?_⟩
  · unfold shared_edge_gap
    rw [v0, r0, l0]
    norm_num
  · unfold shared_edge_gap
    rw [v1, r1, l1]
    norm_num

/-- C35 (amended): one blending step of `FractionsNeighborsAdj` on a cell `p` and one of its
four neighbours `n`, and the distance `|fA - fB|` of the two values the vertex loop derives
from the two cells for the vertex on their shared edge.  When `share_sides` is 12 or 21 the
two values are the two blended fractions, or both their complements to 255: the step does not
increase the distance, and decreases it when it is not 0.  When `share_sides` is 11 or 22
one value is a blended fraction `a` and the other the complement `255 - b` of the other
blended fraction: the distance is `|a + b - 255|`, the step keeps `a + b` or lowers it by 1,
so the distance changes by at most 1, and it can grow. -/
theorem C35_blending_and_positions (g : Gray2Vec_Grid) (p n : Int × Int)
    (hpn : n ∈ neighbours4 p) :
    ((share_sides g p.1 p.2 n.1 n.2 = 12 ∨ share_sides g p.1 p.2 n.1 n.2 = 21) →
      shared_edge_gap (FractionsNeighborsAdj_pair g p n) p n ≤ shared_edge_gap g p n ∧
      (shared_edge_gap g p n ≠ 0 →
        shared_edge_gap (FractionsNeighborsAdj_pair g p n) p n < shared_edge_gap g p n)) ∧
    ((share_sides g p.1 p.2 n.1 n.2 = 11 ∨ share_sides g p.1 p.2 n.1 n.2 = 22) →
      shared_edge_gap (FractionsNeighborsAdj_pair g p n) p n ≤ shared_edge_gap g p n + 1 ∧
      shared_edge_gap g p n ≤ shared_edge_gap (FractionsNeighborsAdj_pair g p n) p n + 1) := by
  obtain ⟨g12, g21, g11, g22⟩ := blending_gap g p n hpn
  have contr : ∀ a b : Int,
      ((|blend a (blend_avg a b) - blend b (blend_avg a b)| : Int) : ℚ) ≤ ((|a - b| : Int) : ℚ) ∧
      (((|a - b| : Int) : ℚ) ≠ 0 →
        ((|blend a (blend_avg a b) - blend b (blend_avg a b)| : Int) : ℚ)
          < ((|a - b| : Int) : ℚ)) := by
    intro a b
    obtain ⟨-, -, -, -, c5, c6⟩ := blend_contracts a b
    by_cases hab : a = b
    · obtain ⟨e1, e2⟩ := c6 hab
      rw [e1, e2, hab]
      simp
    · have hlt := c5 hab
      exact ⟨by exact_mod_cast le_of_lt hlt, fun _ => by exact_mod_cast hlt⟩
  have shift : ∀ a b : Int,
      ((|blend a (blend_avg a b) + blend b (blend_avg a b) - 255| : Int) : ℚ)
          ≤ ((|a + b - 255| : Int) : ℚ) + 1 ∧
      ((|a + b - 255| : Int) : ℚ)
          ≤ ((|blend a (blend_avg a b) + blend b (blend_avg a b) - 255| : Int) : ℚ) + 1 :=
    fun a b => abs_shift _ _ (blend_sum a b).1 (blend_sum a b).2
  refine ⟨fun h => ?_, fun h => ?_⟩
  · rcases h with h | h
    · obtain ⟨e1, e2⟩ := g12 h
      rw [e1, e2]
      exact contr _ _
    · obtain ⟨e1, e2⟩ := g21 h
      rw [e1, e2]
      exact contr _ _
  · rcases h with h | h
    · obtain ⟨e1, e2⟩ := g11 h
      rw [e1, e2]
      exact shift _ _
    · obtain ⟨e1, e2⟩ := g22 h
      rw [e1, e2]
      exact shift _ _

/-- C35 witness: the two cells of `sideRow` have `share_sides = 12`; the step does not
increase the distance of the two values on their shared edge. -/
theorem C35_blending_and_positions_witness :
    ((1, 0) ∈ neighbours4 ((0 : Int), (0 : Int)) ∧ share_sides sideRow 0 0 1 0 = 12) ∧
    shared_edge_gap (FractionsNeighborsAdj_pair sideRow (0, 0) (1, 0)) (0, 0) (1, 0)
      ≤ shared_edge_gap sideRow (0, 0) (1, 0) :=
  ⟨⟨by decide, by decide⟩,
    ((C35_blending_and_positions sideRow (0, 0) (1, 0) (by decide)).1
      (Or.inl (by decide))).1⟩

/-- C36: when every coverage value of the grid lies in 0..255, after `Analyze`,
`NeighborsAdjust` and `ResolveConflicts` every small-corner cell has a coverage in 1..84,
every side cell a coverage in 1..254 and every large-corner cell a coverage in 171..254
(`coverage_band`).  `InitFractions` then keeps codes and coverages and stores in `f1` and
`f2` of every cell a value in 0..255, namely the untruncated class initializer: the integer
square root `corner_init`, within 22..206, for small corners, the coverage for sides and
`large_init`, within 48..232, for large corners; and the `pixel_error` of every non-trivial
cell then has absolute value below 1. -/
theorem C36_bands_before_fractions (u1 u2 u3 : Int → Int → Int) (g : Gray2Vec_Grid)
    (hs : ∀ x y : Int, 0 ≤ x → x < g.m_img_s.width → 0 ≤ y → y < g.m_img_s.height →
      0 ≤ g.m_img_s.pix x y ∧ g.m_img_s.pix x y ≤ 255) :
    (ResolveConflicts (NeighborsAdjust (Analyze g))).m_img_s = g.m_img_s ∧
    (InitFractions u1 u2 u3 (ResolveConflicts (NeighborsAdjust (Analyze g)))).m_img_s
      = g.m_img_s ∧
    (InitFractions u1 u2 u3 (ResolveConflicts (NeighborsAdjust (Analyze g)))).m_img_n
      = (ResolveConflicts (NeighborsAdjust (Analyze g))).m_img_n ∧
    ∀ x y : Int, 0 ≤ x → x < g.m_img_s.width → 0 ≤ y → y < g.m_img_s.height →
      coverage_band ((ResolveConflicts (NeighborsAdjust (Analyze g))).m_img_n.pix x y)
        (g.m_img_s.pix x y) ∧
      (InitFractions u1 u2 u3 (ResolveConflicts (NeighborsAdjust (Analyze g)))).m_img_f2.pix
          x y
        = (InitFractions u1 u2 u3
            (ResolveConflicts (NeighborsAdjust (Analyze g)))).m_img_f1.pix x y ∧
      (0 ≤ (InitFractions u1 u2 u3
            (ResolveConflicts (NeighborsAdjust (Analyze g)))).m_img_f1.pix x y ∧
        (InitFractions u1 u2 u3
            (ResolveConflicts (NeighborsAdjust (Analyze g)))).m_img_f1.pix x y ≤ 255) ∧
      ((ResolveConflicts (NeighborsAdjust (Analyze g))).m_img_n.pix x y
          ∈ ([1, 3, 5, 7] : List Int) →
        (InitFractions u1 u2 u3
            (ResolveConflicts (NeighborsAdjust (Analyze g)))).m_img_f1.pix x y
          = corner_init (g.m_img_s.pix x y) ∧
        22 ≤ (InitFractions u1 u2 u3
            (ResolveConflicts (NeighborsAdjust (Analyze g)))).m_img_f1.pix x y ∧
        (InitFractions u1 u2 u3
            (ResolveConflicts (NeighborsAdjust (Analyze g)))).m_img_f1.pix x y ≤ 206) ∧
      ((ResolveConflicts (NeighborsAdjust (Analyze g))).m_img_n.pix x y
          ∈ ([2, 4, 6, 8] : List Int) →
        (InitFractions u1 u2 u3
            (ResolveConflicts (NeighborsAdjust (Analyze g)))).m_img_f1.pix x y
          = g.m_img_s.pix x y) ∧
      ((ResolveConflicts (NeighborsAdjust (Analyze g))).m_img_n.pix x y
          ∈ ([11, 13, 15, 17] : List Int) →
        (InitFractions u1 u2 u3
            (ResolveConflicts (NeighborsAdjust (Analyze g)))).m_img_f1.pix x y
          = large_init (g.m_img_s.pix x y) ∧
        48 ≤ (InitFractions u1 u2 u3
            (ResolveConflicts (NeighborsAdjust (Analyze g)))).m_img_f1.pix x y ∧
        (InitFractions u1 u2 u3
            (ResolveConflicts (NeighborsAdjust (Analyze g)))).m_img_f1.pix x y ≤ 232) ∧
      ((ResolveConflicts (NeighborsAdjust (Analyze g))).m_img_n.pix x y ∈ nontrivial →
        ∃ e : ℚ,
          pixel_error (InitFractions u1 u2 u3
            (ResolveConflicts (NeighborsAdjust (Analyze g)))) x y false = some e ∧
          |e| < 1) := by
  have sA : (Analyze g).m_img_s = g.m_img_s := (Analyze_fold _ g).2.1
  have sN : (NeighborsAdjust (Analyze g)).m_img_s = g.m_img_s := by
    have h := (NeighborsAdjust_sweep_view NeighborsAdjust_sweep2 (fun _ _ => True)
      (fun _ _ _ => trivial) (fun _ => trivial)
      ((forXY (Analyze g).m_img_s).foldl (NeighborsAdjust_step NeighborsAdjust_sweep1)
        (Analyze g)) (0, 0)).1
    have h' := (NeighborsAdjust_sweep_view NeighborsAdjust_sweep1 (fun _ _ => True)
      (fun _ _ _ => trivial) (fun _ => trivial) (Analyze g) (0, 0)).1
    exact (h.trans h').trans sA
  have sR : (ResolveConflicts (NeighborsAdjust (Analyze g))).m_img_s = g.m_img_s := by
    have h := (ResolveConflicts_sweep_view ResolveConflicts_sweep1 (fun _ _ => True)
      (fun _ _ _ => trivial) (fun _ => trivial) (NeighborsAdjust (Analyze g)) 0 (0, 0)).2.1
    rw [← ResolveConflicts_first_eq] at h
    have h' := (ResolveConflicts_sweep_view ResolveConflicts_sweep2 (fun _ _ => True)
      (fun _ _ _ => trivial) (fun _ => trivial)
      (ResolveConflicts_first (NeighborsAdjust (Analyze g))) 0 (0, 0)).2.1
    rw [← ResolveConflicts_eq_second] at h'
    exact (h'.trans h).trans sN
  have hb : ∀ x y : Int, 0 ≤ x → x < g.m_img_s.width → 0 ≤ y → y < g.m_img_s.height →
      coverage_band ((ResolveConflicts (NeighborsAdjust (Analyze g))).m_img_n.pix x y)
        (g.m_img_s.pix x y) := by
    intro x y hx hxw hy hyh
    have b0 : coverage_band ((Analyze g).m_img_n.pix (x, y).1 (x, y).2)
        ((Analyze g).m_img_s.pix (x, y).1 (x, y).2) := by
      rw [sA]
      exact Analyze_band g x y ⟨hx, hxw⟩ ⟨hy, hyh⟩ (hs x y hx hxw hy hyh)
    have b1 := (NeighborsAdjust_band (Analyze g) (x, y) b0).2
    rw [sA, ← sN] at b1
    have b2 := (ResolveConflicts_band (NeighborsAdjust (Analyze g)) (x, y) b1).2
    rw [sN] at b2
    dsimp only at b2
    exact b2
  obtain ⟨iN, iS, iF⟩ := InitFractions_view u1 u2 u3
    (ResolveConflicts (NeighborsAdjust (Analyze g)))
  generalize ResolveConflicts (NeighborsAdjust (Analyze g)) = G3 at sR hb iN iS iF ⊢
  generalize InitFractions u1 u2 u3 G3 = G4 at iN iS iF ⊢
  refine ⟨sR, iS.trans sR, iN, fun x y hx hxw hy hyh => ?_⟩
  have b2 := hb x y hx hxw hy hyh
  obtain ⟨f1, f2, -⟩ := iF x y hx (by rw [sR]; exact hxw) hy (by rw [sR]; exact hyh)
  rw [sR] at f1 f2
  have key := cell_init_in_band G4 x y
    (by rw [iN, iS, sR]; exact b2) (by rw [iN, iS, sR]; exact f1)
    (by rw [iN, iS, sR]; exact f2)
  rw [iN, iS, sR] at key
  exact ⟨b2, f2.trans f1.symm, key⟩

/-- C36 witness: the 2 x 2 scenario grid with coverages 0, 128, 128, 255; its cell (1,0) is a
side cell after the three passes and its coverage 128 lies in the band 1..254. -/
theorem C36_bands_before_fractions_witness :
    (∀ x y : Int, 0 ≤ x → x < scenarioGrid.m_img_s.width → 0 ≤ y →
      y < scenarioGrid.m_img_s.height →
      0 ≤ scenarioGrid.m_img_s.pix x y ∧ scenarioGrid.m_img_s.pix x y ≤ 255) ∧
    (ResolveConflicts (NeighborsAdjust (Analyze scenarioGrid))).m_img_n.pix 1 0 = 8 ∧
    coverage_band ((ResolveConflicts (NeighborsAdjust (Analyze scenarioGrid))).m_img_n.pix 1 0)
      (scenarioGrid.m_img_s.pix 1 0) :=
  ⟨scenarioGrid_coverage, by decide,
    ((C36_bands_before_fractions (fun _ _ => 0) (fun _ _ => 0) (fun _ _ => 0) scenarioGrid
      scenarioGrid_coverage).2.2.2 1 0 (by decide) (by decide) (by decide) (by decide)).1⟩

/-- C37 (failing input): for the 1 x 1 grid `fullCell` (W = H = 1) the vertex (2,1) on the
right image border lies within `0 <= x <= 2W`, `0 <= y <= 2H` and is not at even/even
coordinates; the vertex loop reads the code of the cell (1,0) for it, whose column 1 is not
below the width 1 of the code grid.  The same holds for the vertex (1,2) on the bottom
border and the cell (0,1).  The value read decides the placement: `fullCellBeyond` agrees
with `fullCell` at the only cell of the grid, and the vertex (2,1) is placed at (2, 1) in
the one and at (2, 40/51) in the other. -/
theorem C37_border_lookup_outside_grid :
    fullCell.m_img_n.width = 1 ∧ fullCell.m_img_n.height = 1 ∧
    EmitVertex_lookups 2 1 = [(1, 0), (0, 0)] ∧ ¬ in_grid fullCell (1, 0) ∧
    EmitVertex_lookups 1 2 = [(0, 1), (0, 0)] ∧ ¬ in_grid fullCell (0, 1) ∧
    EmitVertex_lookups 1 1 = [(0, 0)] ∧ in_grid fullCell (0, 0) ∧
    fullCellBeyond.m_img_n.width = 1 ∧ fullCellBeyond.m_img_n.height = 1 ∧
    cell_view fullCellBeyond (0, 0) = cell_view fullCell (0, 0) ∧
    EmitVertex fullCell 2 1 = some ((2 : ℚ), (1 : ℚ)) ∧
    EmitVertex fullCellBeyond 2 1 = some ((2 : ℚ), (40 / 51 : ℚ)) := by
  refine ⟨rfl, rfl, by decide, by decide, by decide, by decide, by decide, by decide, rfl, rfl,
    rfl, EmitVertex_fullCell, EmitVertex_fullCellBeyond⟩

/-- C38 (failing input): in `awayFlankGrid` the interior cell (1,1) has code 5 and coverage
50; its south neighbour has code 6, which covers the direction 6 but not the direction 2
facing the cell, and the first sweep of `NeighborsAdjust` nevertheless switches the cell to
the south side code 6.  With the corner code 7 in the same situation (`facingFlankGrid`) the
cell keeps its code, because `case 7` tests the direction 2. -/
theorem C38_case5_tests_away_direction :
    interior awayFlankGrid 1 1 = true ∧ awayFlankGrid.m_img_n.pix 1 1 = 5 ∧
    awayFlankGrid.m_img_n.pix 1 2 = 6 ∧ cover awayFlankGrid 1 2 2 = false ∧
    cover awayFlankGrid 1 2 6 = true ∧ NeighborsAdjust_sweep1 awayFlankGrid 1 1 = 6 ∧
    (NeighborsAdjust_first awayFlankGrid).m_img_n.pix 1 1 = 6 ∧
    facingFlankGrid.m_img_n.pix 1 1 = 7 ∧ cover facingFlankGrid 1 2 2 = false ∧
    cover facingFlankGrid 2 1 7 = true ∧ NeighborsAdjust_sweep1 facingFlankGrid 1 1 = 7 := by
  refine ⟨by decide, by decide, by decide, by decide, by decide, by decide, ?_, by decide,
    by decide, by decide, by decide⟩
  decide

/-- C39: the side lookup agrees with the mask patterns.  For each of the twelve non-trivial
codes, `side1` and `side2` are two distinct directions among 2, 4, 6, 8, and for a cell with
that code (coverage other than 0 and 255) the sub-grid loop of `Vectorize` writes a 2x2
pattern whose two sub-samples along a cell edge differ exactly for the edges `side1` and
`side2`; for the codes 0 and 255 both lookups return 0. -/
theorem C39_sides_match_mask (n : Int) (hn : n ∈ nontrivial) (s : Int) (hs0 : s ≠ 0)
    (hs255 : s ≠ 255) :
    side1 n ∈ ([2, 4, 6, 8] : List Int) ∧ side2 n ∈ ([2, 4, 6, 8] : List Int) ∧
    side1 n ≠ side2 n ∧
    (∃ p, Vectorize_block s n = some p ∧
      ∀ d ∈ ([2, 4, 6, 8] : List Int),
        (spec_edge_differs p d = true ↔ (d = side1 n ∨ d = side2 n))) ∧
    side1 0 = 0 ∧ side2 0 = 0 ∧ side1 255 = 0 ∧ side2 255 = 0 := by
  rw [Vectorize_block_code s n hs0 hs255]
  simp only [nontrivial, List.mem_cons, List.mem_singleton, List.not_mem_nil, or_false] at hn
  rcases hn with rfl | rfl | rfl | rfl | rfl | rfl | rfl | rfl | rfl | rfl | rfl | rfl <;>
    exact ⟨by decide, by decide, by decide, ⟨_, rfl, by decide⟩, by decide, by decide,
      by decide, by decide⟩

/-- C39 witness: the code 1 with coverage 40. -/
theorem C39_sides_match_mask_witness :
    ((1 : Int) ∈ nontrivial ∧ (40 : Int) ≠ 0 ∧ (40 : Int) ≠ 255) ∧
    side1 1 = 2 ∧ side2 1 = 8 ∧ Vectorize_block 40 1 = some (255, 0, 0, 0) ∧
    side1 1 ≠ side2 1 :=
  ⟨⟨by decide, by decide, by decide⟩, by decide, by decide, by decide,
    (C39_sides_match_mask 1 (by decide) 40 (by decide) (by decide)).2.2.1⟩

/-- C40: `share_sides` is symmetric up to swapping its digits.  For two distinct cells `p`
and `q`, `share_sides(p, q)` is 11, 12, 21 or 22 exactly when `share_sides(q, p)` is 11, 21,
12 or 22 respectively, and it is 0 exactly when `share_sides(q, p)` is 0; these are its only
values.  It returns 0 whenever either cell is outside the grid, and for distinct cells
whenever either cell has a code without sides (such as 0 or 255). -/
theorem C40_share_sides_symmetric (g : Gray2Vec_Grid) (p q : Int × Int) (hpq : p ≠ q) :
    (share_sides g p.1 p.2 q.1 q.2 = 11 ↔ share_sides g q.1 q.2 p.1 p.2 = 11) ∧
    (share_sides g p.1 p.2 q.1 q.2 = 12 ↔ share_sides g q.1 q.2 p.1 p.2 = 21) ∧
    (share_sides g p.1 p.2 q.1 q.2 = 21 ↔ share_sides g q.1 q.2 p.1 p.2 = 12) ∧
    (share_sides g p.1 p.2 q.1 q.2 = 22 ↔ share_sides g q.1 q.2 p.1 p.2 = 22) ∧
    (share_sides g p.1 p.2 q.1 q.2 = 0 ↔ share_sides g q.1 q.2 p.1 p.2 = 0) ∧
    share_sides g p.1 p.2 q.1 q.2 ∈ ([0, 11, 12, 21, 22] : List Int) ∧
    ((¬ in_grid g p ∨ ¬ in_grid g q) → share_sides g p.1 p.2 q.1 q.2 = 0) ∧
    ((g.m_img_n.pix p.1 p.2 ∉ nontrivial ∨ g.m_img_n.pix q.1 q.2 ∉ nontrivial) →
      share_sides g p.1 p.2 q.1 q.2 = 0) := by
  have hne : ¬ (p.1 = q.1 ∧ p.2 = q.2) := fun h => hpq (Prod.ext h.1 h.2)
  have hne' : ¬ (q.1 = p.1 ∧ q.2 = p.2) := fun h => hpq (Prod.ext h.1.symm h.2.symm)
  obtain ⟨s1, s2, s3, s4, s5, s6⟩ := share_sides_swap g p q
  refine ⟨s1, s2, s3, s4, s5, s6, share_sides_out g p q, fun h => ?_⟩
  rcases h with h | h
  · exact share_sides_trivial g p q h hne
  · exact s5.2 (share_sides_trivial g q p h hne')

/-- C40 witness: the two cells of `sideRow` (codes 2 and 2): the first shares its side 1 with
side 2 of the second. -/
theorem C40_share_sides_symmetric_witness :
    (((0 : Int), (0 : Int)) ≠ ((1 : Int), (0 : Int))) ∧
    share_sides sideRow 0 0 1 0 = 12 ∧ share_sides sideRow 1 0 0 0 = 21 :=
  ⟨by decide, by decide,
    (C40_share_sides_symmetric sideRow (0, 0) (1, 0) (by decide)).2.1.1 (by decide)⟩

/-! ## The ring vertices on the border of a trivial grid (C27) -/

theorem fullCellBeyond_coverage (x y : Int) (hx : 0 ≤ x)
    (hxw : x < fullCellBeyond.m_img_s.width) (hy : 0 ≤ y)
    (hyh : y < fullCellBeyond.m_img_s.height) :
    fullCellBeyond.m_img_s.pix x y = 0 ∨ fullCellBeyond.m_img_s.pix x y = 255 := by
  have hw : (fullCellBeyond.m_img_s.width : Int) = 1 := rfl
  have hh : (fullCellBeyond.m_img_s.height : Int) = 1 := rfl
  rw [hw] at hxw
  rw [hh] at hyh
  interval_cases x
  interval_cases y
  decide

theorem fullCellBeyond_trivial : trivial_codes fullCellBeyond := by
  intro x y hx hxw hy hyh
  have hw : (fullCellBeyond.m_img_s.width : Int) = 1 := rfl
  have hh : (fullCellBeyond.m_img_s.height : Int) = 1 := rfl
  rw [hw] at hxw
  rw [hh] at hyh
  interval_cases x
  interval_cases y
  decide

/-- C27 (failing input): the 1 x 1 grid whose only cell is full.  `fullCellBeyond` holds for
that cell the state the passes leave (code 255, `f1 = f2 = 0`, `f3 = -1`, as in `fullCell`)
and differs from `fullCell` only in what the accessors return beyond the rasters.  Every
in-grid coverage is 0 or 255, the grid carries only trivial codes, all five passes return it
unchanged and every vertex with `x < 2W`, `y < 2H` is placed at its own coordinates.  The
ring of the cell, coalesced from the eight unit segments of its outline, also passes through
the vertex (2,1) on the right border `x = 2W`; for it the vertex loop reads the cell (1,0),
which is outside the grid, and the vertex is placed at (2, 40/51), not at (2, 1): the
emitted ring is not the ring of integer fine coordinates. -/
theorem C27_border_vertex_displaced :
    (∀ x y : Int, 0 ≤ x → x < fullCellBeyond.m_img_s.width → 0 ≤ y →
      y < fullCellBeyond.m_img_s.height →
      fullCellBeyond.m_img_s.pix x y = 0 ∨ fullCellBeyond.m_img_s.pix x y = 255) ∧
    fullCellBeyond.m_img_s.width = 1 ∧ fullCellBeyond.m_img_s.height = 1 ∧
    trivial_codes fullCellBeyond ∧
    cell_view fullCellBeyond (0, 0) = cell_view fullCell (0, 0) ∧
    fullCellBeyond.m_img_n.pix 0 0 = 255 ∧ fullCellBeyond.m_img_f1.pix 0 0 = 0 ∧
    fullCellBeyond.m_img_f2.pix 0 0 = 0 ∧ fullCellBeyond.m_img_f3.pix 0 0 = -1 ∧
    NeighborsAdjust fullCellBeyond = fullCellBeyond ∧
    ResolveConflicts fullCellBeyond = fullCellBeyond ∧
    NeighborsAdjust2 fullCellBeyond = fullCellBeyond ∧
    (∀ max_error : ℚ, TuneFractions max_error fullCellBeyond = fullCellBeyond) ∧
    FractionsNeighborsAdj fullCellBeyond = fullCellBeyond ∧
    (∀ x y : Int, 0 ≤ x → x < 2 → 0 ≤ y → y < 2 →
      EmitVertex fullCellBeyond x y = some ((x : ℚ), (y : ℚ))) ∧
    Coalesce (build_strings fullCellSegments)
      = some [[(0, 0), (1, 0), (2, 0), (2, 1), (2, 2), (1, 2), (0, 2), (0, 1), (0, 0)]] ∧
    EmitVertex_lookups 2 1 = [(1, 0), (0, 0)] ∧ ¬ in_grid fullCellBeyond (1, 0) ∧
    EmitVertex fullCellBeyond 2 1 = some ((2 : ℚ), (40 / 51 : ℚ)) ∧
    EmitVertex fullCellBeyond 2 1 ≠ some (((2 : Int) : ℚ), ((1 : Int) : ℚ)) ∧
    EmitVertex fullCell 2 1 = some ((2 : ℚ), (1 : ℚ)) := by
  have k := (trivial_round_trip fullCellBeyond fullCellBeyond_coverage).2.2
    fullCellBeyond fullCellBeyond_trivial
  refine ⟨fullCellBeyond_coverage, rfl, rfl, fullCellBeyond_trivial, rfl, rfl, rfl, rfl, rfl,
    k.2.1, k.2.2.1, k.2.2.2.1, k.2.2.2.2.1, k.2.2.2.2.2.1, ?_, by decide, by decide,
    by decide, EmitVertex_fullCellBeyond, ?_, EmitVertex_fullCell⟩
  · intro x y hx hx2 hy hy2
    exact k.2.2.2.2.2.2 x y hx (by simpa using hx2) hy (by simpa using hy2)
  · rw [EmitVertex_fullCellBeyond]
    intro h
    have h2 := congrArg Prod.snd (Option.some.inj h)
    norm_num at h2

/-! ## The computed fractions fit the 8-bit rasters -/

end Gray2Vec
